import Mathlib

/-!
# Aerostat beamcoder: property marshalling between `AVCodecContext` and a property bag

A shallow embedding of `src/beamcoder/beamcoder_util.cc` (the helpers `beam_get_*` /
`beam_set_*`, the enum tables, `getPropsFromCodec` and `setCodecFromProps`, and the
carrier helpers `tidyCarrier` and `rejectStatus`) and of the encoder allocator of
`src/beamcoder/encode.cc` (`encoderExecute`, `encoderComplete`, `encoder`).

Conventions of the embedding.

* A `napi_value` is a `JsValue`.  Objects are finite lists of own properties; the
  prototype chain is not modelled.
* A C function with out-parameters returns a tuple `(status, out₁, …)`; an
  in/out parameter is passed in with its old contents and comes back in the tuple.
* The record is mutated in place by the C code, so every operation returns the
  record as it stands when the function returns, also when the status is not ok.
* `int` / `int64_t` fields are `Int`s; conversions wrap explicitly.  The packed
  flag words are kept as their 32-bit patterns in `Nat`.
* A `double` is a `Dbl`: a rational value, an infinity or NaN (negative zero is
  identified with zero).
* A string of the host is a `String`.  A `char*` is the `String` of the characters
  before its closing NUL: `cstr` cuts a host string there.
* Where the C++ code does something the language leaves undefined (it hands on a
  pointer that was never initialised, it writes past the end of a block), the
  model does not say what happens: the function stops there with a marker
  (`undefined_behaviour` as the status, `Event.write_past_block` in a trace).
-/

namespace Beamcoder

/-! ## Host runtime values -/

/-- The `napi_status` codes that the modelled calls can produce, and the marker
`undefined_behaviour`.  The marker is no code of the runtime: a function that
yields it has reached a statement whose behaviour C++ leaves undefined, and what
the real call does from there on is not modelled. -/
inductive napi_status where
  | napi_ok
  | napi_invalid_arg
  | napi_object_expected
  | napi_string_expected
  | napi_name_expected
  | napi_function_expected
  | napi_number_expected
  | napi_boolean_expected
  | napi_array_expected
  | napi_generic_failure
  | napi_pending_exception
  | undefined_behaviour
  deriving DecidableEq, Repr

open napi_status

/-- A C `double`, by value. -/
inductive Dbl where
  | fin (q : ℚ)
  | inf (neg : Bool)
  | nan
  deriving DecidableEq, Repr

/-- The C comparison `a != b` on doubles: a NaN differs from everything. -/
def Dbl.cne (a b : Dbl) : Bool :=
  match a, b with
  | .nan, _ => true
  | _, .nan => true
  | x, y => decide (x ≠ y)

/-- The double that holds the integer `z` exactly. -/
def Dbl.ofInt (z : Int) : Dbl := .fin (z : ℚ)

/-- A value of the host language. -/
inductive JsValue where
  | undefined
  | null
  | boolean (b : Bool)
  | number (d : Dbl)
  | string (s : String)
  | array (xs : List JsValue)
  | object (ps : List (String × JsValue))
  deriving Repr

/-- The result of `napi_typeof`. -/
inductive napi_valuetype where
  | napi_undefined | napi_null | napi_boolean | napi_number | napi_string | napi_object
  deriving DecidableEq, Repr

/-- Own-property read: the value stored under `name`, `undefined` when there is none. -/
def getOwn : List (String × JsValue) → String → JsValue
  | [], _ => .undefined
  | (k, v) :: rest, name => if k = name then v else getOwn rest name

/-- Own-property test. -/
def hasOwn : List (String × JsValue) → String → Bool
  | [], _ => false
  | (k, _) :: rest, name => if k = name then true else hasOwn rest name

/-- Own-property write: overwrite in place, or append a new property. -/
def setOwn : List (String × JsValue) → String → JsValue → List (String × JsValue)
  | [], name, v => [(name, v)]
  | (k, w) :: rest, name, v =>
    if k = name then (k, v) :: rest else (k, w) :: setOwn rest name v

/-! ## Machine integer conversions -/

/-- Reduce an integer to the range of `int32_t` (two's complement wrap). -/
def toInt32 (z : Int) : Int := (z + 2 ^ 31) % 2 ^ 32 - 2 ^ 31

/-- Reduce an integer to the range of `uint32_t`. -/
def toUint32 (z : Int) : Int := z % 2 ^ 32

/-- Reduce an integer to the range of `uint16_t`. -/
def toUint16 (z : Int) : Int := z % 2 ^ 16

/-- Clamp an integer to the range of `int64_t`. -/
def clampInt64 (z : Int) : Int :=
  if z < -(2 ^ 63) then -(2 ^ 63) else if 2 ^ 63 - 1 < z then 2 ^ 63 - 1 else z

/-- Truncation of a rational toward zero. -/
def truncRat (q : ℚ) : Int := Int.tdiv q.num q.den

/-- Round an integer to the nearest integer with at most 53 significant bits
(ties to even): the conversion `int64_t → double`. -/
def roundInt53 (z : Int) : Int :=
  let a := z.natAbs
  if a < 2 ^ 53 then z
  else
    let k := Nat.log2 a + 1 - 53
    let q := a / 2 ^ k
    let r := a % 2 ^ k
    let half := 2 ^ (k - 1)
    let q' := if half < r ∨ (r = half ∧ q % 2 = 1) then q + 1 else q
    Int.sign z * ((q' * 2 ^ k : Nat) : Int)

/-! ## N-API calls

The calls below are the host runtime's; they are modelled after the N-API
documentation.  Failures that do not depend on the arguments (a pending
exception, an exhausted heap) are not modelled for these calls; the embedding of
`encode.cc` takes the answers of the runtime as a parameter (`Host`).
-/

/-- `napi_typeof`; arrays are objects. -/
def napi_typeof : JsValue → napi_valuetype
  | .undefined => .napi_undefined
  | .null => .napi_null
  | .boolean _ => .napi_boolean
  | .number _ => .napi_number
  | .string _ => .napi_string
  | .array _ => .napi_object
  | .object _ => .napi_object

/-- `napi_get_named_property`: `undefined` and `null` cannot be converted to an
object; every other value can, and only objects carry named properties here. -/
def napi_get_named_property (obj : JsValue) (name : String) : napi_status × JsValue :=
  match obj with
  | .undefined => (napi_object_expected, .undefined)
  | .null => (napi_object_expected, .undefined)
  | .object ps => (napi_ok, getOwn ps name)
  | _ => (napi_ok, .undefined)

/-- `napi_has_named_property`. -/
def napi_has_named_property (obj : JsValue) (name : String) : napi_status × Bool :=
  match obj with
  | .undefined => (napi_object_expected, false)
  | .null => (napi_object_expected, false)
  | .object ps => (napi_ok, hasOwn ps name)
  | _ => (napi_ok, false)

/-- `napi_set_named_property`: returns the status and the target after the call.
A property set on a primitive is lost; named properties of arrays are not
represented. -/
def napi_set_named_property (obj : JsValue) (name : String) (v : JsValue) :
    napi_status × JsValue :=
  match obj with
  | .undefined => (napi_object_expected, obj)
  | .null => (napi_object_expected, obj)
  | .object ps => (napi_ok, .object (setOwn ps name v))
  | _ => (napi_ok, obj)

/-- `napi_is_array`. -/
def napi_is_array : JsValue → Bool
  | .array _ => true
  | _ => false

/-- `napi_get_array_length`, as the `uint32_t` it writes. -/
def napi_get_array_length : JsValue → napi_status × Int
  | .array xs => (napi_ok, toUint32 xs.length)
  | _ => (napi_array_expected, 0)

/-- `napi_get_element` with a non-negative index; a hole reads as `undefined`. -/
def napi_get_element (obj : JsValue) (index : Nat) : napi_status × JsValue :=
  match obj with
  | .undefined => (napi_object_expected, .undefined)
  | .null => (napi_object_expected, .undefined)
  | .array xs => (napi_ok, xs.getD index .undefined)
  | _ => (napi_ok, .undefined)

/-- `napi_get_value_bool`; `value` is the old content of the out-parameter. -/
def napi_get_value_bool (v : JsValue) (value : Bool) : napi_status × Bool :=
  match v with
  | .boolean b => (napi_ok, b)
  | _ => (napi_boolean_expected, value)

/-- `napi_get_value_int32`: non-finite numbers give 0, others are truncated and
wrapped to 32 bits. -/
def napi_get_value_int32 (v : JsValue) (value : Int) : napi_status × Int :=
  match v with
  | .number (.fin q) => (napi_ok, toInt32 (truncRat q))
  | .number _ => (napi_ok, 0)
  | _ => (napi_number_expected, value)

/-- `napi_get_value_uint32`. -/
def napi_get_value_uint32 (v : JsValue) (value : Int) : napi_status × Int :=
  match v with
  | .number (.fin q) => (napi_ok, toUint32 (truncRat q))
  | .number _ => (napi_ok, 0)
  | _ => (napi_number_expected, value)

/-- `napi_get_value_int64`: non-finite numbers give 0, others are truncated and
clamped to 64 bits. -/
def napi_get_value_int64 (v : JsValue) (value : Int) : napi_status × Int :=
  match v with
  | .number (.fin q) => (napi_ok, clampInt64 (truncRat q))
  | .number _ => (napi_ok, 0)
  | _ => (napi_number_expected, value)

/-- `napi_get_value_double`. -/
def napi_get_value_double (v : JsValue) (value : Dbl) : napi_status × Dbl :=
  match v with
  | .number d => (napi_ok, d)
  | _ => (napi_number_expected, value)

/-- `napi_get_value_string_utf8`, returning the whole string. -/
def napi_get_value_string_utf8 (v : JsValue) : napi_status × String :=
  match v with
  | .string s => (napi_ok, s)
  | _ => (napi_string_expected, "")

/-- `napi_create_int32`. -/
def napi_create_int32 (z : Int) : JsValue := .number (Dbl.ofInt z)

/-- `napi_create_uint32`. -/
def napi_create_uint32 (z : Int) : JsValue := .number (Dbl.ofInt z)

/-- `napi_create_int64`: the nearest double. -/
def napi_create_int64 (z : Int) : JsValue := .number (Dbl.ofInt (roundInt53 z))

/-- `napi_create_double`. -/
def napi_create_double (d : Dbl) : JsValue := .number d

/-- The cast `(float) d`: round to the nearest binary32 value, ties to even;
magnitudes that round to `2^128` or more become infinite. -/
def toFloat : Dbl → Dbl
  | .fin q =>
    if q = 0 then .fin 0
    else
      let n := q.num.natAbs
      let d := q.den
      let e0 : Int := (Nat.log2 n : Int) - (Nat.log2 d : Int)
      let below : Bool := if 0 ≤ e0 then decide (n < d * 2 ^ e0.toNat)
                          else decide (n * 2 ^ (-e0).toNat < d)
      let e : Int := if below then e0 - 1 else e0
      let u : Int := max e (-126) - 23
      let N : Nat := if 0 ≤ u then n else n * 2 ^ (-u).toNat
      let D : Nat := if 0 ≤ u then d * 2 ^ u.toNat else d
      let m := N / D
      let r := N % D
      let m' := if D < 2 * r ∨ (2 * r = D ∧ m % 2 = 1) then m + 1 else m
      let mag : ℚ := (m' : ℚ) * (2 : ℚ) ^ u
      if (2 : ℚ) ^ (128 : Int) ≤ mag then .inf (decide (q < 0))
      else .fin (if q < 0 then -mag else mag)
  | d => d

/-! ## Status macros

`beamcoder_util.h` is not among the sources; the two macros it supplies are
control flow and are rendered as tests that tell whether the macro returns. -/

/-- Modelled from the spec: the macro `PASS_STATUS` of `beamcoder_util.h`
("any single field conversion fails fast"): it returns `status` from the
enclosing function unless `status` is `napi_ok`.  The result tells whether it
returns. -/
def PASS_STATUS (status : napi_status) : Bool := decide (status ≠ napi_ok)

/-- Modelled from the spec: the macro `ACCEPT_STATUS(s)` of `beamcoder_util.h`:
it returns `status` from the enclosing function unless `status` is `napi_ok` or
the accepted status `s` (an absent or ill-typed property is not a failure, so
that "omission in the input bag leaves the native field unchanged").  The
result tells whether it returns. -/
def ACCEPT_STATUS (status s : napi_status) : Bool :=
  decide (status ≠ s) && decide (status ≠ napi_ok)

/-! ## Typed property helpers -/

/-- `beam_set_uint32`. -/
def beam_set_uint32 (target : JsValue) (name : String) (value : Int) : napi_status × JsValue :=
  napi_set_named_property target name (napi_create_uint32 value)

/-- `beam_get_uint32`. -/
def beam_get_uint32 (target : JsValue) (name : String) (value : Int) : napi_status × Int :=
  let p := napi_get_named_property target name
  if PASS_STATUS p.1 then (p.1, value) else
  let r := napi_get_value_uint32 p.2 value
  if ACCEPT_STATUS r.1 napi_number_expected then r else (napi_ok, r.2)

/-- `beam_set_int32`. -/
def beam_set_int32 (target : JsValue) (name : String) (value : Int) : napi_status × JsValue :=
  napi_set_named_property target name (napi_create_int32 value)

/-- `beam_get_int32`. -/
def beam_get_int32 (target : JsValue) (name : String) (value : Int) : napi_status × Int :=
  let p := napi_get_named_property target name
  if PASS_STATUS p.1 then (p.1, value) else
  let r := napi_get_value_int32 p.2 value
  if ACCEPT_STATUS r.1 napi_number_expected then r else (napi_ok, r.2)

/-- `beam_set_int64`. -/
def beam_set_int64 (target : JsValue) (name : String) (value : Int) : napi_status × JsValue :=
  napi_set_named_property target name (napi_create_int64 value)

/-- `beam_get_int64`. -/
def beam_get_int64 (target : JsValue) (name : String) (value : Int) : napi_status × Int :=
  let p := napi_get_named_property target name
  if PASS_STATUS p.1 then (p.1, value) else
  let r := napi_get_value_int64 p.2 value
  if ACCEPT_STATUS r.1 napi_number_expected then r else (napi_ok, r.2)

/-- `beam_set_double`. -/
def beam_set_double (target : JsValue) (name : String) (value : Dbl) : napi_status × JsValue :=
  napi_set_named_property target name (napi_create_double value)

/-- `beam_get_double`. -/
def beam_get_double (target : JsValue) (name : String) (value : Dbl) : napi_status × Dbl :=
  let p := napi_get_named_property target name
  if PASS_STATUS p.1 then (p.1, value) else
  let r := napi_get_value_double p.2 value
  if ACCEPT_STATUS r.1 napi_number_expected then r else (napi_ok, r.2)

/-- `beam_set_string_utf8`; `none` is the null pointer and is stored as `null`. -/
def beam_set_string_utf8 (target : JsValue) (name : String) (value : Option String) :
    napi_status × JsValue :=
  let prop := match value with
    | none => JsValue.null
    | some s => JsValue.string s
  napi_set_named_property target name prop

/-- The C string that a `char*` to the bytes of `s` denotes: the characters
before the first NUL (`strdup`, `std::string(char*)` and the parsers of the media
library stop there). -/
def cstr (s : String) : String :=
  String.mk (s.data.takeWhile (fun ch => decide (ch ≠ Char.ofNat 0)))

/-- `beam_get_string_utf8`; `value` is the old content of the `char*` written
through (`none` for a pointer that was never initialised), which is left as it
was when the property is not a string.  For a string the pointer receives
`strdup` of the bytes. -/
def beam_get_string_utf8 (target : JsValue) (name : String) (value : Option String) :
    napi_status × Option String :=
  let p := napi_get_named_property target name
  if PASS_STATUS p.1 then (p.1, value) else
  let r := napi_get_value_string_utf8 p.2
  if r.1 = napi_string_expected then (napi_ok, value) else
  if PASS_STATUS r.1 then (r.1, value) else
  (napi_ok, some (cstr r.2))

/-- `beam_set_bool`. -/
def beam_set_bool (target : JsValue) (name : String) (value : Bool) : napi_status × JsValue :=
  napi_set_named_property target name (.boolean value)

/-- `beam_get_bool`: returns `(status, present, value)`; `present` and `value`
come in with the old contents of the two out-parameters. -/
def beam_get_bool (target : JsValue) (name : String) (present value : Bool) :
    napi_status × Bool × Bool :=
  let p := napi_get_named_property target name
  if PASS_STATUS p.1 then (p.1, present, value) else
  let r := napi_get_value_bool p.2 value
  if r.1 = napi_boolean_expected then (napi_ok, false, r.2)
  else if PASS_STATUS r.1 then (r.1, true, r.2)
  else (napi_ok, true, r.2)

/-- The library's `AVRational`. -/
structure AVRational where
  num : Int
  den : Int
  deriving DecidableEq, Repr

/-- The library's `av_make_q`. -/
def av_make_q (num den : Int) : AVRational := ⟨num, den⟩

/-- `beam_set_rational`: a two-element array `[num, den]`. -/
def beam_set_rational (target : JsValue) (name : String) (value : AVRational) :
    napi_status × JsValue :=
  napi_set_named_property target name
    (.array [napi_create_int32 value.num, napi_create_int32 value.den])

/-- `beam_get_rational`. -/
def beam_get_rational (target : JsValue) (name : String) (value : AVRational) :
    napi_status × AVRational :=
  let p := napi_get_named_property target name
  if PASS_STATUS p.1 then (p.1, value) else
  if napi_is_array p.2 then
    let e0 := napi_get_element p.2 0
    if PASS_STATUS e0.1 then (e0.1, value) else
    let n := napi_get_value_int32 e0.2 0
    if ACCEPT_STATUS n.1 napi_number_expected then (n.1, value) else
    let e1 := napi_get_element p.2 1
    if PASS_STATUS e1.1 then (e1.1, value) else
    let d := napi_get_value_int32 e1.2 1
    if ACCEPT_STATUS d.1 napi_number_expected then (d.1, value) else
    (napi_ok, av_make_q n.2 d.2)
  else (napi_ok, av_make_q 0 1)

/-! ## Enum descriptors -/

/-- Modelled from the spec: the reserved "unrecognized enum" sentinel
`BEAM_ENUM_UNKNOWN` of `beamcoder_util.h` (not among the sources). -/
def BEAM_ENUM_UNKNOWN : Int := -42

/-- `std::unordered_map::find` on a table given as a list of entries. -/
def mapFind {κ ν : Type} [DecidableEq κ] : List (κ × ν) → κ → Option ν
  | [], _ => none
  | (k, v) :: rest, key => if k = key then some v else mapFind rest key

/-- Modelled from the spec: the struct `beamEnum` of `beamcoder_util.h` (not
among the sources), "an immutable pair of lookup tables — forward (native
integer → canonical name) and inverse (canonical name → native integer)". -/
structure beamEnum where
  forward : List (Int × String)
  inverse : List (String × Int)

/-- Modelled from the spec: the constructor `beamEnum(fmap)`, which keeps the
forward table and derives the inverse table from it entry by entry. -/
def beamEnum.mk' (fmap : List (Int × String)) : beamEnum :=
  ⟨fmap, fmap.map (fun p => (p.2, p.1))⟩

/-- `beam_lookup_name`. -/
def beam_lookup_name (m : List (Int × String)) (value : Int) : String :=
  match mapFind m value with
  | some name => name
  | none => "unknown"

/-- `beam_lookup_enum`. -/
def beam_lookup_enum (m : List (String × Int)) (value : String) : Int :=
  match mapFind m value with
  | some v => v
  | none => BEAM_ENUM_UNKNOWN

/-- `beam_set_enum`. -/
def beam_set_enum (target : JsValue) (name : String) (enumDesc : beamEnum) (value : Int) :
    napi_status × JsValue :=
  let prop := match mapFind enumDesc.forward value with
    | some s => JsValue.string s
    | none => JsValue.string "unknown"
  napi_set_named_property target name prop

/-- `beam_get_enum`; `value` is the old content of the out-parameter.  The name
is looked up as `std::string(enumStr)`, the C string of the bytes read. -/
def beam_get_enum (target : JsValue) (name : String) (enumDesc : beamEnum) (value : Int) :
    napi_status × Int :=
  let p := napi_get_named_property target name
  if PASS_STATUS p.1 then (p.1, value) else
  match napi_typeof p.2 with
  | .napi_number =>
    let r := napi_get_value_int32 p.2 value
    if PASS_STATUS r.1 then r else (napi_ok, r.2)
  | .napi_string =>
    let s := napi_get_value_string_utf8 p.2
    if PASS_STATUS s.1 then (s.1, value) else
    match mapFind enumDesc.inverse (cstr s.2) with
    | some v => (napi_ok, v)
    | none => (napi_ok, BEAM_ENUM_UNKNOWN)
  | _ => (napi_ok, value)

/-- `beam_field_order_fmap`, with the values of `enum AVFieldOrder`. -/
def beam_field_order_fmap : List (Int × String) :=
  [ (1, "progressive"),
    (2, "top coded first, top displayed first"),
    (3, "bottom coded first, bottom displayed first"),
    (4, "top coded first, bottom displayed first"),
    (5, "bottom coded first, top displayed first"),
    (0, "unknown") ]

/-- `beam_field_order`. -/
def beam_field_order : beamEnum := beamEnum.mk' beam_field_order_fmap

/-- `beam_ff_cmp_fmap`, with the values of the `FF_CMP_*` constants. -/
def beam_ff_cmp_fmap : List (Int × String) :=
  [ (0, "sad"), (1, "sse"), (2, "satd"), (3, "dct"), (4, "psnr"), (5, "bit"),
    (6, "rd"), (7, "zero"), (8, "vsad"), (9, "vsse"), (10, "nsse"), (11, "w53"),
    (12, "w97"), (13, "dctmax"), (14, "dct264"), (15, "median_sad"), (256, "chroma") ]

/-- `beam_ff_cmp`. -/
def beam_ff_cmp : beamEnum := beamEnum.mk' beam_ff_cmp_fmap

/-- `beam_ff_mb_decision_fmap`, with the values of the `FF_MB_DECISION_*` constants. -/
def beam_ff_mb_decision_fmap : List (Int × String) :=
  [ (0, "simple"), (1, "bits"), (2, "rd") ]

/-- `beam_ff_mb_decision`. -/
def beam_ff_mb_decision : beamEnum := beamEnum.mk' beam_ff_mb_decision_fmap

/-- `beam_av_audio_service_type_fmap`, with the values of `enum AVAudioServiceType`. -/
def beam_av_audio_service_type_fmap : List (Int × String) :=
  [ (0, "main"), (1, "effects"), (2, "visually-impaired"), (3, "hearing-impaired"),
    (4, "dialogue"), (5, "commentary"), (6, "emergency"), (7, "voice-over"),
    (8, "karaoke"), (9, "nb") ]

/-- `beam_av_audio_service_type`. -/
def beam_av_audio_service_type : beamEnum := beamEnum.mk' beam_av_audio_service_type_fmap

/-! ## The codec configuration record -/

/-- The library's `AVCodec`, as far as it is read here. -/
structure AVCodec where
  name : Option String
  long_name : Option String
  deriving DecidableEq, Repr

/-- The library's `RcOverride`. -/
structure RcOverride where
  start_frame : Int
  end_frame : Int
  qscale : Int
  quality_factor : Dbl
  deriving DecidableEq, Repr

/-- The library's `AVCodecContext`, restricted to the fields that the two
marshalling functions touch.  A pointer to native storage is `none` when null
and otherwise holds the stored cells. -/
structure AVCodecContext where
  codec_id : Int
  codec : AVCodec
  codec_type : Int
  codec_tag : Int
  bit_rate : Int
  bit_rate_tolerance : Int
  global_quality : Int
  compression_level : Int
  flags : Nat
  flags2 : Nat
  time_base : AVRational
  ticks_per_frame : Int
  delay : Int
  width : Int
  height : Int
  coded_width : Int
  coded_height : Int
  pix_fmt : Int
  max_b_frames : Int
  b_quant_factor : Dbl
  b_quant_offset : Dbl
  has_b_frames : Int
  i_quant_factor : Dbl
  i_quant_offset : Dbl
  lumi_masking : Dbl
  temporal_cplx_masking : Dbl
  spatial_cplx_masking : Dbl
  p_masking : Dbl
  dark_masking : Dbl
  slice_count : Int
  slice_offset : Option (List Int)
  sample_aspect_ratio : AVRational
  me_cmp : Int
  me_sub_cmp : Int
  mb_cmp : Int
  ildct_cmp : Int
  dia_size : Int
  last_predictor_count : Int
  me_pre_cmp : Int
  pre_dia_size : Int
  me_subpel_quality : Int
  me_range : Int
  slice_flags : Nat
  mb_decision : Int
  intra_matrix : Option (List Int)
  inter_matrix : Option (List Int)
  intra_dc_precision : Int
  skip_top : Int
  skip_bottom : Int
  mb_lmin : Int
  mb_lmax : Int
  bidir_refine : Int
  keyint_min : Int
  refs : Int
  mv0_threshold : Int
  color_primaries : Int
  color_trc : Int
  colorspace : Int
  color_range : Int
  chroma_sample_location : Int
  slices : Int
  field_order : Int
  sample_rate : Int
  channels : Int
  sample_fmt : Int
  frame_size : Int
  frame_number : Int
  block_align : Int
  cutoff : Int
  channel_layout : Int
  request_channel_layout : Int
  audio_service_type : Int
  request_sample_fmt : Int
  qcompress : Dbl
  qblur : Dbl
  qmin : Int
  qmax : Int
  max_qdiff : Int
  rc_buffer_size : Int
  rc_override_count : Int
  rc_override : List RcOverride
  rc_max_rate : Int
  rc_min_rate : Int
  rc_max_available_vbv_use : Dbl
  rc_min_vbv_overflow_use : Dbl
  rc_initial_buffer_occupancy : Int

/-- The name/value lookups of the media library that the marshalling code
calls.  They belong to the library, so they are a parameter of the model.  A
parser is given the C string that its `char*` argument points to. -/
structure AVLib where
  av_get_media_type_string : Int → Option String
  av_get_codec_tag_string : Int → String
  av_get_pix_fmt_name : Int → Option String
  av_get_pix_fmt : String → Int
  av_color_primaries_name : Int → Option String
  av_color_primaries_from_name : String → Int
  av_color_transfer_name : Int → Option String
  av_color_transfer_from_name : String → Int
  av_color_space_name : Int → Option String
  av_color_space_from_name : String → Int
  av_color_range_name : Int → Option String
  av_color_range_from_name : String → Int
  av_chroma_location_name : Int → Option String
  av_chroma_location_from_name : String → Int
  av_get_sample_fmt_name : Int → Option String
  av_get_sample_fmt : String → Int
  av_get_channel_layout_string : Int → Int → String
  av_get_channel_layout : String → Int

/-- `AVMEDIA_TYPE_VIDEO` of `enum AVMediaType`. -/
def AVMEDIA_TYPE_VIDEO : Int := 0

/-- `AVMEDIA_TYPE_AUDIO` of `enum AVMediaType`. -/
def AVMEDIA_TYPE_AUDIO : Int := 1

/-! ### Flag bits (`avcodec.h`) -/

def AV_CODEC_FLAG_UNALIGNED : Nat := 1 <<< 0
def AV_CODEC_FLAG_QSCALE : Nat := 1 <<< 1
def AV_CODEC_FLAG_4MV : Nat := 1 <<< 2
def AV_CODEC_FLAG_OUTPUT_CORRUPT : Nat := 1 <<< 3
def AV_CODEC_FLAG_QPEL : Nat := 1 <<< 4
def AV_CODEC_FLAG_PASS1 : Nat := 1 <<< 9
def AV_CODEC_FLAG_PASS2 : Nat := 1 <<< 10
def AV_CODEC_FLAG_LOOP_FILTER : Nat := 1 <<< 11
def AV_CODEC_FLAG_GRAY : Nat := 1 <<< 13
def AV_CODEC_FLAG_PSNR : Nat := 1 <<< 15
def AV_CODEC_FLAG_TRUNCATED : Nat := 1 <<< 16
def AV_CODEC_FLAG_INTERLACED_DCT : Nat := 1 <<< 18
def AV_CODEC_FLAG_LOW_DELAY : Nat := 1 <<< 19
def AV_CODEC_FLAG_GLOBAL_HEADER : Nat := 1 <<< 22
def AV_CODEC_FLAG_BITEXACT : Nat := 1 <<< 23
def AV_CODEC_FLAG_AC_PRED : Nat := 1 <<< 24
def AV_CODEC_FLAG_INTERLACED_ME : Nat := 1 <<< 29
def AV_CODEC_FLAG_CLOSED_GOP : Nat := 1 <<< 31
def AV_CODEC_FLAG2_FAST : Nat := 1 <<< 0
def AV_CODEC_FLAG2_NO_OUTPUT : Nat := 1 <<< 2
def AV_CODEC_FLAG2_LOCAL_HEADER : Nat := 1 <<< 3
def AV_CODEC_FLAG2_DROP_FRAME_TIMECODE : Nat := 1 <<< 13
def AV_CODEC_FLAG2_CHUNKS : Nat := 1 <<< 15
def AV_CODEC_FLAG2_IGNORE_CROP : Nat := 1 <<< 16
def AV_CODEC_FLAG2_SHOW_ALL : Nat := 1 <<< 22
def AV_CODEC_FLAG2_EXPORT_MVS : Nat := 1 <<< 28
def AV_CODEC_FLAG2_SKIP_MANUAL : Nat := 1 <<< 29
def AV_CODEC_FLAG2_RO_FLUSH_NOOP : Nat := 1 <<< 30
def SLICE_FLAG_CODED_ORDER : Nat := 0x0001
def SLICE_FLAG_ALLOW_FIELD : Nat := 0x0002
def SLICE_FLAG_ALLOW_PLANE : Nat := 0x0004

/-- `word | mask` on a 32-bit word. -/
def bitOr32 (word mask : Nat) : Nat := (word ||| mask) % 2 ^ 32

/-- `word & ~mask` on a 32-bit word. -/
def bitClear32 (word mask : Nat) : Nat := word &&& (0xFFFFFFFF ^^^ mask)

/-- `(word & mask) != 0`. -/
def bitTest (word mask : Nat) : Bool := decide (word &&& mask ≠ 0)

/-! ## Sequencing -/

/-- A statement that works on a state and yields a status. -/
abbrev Step (σ : Type) := σ → napi_status × σ

/-- Statements in sequence, each followed by `PASS_STATUS`: the first status
that is not ok is returned at once, with the state as it stands. -/
def seq {σ : Type} : List (Step σ) → Step σ
  | [] => fun c => (napi_ok, c)
  | s :: rest => fun c =>
    let r := s c
    if PASS_STATUS r.1 then r else seq rest r.2

/-- The C statement `if (b) { s }` for a condition that does not read the state. -/
def ifThen {σ : Type} (b : Bool) (s : Step σ) : Step σ :=
  fun c => if b then s c else (napi_ok, c)

/-- The C statement `if (p(state)) { s }`. -/
def ifState {σ : Type} (p : σ → Bool) (s : Step σ) : Step σ :=
  fun c => if p c then s c else (napi_ok, c)

/-- A call `status = f(..., &field)` followed by `PASS_STATUS`: the value that
the call left in the out-parameter is put back in the state. -/
def store {α σ : Type} (r : napi_status × α) (put : α → σ) : napi_status × σ :=
  (r.1, put r.2)

/-! ## `setCodecFromProps` -/

/-- The constant `-87654321.0` that marks "not supplied" for the video float fields. -/
def sentinelA : Dbl := Dbl.ofInt (-87654321)

/-- The constant `8765432.1`, as the double nearest to it. -/
def sentinelB : Dbl := .fin ⟨4705905525601075, 536870912, by decide, by norm_num⟩

/-- The idiom
`status = beam_get_bool(env, props, K, &present, &flag); PASS_STATUS;`
`if (present) { word = (flag) ? word | MASK : word & ~MASK; }`.
The locals `present` and `flag` are overwritten before they are read, so their
old contents are passed as `false`. -/
def flagStep (props : JsValue) (name : String) (mask : Nat)
    (word : AVCodecContext → Nat) (put : AVCodecContext → Nat → AVCodecContext) :
    Step AVCodecContext :=
  fun c =>
    let r := beam_get_bool props name false false
    if PASS_STATUS r.1 then (r.1, c) else
    (napi_ok,
      if r.2.1 then put c (if r.2.2 then bitOr32 (word c) mask else bitClear32 (word c) mask)
      else c)

/-- The idiom
`dValue = S; status = beam_get_double(env, props, K, &dValue); PASS_STATUS;`
`if (dValue != S) { field = (float) dValue; }`. -/
def floatStep (props : JsValue) (name : String) (sentinel : Dbl)
    (put : AVCodecContext → Dbl → AVCodecContext) : Step AVCodecContext :=
  fun c =>
    let r := beam_get_double props name sentinel
    if PASS_STATUS r.1 then (r.1, c) else
    (napi_ok, if Dbl.cne r.2 sentinel then put c (toFloat r.2) else c)

/-- The idiom
`char* s; status = beam_get_string_utf8(env, props, K, &s); PASS_STATUS;`
`field = parse(s);` — the pointer `s` starts out uninitialised, and
`beam_get_string_utf8` returns ok without writing it when the property is not a
string.  Handing the pointer on in that state is undefined: the statement then
yields the marker `undefined_behaviour` and leaves the record as it was. -/
def stringStep (props : JsValue) (name : String) (parse : String → Int)
    (put : AVCodecContext → Int → AVCodecContext) : Step AVCodecContext :=
  fun c =>
    let r := beam_get_string_utf8 props name none
    if PASS_STATUS r.1 then (r.1, c) else
    match r.2 with
    | none => (undefined_behaviour, c)
    | some s => (napi_ok, put c (parse s))

/-- The body of the loop over `slice_offset`: cell `x` of the buffer. -/
def sliceOffsetBody (value : JsValue) (x : Nat) : Step (List Int) :=
  fun buf =>
    let e := napi_get_element value x
    if PASS_STATUS e.1 then (e.1, buf) else
    let r := napi_get_value_int32 e.2 0
    if PASS_STATUS r.1 then (r.1, buf) else
    (napi_ok, buf.set x r.2)

/-- The statement that reads `slice_offset` (lines 1044–1068).  Storage obtained
from `malloc` has indeterminate contents; its cells read as 0 until written. -/
def sliceOffsetStep (props : JsValue) : Step AVCodecContext :=
  fun c =>
    let p := napi_get_named_property props "slice_offset"
    if PASS_STATUS p.1 then (p.1, c) else
    if napi_is_array p.2 then
      let len := napi_get_array_length p.2
      if PASS_STATUS len.1 then (len.1, c) else
      let count := toInt32 len.2
      let r := seq ((List.range count.toNat).map (sliceOffsetBody p.2))
        (List.replicate count.toNat 0)
      (r.1, { c with slice_count := count, slice_offset := some r.2 })
    else
      let h := napi_has_named_property props "slice_offset"
      if PASS_STATUS h.1 then (h.1, c) else
      (napi_ok, if h.2 then { c with slice_count := 0, slice_offset := none } else c)

/-- The body of the loop over a quantization matrix: cell `x` of the buffer. -/
def matrixBody (value : JsValue) (x : Nat) : Step (List Int) :=
  fun buf =>
    let e := napi_get_element value x
    if PASS_STATUS e.1 then (e.1, buf) else
    if napi_typeof e.2 = .napi_number then
      let u := napi_get_value_uint32 e.2 0
      if PASS_STATUS u.1 then (u.1, buf) else
      (napi_ok, buf.set x (toUint16 u.2))
    else (napi_ok, buf.set x 0)

/-- The statement that reads `intra_matrix` or `inter_matrix` (lines 1141–1197);
`av_mallocz` hands out 64 zeroed cells. -/
def matrixStep (props : JsValue) (encoding : Bool) (name : String)
    (put : AVCodecContext → Option (List Int) → AVCodecContext) : Step AVCodecContext :=
  fun c =>
    if encoding then
      let p := napi_get_named_property props name
      if PASS_STATUS p.1 then (p.1, c) else
      if napi_is_array p.2 then
        let r := seq ((List.range 64).map (matrixBody p.2)) (List.replicate 64 0)
        (r.1, put c (some r.2))
      else (napi_ok, c)
    else
      let h := napi_has_named_property props name
      if PASS_STATUS h.1 then (h.1, c) else
      (napi_ok, if h.2 then put c none else c)

/-- A cell of `rc_override` storage that was never written. -/
def RcOverride.blank : RcOverride := ⟨0, 0, 0, Dbl.ofInt 0⟩

/-- `av_realloc` of the `rc_override` storage to `n` cells: the old cells are
kept as far as they fit, new cells are indeterminate and read as blank. -/
def av_realloc (old : List RcOverride) (n : Nat) : List RcOverride :=
  old.take n ++ List.replicate (n - old.length) RcOverride.blank

/-- The body of the loop over `rc_override`: entry `x` of the buffer. -/
def rcOverrideBody (value : JsValue) (x : Nat) : Step (List RcOverride) :=
  fun buf =>
    let e := napi_get_element value x
    if PASS_STATUS e.1 then (e.1, buf) else
    seq [
      (fun b => store (beam_get_int32 e.2 "start_frame" (b.getD x RcOverride.blank).start_frame)
        (fun v => b.set x { b.getD x RcOverride.blank with start_frame := v })),
      (fun b => store (beam_get_int32 e.2 "end_frame" (b.getD x RcOverride.blank).end_frame)
        (fun v => b.set x { b.getD x RcOverride.blank with end_frame := v })),
      (fun b => store (beam_get_int32 e.2 "qscale" (b.getD x RcOverride.blank).qscale)
        (fun v => b.set x { b.getD x RcOverride.blank with qscale := v })),
      (fun b =>
        let r := beam_get_double e.2 "quality_factor" sentinelB
        if PASS_STATUS r.1 then (r.1, b) else
        (napi_ok,
          if Dbl.cne r.2 sentinelB then
            b.set x { b.getD x RcOverride.blank with quality_factor := toFloat r.2 }
          else b)) ] buf

/-- The statement that reads `rc_override` (lines 1361–1390). -/
def rcOverrideStep (props : JsValue) : Step AVCodecContext :=
  fun c =>
    let p := napi_get_named_property props "rc_override"
    if PASS_STATUS p.1 then (p.1, c) else
    if napi_is_array p.2 then
      let len := napi_get_array_length p.2
      if PASS_STATUS len.1 then (len.1, c) else
      let count := toInt32 len.2
      let r := seq ((List.range count.toNat).map (rcOverrideBody p.2))
        (av_realloc c.rc_override count.toNat)
      (r.1, { c with rc_override_count := count, rc_override := r.2 })
    else (napi_ok, c)

/-- The statements of the block `if (codec->codec_type == AVMEDIA_TYPE_VIDEO)` of
`setCodecFromProps` (lines 952–1267), in source order. -/
def setVideoSteps (lib : AVLib) (props : JsValue) (encoding : Bool) :
    List (Step AVCodecContext) := [
    (fun c => store (beam_get_int32 props "width" c.width) (fun v => { c with width := v })),
    (fun c => store (beam_get_int32 props "height" c.height) (fun v => { c with height := v })),
    ifThen (!encoding) (seq [
      (fun c => store (beam_get_int32 props "coded_width" c.coded_width) (fun v => { c with coded_width := v })),
      (fun c => store (beam_get_int32 props "coded_height" c.coded_height) (fun v => { c with coded_height := v })) ]),
    (stringStep props "pix_fmt" lib.av_get_pix_fmt (fun c v => { c with pix_fmt := v })),
    ifThen encoding (fun c => store (beam_get_int32 props "max_b_frames" c.max_b_frames) (fun v => { c with max_b_frames := v })),
    ifThen encoding (floatStep props "b_quant_factor" sentinelA (fun c v => { c with b_quant_factor := v })),
    ifThen encoding (floatStep props "b_quant_offset" sentinelA (fun c v => { c with b_quant_offset := v })),
    ifThen encoding (floatStep props "i_quant_factor" sentinelA (fun c v => { c with i_quant_factor := v })),
    ifThen encoding (floatStep props "i_quant_offset" sentinelA (fun c v => { c with i_quant_offset := v })),
    ifThen encoding (floatStep props "lumi_masking" sentinelA (fun c v => { c with lumi_masking := v })),
    ifThen encoding (floatStep props "temporal_cplx_masking" sentinelA (fun c v => { c with temporal_cplx_masking := v })),
    ifThen encoding (floatStep props "spatial_cplx_masking" sentinelA (fun c v => { c with spatial_cplx_masking := v })),
    ifThen encoding (floatStep props "p_masking" sentinelA (fun c v => { c with p_masking := v })),
    ifThen encoding (floatStep props "dark_masking" sentinelA (fun c v => { c with dark_masking := v })),
    ifThen (!encoding) (sliceOffsetStep props),
    ifThen encoding (fun c => store (beam_get_rational props "sample_aspect_ratio" c.sample_aspect_ratio) (fun v => { c with sample_aspect_ratio := v })),
    ifThen encoding (fun c => store (beam_get_enum props "me_cmp" beam_ff_cmp c.me_cmp) (fun v => { c with me_cmp := v })),
    ifThen encoding (fun c => store (beam_get_enum props "me_sub_cmp" beam_ff_cmp c.me_sub_cmp) (fun v => { c with me_sub_cmp := v })),
    ifThen encoding (fun c => store (beam_get_enum props "mb_cmp" beam_ff_cmp c.mb_cmp) (fun v => { c with mb_cmp := v })),
    ifThen encoding (fun c => store (beam_get_enum props "mb_cmp" beam_ff_cmp c.mb_cmp) (fun v => { c with mb_cmp := v })),
    ifThen encoding (fun c => store (beam_get_enum props "ildct_cmp" beam_ff_cmp c.dia_size) (fun v => { c with dia_size := v })),
    ifThen encoding (fun c => store (beam_get_int32 props "last_predictor_count" c.last_predictor_count) (fun v => { c with last_predictor_count := v })),
    ifThen encoding (fun c => store (beam_get_enum props "me_pre_cmp" beam_ff_cmp c.me_pre_cmp) (fun v => { c with me_pre_cmp := v })),
    ifThen encoding (fun c => store (beam_get_int32 props "pre_dia_size" c.pre_dia_size) (fun v => { c with pre_dia_size := v })),
    ifThen encoding (fun c => store (beam_get_int32 props "me_subpel_quality" c.me_subpel_quality) (fun v => { c with me_subpel_quality := v })),
    ifThen encoding (fun c => store (beam_get_int32 props "me_range" c.me_range) (fun v => { c with me_range := v })),
    ifThen (!encoding) (seq [
      (flagStep props "SLICE_FLAG_CODED_ORDER" SLICE_FLAG_CODED_ORDER (fun c => c.slice_flags) (fun c w => { c with slice_flags := w })),
      (flagStep props "SLICE_FLAG_ALLOW_FIELD" SLICE_FLAG_ALLOW_FIELD (fun c => c.slice_flags) (fun c w => { c with slice_flags := w })),
      (flagStep props "SLICE_FLAG_ALLOW_PLANE" SLICE_FLAG_ALLOW_PLANE (fun c => c.slice_flags) (fun c w => { c with slice_flags := w })) ]),
    ifThen encoding (fun c => store (beam_get_enum props "mb_decision" beam_ff_mb_decision c.mb_decision) (fun v => { c with mb_decision := v })),
    (matrixStep props encoding "intra_matrix" (fun c m => { c with intra_matrix := m })),
    (matrixStep props encoding "inter_matrix" (fun c m => { c with inter_matrix := m })),
    ifThen encoding (fun c => store (beam_get_int32 props "intra_dc_precision" c.intra_dc_precision) (fun v => { c with intra_dc_precision := v })),
    ifThen (!encoding) (seq [
      (fun c => store (beam_get_int32 props "skip_top" c.skip_top) (fun v => { c with skip_top := v })),
      (fun c => store (beam_get_int32 props "skip_bottom" c.skip_bottom) (fun v => { c with skip_bottom := v })) ]),
    ifThen encoding (seq [
      (fun c => store (beam_get_int32 props "mb_lmin" c.mb_lmin) (fun v => { c with mb_lmin := v })),
      (fun c => store (beam_get_int32 props "mb_lmax" c.mb_lmax) (fun v => { c with mb_lmax := v })) ]),
    ifThen encoding (fun c => store (beam_get_int32 props "bidir_refine" c.bidir_refine) (fun v => { c with bidir_refine := v })),
    ifThen encoding (fun c => store (beam_get_int32 props "keyint_min" c.keyint_min) (fun v => { c with keyint_min := v })),
    ifThen encoding (fun c => store (beam_get_int32 props "refs" c.refs) (fun v => { c with refs := v })),
    ifThen encoding (fun c => store (beam_get_int32 props "mv0_threshold" c.mv0_threshold) (fun v => { c with mv0_threshold := v })),
    ifThen encoding (stringStep props "color_primaries" lib.av_color_primaries_from_name (fun c v => { c with color_primaries := v })),
    ifThen encoding (stringStep props "colour_trc" lib.av_color_transfer_from_name (fun c v => { c with color_trc := v })),
    ifThen encoding (stringStep props "colorspace" lib.av_color_space_from_name (fun c v => { c with colorspace := v })),
    ifThen encoding (stringStep props "color_range" lib.av_color_range_from_name (fun c v => { c with color_range := v })),
    ifThen encoding (stringStep props "chroma_sample_location" lib.av_chroma_location_from_name (fun c v => { c with chroma_sample_location := v })),
    ifThen encoding (fun c => store (beam_get_int32 props "slices" c.slices) (fun v => { c with slices := v })),
    (fun c => store (beam_get_enum props "field_order" beam_field_order c.field_order) (fun v => { c with field_order := v })) ]

/-- The statements of the block `if (codec->codec_type == AVMEDIA_TYPE_AUDIO)` of
`setCodecFromProps` (lines 1272–1309), in source order. -/
def setAudioSteps (lib : AVLib) (props : JsValue) (encoding : Bool) :
    List (Step AVCodecContext) := [
    (fun c => store (beam_get_int32 props "sample_rate" c.sample_rate) (fun v => { c with sample_rate := v })),
    (fun c => store (beam_get_int32 props "channels" c.channels) (fun v => { c with channels := v })),
    ifThen encoding (stringStep props "sample_fmt" lib.av_get_sample_fmt (fun c v => { c with sample_fmt := v })),
    (fun c => store (beam_get_int32 props "block_align" c.block_align) (fun v => { c with block_align := v })),
    ifThen encoding (fun c => store (beam_get_int32 props "cutoff" c.cutoff) (fun v => { c with cutoff := v })),
    (stringStep props "channel_layout" lib.av_get_channel_layout (fun c v => { c with channel_layout := v })),
    ifThen (!encoding) (stringStep props "request_channel_layout" lib.av_get_channel_layout (fun c v => { c with request_channel_layout := v })),
    ifThen encoding (fun c => store (beam_get_enum props "audio_service_type" beam_av_audio_service_type c.audio_service_type) (fun v => { c with audio_service_type := v })),
    ifThen (!encoding) (stringStep props "request_sample_fmt" lib.av_get_sample_fmt (fun c v => { c with request_sample_fmt := v })) ]

/-- The statements of `setCodecFromProps` (lines 702–1391), in source order. -/
def setSteps (lib : AVLib) (props : JsValue) (encoding : Bool) :
    List (Step AVCodecContext) := [
    (fun c => store (beam_get_int64 props "bit_rate" c.bit_rate) (fun v => { c with bit_rate := v })),
    ifThen encoding (fun c => store (beam_get_int32 props "bit_rate_tolerance" c.bit_rate_tolerance) (fun v => { c with bit_rate_tolerance := v })),
    ifThen encoding (fun c => store (beam_get_int32 props "global_quality" c.global_quality) (fun v => { c with global_quality := v })),
    ifThen encoding (fun c => store (beam_get_int32 props "compression_level" c.compression_level) (fun v => { c with compression_level := v })),
    (flagStep props "UNALIGNED" AV_CODEC_FLAG_UNALIGNED (fun c => c.flags) (fun c w => { c with flags := w })),
    (flagStep props "QSCALE" AV_CODEC_FLAG_QSCALE (fun c => c.flags) (fun c w => { c with flags := w })),
    (flagStep props "4MV" AV_CODEC_FLAG_4MV (fun c => c.flags) (fun c w => { c with flags := w })),
    (flagStep props "OUTPUT_CORRUPT" AV_CODEC_FLAG_OUTPUT_CORRUPT (fun c => c.flags) (fun c w => { c with flags := w })),
    (flagStep props "QPEL" AV_CODEC_FLAG_QPEL (fun c => c.flags) (fun c w => { c with flags := w })),
    (flagStep props "PASS1" AV_CODEC_FLAG_PASS1 (fun c => c.flags) (fun c w => { c with flags := w })),
    (flagStep props "PASS2" AV_CODEC_FLAG_PASS2 (fun c => c.flags) (fun c w => { c with flags := w })),
    (flagStep props "LOOP_FILTER" AV_CODEC_FLAG_LOOP_FILTER (fun c => c.flags) (fun c w => { c with flags := w })),
    (flagStep props "GRAY" AV_CODEC_FLAG_GRAY (fun c => c.flags) (fun c w => { c with flags := w })),
    (flagStep props "PSNR" AV_CODEC_FLAG_PSNR (fun c => c.flags) (fun c w => { c with flags := w })),
    (flagStep props "TRUNCATED" AV_CODEC_FLAG_TRUNCATED (fun c => c.flags) (fun c w => { c with flags := w })),
    (flagStep props "INTERLACED_DCT" AV_CODEC_FLAG_INTERLACED_DCT (fun c => c.flags) (fun c w => { c with flags := w })),
    (flagStep props "LOW_DELAY" AV_CODEC_FLAG_LOW_DELAY (fun c => c.flags) (fun c w => { c with flags := w })),
    (flagStep props "GLOBAL_HEADER" AV_CODEC_FLAG_GLOBAL_HEADER (fun c => c.flags) (fun c w => { c with flags := w })),
    (flagStep props "BITEXACT" AV_CODEC_FLAG_BITEXACT (fun c => c.flags) (fun c w => { c with flags := w })),
    (flagStep props "AC_PRED" AV_CODEC_FLAG_AC_PRED (fun c => c.flags) (fun c w => { c with flags := w })),
    (flagStep props "INTERLACED_ME" AV_CODEC_FLAG_INTERLACED_ME (fun c => c.flags) (fun c w => { c with flags := w })),
    (flagStep props "CLOSED_GOP" AV_CODEC_FLAG_CLOSED_GOP (fun c => c.flags) (fun c w => { c with flags := w })),
    (flagStep props "FAST" AV_CODEC_FLAG2_FAST (fun c => c.flags2) (fun c w => { c with flags2 := w })),
    (flagStep props "NO_OUTPUT" AV_CODEC_FLAG2_NO_OUTPUT (fun c => c.flags2) (fun c w => { c with flags2 := w })),
    (flagStep props "LOCAL_HEADER" AV_CODEC_FLAG2_LOCAL_HEADER (fun c => c.flags2) (fun c w => { c with flags2 := w })),
    (flagStep props "DROP_FRAME_TIMECODE" AV_CODEC_FLAG2_DROP_FRAME_TIMECODE (fun c => c.flags2) (fun c w => { c with flags2 := w })),
    (flagStep props "CHUNKS" AV_CODEC_FLAG2_CHUNKS (fun c => c.flags2) (fun c w => { c with flags2 := w })),
    (flagStep props "IGNORE_CROP" AV_CODEC_FLAG2_IGNORE_CROP (fun c => c.flags2) (fun c w => { c with flags2 := w })),
    (flagStep props "SHOW_ALL" AV_CODEC_FLAG2_SHOW_ALL (fun c => c.flags2) (fun c w => { c with flags2 := w })),
    (flagStep props "EXPORT_MVS" AV_CODEC_FLAG2_EXPORT_MVS (fun c => c.flags2) (fun c w => { c with flags2 := w })),
    (flagStep props "SKIP_MANUAL" AV_CODEC_FLAG2_SKIP_MANUAL (fun c => c.flags2) (fun c w => { c with flags2 := w })),
    (flagStep props "RO_FLUSH_NOOP" AV_CODEC_FLAG2_RO_FLUSH_NOOP (fun c => c.flags2) (fun c w => { c with flags2 := w })),
    ifThen encoding (seq [
      (fun c => store (beam_get_rational props "time_base" c.time_base) (fun v => { c with time_base := v })),
      (fun c => store (beam_get_int32 props "ticks_per_frame" c.ticks_per_frame) (fun v => { c with ticks_per_frame := v })) ]),
    ifState (fun c => decide (c.codec_type = AVMEDIA_TYPE_VIDEO))
      (seq (setVideoSteps lib props encoding)),
    ifState (fun c => decide (c.codec_type = AVMEDIA_TYPE_AUDIO))
      (seq (setAudioSteps lib props encoding)),
    ifThen encoding (seq [
      (floatStep props "qcompress" sentinelB (fun c v => { c with qcompress := v })),
      (floatStep props "qblur" sentinelB (fun c v => { c with qblur := v })) ]),
    ifThen encoding (seq [
      (fun c => store (beam_get_int32 props "qmin" c.qmin) (fun v => { c with qmin := v })),
      (fun c => store (beam_get_int32 props "qmax" c.qmax) (fun v => { c with qmax := v })),
      (fun c => store (beam_get_int32 props "max_qdiff" c.max_qdiff) (fun v => { c with max_qdiff := v })) ]),
    ifThen encoding (fun c => store (beam_get_int32 props "rc_buffer_size" c.rc_buffer_size) (fun v => { c with rc_buffer_size := v })),
    (fun c => store (beam_get_int64 props "rc_max_rate" c.rc_max_rate) (fun v => { c with rc_max_rate := v })),
    ifThen encoding (seq [
      (fun c => store (beam_get_int64 props "rc_min_rate" c.rc_min_rate) (fun v => { c with rc_min_rate := v })),
      (floatStep props "rc_max_available_vbv_use" sentinelB (fun c v => { c with rc_max_available_vbv_use := v })),
      (floatStep props "rc_min_vbv_overflow_use" sentinelB (fun c v => { c with rc_min_vbv_overflow_use := v })),
      (fun c => store (beam_get_int32 props "rc_initial_buffer_occupancy" c.rc_initial_buffer_occupancy) (fun v => { c with rc_initial_buffer_occupancy := v })) ]),
    ifThen encoding (rcOverrideStep props) ]

/-- `setCodecFromProps`: runs its statements on the record; the result is the
status returned and the record as the call leaves it. -/
def setCodecFromProps (lib : AVLib) (codec : AVCodecContext) (props : JsValue)
    (encoding : Bool) : napi_status × AVCodecContext :=
  seq (setSteps lib props encoding) codec

/-! ## `getPropsFromCodec` -/

/-- The cell `p[x]` of native `int` or `uint16_t` storage.  A read through a
null pointer or past the stored cells is undefined in C and reads as 0 here. -/
def cellAt (p : Option (List Int)) (x : Nat) : Int := (p.getD []).getD x 0

/-- The statement that emits `slice_offset` (lines 434–443): a fresh array with
one number per counted cell; `napi_set_element` at the next index appends. -/
def sliceOffsetProp (codec : AVCodecContext) : Step JsValue :=
  fun target =>
    napi_set_named_property target "slice_offset"
      (.array ((List.range codec.slice_count.toNat).map
        (fun x => napi_create_int32 (cellAt codec.slice_offset x))))

/-- The statement that emits `intra_matrix` or `inter_matrix` (lines 510–534):
nothing for a null pointer, else a fresh array of the 64 cells. -/
def matrixProp (name : String) (matrix : Option (List Int)) : Step JsValue :=
  fun target =>
    if matrix.isSome then
      napi_set_named_property target name
        (.array ((List.range 64).map (fun x => napi_create_uint32 (cellAt matrix x))))
    else (napi_ok, target)

/-- The nested bag built for one `rc_override` entry (lines 656–667). -/
def rcOverrideElement (r : RcOverride) : napi_status × JsValue :=
  seq [
    (beam_set_string_utf8 · "type" (some "RcOverride")),
    (beam_set_int32 · "start_frame" r.start_frame),
    (beam_set_int32 · "end_frame" r.end_frame),
    (beam_set_int32 · "qscale" r.qscale),
    (beam_set_double · "quality_factor" r.quality_factor) ] (.object [])

/-- The statement that emits `rc_override` (lines 653–672): one nested bag per
counted entry, appended to a fresh array. -/
def rcOverrideProp (codec : AVCodecContext) : Step JsValue :=
  fun target =>
    let r := seq ((List.range codec.rc_override_count.toNat).map
      (fun x (arr : List JsValue) =>
        let e := rcOverrideElement (codec.rc_override.getD x RcOverride.blank)
        if PASS_STATUS e.1 then (e.1, arr) else (napi_ok, arr ++ [e.2]))) []
    if PASS_STATUS r.1 then (r.1, target) else
    napi_set_named_property target "rc_override" (.array r.2)

/-- The statements of the block `if (codec->codec_type == AVMEDIA_TYPE_VIDEO)` of
`getPropsFromCodec` (lines 379–588), in source order. -/
def getVideoSteps (lib : AVLib) (codec : AVCodecContext) (encoding : Bool) :
    List (Step JsValue) := [
    (beam_set_int32 · "width" codec.width),
    (beam_set_int32 · "height" codec.height),
    ifThen (!encoding) (seq [
      (beam_set_int32 · "coded_width" codec.coded_width),
      (beam_set_int32 · "coded_height" codec.coded_height) ]),
    (beam_set_string_utf8 · "pix_fmt" (lib.av_get_pix_fmt_name codec.pix_fmt)),
    ifThen encoding (beam_set_int32 · "max_b_frames" codec.max_b_frames),
    ifThen encoding (beam_set_double · "b_quant_factor" codec.b_quant_factor),
    ifThen encoding (beam_set_double · "b_quant_offset" codec.b_quant_offset),
    (beam_set_int32 · "has_b_frames" codec.has_b_frames),
    ifThen encoding (beam_set_double · "i_quant_factor" codec.i_quant_factor),
    ifThen encoding (beam_set_double · "i_quant_offset" codec.i_quant_offset),
    ifThen encoding (beam_set_double · "lumi_masking" codec.lumi_masking),
    ifThen encoding (beam_set_double · "temporal_cplx_masking" codec.temporal_cplx_masking),
    ifThen encoding (beam_set_double · "spatial_cplx_masking" codec.spatial_cplx_masking),
    ifThen encoding (beam_set_double · "p_masking" codec.p_masking),
    ifThen encoding (beam_set_double · "dask_masking" codec.dark_masking),
    (sliceOffsetProp codec),
    (beam_set_rational · "sample_aspect_ratio" codec.sample_aspect_ratio),
    ifThen encoding (beam_set_enum · "me_cmp" beam_ff_cmp codec.me_cmp),
    ifThen encoding (beam_set_enum · "me_sub_cmp" beam_ff_cmp codec.me_sub_cmp),
    ifThen encoding (beam_set_enum · "mb_cmp" beam_ff_cmp codec.mb_cmp),
    ifThen encoding (beam_set_enum · "ildct_cmp" beam_ff_cmp codec.ildct_cmp),
    ifThen encoding (beam_set_int32 · "dia_size" codec.dia_size),
    ifThen encoding (beam_set_int32 · "last_predictor_count" codec.last_predictor_count),
    ifThen encoding (beam_set_enum · "me_pre_cmp" beam_ff_cmp codec.me_pre_cmp),
    ifThen encoding (beam_set_int32 · "pre_dia_size" codec.pre_dia_size),
    ifThen encoding (beam_set_int32 · "me_subpel_quality" codec.me_subpel_quality),
    ifThen encoding (beam_set_int32 · "me_range" codec.me_range),
    ifThen (!encoding) (seq [
      (beam_set_bool · "SLICE_FLAG_CODED_ORDER" (bitTest codec.slice_flags SLICE_FLAG_CODED_ORDER)),
      (beam_set_bool · "SLICE_FLAG_ALLOW_FIELD" (bitTest codec.slice_flags SLICE_FLAG_ALLOW_FIELD)),
      (beam_set_bool · "SLICE_FLAG_ALLOW_PLANE" (bitTest codec.slice_flags SLICE_FLAG_ALLOW_PLANE)) ]),
    ifThen encoding (beam_set_enum · "mb_decision" beam_ff_mb_decision codec.mb_decision),
    (matrixProp "intra_matrix" codec.intra_matrix),
    (matrixProp "inter_matrix" codec.inter_matrix),
    (beam_set_int32 · "intra_dc_precision" codec.intra_dc_precision),
    ifThen (!encoding) (beam_set_int32 · "skip_top" codec.skip_top),
    ifThen (!encoding) (beam_set_int32 · "skip_bottom" codec.skip_bottom),
    ifThen encoding (seq [
      (beam_set_int32 · "mb_lmin" codec.mb_lmin),
      (beam_set_int32 · "mb_lmax" codec.mb_lmax) ]),
    ifThen encoding (beam_set_int32 · "bidir_refine" codec.bidir_refine),
    ifThen encoding (beam_set_int32 · "keyint_min" codec.keyint_min),
    (beam_set_int32 · "refs" codec.refs),
    ifThen encoding (beam_set_int32 · "mv0_threshold" codec.mv0_threshold),
    (beam_set_string_utf8 · "color_primaries" (lib.av_color_primaries_name codec.color_primaries)),
    (beam_set_string_utf8 · "color_trc" (lib.av_color_transfer_name codec.color_trc)),
    (beam_set_string_utf8 · "colorspace" (lib.av_color_space_name codec.colorspace)),
    (beam_set_string_utf8 · "color_range" (lib.av_color_range_name codec.color_range)),
    (beam_set_string_utf8 · "chroma_sample_location" (lib.av_chroma_location_name codec.chroma_sample_location)),
    ifThen encoding (beam_set_int32 · "slices" codec.slices),
    (beam_set_enum · "field_order" beam_field_order codec.field_order) ]

/-- The statements of the block `if (codec->codec_type == AVMEDIA_TYPE_AUDIO)` of
`getPropsFromCodec` (lines 592–630), in source order. -/
def getAudioSteps (lib : AVLib) (codec : AVCodecContext) (encoding : Bool) :
    List (Step JsValue) := [
    (beam_set_int32 · "sample_rate" codec.sample_rate),
    (beam_set_int32 · "channels" codec.channels),
    (beam_set_string_utf8 · "sample_fmt" (lib.av_get_sample_fmt_name codec.sample_fmt)),
    (beam_set_int32 · "frame_size" codec.frame_size),
    (beam_set_int32 · "frame_number" codec.frame_number),
    (beam_set_int32 · "block_align" codec.block_align),
    ifThen encoding (beam_set_int32 · "cutoff" codec.cutoff),
    (beam_set_string_utf8 · "channel_layout" (some (lib.av_get_channel_layout_string codec.channels codec.channel_layout))),
    ifThen (!encoding) (beam_set_string_utf8 · "request_channel_layout" (some (lib.av_get_channel_layout_string codec.channels codec.request_channel_layout))),
    (beam_set_enum · "audio_service_type" beam_av_audio_service_type codec.audio_service_type),
    ifThen (!encoding) (beam_set_string_utf8 · "request_sample_fmt" (lib.av_get_sample_fmt_name codec.request_sample_fmt)) ]

/-- The statements of `getPropsFromCodec` (lines 187–688), in source order. -/
def getSteps (lib : AVLib) (codec : AVCodecContext) (encoding : Bool) :
    List (Step JsValue) := [
    (beam_set_int32 · "codec_id" codec.codec_id),
    (beam_set_string_utf8 · "name" (codec.codec.name)),
    (beam_set_string_utf8 · "long_name" (codec.codec.long_name)),
    (beam_set_string_utf8 · "codec_type" (lib.av_get_media_type_string codec.codec_type)),
    (beam_set_string_utf8 · "codec_tag" (some (lib.av_get_codec_tag_string codec.codec_tag))),
    (beam_set_int64 · "bit_rate" codec.bit_rate),
    ifThen encoding (beam_set_int32 · "bit_rate_tolerance" codec.bit_rate_tolerance),
    ifThen encoding (beam_set_int32 · "global_quality" codec.global_quality),
    ifThen encoding (beam_set_int32 · "compression_level" codec.compression_level),
    (beam_set_bool · "UNALIGNED" (bitTest codec.flags AV_CODEC_FLAG_UNALIGNED)),
    (beam_set_bool · "QSCALE" (bitTest codec.flags AV_CODEC_FLAG_QSCALE)),
    (beam_set_bool · "4MV" (bitTest codec.flags AV_CODEC_FLAG_4MV)),
    (beam_set_bool · "OUTPUT_CORRUPT" (bitTest codec.flags AV_CODEC_FLAG_OUTPUT_CORRUPT)),
    (beam_set_bool · "QPEL" (bitTest codec.flags AV_CODEC_FLAG_QPEL)),
    (beam_set_bool · "PASS1" (bitTest codec.flags AV_CODEC_FLAG_PASS1)),
    (beam_set_bool · "PASS2" (bitTest codec.flags AV_CODEC_FLAG_PASS2)),
    (beam_set_bool · "LOOP_FILTER" (bitTest codec.flags AV_CODEC_FLAG_LOOP_FILTER)),
    (beam_set_bool · "GRAY" (bitTest codec.flags AV_CODEC_FLAG_GRAY)),
    (beam_set_bool · "PSNR" (bitTest codec.flags AV_CODEC_FLAG_PSNR)),
    (beam_set_bool · "TRUNCATED" (bitTest codec.flags AV_CODEC_FLAG_TRUNCATED)),
    (beam_set_bool · "INTERLACED_DCT" (bitTest codec.flags AV_CODEC_FLAG_INTERLACED_DCT)),
    (beam_set_bool · "LOW_DELAY" (bitTest codec.flags AV_CODEC_FLAG_LOW_DELAY)),
    (beam_set_bool · "GLOBAL_HEADER" (bitTest codec.flags AV_CODEC_FLAG_GLOBAL_HEADER)),
    (beam_set_bool · "BITEXACT" (bitTest codec.flags AV_CODEC_FLAG_BITEXACT)),
    (beam_set_bool · "AC_PRED" (bitTest codec.flags AV_CODEC_FLAG_AC_PRED)),
    (beam_set_bool · "INTERLACED_ME" (bitTest codec.flags AV_CODEC_FLAG_INTERLACED_ME)),
    (beam_set_bool · "CLOSED_GOP" (bitTest codec.flags AV_CODEC_FLAG_CLOSED_GOP)),
    (beam_set_bool · "FAST" (bitTest codec.flags2 AV_CODEC_FLAG2_FAST)),
    (beam_set_bool · "NO_OUTPUT" (bitTest codec.flags2 AV_CODEC_FLAG2_NO_OUTPUT)),
    (beam_set_bool · "LOCAL_HEADER" (bitTest codec.flags2 AV_CODEC_FLAG2_LOCAL_HEADER)),
    (beam_set_bool · "DROP_FRAME_TIMECODE" (bitTest codec.flags2 AV_CODEC_FLAG2_DROP_FRAME_TIMECODE)),
    (beam_set_bool · "CHUNKS" (bitTest codec.flags2 AV_CODEC_FLAG2_CHUNKS)),
    (beam_set_bool · "IGNORE_CROP" (bitTest codec.flags2 AV_CODEC_FLAG2_IGNORE_CROP)),
    (beam_set_bool · "SHOW_ALL" (bitTest codec.flags2 AV_CODEC_FLAG2_SHOW_ALL)),
    (beam_set_bool · "EXPORT_MVS" (bitTest codec.flags2 AV_CODEC_FLAG2_EXPORT_MVS)),
    (beam_set_bool · "SKIP_MANUAL" (bitTest codec.flags2 AV_CODEC_FLAG2_SKIP_MANUAL)),
    (beam_set_bool · "RO_FLUSH_NOOP" (bitTest codec.flags2 AV_CODEC_FLAG2_RO_FLUSH_NOOP)),
    ifThen encoding (seq [
      (beam_set_rational · "time_base" codec.time_base),
      (beam_set_int32 · "ticks_per_frame" codec.ticks_per_frame) ]),
    ifThen (!(encoding && decide (codec.codec_type = AVMEDIA_TYPE_AUDIO)))
      (beam_set_int32 · "delay" codec.delay),
    ifThen (decide (codec.codec_type = AVMEDIA_TYPE_VIDEO))
      (seq (getVideoSteps lib codec encoding)),
    ifThen (decide (codec.codec_type = AVMEDIA_TYPE_AUDIO))
      (seq (getAudioSteps lib codec encoding)),
    ifThen encoding (seq [
      (beam_set_double · "qcompress" codec.qcompress),
      (beam_set_double · "qblur" codec.qblur) ]),
    ifThen encoding (seq [
      (beam_set_int32 · "qmin" codec.qmin),
      (beam_set_int32 · "qmax" codec.qmax),
      (beam_set_int32 · "max_qdiff" codec.max_qdiff) ]),
    ifThen encoding (beam_set_int32 · "rc_buffer_size" codec.rc_buffer_size),
    ifThen encoding (rcOverrideProp codec),
    (beam_set_int64 · "rc_max_rate" codec.rc_max_rate),
    ifThen encoding (seq [
      (beam_set_int64 · "rc_min_rate" codec.rc_min_rate),
      (beam_set_double · "rc_max_available_vbv_use" codec.rc_max_available_vbv_use),
      (beam_set_double · "rc_min_vbv_overflow_use" codec.rc_min_vbv_overflow_use),
      (beam_set_int32 · "rc_initial_buffer_occupancy" codec.rc_initial_buffer_occupancy) ]) ]

/-- `getPropsFromCodec`: runs its statements on the bag `target`; the result is
the status returned and the bag as the call leaves it. -/
def getPropsFromCodec (lib : AVLib) (target : JsValue) (codec : AVCodecContext)
    (encoding : Bool) : napi_status × JsValue :=
  seq (getSteps lib codec encoding) target

/-! ## Field and key footprints

The tables below say which record fields each statement of the write path can
change and which bag keys each statement of the read path can set.  They are
proved against the embedding (`setSteps_writes`, `getSteps_writes`). -/

/-- The fields of `AVCodecContext`. -/
inductive Fld where
  | codec_id | codec | codec_type | codec_tag | bit_rate | bit_rate_tolerance
  | global_quality | compression_level | flags | flags2 | time_base | ticks_per_frame
  | delay | width | height | coded_width | coded_height | pix_fmt
  | max_b_frames | b_quant_factor | b_quant_offset | has_b_frames | i_quant_factor | i_quant_offset
  | lumi_masking | temporal_cplx_masking | spatial_cplx_masking | p_masking | dark_masking | slice_count
  | slice_offset | sample_aspect_ratio | me_cmp | me_sub_cmp | mb_cmp | ildct_cmp
  | dia_size | last_predictor_count | me_pre_cmp | pre_dia_size | me_subpel_quality | me_range
  | slice_flags | mb_decision | intra_matrix | inter_matrix | intra_dc_precision | skip_top
  | skip_bottom | mb_lmin | mb_lmax | bidir_refine | keyint_min | refs
  | mv0_threshold | color_primaries | color_trc | colorspace | color_range | chroma_sample_location
  | slices | field_order | sample_rate | channels | sample_fmt | frame_size
  | frame_number | block_align | cutoff | channel_layout | request_channel_layout | audio_service_type
  | request_sample_fmt | qcompress | qblur | qmin | qmax | max_qdiff
  | rc_buffer_size | rc_override_count | rc_override | rc_max_rate | rc_min_rate | rc_max_available_vbv_use
  | rc_min_vbv_overflow_use | rc_initial_buffer_occupancy
  deriving DecidableEq, Repr

/-- The content of a field of any type. -/
inductive Val where
  | int (z : Int)
  | word (n : Nat)
  | dbl (d : Dbl)
  | rat (r : AVRational)
  | cells (p : Option (List Int))
  | overrides (l : List RcOverride)
  | codec (a : AVCodec)
  deriving DecidableEq, Repr

/-- The position of a field in `fieldValues`. -/
def Fld.index : Fld → Nat
  | .codec_id => 0
  | .codec => 1
  | .codec_type => 2
  | .codec_tag => 3
  | .bit_rate => 4
  | .bit_rate_tolerance => 5
  | .global_quality => 6
  | .compression_level => 7
  | .flags => 8
  | .flags2 => 9
  | .time_base => 10
  | .ticks_per_frame => 11
  | .delay => 12
  | .width => 13
  | .height => 14
  | .coded_width => 15
  | .coded_height => 16
  | .pix_fmt => 17
  | .max_b_frames => 18
  | .b_quant_factor => 19
  | .b_quant_offset => 20
  | .has_b_frames => 21
  | .i_quant_factor => 22
  | .i_quant_offset => 23
  | .lumi_masking => 24
  | .temporal_cplx_masking => 25
  | .spatial_cplx_masking => 26
  | .p_masking => 27
  | .dark_masking => 28
  | .slice_count => 29
  | .slice_offset => 30
  | .sample_aspect_ratio => 31
  | .me_cmp => 32
  | .me_sub_cmp => 33
  | .mb_cmp => 34
  | .ildct_cmp => 35
  | .dia_size => 36
  | .last_predictor_count => 37
  | .me_pre_cmp => 38
  | .pre_dia_size => 39
  | .me_subpel_quality => 40
  | .me_range => 41
  | .slice_flags => 42
  | .mb_decision => 43
  | .intra_matrix => 44
  | .inter_matrix => 45
  | .intra_dc_precision => 46
  | .skip_top => 47
  | .skip_bottom => 48
  | .mb_lmin => 49
  | .mb_lmax => 50
  | .bidir_refine => 51
  | .keyint_min => 52
  | .refs => 53
  | .mv0_threshold => 54
  | .color_primaries => 55
  | .color_trc => 56
  | .colorspace => 57
  | .color_range => 58
  | .chroma_sample_location => 59
  | .slices => 60
  | .field_order => 61
  | .sample_rate => 62
  | .channels => 63
  | .sample_fmt => 64
  | .frame_size => 65
  | .frame_number => 66
  | .block_align => 67
  | .cutoff => 68
  | .channel_layout => 69
  | .request_channel_layout => 70
  | .audio_service_type => 71
  | .request_sample_fmt => 72
  | .qcompress => 73
  | .qblur => 74
  | .qmin => 75
  | .qmax => 76
  | .max_qdiff => 77
  | .rc_buffer_size => 78
  | .rc_override_count => 79
  | .rc_override => 80
  | .rc_max_rate => 81
  | .rc_min_rate => 82
  | .rc_max_available_vbv_use => 83
  | .rc_min_vbv_overflow_use => 84
  | .rc_initial_buffer_occupancy => 85

/-- The field at a position of `fieldValues`. -/
def Fld.ofIndex : Nat → Fld
  | 0 => .codec_id
  | 1 => .codec
  | 2 => .codec_type
  | 3 => .codec_tag
  | 4 => .bit_rate
  | 5 => .bit_rate_tolerance
  | 6 => .global_quality
  | 7 => .compression_level
  | 8 => .flags
  | 9 => .flags2
  | 10 => .time_base
  | 11 => .ticks_per_frame
  | 12 => .delay
  | 13 => .width
  | 14 => .height
  | 15 => .coded_width
  | 16 => .coded_height
  | 17 => .pix_fmt
  | 18 => .max_b_frames
  | 19 => .b_quant_factor
  | 20 => .b_quant_offset
  | 21 => .has_b_frames
  | 22 => .i_quant_factor
  | 23 => .i_quant_offset
  | 24 => .lumi_masking
  | 25 => .temporal_cplx_masking
  | 26 => .spatial_cplx_masking
  | 27 => .p_masking
  | 28 => .dark_masking
  | 29 => .slice_count
  | 30 => .slice_offset
  | 31 => .sample_aspect_ratio
  | 32 => .me_cmp
  | 33 => .me_sub_cmp
  | 34 => .mb_cmp
  | 35 => .ildct_cmp
  | 36 => .dia_size
  | 37 => .last_predictor_count
  | 38 => .me_pre_cmp
  | 39 => .pre_dia_size
  | 40 => .me_subpel_quality
  | 41 => .me_range
  | 42 => .slice_flags
  | 43 => .mb_decision
  | 44 => .intra_matrix
  | 45 => .inter_matrix
  | 46 => .intra_dc_precision
  | 47 => .skip_top
  | 48 => .skip_bottom
  | 49 => .mb_lmin
  | 50 => .mb_lmax
  | 51 => .bidir_refine
  | 52 => .keyint_min
  | 53 => .refs
  | 54 => .mv0_threshold
  | 55 => .color_primaries
  | 56 => .color_trc
  | 57 => .colorspace
  | 58 => .color_range
  | 59 => .chroma_sample_location
  | 60 => .slices
  | 61 => .field_order
  | 62 => .sample_rate
  | 63 => .channels
  | 64 => .sample_fmt
  | 65 => .frame_size
  | 66 => .frame_number
  | 67 => .block_align
  | 68 => .cutoff
  | 69 => .channel_layout
  | 70 => .request_channel_layout
  | 71 => .audio_service_type
  | 72 => .request_sample_fmt
  | 73 => .qcompress
  | 74 => .qblur
  | 75 => .qmin
  | 76 => .qmax
  | 77 => .max_qdiff
  | 78 => .rc_buffer_size
  | 79 => .rc_override_count
  | 80 => .rc_override
  | 81 => .rc_max_rate
  | 82 => .rc_min_rate
  | 83 => .rc_max_available_vbv_use
  | 84 => .rc_min_vbv_overflow_use
  | _ => .rc_initial_buffer_occupancy

/-- The contents of all fields of a record, in the order of `Fld`. -/
def fieldValues (c : AVCodecContext) : List Val := [
    Val.int c.codec_id,
    Val.codec c.codec,
    Val.int c.codec_type,
    Val.int c.codec_tag,
    Val.int c.bit_rate,
    Val.int c.bit_rate_tolerance,
    Val.int c.global_quality,
    Val.int c.compression_level,
    Val.word c.flags,
    Val.word c.flags2,
    Val.rat c.time_base,
    Val.int c.ticks_per_frame,
    Val.int c.delay,
    Val.int c.width,
    Val.int c.height,
    Val.int c.coded_width,
    Val.int c.coded_height,
    Val.int c.pix_fmt,
    Val.int c.max_b_frames,
    Val.dbl c.b_quant_factor,
    Val.dbl c.b_quant_offset,
    Val.int c.has_b_frames,
    Val.dbl c.i_quant_factor,
    Val.dbl c.i_quant_offset,
    Val.dbl c.lumi_masking,
    Val.dbl c.temporal_cplx_masking,
    Val.dbl c.spatial_cplx_masking,
    Val.dbl c.p_masking,
    Val.dbl c.dark_masking,
    Val.int c.slice_count,
    Val.cells c.slice_offset,
    Val.rat c.sample_aspect_ratio,
    Val.int c.me_cmp,
    Val.int c.me_sub_cmp,
    Val.int c.mb_cmp,
    Val.int c.ildct_cmp,
    Val.int c.dia_size,
    Val.int c.last_predictor_count,
    Val.int c.me_pre_cmp,
    Val.int c.pre_dia_size,
    Val.int c.me_subpel_quality,
    Val.int c.me_range,
    Val.word c.slice_flags,
    Val.int c.mb_decision,
    Val.cells c.intra_matrix,
    Val.cells c.inter_matrix,
    Val.int c.intra_dc_precision,
    Val.int c.skip_top,
    Val.int c.skip_bottom,
    Val.int c.mb_lmin,
    Val.int c.mb_lmax,
    Val.int c.bidir_refine,
    Val.int c.keyint_min,
    Val.int c.refs,
    Val.int c.mv0_threshold,
    Val.int c.color_primaries,
    Val.int c.color_trc,
    Val.int c.colorspace,
    Val.int c.color_range,
    Val.int c.chroma_sample_location,
    Val.int c.slices,
    Val.int c.field_order,
    Val.int c.sample_rate,
    Val.int c.channels,
    Val.int c.sample_fmt,
    Val.int c.frame_size,
    Val.int c.frame_number,
    Val.int c.block_align,
    Val.int c.cutoff,
    Val.int c.channel_layout,
    Val.int c.request_channel_layout,
    Val.int c.audio_service_type,
    Val.int c.request_sample_fmt,
    Val.dbl c.qcompress,
    Val.dbl c.qblur,
    Val.int c.qmin,
    Val.int c.qmax,
    Val.int c.max_qdiff,
    Val.int c.rc_buffer_size,
    Val.int c.rc_override_count,
    Val.overrides c.rc_override,
    Val.int c.rc_max_rate,
    Val.int c.rc_min_rate,
    Val.dbl c.rc_max_available_vbv_use,
    Val.dbl c.rc_min_vbv_overflow_use,
    Val.int c.rc_initial_buffer_occupancy ]

/-- The content of one field. -/
def Fld.get (f : Fld) (c : AVCodecContext) : Val := (fieldValues c).getD f.index (.int 0)

/-- The footprint of a guarded statement: `l` when the guard holds, nothing otherwise. -/
def onlyIf {α : Type} (b : Bool) (l : List α) : List α := if b then l else []

/-- The fields that the statements of `setVideoSteps` can change, statement by statement. -/
def setVideoFoot (encoding : Bool) : List (List Fld) := [
    [Fld.width],
    [Fld.height],
    (onlyIf (!encoding) [Fld.coded_width, Fld.coded_height]),
    [Fld.pix_fmt],
    (onlyIf encoding [Fld.max_b_frames]),
    (onlyIf encoding [Fld.b_quant_factor]),
    (onlyIf encoding [Fld.b_quant_offset]),
    (onlyIf encoding [Fld.i_quant_factor]),
    (onlyIf encoding [Fld.i_quant_offset]),
    (onlyIf encoding [Fld.lumi_masking]),
    (onlyIf encoding [Fld.temporal_cplx_masking]),
    (onlyIf encoding [Fld.spatial_cplx_masking]),
    (onlyIf encoding [Fld.p_masking]),
    (onlyIf encoding [Fld.dark_masking]),
    (onlyIf (!encoding) [Fld.slice_count, Fld.slice_offset]),
    (onlyIf encoding [Fld.sample_aspect_ratio]),
    (onlyIf encoding [Fld.me_cmp]),
    (onlyIf encoding [Fld.me_sub_cmp]),
    (onlyIf encoding [Fld.mb_cmp]),
    (onlyIf encoding [Fld.mb_cmp]),
    (onlyIf encoding [Fld.dia_size]),
    (onlyIf encoding [Fld.last_predictor_count]),
    (onlyIf encoding [Fld.me_pre_cmp]),
    (onlyIf encoding [Fld.pre_dia_size]),
    (onlyIf encoding [Fld.me_subpel_quality]),
    (onlyIf encoding [Fld.me_range]),
    (onlyIf (!encoding) [Fld.slice_flags, Fld.slice_flags, Fld.slice_flags]),
    (onlyIf encoding [Fld.mb_decision]),
    [Fld.intra_matrix],
    [Fld.inter_matrix],
    (onlyIf encoding [Fld.intra_dc_precision]),
    (onlyIf (!encoding) [Fld.skip_top, Fld.skip_bottom]),
    (onlyIf encoding [Fld.mb_lmin, Fld.mb_lmax]),
    (onlyIf encoding [Fld.bidir_refine]),
    (onlyIf encoding [Fld.keyint_min]),
    (onlyIf encoding [Fld.refs]),
    (onlyIf encoding [Fld.mv0_threshold]),
    (onlyIf encoding [Fld.color_primaries]),
    (onlyIf encoding [Fld.color_trc]),
    (onlyIf encoding [Fld.colorspace]),
    (onlyIf encoding [Fld.color_range]),
    (onlyIf encoding [Fld.chroma_sample_location]),
    (onlyIf encoding [Fld.slices]),
    [Fld.field_order] ]

/-- The fields that the statements of `setAudioSteps` can change, statement by statement. -/
def setAudioFoot (encoding : Bool) : List (List Fld) := [
    [Fld.sample_rate],
    [Fld.channels],
    (onlyIf encoding [Fld.sample_fmt]),
    [Fld.block_align],
    (onlyIf encoding [Fld.cutoff]),
    [Fld.channel_layout],
    (onlyIf (!encoding) [Fld.request_channel_layout]),
    (onlyIf encoding [Fld.audio_service_type]),
    (onlyIf (!encoding) [Fld.request_sample_fmt]) ]

/-- The fields that the statements of `setSteps` can change on a record whose
media type is video (`isVideo`) or audio (`isAudio`), statement by statement. -/
def setFoot (encoding isVideo isAudio : Bool) : List (List Fld) := [
    [Fld.bit_rate],
    (onlyIf encoding [Fld.bit_rate_tolerance]),
    (onlyIf encoding [Fld.global_quality]),
    (onlyIf encoding [Fld.compression_level]),
    [Fld.flags],
    [Fld.flags],
    [Fld.flags],
    [Fld.flags],
    [Fld.flags],
    [Fld.flags],
    [Fld.flags],
    [Fld.flags],
    [Fld.flags],
    [Fld.flags],
    [Fld.flags],
    [Fld.flags],
    [Fld.flags],
    [Fld.flags],
    [Fld.flags],
    [Fld.flags],
    [Fld.flags],
    [Fld.flags],
    [Fld.flags2],
    [Fld.flags2],
    [Fld.flags2],
    [Fld.flags2],
    [Fld.flags2],
    [Fld.flags2],
    [Fld.flags2],
    [Fld.flags2],
    [Fld.flags2],
    [Fld.flags2],
    (onlyIf encoding [Fld.time_base, Fld.ticks_per_frame]),
    (onlyIf isVideo (setVideoFoot encoding).flatten),
    (onlyIf isAudio (setAudioFoot encoding).flatten),
    (onlyIf encoding [Fld.qcompress, Fld.qblur]),
    (onlyIf encoding [Fld.qmin, Fld.qmax, Fld.max_qdiff]),
    (onlyIf encoding [Fld.rc_buffer_size]),
    [Fld.rc_max_rate],
    (onlyIf encoding [Fld.rc_min_rate, Fld.rc_max_available_vbv_use, Fld.rc_min_vbv_overflow_use, Fld.rc_initial_buffer_occupancy]),
    (onlyIf encoding [Fld.rc_override_count, Fld.rc_override]) ]

/-- The keys that the statements of `getVideoSteps` can set, statement by statement. -/
def getVideoKeys (encoding hasIntra hasInter : Bool) : List (List String) := [
    ["width"],
    ["height"],
    (onlyIf (!encoding) ["coded_width", "coded_height"]),
    ["pix_fmt"],
    (onlyIf encoding ["max_b_frames"]),
    (onlyIf encoding ["b_quant_factor"]),
    (onlyIf encoding ["b_quant_offset"]),
    ["has_b_frames"],
    (onlyIf encoding ["i_quant_factor"]),
    (onlyIf encoding ["i_quant_offset"]),
    (onlyIf encoding ["lumi_masking"]),
    (onlyIf encoding ["temporal_cplx_masking"]),
    (onlyIf encoding ["spatial_cplx_masking"]),
    (onlyIf encoding ["p_masking"]),
    (onlyIf encoding ["dask_masking"]),
    ["slice_offset"],
    ["sample_aspect_ratio"],
    (onlyIf encoding ["me_cmp"]),
    (onlyIf encoding ["me_sub_cmp"]),
    (onlyIf encoding ["mb_cmp"]),
    (onlyIf encoding ["ildct_cmp"]),
    (onlyIf encoding ["dia_size"]),
    (onlyIf encoding ["last_predictor_count"]),
    (onlyIf encoding ["me_pre_cmp"]),
    (onlyIf encoding ["pre_dia_size"]),
    (onlyIf encoding ["me_subpel_quality"]),
    (onlyIf encoding ["me_range"]),
    (onlyIf (!encoding) ["SLICE_FLAG_CODED_ORDER", "SLICE_FLAG_ALLOW_FIELD", "SLICE_FLAG_ALLOW_PLANE"]),
    (onlyIf encoding ["mb_decision"]),
    (onlyIf hasIntra ["intra_matrix"]),
    (onlyIf hasInter ["inter_matrix"]),
    ["intra_dc_precision"],
    (onlyIf (!encoding) ["skip_top"]),
    (onlyIf (!encoding) ["skip_bottom"]),
    (onlyIf encoding ["mb_lmin", "mb_lmax"]),
    (onlyIf encoding ["bidir_refine"]),
    (onlyIf encoding ["keyint_min"]),
    ["refs"],
    (onlyIf encoding ["mv0_threshold"]),
    ["color_primaries"],
    ["color_trc"],
    ["colorspace"],
    ["color_range"],
    ["chroma_sample_location"],
    (onlyIf encoding ["slices"]),
    ["field_order"] ]

/-- The keys that the statements of `getAudioSteps` can set, statement by statement. -/
def getAudioKeys (encoding : Bool) : List (List String) := [
    ["sample_rate"],
    ["channels"],
    ["sample_fmt"],
    ["frame_size"],
    ["frame_number"],
    ["block_align"],
    (onlyIf encoding ["cutoff"]),
    ["channel_layout"],
    (onlyIf (!encoding) ["request_channel_layout"]),
    ["audio_service_type"],
    (onlyIf (!encoding) ["request_sample_fmt"]) ]

/-- The keys that the statements of `getSteps` can set, statement by statement. -/
def getKeys (encoding isVideo isAudio hasIntra hasInter : Bool) : List (List String) := [
    ["codec_id"],
    ["name"],
    ["long_name"],
    ["codec_type"],
    ["codec_tag"],
    ["bit_rate"],
    (onlyIf encoding ["bit_rate_tolerance"]),
    (onlyIf encoding ["global_quality"]),
    (onlyIf encoding ["compression_level"]),
    ["UNALIGNED"],
    ["QSCALE"],
    ["4MV"],
    ["OUTPUT_CORRUPT"],
    ["QPEL"],
    ["PASS1"],
    ["PASS2"],
    ["LOOP_FILTER"],
    ["GRAY"],
    ["PSNR"],
    ["TRUNCATED"],
    ["INTERLACED_DCT"],
    ["LOW_DELAY"],
    ["GLOBAL_HEADER"],
    ["BITEXACT"],
    ["AC_PRED"],
    ["INTERLACED_ME"],
    ["CLOSED_GOP"],
    ["FAST"],
    ["NO_OUTPUT"],
    ["LOCAL_HEADER"],
    ["DROP_FRAME_TIMECODE"],
    ["CHUNKS"],
    ["IGNORE_CROP"],
    ["SHOW_ALL"],
    ["EXPORT_MVS"],
    ["SKIP_MANUAL"],
    ["RO_FLUSH_NOOP"],
    (onlyIf encoding ["time_base", "ticks_per_frame"]),
    (onlyIf (!(encoding && isAudio)) ["delay"]),
    (onlyIf isVideo (getVideoKeys encoding hasIntra hasInter).flatten),
    (onlyIf isAudio (getAudioKeys encoding).flatten),
    (onlyIf encoding ["qcompress", "qblur"]),
    (onlyIf encoding ["qmin", "qmax", "max_qdiff"]),
    (onlyIf encoding ["rc_buffer_size"]),
    (onlyIf encoding ["rc_override"]),
    ["rc_max_rate"],
    (onlyIf encoding ["rc_min_rate", "rc_max_available_vbv_use", "rc_min_vbv_overflow_use", "rc_initial_buffer_occupancy"]) ]

/-! ## Judgements on statements -/

/-- From every state in `I`, the statement stays in `I` and leaves the
observation `P` as it was, whatever status it returns. -/
def Frame {σ α : Type} (I : σ → Prop) (P : σ → α) (s : Step σ) : Prop :=
  ∀ c, I c → I (s c).2 ∧ P (s c).2 = P c

/-- From every state in `I`, when the statement returns `napi_ok`, `R` relates
the observation `P` before the statement to the observation after it. -/
def Rel {σ α : Type} (I : σ → Prop) (P : σ → α) (R : α → α → Prop) (s : Step σ) : Prop :=
  ∀ c, I c → (s c).1 = napi_ok → R (P c) (P (s c).2)

/-- From every state in `I`, the statement stays in `I` and leaves every
observation `obs g` with `g` outside the footprint `F` as it was, whatever
status it returns. -/
def Writes {σ ι : Type} {β : ι → Type} (I : σ → Prop) (obs : (g : ι) → σ → β g)
    (F : List ι) (s : Step σ) : Prop :=
  ∀ c, I c → I (s c).2 ∧ ∀ g, g ∉ F → obs g (s c).2 = obs g c

/-- From every state in `I`, the statement returns `napi_ok` and stays in `I`. -/
def Sure {σ : Type} (I : σ → Prop) (s : Step σ) : Prop :=
  ∀ c, I c → (s c).1 = napi_ok ∧ I (s c).2

/-- From every state in `I`, the statement returns `napi_ok`. -/
def Runs {σ : Type} (I : σ → Prop) (s : Step σ) : Prop :=
  ∀ c, I c → (s c).1 = napi_ok

/-- Whether, in a list of footprints, no statement but the one at position `i`
touches `k`. -/
def soleAt {ι : Type} [DecidableEq ι] (Fs : List (List ι)) (i : Nat) (k : ι) : Bool :=
  ((Fs.take i).all fun F => !F.elem k) && ((Fs.drop (i + 1)).all fun F => !F.elem k)

/-- The relation "the new value is `v`". -/
def becomes {α : Type} (v : α) : α → α → Prop := fun _ new => new = v

/-- The records whose media type answers the two tests of the code as given. -/
def MediaIs (isVideo isAudio : Bool) (c : AVCodecContext) : Prop :=
  decide (c.codec_type = AVMEDIA_TYPE_VIDEO) = isVideo ∧
  decide (c.codec_type = AVMEDIA_TYPE_AUDIO) = isAudio

/-- The entry of a bag under a key: `none` when the bag has no such key (or is
not an object). -/
def bagEntry (k : String) (t : JsValue) : Option JsValue :=
  match t with
  | .object ps => if hasOwn ps k then some (getOwn ps k) else none
  | _ => none

/-- The values that are objects. -/
def IsBag (t : JsValue) : Prop := ∃ ps, t = .object ps

/-! ## Tables used in the statements -/

/-- The keys of the `flags` word with the bit position of each, in source order. -/
def flagBits : List (String × Nat) :=
  [("UNALIGNED", 0), ("QSCALE", 1), ("4MV", 2), ("OUTPUT_CORRUPT", 3), ("QPEL", 4),
   ("PASS1", 9), ("PASS2", 10), ("LOOP_FILTER", 11), ("GRAY", 13), ("PSNR", 15),
   ("TRUNCATED", 16), ("INTERLACED_DCT", 18), ("LOW_DELAY", 19), ("GLOBAL_HEADER", 22),
   ("BITEXACT", 23), ("AC_PRED", 24), ("INTERLACED_ME", 29), ("CLOSED_GOP", 31)]

/-- The keys of the `flags2` word with the bit position of each, in source order. -/
def flags2Bits : List (String × Nat) :=
  [("FAST", 0), ("NO_OUTPUT", 2), ("LOCAL_HEADER", 3), ("DROP_FRAME_TIMECODE", 13),
   ("CHUNKS", 15), ("IGNORE_CROP", 16), ("SHOW_ALL", 22), ("EXPORT_MVS", 28),
   ("SKIP_MANUAL", 29), ("RO_FLUSH_NOOP", 30)]

/-- The keys of the `slice_flags` word with the bit position of each, in source order. -/
def sliceFlagBits : List (String × Nat) :=
  [("SLICE_FLAG_CODED_ORDER", 0), ("SLICE_FLAG_ALLOW_FIELD", 1), ("SLICE_FLAG_ALLOW_PLANE", 2)]

/-- All boolean flag keys. -/
def allFlagKeys : List String :=
  (flagBits ++ flags2Bits ++ sliceFlagBits).map Prod.fst

/-- What one flag statement does to its word, given the value found under its key. -/
def flagUpdate (v : JsValue) (mask w : Nat) : Nat :=
  match v with
  | .boolean true => bitOr32 w mask
  | .boolean false => bitClear32 w mask
  | _ => w

/-- What the flag statements of a table do to their word, one after the other. -/
def applyFlags (ps : List (String × JsValue)) (tbl : List (String × Nat)) (w : Nat) : Nat :=
  tbl.foldl (fun w e => flagUpdate (getOwn ps e.1) (1 <<< e.2) w) w

/-! ## Sample values -/

/-- A library whose lookups know no name. -/
def sampleLib : AVLib where
  av_get_media_type_string := fun _ => none
  av_get_codec_tag_string := fun _ => ""
  av_get_pix_fmt_name := fun _ => none
  av_get_pix_fmt := fun _ => -1
  av_color_primaries_name := fun _ => none
  av_color_primaries_from_name := fun _ => 2
  av_color_transfer_name := fun _ => none
  av_color_transfer_from_name := fun _ => 2
  av_color_space_name := fun _ => none
  av_color_space_from_name := fun _ => 2
  av_color_range_name := fun _ => none
  av_color_range_from_name := fun _ => 0
  av_chroma_location_name := fun _ => none
  av_chroma_location_from_name := fun _ => 0
  av_get_sample_fmt_name := fun _ => none
  av_get_sample_fmt := fun _ => -1
  av_get_channel_layout_string := fun _ _ => ""
  av_get_channel_layout := fun _ => 0

/-- A video record with every field zero. -/
def sampleVideo : AVCodecContext where
  codec_id := 0
  codec := ⟨some "x", none⟩
  codec_type := 0
  codec_tag := 0
  bit_rate := 0
  bit_rate_tolerance := 0
  global_quality := 0
  compression_level := 0
  flags := 0
  flags2 := 0
  time_base := ⟨0,1⟩
  ticks_per_frame := 0
  delay := 0
  width := 0
  height := 0
  coded_width := 0
  coded_height := 0
  pix_fmt := 0
  max_b_frames := 0
  b_quant_factor := .fin 0
  b_quant_offset := .fin 0
  has_b_frames := 0
  i_quant_factor := .fin 0
  i_quant_offset := .fin 0
  lumi_masking := .fin 0
  temporal_cplx_masking := .fin 0
  spatial_cplx_masking := .fin 0
  p_masking := .fin 0
  dark_masking := .fin 0
  slice_count := 0
  slice_offset := none
  sample_aspect_ratio := ⟨0,1⟩
  me_cmp := 0
  me_sub_cmp := 0
  mb_cmp := 0
  ildct_cmp := 0
  dia_size := 0
  last_predictor_count := 0
  me_pre_cmp := 0
  pre_dia_size := 0
  me_subpel_quality := 0
  me_range := 0
  slice_flags := 0
  mb_decision := 0
  intra_matrix := none
  inter_matrix := none
  intra_dc_precision := 0
  skip_top := 0
  skip_bottom := 0
  mb_lmin := 0
  mb_lmax := 0
  bidir_refine := 0
  keyint_min := 0
  refs := 0
  mv0_threshold := 0
  color_primaries := 0
  color_trc := 0
  colorspace := 0
  color_range := 0
  chroma_sample_location := 0
  slices := 0
  field_order := 0
  sample_rate := 0
  channels := 0
  sample_fmt := 0
  frame_size := 0
  frame_number := 0
  block_align := 0
  cutoff := 0
  channel_layout := 0
  request_channel_layout := 0
  audio_service_type := 0
  request_sample_fmt := 0
  qcompress := .fin 0
  qblur := .fin 0
  qmin := 0
  qmax := 0
  max_qdiff := 0
  rc_buffer_size := 0
  rc_override_count := 0
  rc_override := []
  rc_max_rate := 0
  rc_min_rate := 0
  rc_max_available_vbv_use := .fin 0
  rc_min_vbv_overflow_use := .fin 0
  rc_initial_buffer_occupancy := 0

/-- An audio record with every field zero. -/
def sampleAudio : AVCodecContext := { sampleVideo with codec_type := AVMEDIA_TYPE_AUDIO }

/-- A record that is neither video nor audio (`AVMEDIA_TYPE_DATA`), with every
other field zero. -/
def sampleData : AVCodecContext := { sampleVideo with codec_type := 2 }

/-- The string properties that the write path reads for a video record (under
encoding; `pix_fmt` alone under decoding), with sample values. -/
def sampleStrings : List (String × JsValue) :=
  [("pix_fmt", .string "yuv420p"), ("color_primaries", .string "bt709"),
   ("colour_trc", .string "bt709"), ("colorspace", .string "bt709"),
   ("color_range", .string "tv"), ("chroma_sample_location", .string "left")]

/-! ## Bags on which the write path is defined -/

/-- The keys whose value the video block of `setCodecFromProps` reads into a
`char*` that it then parses, in source order. -/
def videoStringKeys (encoding : Bool) : List String :=
  "pix_fmt" ::
    (if encoding then
      ["color_primaries", "colour_trc", "colorspace", "color_range", "chroma_sample_location"]
    else [])

/-- The keys whose value the audio block of `setCodecFromProps` reads into a
`char*` that it then parses, in source order. -/
def audioStringKeys (encoding : Bool) : List String :=
  if encoding then ["sample_fmt", "channel_layout"]
  else ["channel_layout", "request_channel_layout", "request_sample_fmt"]

/-- The keys whose value `setCodecFromProps` reads into a `char*` that it then
parses, for a record of media type `codec_type` under the mode: those of the
video block for a video record, those of the audio block for an audio record,
none for any other record. -/
def stringKeys (encoding : Bool) (codec_type : Int) : List String :=
  (if codec_type = AVMEDIA_TYPE_VIDEO then videoStringKeys encoding else []) ++
  (if codec_type = AVMEDIA_TYPE_AUDIO then audioStringKeys encoding else [])

/-- The bag holds a string under every key of `stringKeys`, so that
`setCodecFromProps` parses no pointer that was never initialised. -/
def StringsGiven (ps : List (String × JsValue)) (encoding : Bool) (codec_type : Int) : Prop :=
  ∀ k ∈ stringKeys encoding codec_type, napi_typeof (getOwn ps k) = .napi_string

instance (ps : List (String × JsValue)) (encoding : Bool) (codec_type : Int) :
    Decidable (StringsGiven ps encoding codec_type) := by
  unfold StringsGiven
  infer_instance

/-! ## Visibility tables used in the statements -/

/-- The record fields handled only under encoding. -/
def encodeOnlyFields : List Fld :=
  [Fld.bit_rate_tolerance, Fld.global_quality, Fld.compression_level, Fld.time_base,
   Fld.ticks_per_frame, Fld.max_b_frames, Fld.b_quant_factor, Fld.b_quant_offset,
   Fld.i_quant_factor, Fld.i_quant_offset, Fld.lumi_masking, Fld.temporal_cplx_masking,
   Fld.spatial_cplx_masking, Fld.p_masking, Fld.dark_masking, Fld.me_cmp, Fld.me_sub_cmp,
   Fld.mb_cmp, Fld.ildct_cmp, Fld.dia_size, Fld.last_predictor_count, Fld.me_pre_cmp,
   Fld.pre_dia_size, Fld.me_subpel_quality, Fld.me_range, Fld.mb_decision, Fld.mb_lmin,
   Fld.mb_lmax, Fld.bidir_refine, Fld.keyint_min, Fld.mv0_threshold, Fld.slices, Fld.cutoff,
   Fld.qcompress, Fld.qblur, Fld.qmin, Fld.qmax, Fld.max_qdiff, Fld.rc_buffer_size,
   Fld.rc_override, Fld.rc_min_rate, Fld.rc_max_available_vbv_use, Fld.rc_min_vbv_overflow_use,
   Fld.rc_initial_buffer_occupancy, Fld.rc_override_count]

/-- The record fields handled only under decoding. -/
def decodeOnlyFields : List Fld :=
  [Fld.coded_width, Fld.coded_height, Fld.slice_offset, Fld.slice_count, Fld.slice_flags,
   Fld.skip_top, Fld.skip_bottom, Fld.request_channel_layout, Fld.request_sample_fmt]

/-- The record fields that belong to video codecs. -/
def videoOnlyFields : List Fld :=
  [Fld.width, Fld.height, Fld.coded_width, Fld.coded_height, Fld.pix_fmt, Fld.max_b_frames,
   Fld.b_quant_factor, Fld.b_quant_offset, Fld.has_b_frames, Fld.i_quant_factor,
   Fld.i_quant_offset, Fld.lumi_masking, Fld.temporal_cplx_masking, Fld.spatial_cplx_masking,
   Fld.p_masking, Fld.dark_masking, Fld.slice_count, Fld.slice_offset, Fld.sample_aspect_ratio,
   Fld.me_cmp, Fld.me_sub_cmp, Fld.mb_cmp, Fld.ildct_cmp, Fld.dia_size,
   Fld.last_predictor_count, Fld.me_pre_cmp, Fld.pre_dia_size, Fld.me_subpel_quality,
   Fld.me_range, Fld.slice_flags, Fld.mb_decision, Fld.intra_matrix, Fld.inter_matrix,
   Fld.intra_dc_precision, Fld.skip_top, Fld.skip_bottom, Fld.mb_lmin, Fld.mb_lmax,
   Fld.bidir_refine, Fld.keyint_min, Fld.refs, Fld.mv0_threshold, Fld.color_primaries,
   Fld.color_trc, Fld.colorspace, Fld.color_range, Fld.chroma_sample_location, Fld.slices,
   Fld.field_order]

/-- The record fields that belong to audio codecs. -/
def audioOnlyFields : List Fld :=
  [Fld.sample_rate, Fld.channels, Fld.sample_fmt, Fld.frame_size, Fld.frame_number,
   Fld.block_align, Fld.cutoff, Fld.channel_layout, Fld.request_channel_layout,
   Fld.audio_service_type, Fld.request_sample_fmt]

/-- The bag keys of the fields handled only under encoding; `dask_masking` is the
key under which the read path emits the field `dark_masking`. -/
def encodeOnlyKeys : List String :=
  ["bit_rate_tolerance", "global_quality", "compression_level", "time_base", "ticks_per_frame",
   "max_b_frames", "b_quant_factor", "b_quant_offset", "i_quant_factor", "i_quant_offset",
   "lumi_masking", "temporal_cplx_masking", "spatial_cplx_masking", "p_masking", "dark_masking",
   "dask_masking", "me_cmp", "me_sub_cmp", "mb_cmp", "ildct_cmp", "dia_size",
   "last_predictor_count", "me_pre_cmp", "pre_dia_size", "me_subpel_quality", "me_range",
   "mb_decision", "mb_lmin", "mb_lmax", "bidir_refine", "keyint_min", "mv0_threshold", "slices",
   "cutoff", "qcompress", "qblur", "qmin", "qmax", "max_qdiff", "rc_buffer_size", "rc_override",
   "rc_min_rate", "rc_max_available_vbv_use", "rc_min_vbv_overflow_use",
   "rc_initial_buffer_occupancy"]

/-- The bag keys of the fields handled only under decoding. -/
def decodeOnlyKeys : List String :=
  ["coded_width", "coded_height", "SLICE_FLAG_CODED_ORDER", "SLICE_FLAG_ALLOW_FIELD",
   "SLICE_FLAG_ALLOW_PLANE", "skip_top", "skip_bottom", "request_channel_layout",
   "request_sample_fmt"]

/-- The bag keys set in the video block of the read path. -/
def videoOnlyKeys : List String :=
  ["width", "height", "coded_width", "coded_height", "pix_fmt", "max_b_frames",
   "b_quant_factor", "b_quant_offset", "has_b_frames", "i_quant_factor", "i_quant_offset",
   "lumi_masking", "temporal_cplx_masking", "spatial_cplx_masking", "p_masking", "dask_masking",
   "slice_offset", "sample_aspect_ratio", "me_cmp", "me_sub_cmp", "mb_cmp", "ildct_cmp", "dia_size",
   "last_predictor_count", "me_pre_cmp", "pre_dia_size", "me_subpel_quality", "me_range",
   "SLICE_FLAG_CODED_ORDER", "SLICE_FLAG_ALLOW_FIELD", "SLICE_FLAG_ALLOW_PLANE", "mb_decision",
   "intra_matrix", "inter_matrix", "intra_dc_precision", "skip_top", "skip_bottom", "mb_lmin",
   "mb_lmax", "bidir_refine", "keyint_min", "refs", "mv0_threshold", "color_primaries",
   "color_trc", "colorspace", "color_range", "chroma_sample_location", "slices", "field_order"]

/-- The bag keys set in the audio block of the read path. -/
def audioOnlyKeys : List String :=
  ["sample_rate", "channels", "sample_fmt", "frame_size", "frame_number", "block_align",
   "cutoff", "channel_layout", "request_channel_layout", "audio_service_type",
   "request_sample_fmt"]

/-! ## Integer keys -/

/-- How the write path reads a numeric scalar key. -/
inductive ScalarKind where
  | int32 | int64 | float
  deriving DecidableEq

/-- The numeric scalar keys that `setCodecFromProps` reads, in source order: each
key with the record field it is stored in and the helper that reads it
(`beam_get_int32`, `beam_get_int64`, or `beam_get_double` for `float`). -/
def scalarKeys : List (String × Fld × ScalarKind) :=
  [("bit_rate", Fld.bit_rate, ScalarKind.int64), ("bit_rate_tolerance", Fld.bit_rate_tolerance, ScalarKind.int32),
   ("global_quality", Fld.global_quality, ScalarKind.int32),
   ("compression_level", Fld.compression_level, ScalarKind.int32),
   ("ticks_per_frame", Fld.ticks_per_frame, ScalarKind.int32), ("width", Fld.width, ScalarKind.int32),
   ("height", Fld.height, ScalarKind.int32), ("coded_width", Fld.coded_width, ScalarKind.int32),
   ("coded_height", Fld.coded_height, ScalarKind.int32), ("max_b_frames", Fld.max_b_frames, ScalarKind.int32),
   ("b_quant_factor", Fld.b_quant_factor, ScalarKind.float),
   ("b_quant_offset", Fld.b_quant_offset, ScalarKind.float),
   ("i_quant_factor", Fld.i_quant_factor, ScalarKind.float),
   ("i_quant_offset", Fld.i_quant_offset, ScalarKind.float), ("lumi_masking", Fld.lumi_masking, ScalarKind.float),
   ("temporal_cplx_masking", Fld.temporal_cplx_masking, ScalarKind.float),
   ("spatial_cplx_masking", Fld.spatial_cplx_masking, ScalarKind.float),
   ("p_masking", Fld.p_masking, ScalarKind.float), ("dark_masking", Fld.dark_masking, ScalarKind.float),
   ("last_predictor_count", Fld.last_predictor_count, ScalarKind.int32),
   ("pre_dia_size", Fld.pre_dia_size, ScalarKind.int32),
   ("me_subpel_quality", Fld.me_subpel_quality, ScalarKind.int32), ("me_range", Fld.me_range, ScalarKind.int32),
   ("intra_dc_precision", Fld.intra_dc_precision, ScalarKind.int32), ("skip_top", Fld.skip_top, ScalarKind.int32),
   ("skip_bottom", Fld.skip_bottom, ScalarKind.int32), ("mb_lmin", Fld.mb_lmin, ScalarKind.int32),
   ("mb_lmax", Fld.mb_lmax, ScalarKind.int32), ("bidir_refine", Fld.bidir_refine, ScalarKind.int32),
   ("keyint_min", Fld.keyint_min, ScalarKind.int32), ("refs", Fld.refs, ScalarKind.int32),
   ("mv0_threshold", Fld.mv0_threshold, ScalarKind.int32), ("slices", Fld.slices, ScalarKind.int32),
   ("sample_rate", Fld.sample_rate, ScalarKind.int32), ("channels", Fld.channels, ScalarKind.int32),
   ("block_align", Fld.block_align, ScalarKind.int32), ("cutoff", Fld.cutoff, ScalarKind.int32),
   ("qcompress", Fld.qcompress, ScalarKind.float), ("qblur", Fld.qblur, ScalarKind.float),
   ("qmin", Fld.qmin, ScalarKind.int32), ("qmax", Fld.qmax, ScalarKind.int32), ("max_qdiff", Fld.max_qdiff, ScalarKind.int32),
   ("rc_buffer_size", Fld.rc_buffer_size, ScalarKind.int32), ("rc_max_rate", Fld.rc_max_rate, ScalarKind.int64),
   ("rc_min_rate", Fld.rc_min_rate, ScalarKind.int64),
   ("rc_max_available_vbv_use", Fld.rc_max_available_vbv_use, ScalarKind.float),
   ("rc_min_vbv_overflow_use", Fld.rc_min_vbv_overflow_use, ScalarKind.float),
   ("rc_initial_buffer_occupancy", Fld.rc_initial_buffer_occupancy, ScalarKind.int32)]

/-! ## Rate-control overrides in the statements -/

/-- A bag holds the four values of an override entry: the three integers and,
under `quality_factor`, the double of the entry. -/
def holdsOverride (ps : List (String × JsValue)) (r : RcOverride) : Prop :=
  getOwn ps "start_frame" = .number (Dbl.ofInt r.start_frame) ∧
  getOwn ps "end_frame" = .number (Dbl.ofInt r.end_frame) ∧
  getOwn ps "qscale" = .number (Dbl.ofInt r.qscale) ∧
  getOwn ps "quality_factor" = .number r.quality_factor

/-- The three integers fit a native `int` and the quality factor is not the
constant `8765432.1` that the write path reserves for "not supplied". -/
def fitsOverride (r : RcOverride) : Prop :=
  (-(2 ^ 31) ≤ r.start_frame ∧ r.start_frame < 2 ^ 31) ∧
  (-(2 ^ 31) ≤ r.end_frame ∧ r.end_frame < 2 ^ 31) ∧
  (-(2 ^ 31) ≤ r.qscale ∧ r.qscale < 2 ^ 31) ∧
  Dbl.cne r.quality_factor sentinelB = true

/-- The native entry that holds the values of `r`: the quality factor is cut to
a `float`. -/
def storedOverride (r : RcOverride) : RcOverride :=
  { r with quality_factor := toFloat r.quality_factor }

/-- The nested bag that the read path builds for a native entry. -/
def overrideBag (r : RcOverride) : JsValue :=
  .object [("type", .string "RcOverride"),
    ("start_frame", .number (Dbl.ofInt r.start_frame)),
    ("end_frame", .number (Dbl.ofInt r.end_frame)),
    ("qscale", .number (Dbl.ofInt r.qscale)),
    ("quality_factor", .number r.quality_factor)]

/-! ## Quantization matrix cells in the statements -/

/-- The integer of a `napi_status`, as the C enum numbers it.  The marker
`undefined_behaviour` is no code of the enum; it gets -1, which no code has. -/
def napi_status.toInt : napi_status → Int
  | napi_ok => 0
  | napi_invalid_arg => 1
  | napi_object_expected => 2
  | napi_string_expected => 3
  | napi_name_expected => 4
  | napi_function_expected => 5
  | napi_number_expected => 6
  | napi_boolean_expected => 7
  | napi_array_expected => 8
  | napi_generic_failure => 9
  | napi_pending_exception => 10
  | undefined_behaviour => -1

/-- Modelled from the spec: the code `BEAMCODER_SUCCESS` of `beamcoder_util.h`
(not among the sources).  The code stores a `napi_status` in `c->status` and goes
on when `rejectStatus` returns `BEAMCODER_SUCCESS`, so it is the code of
`napi_ok`. -/
def BEAMCODER_SUCCESS : Int := 0

/-- Modelled from the spec: the other "canonical status codes" of
`beamcoder_util.h` that the code names.  Their values are parameters. -/
structure BeamCodes where
  BEAMCODER_ERROR_START : Int
  BEAMCODER_INVALID_ARGS : Int
  BEAMCODER_ERROR_ALLOC_ENCODER : Int

/-- Modelled from the spec: `struct encoderCarrier` of `encode.h` with the fields
of `struct carrier` of `beamcoder_util.h` (headers not among the sources), "a
heap-owned record holding: the pending future handle, a status/result code, an
optional error message, an owned reference to the native resource under
construction, and an owned reference to the background-work handle"; the fields
are the ones the code names. -/
structure encoderCarrier where
  passthru : Option Nat
  status : Int
  errorMsg : String
  _deferred : Nat
  _request : Option Nat
  encoder : Option Nat
  codecName : String
  codecNameLen : Nat
  deriving DecidableEq, Repr

/-- Modelled from the spec: the carrier that `new encoderCarrier` makes: success
status, no message, null references; `_deferred` and `codecName` are not yet
set. -/
def encoderCarrier.new : encoderCarrier :=
  { passthru := none, status := BEAMCODER_SUCCESS, errorMsg := "", _deferred := 0,
    _request := none, encoder := none, codecName := "", codecNameLen := 0 }

/-- A property value of the result object of `encoderComplete`: a string, or an
external reference made by `napi_create_external` with the finalizer
`encoderFinalizer`, given by its data pointer. -/
inductive Slot where
  | string (s : String)
  | external (data : Option Nat)
  deriving DecidableEq, Repr

/-- The calls that the trace records. -/
inductive Event where
  | avcodec_find_decoder_by_name (name : String)
  | avcodec_alloc_context3 (codec : Nat)
  | avcodec_open2 (ctx codec : Nat)
  | avcodec_close (ctx : Nat)
  | avcodec_free_context (ctx : Nat)
  | napi_create_promise
  | napi_create_async_work
  | napi_queue_async_work (work : Option Nat)
  | napi_reject_deferred (deferred : Nat) (code message : String)
  | napi_resolve_deferred (deferred : Nat) (result : List (String × Slot))
  | napi_delete_reference (ref : Nat)
  | napi_delete_async_work (work : Nat)
  | delete
  | write_past_block (size written : Nat)
  deriving DecidableEq, Repr

/-- The carrier and the calls made so far. -/
structure World where
  c : encoderCarrier
  trace : List Event
  deriving DecidableEq, Repr

/-- Record a call. -/
def World.emit (w : World) (e : Event) : World := { w with trace := w.trace ++ [e] }

/-- The assignment `c->status = s`. -/
def World.setStatus (w : World) (s : Int) : World := { w with c := { w.c with status := s } }

/-- The answers of the native library. -/
structure CodecLib where
  avcodec_find_decoder_by_name : String → Option Nat
  avcodec_alloc_context3 : Nat → Option Nat
  avcodec_open2 : Nat → Nat → Int
  avcodec_get_name : Int → String
  av_strerror : Int → Int × String

/-- The answers of the host runtime to the calls whose status the code checks,
the message of `napi_get_last_error_info` (`none` for a null message), and the
number of bytes of the block that `malloc` hands out for a request of `n`
bytes. -/
structure Host where
  napi_create_promise : napi_status × Nat × Nat
  napi_get_cb_info : napi_status
  napi_create_string_utf8 : String → napi_status
  napi_create_async_work : napi_status × Nat
  napi_queue_async_work : napi_status
  napi_create_object : napi_status
  napi_set_named_property : String → napi_status
  napi_create_external : napi_status
  napi_get_last_error_info : Option String
  malloc : Nat → Nat

/-- `encoderFinalizer`: closes and frees the context it is given. -/
def encoderFinalizer (data : Nat) : List Event :=
  [Event.avcodec_close data, Event.avcodec_free_context data]

/-- Modelled from the spec: what `delete c` does, through the destructor of
`encoderCarrier` (`encode.h`, not among the sources): "the carrier's owned
resources are released exactly once", the owned resource being the "native
resource under construction": a context that the carrier still holds is closed
and freed, as `encoderFinalizer` does it, then the carrier is gone. -/
def deleteCarrier (w : World) : World :=
  let w1 := match w.c.encoder with
    | some ctx => { w with trace := w.trace ++ encoderFinalizer ctx }
    | none => w
  w1.emit .delete

/-- `tidyCarrier`. -/
def tidyCarrier (w : World) : World :=
  let w1 := match w.c.passthru with
    | some r => w.emit (.napi_delete_reference r)
    | none => w
  let w2 := match w1.c._request with
    | some r => w1.emit (.napi_delete_async_work r)
    | none => w1
  deleteCarrier w2

/-- `rejectStatus`, called at `line` of `file`.  The result is what it returns
and the world it leaves.  The last statement reads `c->status` after
`tidyCarrier` has deleted the carrier, which C++ leaves undefined; the read
yields the status that the carrier held. -/
def rejectStatus (k : BeamCodes) (host : Host) (file : String) (line : Nat) (w : World) :
    Int × World :=
  if w.c.status ≠ BEAMCODER_SUCCESS then
    let c1 : encoderCarrier :=
      if w.c.status < k.BEAMCODER_ERROR_START then
        { w.c with errorMsg := host.napi_get_last_error_info.getD "(no message)" }
      else w.c
    let extMsg := "In file " ++ file ++ " on line " ++ toString line ++ ", found error: " ++
      c1.errorMsg
    let errorCodeChars := toString c1.status
    let w1 : World := { w with c := c1 }
    let w2 := w1.emit (.napi_reject_deferred c1._deferred errorCodeChars extMsg)
    let w3 := tidyCarrier w2
    (w3.c.status, w3)
  else (w.c.status, w)

/-- Modelled from the spec: the macro `REJECT_STATUS` of `beamcoder_util.h` (not
among the sources), which calls `rejectStatus` with the place of the macro and
returns from the enclosing function unless the result is `BEAMCODER_SUCCESS`
("if the background phase reported a non-success status, or the scheduling
context itself failed, the future is rejected").  The Boolean tells whether it
returns. -/
def REJECT_STATUS (k : BeamCodes) (host : Host) (file : String) (line : Nat) (w : World) :
    Bool × World :=
  let r := rejectStatus k host file line w
  (decide (r.1 ≠ BEAMCODER_SUCCESS), r.2)

/-- Modelled from the spec: the macro `REJECT_RETURN` of `beamcoder_util.h`: as
`REJECT_STATUS`, in a function that returns the promise. -/
def REJECT_RETURN (k : BeamCodes) (host : Host) (file : String) (line : Nat) (w : World) :
    Bool × World :=
  REJECT_STATUS k host file line w

/-- Modelled from the spec: the macro `REJECT_ERROR_RETURN(msg, stat)` of
`beamcoder_util.h`: it stores the message and the status in the carrier and then
does `REJECT_RETURN` ("rejects immediately without scheduling background
work"). -/
def REJECT_ERROR_RETURN (k : BeamCodes) (host : Host) (file : String) (line : Nat)
    (msg : String) (stat : Int) (w : World) : Bool × World :=
  REJECT_RETURN k host file line { w with c := { w.c with errorMsg := msg, status := stat } }

/-- `avErrorMsg`. -/
def avErrorMsg (lib : CodecLib) (base : String) (avError : Int) : String :=
  let r := lib.av_strerror avError
  let errMsg := if r.1 < 0 then "Unable to create AV error string." else r.2
  base ++ errMsg

/-- `encoderExecute`. -/
def encoderExecute (k : BeamCodes) (lib : CodecLib) (w : World) : World :=
  let w1 := w.emit (.avcodec_find_decoder_by_name w.c.codecName)
  match lib.avcodec_find_decoder_by_name w.c.codecName with
  | none =>
    { w1 with c := { w1.c with status := k.BEAMCODER_ERROR_ALLOC_ENCODER,
                               errorMsg := "Failed to find an encoder from it's name." } }
  | some codec =>
    let w2 := w1.emit (.avcodec_alloc_context3 codec)
    let w3 : World := { w2 with c := { w2.c with encoder := lib.avcodec_alloc_context3 codec } }
    match w3.c.encoder with
    | none =>
      { w3 with c := { w3.c with status := k.BEAMCODER_ERROR_ALLOC_ENCODER,
                                 errorMsg := "Problem allocating encoder context." } }
    | some ctx =>
      let w4 := w3.emit (.avcodec_open2 ctx codec)
      let ret := lib.avcodec_open2 ctx codec
      if ret ≠ 0 then
        { w4 with c := { w4.c with status := k.BEAMCODER_ERROR_ALLOC_ENCODER,
                                   errorMsg := avErrorMsg lib "Problem allocating encoder: " ret } }
      else w4

/-- The statement that follows a `REJECT_...` macro: the function returns (`ret`)
when the macro says so and goes on (`next`) otherwise. -/
def unlessRejected {α : Type} (r : Bool × World) (ret : World → α) (next : World → α) : α :=
  if r.1 then ret r.2 else next r.2

/-- `encoderComplete`. -/
def encoderComplete (k : BeamCodes) (host : Host) (file : String) (asyncStatus : napi_status)
    (w : World) : World :=
  let w0 : World :=
    if asyncStatus ≠ napi_ok then
      { w with c := { w.c with status := asyncStatus.toInt,
                               errorMsg := "Encoder allocator failed to complete." } }
    else w
  unlessRejected (REJECT_STATUS k host file 56 w0) id fun w1 =>
  unlessRejected (REJECT_STATUS k host file 59
    (w1.setStatus host.napi_create_object.toInt)) id fun w2 =>
  unlessRejected (REJECT_STATUS k host file 62
    (w2.setStatus (host.napi_create_string_utf8 "encoder").toInt)) id fun w3 =>
  unlessRejected (REJECT_STATUS k host file 64
    (w3.setStatus (host.napi_set_named_property "type").toInt)) id fun w4 =>
  let value := Slot.external w4.c.encoder
  unlessRejected (REJECT_STATUS k host file 67
    (w4.setStatus host.napi_create_external.toInt)) id fun w5 =>
  let w6 : World := { w5 with c := { w5.c with encoder := none } }
  unlessRejected (REJECT_STATUS k host file 70
    (w6.setStatus (host.napi_set_named_property "_encoder").toInt)) id fun w7 =>
  tidyCarrier (w7.emit (.napi_resolve_deferred w7.c._deferred
    [("type", .string "encoder"), ("_encoder", value)]))

/-- The longest run of whole characters at the head of `cs` whose UTF-8 encoding
takes at most `n` bytes. -/
def utf8Take : Nat → List Char → List Char
  | _, [] => []
  | n, ch :: rest => if ch.utf8Size ≤ n then ch :: utf8Take (n - ch.utf8Size) rest else []

/-- `napi_get_value_string_utf8` into a buffer of `bufsize` bytes: the string,
cut to the whole characters that fit before the closing NUL, and the number of
bytes copied.  A value that is not a string leaves `buf` and `len` as given. -/
def napi_get_value_string_utf8_buf (v : JsValue) (bufsize : Nat) (buf : String) (len : Nat) :
    napi_status × String × Nat :=
  match v with
  | .string s =>
    let t := String.mk (utf8Take (bufsize - 1) s.data)
    (napi_ok, t, t.utf8ByteSize)
  | _ => (napi_string_expected, buf, len)

/-- `encoder`, called with the arguments `info`: the promise it returns and the
world it leaves.  The name is read into the block that `malloc` hands out for
`codecNameLen + 1` bytes, with `codecNameLen` as the constructor left it; the
call writes the bytes of the name, at most 63, and a closing NUL, whatever the
size of the block, and `codecName` is then the C string in the block.  (For the
two macro calls that span two lines the line is that of the first.) -/
def encoder (k : BeamCodes) (host : Host) (lib : CodecLib) (file : String)
    (info : List JsValue) : Nat × World :=
  let p := host.napi_create_promise
  let promise := p.2.2
  let ret : World → Nat × World := fun w => (promise, w)
  let w0 : World :=
    { c := { encoderCarrier.new with status := p.1.toInt, _deferred := p.2.1 },
      trace := [.napi_create_promise] }
  unlessRejected (REJECT_RETURN k host file 87 w0) ret fun w1 =>
  let argc := info.length
  let args0 := info.getD 0 .undefined
  unlessRejected (REJECT_RETURN k host file 93
    (w1.setStatus host.napi_get_cb_info.toInt)) ret fun w2 =>
  unlessRejected (if argc ≠ 1 then
      REJECT_ERROR_RETURN k host file 96 "Encoder requires a single options object."
        k.BEAMCODER_INVALID_ARGS w2
    else (false, w2)) ret fun w3 =>
  let type := napi_typeof args0
  unlessRejected (REJECT_RETURN k host file 101 (w3.setStatus napi_ok.toInt)) ret fun w4 =>
  let isArray := napi_is_array args0
  unlessRejected (REJECT_RETURN k host file 103 (w4.setStatus napi_ok.toInt)) ret fun w5 =>
  unlessRejected (if type ≠ .napi_object || isArray = true then
      REJECT_ERROR_RETURN k host file 105
        "Encoder must be configured with a single parameter, an options object."
        k.BEAMCODER_INVALID_ARGS w5
    else (false, w5)) ret fun w6 =>
  let hasName := napi_has_named_property args0 "name"
  unlessRejected (REJECT_RETURN k host file 110 (w6.setStatus hasName.1.toInt)) ret fun w7 =>
  let hasID := napi_has_named_property args0 "codecID"
  unlessRejected (REJECT_RETURN k host file 112 (w7.setStatus hasID.1.toInt)) ret fun w8 =>
  unlessRejected (if !(hasName.2 || hasID.2) then
      REJECT_ERROR_RETURN k host file 115
        "Decoder must be identified with a 'codecID' or a 'name'."
        k.BEAMCODER_INVALID_ARGS w8
    else (false, w8)) ret fun w9 =>
  unlessRejected
    (if hasName.2 then
      let value := napi_get_named_property args0 "name"
      unlessRejected (REJECT_RETURN k host file 121 (w9.setStatus value.1.toInt))
        (fun w => (true, w)) fun wa =>
      let block := host.malloc (wa.c.codecNameLen + 1)
      let s := napi_get_value_string_utf8_buf value.2 64 wa.c.codecName wa.c.codecNameLen
      if s.1 = napi_ok ∧ block < s.2.2 + 1 then
        (true, wa.emit (.write_past_block block (s.2.2 + 1)))
      else
      REJECT_RETURN k host file 125
        { wa with c := { wa.c with status := s.1.toInt, codecName := cstr s.2.1,
                                   codecNameLen := s.2.2 } }
    else
      let value := napi_get_named_property args0 "codecID"
      unlessRejected (REJECT_RETURN k host file 129 (w9.setStatus value.1.toInt))
        (fun w => (true, w)) fun wa =>
      let id := napi_get_value_int32 value.2 0
      unlessRejected (REJECT_RETURN k host file 131 (wa.setStatus id.1.toInt))
        (fun w => (true, w)) fun wb =>
      let name := lib.avcodec_get_name id.2
      (false, { wb with c := { wb.c with codecName := name,
                                         codecNameLen := name.utf8ByteSize } }))
    ret fun w10 =>
  unlessRejected (REJECT_RETURN k host file 137
    (w10.setStatus (host.napi_create_string_utf8 "Encoder").toInt)) ret fun w11 =>
  let work := host.napi_create_async_work
  let w12 : World :=
    { c := { w11.c with status := work.1.toInt,
                        _request := if work.1 = napi_ok then some work.2 else w11.c._request },
      trace := w11.trace ++ [.napi_create_async_work] }
  unlessRejected (REJECT_RETURN k host file 140 w12) ret fun w13 =>
  let w14 := (w13.emit (.napi_queue_async_work w13.c._request)).setStatus
    host.napi_queue_async_work.toInt
  unlessRejected (REJECT_RETURN k host file 142 w14) ret ret

/-- Whether a call settles a future. -/
def Event.settles : Event → Bool
  | .napi_reject_deferred _ _ _ => true
  | .napi_resolve_deferred _ _ => true
  | _ => false

/-- Whether a call schedules background work. -/
def Event.schedules : Event → Bool
  | .napi_create_async_work => true
  | .napi_queue_async_work _ => true
  | _ => false

/-! ## Judgements on traces -/

/-- The calls by which `tidyCarrier` and the destructor release what a carrier
holds, before the carrier itself is deleted. -/
def releases (c : encoderCarrier) : List Event :=
  (match c.passthru with
    | some r => [Event.napi_delete_reference r]
    | none => []) ++
  (match c._request with
    | some r => [Event.napi_delete_async_work r]
    | none => []) ++
  (match c.encoder with
    | some ctx => encoderFinalizer ctx
    | none => [])

/-- The trace `t` continues `t0` by exactly one call that settles a future,
then calls that neither settle a future nor delete the carrier, then the one
`delete` of the carrier, and nothing after it. -/
def SettledOnce (t0 t : List Event) : Prop :=
  ∃ s rest, t = t0 ++ s :: (rest ++ [Event.delete]) ∧ s.settles = true ∧
    ∀ e ∈ rest, e.settles = false ∧ e ≠ Event.delete

/-! ## Sample values for the encoder allocator -/

/-- Sample status codes. -/
def sampleCodes : BeamCodes := ⟨5000, 5001, 5005⟩

/-- A host runtime that answers every call with `napi_ok`, with an allocator whose
smallest block has 24 bytes. -/
def sampleHost : Host where
  napi_create_promise := (napi_ok, 1, 2)
  napi_get_cb_info := napi_ok
  napi_create_string_utf8 := fun _ => napi_ok
  napi_create_async_work := (napi_ok, 3)
  napi_queue_async_work := napi_ok
  napi_create_object := napi_ok
  napi_set_named_property := fun _ => napi_ok
  napi_create_external := napi_ok
  napi_get_last_error_info := none
  malloc := fun n => max n 24

/-- A native library that knows the codec `h264` alone, allocates context 7 for
it, and opens it. -/
def sampleCodecLib : CodecLib where
  avcodec_find_decoder_by_name := fun n => if n = "h264" then some 27 else none
  avcodec_alloc_context3 := fun _ => some 7
  avcodec_open2 := fun _ _ => 0
  avcodec_get_name := fun id => if id = 27 then "h264" else "unknown_codec"
  av_strerror := fun _ => (0, "Invalid data found when processing input")

/-- As `sampleCodecLib`, but the open call fails. -/
def sampleFailingLib : CodecLib := { sampleCodecLib with avcodec_open2 := fun _ _ => -22 }

/-! # Properties -/

set_option maxRecDepth 100000

/-! ## Rules of the judgements -/

section logic
variable {σ α : Type} {I : σ → Prop}

theorem seq_nil_eq (c : σ) : seq ([] : List (Step σ)) c = (napi_ok, c) := rfl

theorem seq_cons_eq (s : Step σ) (rest : List (Step σ)) (c : σ) :
    seq (s :: rest) c = if PASS_STATUS (s c).1 then s c else seq rest (s c).2 := rfl

theorem pass_status_iff (st : napi_status) : PASS_STATUS st = false ↔ st = napi_ok := by
  cases st <;> simp [PASS_STATUS]

theorem seq_cons_ok {s : Step σ} {rest : List (Step σ)} {c : σ}
    (h : (seq (s :: rest) c).1 = napi_ok) :
    (s c).1 = napi_ok ∧ seq (s :: rest) c = seq rest (s c).2 := by
  rw [seq_cons_eq] at h ⊢
  by_cases hp : PASS_STATUS (s c).1 = true
  · rw [if_pos hp] at h
    rw [h] at hp
    exact absurd hp (by decide)
  · rw [if_neg hp]
    exact ⟨(pass_status_iff _).1 (by simpa using hp), rfl⟩

section direct
variable {P : σ → α}

theorem frame_seq_nil : Frame I P (seq []) := fun _ h => ⟨h, rfl⟩

theorem frame_seq_cons {s : Step σ} {rest : List (Step σ)}
    (hs : Frame I P s) (hr : Frame I P (seq rest)) : Frame I P (seq (s :: rest)) := by
  intro c hc
  have h1 := hs c hc
  rw [seq_cons_eq]
  split
  · exact h1
  · have h2 := hr (s c).2 h1.1
    exact ⟨h2.1, h2.2.trans h1.2⟩

theorem frame_ifThen {b : Bool} {s : Step σ} (hs : Frame I P s) : Frame I P (ifThen b s) := by
  intro c hc
  cases b
  · exact ⟨hc, rfl⟩
  · exact hs c hc

theorem frame_ifThen_false {s : Step σ} : Frame I P (ifThen false s) :=
  fun _ hc => ⟨hc, rfl⟩

theorem frame_ifState {p : σ → Bool} {s : Step σ} (hs : Frame I P s) :
    Frame I P (ifState p s) := by
  intro c hc
  unfold ifState
  split
  · exact hs c hc
  · exact ⟨hc, rfl⟩

theorem frame_ifState_skip {p : σ → Bool} {s : Step σ} (hp : ∀ c, I c → p c = false) :
    Frame I P (ifState p s) := by
  intro c hc
  unfold ifState
  rw [hp c hc]
  exact ⟨hc, rfl⟩

theorem frame_store {β : Type} {f : σ → napi_status × β} {put : σ → β → σ}
    (hI : ∀ c x, I c → I (put c x)) (hP : ∀ c x, P (put c x) = P c) :
    Frame I P (fun c => store (f c) (put c)) :=
  fun c hc => ⟨hI c _ hc, hP c _⟩

end direct

variable {ι : Type} {β : ι → Type} {obs : (g : ι) → σ → β g}

theorem writes_seq_nil : Writes I obs [] (seq []) := fun _ h => ⟨h, fun _ _ => rfl⟩

theorem writes_seq_cons {F F' : List ι} {s : Step σ} {rest : List (Step σ)}
    (hs : Writes I obs F s) (hr : Writes I obs F' (seq rest)) :
    Writes I obs (F ++ F') (seq (s :: rest)) := by
  intro c hc
  have h1 := hs c hc
  rw [seq_cons_eq]
  split
  · exact ⟨h1.1, fun g hg => h1.2 g (fun h => hg (List.mem_append_left _ h))⟩
  · have h2 := hr (s c).2 h1.1
    exact ⟨h2.1, fun g hg => (h2.2 g (fun h => hg (List.mem_append_right _ h))).trans
      (h1.2 g (fun h => hg (List.mem_append_left _ h)))⟩

theorem writes_seq {Fs : List (List ι)} {steps : List (Step σ)}
    (h : List.Forall₂ (Writes I obs) Fs steps) : Writes I obs Fs.flatten (seq steps) := by
  induction h with
  | nil => exact writes_seq_nil
  | cons hs _ ih => exact writes_seq_cons hs ih

theorem writes_seq_cons1 {f : ι} {F' : List ι} {s : Step σ} {rest : List (Step σ)}
    (hs : Writes I obs [f] s) (hr : Writes I obs F' (seq rest)) :
    Writes I obs (f :: F') (seq (s :: rest)) := writes_seq_cons hs hr

theorem writes_ifThen {b : Bool} {F : List ι} {s : Step σ} (hs : Writes I obs F s) :
    Writes I obs (onlyIf b F) (ifThen b s) := by
  intro c hc
  cases b
  · exact ⟨hc, fun _ _ => rfl⟩
  · exact hs c hc

theorem writes_ifState {b : Bool} {p : σ → Bool} {F : List ι} {s : Step σ}
    (hp : ∀ c, I c → p c = b) (hs : Writes I obs F s) :
    Writes I obs (onlyIf b F) (ifState p s) := by
  intro c hc
  unfold ifState
  rw [hp c hc]
  cases b
  · exact ⟨hc, fun _ _ => rfl⟩
  · exact hs c hc

theorem writes_inv {F : List ι} {s : Step σ} (h : Writes I obs F s) (c : σ) (hc : I c) :
    I (s c).2 := (h c hc).1

theorem frame_of_writes {F : List ι} {s : Step σ} {f : ι} {P : σ → α}
    (hP : ∀ c c', obs f c' = obs f c → P c' = P c)
    (h : Writes I obs F s) (hf : f ∉ F) : Frame I P s :=
  fun c hc => ⟨(h c hc).1, hP _ _ ((h c hc).2 f hf)⟩

theorem rel_seq_at {Fs : List (List ι)} {steps : List (Step σ)}
    (hW : List.Forall₂ (Writes I obs) Fs steps) {f : ι} {P : σ → α}
    (hP : ∀ c c', obs f c' = obs f c → P c' = P c) {R : α → α → Prop}
    (i : Nat) {s : Step σ} (hs : steps[i]? = some s) (hR : Rel I P R s)
    (hbefore : ∀ F ∈ Fs.take i, f ∉ F) (hafter : ∀ F ∈ Fs.drop (i + 1), f ∉ F) :
    Rel I P R (seq steps) := by
  induction hW generalizing i with
  | nil => simp at hs
  | @cons F s0 Fs' rest h0 hrest ih =>
    intro c hc hok
    obtain ⟨hok0, heq⟩ := seq_cons_ok hok
    rw [heq] at hok ⊢
    cases i with
    | zero =>
      simp only [List.getElem?_cons_zero, Option.some.injEq] at hs
      subst hs
      have hfl : f ∉ Fs'.flatten := by
        intro hm
        obtain ⟨F', hF', hfF'⟩ := List.mem_flatten.1 hm
        exact hafter F' (by simpa using hF') hfF'
      have hfr := frame_of_writes hP (writes_seq hrest) hfl (s0 c).2 (h0 c hc).1
      rw [hfr.2]
      exact hR c hc hok0
    | succ j =>
      have hf0 : f ∉ F := hbefore F (by simp)
      have h1 := h0 c hc
      have hP0 : P (s0 c).2 = P c := hP _ _ (h1.2 f hf0)
      rw [← hP0]
      refine ih j (by simpa using hs) (fun F' hF' => hbefore F' ?_) (fun F' hF' => hafter F' ?_)
        (s0 c).2 h1.1 hok
      · simp only [List.take_succ_cons, List.mem_cons]
        exact Or.inr hF'
      · simpa using hF'

theorem rel_ifThen {P : σ → α} {R : α → α → Prop} {s : Step σ} (hs : Rel I P R s) :
    Rel I P R (ifThen true s) := hs

theorem rel_ifState {P : σ → α} {R : α → α → Prop} {p : σ → Bool} {s : Step σ}
    (hp : ∀ c, I c → p c = true) (hs : Rel I P R s) : Rel I P R (ifState p s) := by
  intro c hc
  unfold ifState
  rw [hp c hc]
  exact hs c hc

theorem rel_store {β' : Type} {P : σ → α} {R : α → α → Prop} {r : σ → napi_status × β'}
    {put : σ → β' → σ} (h : ∀ c, I c → (r c).1 = napi_ok → R (P c) (P (put c (r c).2))) :
    Rel I P R (fun c => store (r c) (put c)) := h

end logic

/-! ### Frame rules for the write-path idioms -/

section idioms
variable {α : Type} {I : AVCodecContext → Prop} {P : AVCodecContext → α}

theorem frame_flagStep {props : JsValue} {name : String} {mask : Nat}
    {word : AVCodecContext → Nat} {put : AVCodecContext → Nat → AVCodecContext}
    (hI : ∀ c x, I c → I (put c x)) (hP : ∀ c x, P (put c x) = P c) :
    Frame I P (flagStep props name mask word put) := by
  intro c hc
  unfold flagStep
  simp only []
  split
  · exact ⟨hc, rfl⟩
  · split
    · exact ⟨hI c _ hc, hP c _⟩
    · exact ⟨hc, rfl⟩

theorem frame_floatStep {props : JsValue} {name : String} {sentinel : Dbl}
    {put : AVCodecContext → Dbl → AVCodecContext}
    (hI : ∀ c x, I c → I (put c x)) (hP : ∀ c x, P (put c x) = P c) :
    Frame I P (floatStep props name sentinel put) := by
  intro c hc
  unfold floatStep
  simp only []
  split
  · exact ⟨hc, rfl⟩
  · split
    · exact ⟨hI c _ hc, hP c _⟩
    · exact ⟨hc, rfl⟩

theorem frame_stringStep {props : JsValue} {name : String} {parse : String → Int}
    {put : AVCodecContext → Int → AVCodecContext}
    (hI : ∀ c x, I c → I (put c x)) (hP : ∀ c x, P (put c x) = P c) :
    Frame I P (stringStep props name parse put) := by
  intro c hc
  unfold stringStep
  simp only []
  split
  · exact ⟨hc, rfl⟩
  · split
    · exact ⟨hc, rfl⟩
    · exact ⟨hI c _ hc, hP c _⟩

theorem frame_matrixStep {props : JsValue} {encoding : Bool} {name : String}
    {put : AVCodecContext → Option (List Int) → AVCodecContext}
    (hI : ∀ c x, I c → I (put c x)) (hP : ∀ c x, P (put c x) = P c) :
    Frame I P (matrixStep props encoding name put) := by
  intro c hc
  unfold matrixStep
  simp only []
  split
  · split
    · exact ⟨hc, rfl⟩
    · split
      · exact ⟨hI c _ hc, hP c _⟩
      · exact ⟨hc, rfl⟩
  · split
    · exact ⟨hc, rfl⟩
    · split
      · exact ⟨hI c _ hc, hP c _⟩
      · exact ⟨hc, rfl⟩

theorem frame_sliceOffsetStep {props : JsValue}
    (hI : ∀ (c : AVCodecContext) n o, I c → I { c with slice_count := n, slice_offset := o })
    (hP : ∀ (c : AVCodecContext) n o, P { c with slice_count := n, slice_offset := o } = P c) :
    Frame I P (sliceOffsetStep props) := by
  intro c hc
  unfold sliceOffsetStep
  simp only []
  split
  · exact ⟨hc, rfl⟩
  · split
    · split
      · exact ⟨hc, rfl⟩
      · exact ⟨hI c _ _ hc, hP c _ _⟩
    · split
      · exact ⟨hc, rfl⟩
      · split
        · exact ⟨hI c _ _ hc, hP c _ _⟩
        · exact ⟨hc, rfl⟩

theorem frame_rcOverrideStep {props : JsValue}
    (hI : ∀ (c : AVCodecContext) n o, I c →
      I { c with rc_override_count := n, rc_override := o })
    (hP : ∀ (c : AVCodecContext) n o,
      P { c with rc_override_count := n, rc_override := o } = P c) :
    Frame I P (rcOverrideStep props) := by
  intro c hc
  unfold rcOverrideStep
  simp only []
  split
  · exact ⟨hc, rfl⟩
  · split
    · split
      · exact ⟨hc, rfl⟩
      · exact ⟨hI c _ _ hc, hP c _ _⟩
    · exact ⟨hc, rfl⟩

end idioms

/-! ## The footprint of the write path -/

theorem Fld.ofIndex_index (f : Fld) : Fld.ofIndex f.index = f := by
  cases f <;> rfl

theorem Fld.index_ne {f g : Fld} (h : g ≠ f) : g.index ≠ f.index :=
  fun hi => h (by rw [← Fld.ofIndex_index g, hi, Fld.ofIndex_index])

theorem Fld.get_of_set {c c' : AVCodecContext} {f g : Fld} {x : Val}
    (h : fieldValues c' = (fieldValues c).set f.index x) (hg : g ∉ [f]) :
    Fld.get g c' = Fld.get g c := by
  have hne : f.index ≠ g.index := fun hi => Fld.index_ne (fun e => hg (by simp [e])) hi.symm
  unfold Fld.get
  rw [h, List.getD_eq_getElem?_getD, List.getD_eq_getElem?_getD, List.getElem?_set_ne hne]

theorem Fld.get_of_set2 {c c' : AVCodecContext} {f1 f2 g : Fld} {x1 x2 : Val}
    (h : fieldValues c' = ((fieldValues c).set f1.index x1).set f2.index x2)
    (hg : g ∉ [f1, f2]) : Fld.get g c' = Fld.get g c := by
  have hne1 : f1.index ≠ g.index := fun hi => Fld.index_ne (fun e => hg (by simp [e])) hi.symm
  have hne2 : f2.index ≠ g.index := fun hi => Fld.index_ne (fun e => hg (by simp [e])) hi.symm
  unfold Fld.get
  rw [h, List.getD_eq_getElem?_getD, List.getD_eq_getElem?_getD, List.getElem?_set_ne hne2,
    List.getElem?_set_ne hne1]

section setleaves
variable {bv ba : Bool}

theorem mediaIs_of_type {c c' : AVCodecContext} (h : c'.codec_type = c.codec_type)
    (hc : MediaIs bv ba c) : MediaIs bv ba c' := by
  unfold MediaIs at hc ⊢
  rw [h]
  exact hc

theorem writes_store {β' : Type} (f : Fld) {mk : β' → Val} {r : AVCodecContext → napi_status × β'}
    {put : AVCodecContext → β' → AVCodecContext}
    (hput : ∀ c v, fieldValues (put c v) = (fieldValues c).set f.index (mk v))
    (hT : ∀ c v, (put c v).codec_type = c.codec_type) :
    Writes (MediaIs bv ba) Fld.get [f] (fun c => store (r c) (put c)) :=
  fun c hc => ⟨mediaIs_of_type (hT c _) hc, fun _ hg => Fld.get_of_set (hput c _) hg⟩

theorem writes_flagStep (f : Fld) {mk : Nat → Val} {props : JsValue} {name : String} {mask : Nat}
    {word : AVCodecContext → Nat} {put : AVCodecContext → Nat → AVCodecContext}
    (hput : ∀ c v, fieldValues (put c v) = (fieldValues c).set f.index (mk v))
    (hT : ∀ c v, (put c v).codec_type = c.codec_type) :
    Writes (MediaIs bv ba) Fld.get [f] (flagStep props name mask word put) := by
  intro c hc
  unfold flagStep
  simp only []
  split
  · exact ⟨hc, fun _ _ => rfl⟩
  · split
    · exact ⟨mediaIs_of_type (hT c _) hc, fun _ hg => Fld.get_of_set (hput c _) hg⟩
    · exact ⟨hc, fun _ _ => rfl⟩

theorem writes_floatStep (f : Fld) {mk : Dbl → Val} {props : JsValue} {name : String}
    {sentinel : Dbl} {put : AVCodecContext → Dbl → AVCodecContext}
    (hput : ∀ c v, fieldValues (put c v) = (fieldValues c).set f.index (mk v))
    (hT : ∀ c v, (put c v).codec_type = c.codec_type) :
    Writes (MediaIs bv ba) Fld.get [f] (floatStep props name sentinel put) := by
  intro c hc
  unfold floatStep
  simp only []
  split
  · exact ⟨hc, fun _ _ => rfl⟩
  · split
    · exact ⟨mediaIs_of_type (hT c _) hc, fun _ hg => Fld.get_of_set (hput c _) hg⟩
    · exact ⟨hc, fun _ _ => rfl⟩

theorem writes_stringStep (f : Fld) {mk : Int → Val} {props : JsValue} {name : String}
    {parse : String → Int} {put : AVCodecContext → Int → AVCodecContext}
    (hput : ∀ c v, fieldValues (put c v) = (fieldValues c).set f.index (mk v))
    (hT : ∀ c v, (put c v).codec_type = c.codec_type) :
    Writes (MediaIs bv ba) Fld.get [f] (stringStep props name parse put) := by
  intro c hc
  unfold stringStep
  simp only []
  split
  · exact ⟨hc, fun _ _ => rfl⟩
  · split
    · exact ⟨hc, fun _ _ => rfl⟩
    · exact ⟨mediaIs_of_type (hT c _) hc, fun _ hg => Fld.get_of_set (hput c _) hg⟩

theorem writes_matrixStep (f : Fld) {mk : Option (List Int) → Val} {props : JsValue}
    {encoding : Bool} {name : String}
    {put : AVCodecContext → Option (List Int) → AVCodecContext}
    (hput : ∀ c v, fieldValues (put c v) = (fieldValues c).set f.index (mk v))
    (hT : ∀ c v, (put c v).codec_type = c.codec_type) :
    Writes (MediaIs bv ba) Fld.get [f] (matrixStep props encoding name put) := by
  intro c hc
  unfold matrixStep
  simp only []
  split
  · split
    · exact ⟨hc, fun _ _ => rfl⟩
    · split
      · exact ⟨mediaIs_of_type (hT c _) hc, fun _ hg => Fld.get_of_set (hput c _) hg⟩
      · exact ⟨hc, fun _ _ => rfl⟩
  · split
    · exact ⟨hc, fun _ _ => rfl⟩
    · split
      · exact ⟨mediaIs_of_type (hT c _) hc, fun _ hg => Fld.get_of_set (hput c _) hg⟩
      · exact ⟨hc, fun _ _ => rfl⟩

theorem writes_sliceOffsetStep {props : JsValue} :
    Writes (MediaIs bv ba) Fld.get [Fld.slice_count, Fld.slice_offset]
      (sliceOffsetStep props) := by
  have key : ∀ (c : AVCodecContext) n o, MediaIs bv ba c →
      MediaIs bv ba { c with slice_count := n, slice_offset := o } ∧
      ∀ g, g ∉ [Fld.slice_count, Fld.slice_offset] →
        Fld.get g { c with slice_count := n, slice_offset := o } = Fld.get g c :=
    fun c n o hc => ⟨mediaIs_of_type rfl hc, fun _ hg =>
      @Fld.get_of_set2 c _ Fld.slice_count Fld.slice_offset _ (Val.int n) (Val.cells o) rfl hg⟩
  intro c hc
  unfold sliceOffsetStep
  simp only []
  split
  · exact ⟨hc, fun _ _ => rfl⟩
  · split
    · split
      · exact ⟨hc, fun _ _ => rfl⟩
      · exact key c _ _ hc
    · split
      · exact ⟨hc, fun _ _ => rfl⟩
      · split
        · exact key c _ _ hc
        · exact ⟨hc, fun _ _ => rfl⟩

theorem writes_rcOverrideStep {props : JsValue} :
    Writes (MediaIs bv ba) Fld.get [Fld.rc_override_count, Fld.rc_override]
      (rcOverrideStep props) := by
  have key : ∀ (c : AVCodecContext) n o, MediaIs bv ba c →
      MediaIs bv ba { c with rc_override_count := n, rc_override := o } ∧
      ∀ g, g ∉ [Fld.rc_override_count, Fld.rc_override] →
        Fld.get g { c with rc_override_count := n, rc_override := o } = Fld.get g c :=
    fun c n o hc => ⟨mediaIs_of_type rfl hc, fun _ hg =>
      @Fld.get_of_set2 c _ Fld.rc_override_count Fld.rc_override _ (Val.int n) (Val.overrides o) rfl hg⟩
  intro c hc
  unfold rcOverrideStep
  simp only []
  split
  · exact ⟨hc, fun _ _ => rfl⟩
  · split
    · split
      · exact ⟨hc, fun _ _ => rfl⟩
      · exact key c _ _ hc
    · exact ⟨hc, fun _ _ => rfl⟩

end setleaves

section
attribute [local irreducible] seq ifThen ifState store flagStep floatStep stringStep matrixStep
  sliceOffsetStep rcOverrideStep Writes beam_get_int32 beam_get_int64 beam_get_enum
  beam_get_rational beam_get_bool beam_get_double beam_get_string_utf8 onlyIf

theorem setVideo_writes (lib : AVLib) (props : JsValue) (encoding bv ba : Bool) :
    List.Forall₂ (Writes (MediaIs bv ba) Fld.get) (setVideoFoot encoding)
      (setVideoSteps lib props encoding) := by
  unfold setVideoFoot setVideoSteps
  repeat' first
    | apply List.Forall₂.cons
    | apply List.Forall₂.nil
    | apply writes_ifThen
    | apply writes_seq_cons1
    | apply writes_seq_nil
    | exact writes_store _ (fun _ _ => rfl) (fun _ _ => rfl)
    | exact writes_flagStep _ (fun _ _ => rfl) (fun _ _ => rfl)
    | exact writes_floatStep _ (fun _ _ => rfl) (fun _ _ => rfl)
    | exact writes_stringStep _ (fun _ _ => rfl) (fun _ _ => rfl)
    | exact writes_matrixStep _ (fun _ _ => rfl) (fun _ _ => rfl)
    | exact writes_sliceOffsetStep

theorem setAudio_writes (lib : AVLib) (props : JsValue) (encoding bv ba : Bool) :
    List.Forall₂ (Writes (MediaIs bv ba) Fld.get) (setAudioFoot encoding)
      (setAudioSteps lib props encoding) := by
  unfold setAudioFoot setAudioSteps
  repeat' first
    | apply List.Forall₂.cons
    | apply List.Forall₂.nil
    | apply writes_ifThen
    | exact writes_store _ (fun _ _ => rfl) (fun _ _ => rfl)
    | exact writes_stringStep _ (fun _ _ => rfl) (fun _ _ => rfl)

theorem setSteps_writes (lib : AVLib) (props : JsValue) (encoding bv ba : Bool) :
    List.Forall₂ (Writes (MediaIs bv ba) Fld.get) (setFoot encoding bv ba)
      (setSteps lib props encoding) := by
  unfold setFoot setSteps
  repeat' first
    | apply List.Forall₂.cons
    | apply List.Forall₂.nil
    | exact writes_ifState (fun _ hc => hc.1) (writes_seq (setVideo_writes _ _ _ _ _))
    | exact writes_ifState (fun _ hc => hc.2) (writes_seq (setAudio_writes _ _ _ _ _))
    | apply writes_ifThen
    | apply writes_seq_cons1
    | apply writes_seq_nil
    | exact writes_store _ (fun _ _ => rfl) (fun _ _ => rfl)
    | exact writes_flagStep _ (fun _ _ => rfl) (fun _ _ => rfl)
    | exact writes_floatStep _ (fun _ _ => rfl) (fun _ _ => rfl)
    | exact writes_rcOverrideStep

end

/-! ## The footprint of the read path -/

theorem hasOwn_setOwn_ne {ps : List (String × JsValue)} {n k : String} (v : JsValue)
    (h : k ≠ n) : hasOwn (setOwn ps n v) k = hasOwn ps k := by
  induction ps with
  | nil => simp [setOwn, hasOwn, Ne.symm h]
  | cons p ps ih =>
    obtain ⟨a, w⟩ := p
    by_cases ha : a = n
    · subst ha
      simp [setOwn, hasOwn, Ne.symm h]
    · by_cases hk : a = k
      · subst hk
        simp [setOwn, hasOwn, ha]
      · simp [setOwn, hasOwn, ha, hk, ih]

theorem getOwn_setOwn_ne {ps : List (String × JsValue)} {n k : String} (v : JsValue)
    (h : k ≠ n) : getOwn (setOwn ps n v) k = getOwn ps k := by
  induction ps with
  | nil => simp [setOwn, getOwn, Ne.symm h]
  | cons p ps ih =>
    obtain ⟨a, w⟩ := p
    by_cases ha : a = n
    · subst ha
      simp [setOwn, getOwn, Ne.symm h]
    · by_cases hk : a = k
      · subst hk
        simp [setOwn, getOwn, ha]
      · simp [setOwn, getOwn, ha, hk, ih]

theorem hasOwn_setOwn_self (ps : List (String × JsValue)) (n : String) (v : JsValue) :
    hasOwn (setOwn ps n v) n = true := by
  induction ps with
  | nil => simp [setOwn, hasOwn]
  | cons p ps ih =>
    obtain ⟨a, w⟩ := p
    by_cases ha : a = n
    · simp [setOwn, hasOwn, ha]
    · simp [setOwn, hasOwn, ha, ih]

theorem getOwn_setOwn_self (ps : List (String × JsValue)) (n : String) (v : JsValue) :
    getOwn (setOwn ps n v) n = v := by
  induction ps with
  | nil => simp [setOwn, getOwn]
  | cons p ps ih =>
    obtain ⟨a, w⟩ := p
    by_cases ha : a = n
    · simp [setOwn, getOwn, ha]
    · simp [setOwn, getOwn, ha, ih]

theorem writes_setProp (n : String) (v : JsValue) :
    Writes IsBag bagEntry [n] (fun t => napi_set_named_property t n v) := by
  rintro t ⟨ps, rfl⟩
  refine ⟨⟨_, rfl⟩, fun k hk => ?_⟩
  have hne : k ≠ n := fun e => hk (by simp [e])
  simp [napi_set_named_property, bagEntry, hasOwn_setOwn_ne v hne, getOwn_setOwn_ne v hne]

theorem rel_setProp (n : String) (v : JsValue) :
    Rel IsBag (bagEntry n) (fun _ new => new = some v)
      (fun t => napi_set_named_property t n v) := by
  rintro t ⟨ps, rfl⟩ _
  simp [napi_set_named_property, bagEntry, hasOwn_setOwn_self, getOwn_setOwn_self]

theorem writes_sliceOffsetProp (codec : AVCodecContext) :
    Writes IsBag bagEntry ["slice_offset"] (sliceOffsetProp codec) :=
  writes_setProp _ _

theorem writes_matrixProp (name : String) (matrix : Option (List Int)) :
    Writes IsBag bagEntry (onlyIf matrix.isSome [name]) (matrixProp name matrix) := by
  cases matrix with
  | none => exact fun t ht => ⟨ht, fun _ _ => rfl⟩
  | some m => exact writes_setProp _ _

theorem writes_rcOverrideProp (codec : AVCodecContext) :
    Writes IsBag bagEntry ["rc_override"] (rcOverrideProp codec) := by
  intro t ht
  unfold rcOverrideProp
  simp only []
  split
  · exact ⟨ht, fun _ _ => rfl⟩
  · exact writes_setProp _ _ t ht

section
attribute [local irreducible] seq ifThen Writes onlyIf napi_set_named_property sliceOffsetProp
  matrixProp rcOverrideProp

theorem getVideo_writes (lib : AVLib) (codec : AVCodecContext) (encoding : Bool) :
    List.Forall₂ (Writes IsBag bagEntry)
      (getVideoKeys encoding codec.intra_matrix.isSome codec.inter_matrix.isSome)
      (getVideoSteps lib codec encoding) := by
  unfold getVideoKeys getVideoSteps
  repeat' first
    | apply List.Forall₂.cons
    | apply List.Forall₂.nil
    | apply writes_ifThen
    | apply writes_seq_cons1
    | apply writes_seq_nil
    | exact writes_setProp _ _
    | exact writes_sliceOffsetProp _
    | exact writes_matrixProp _ _

theorem getAudio_writes (lib : AVLib) (codec : AVCodecContext) (encoding : Bool) :
    List.Forall₂ (Writes IsBag bagEntry) (getAudioKeys encoding)
      (getAudioSteps lib codec encoding) := by
  unfold getAudioKeys getAudioSteps
  repeat' first
    | apply List.Forall₂.cons
    | apply List.Forall₂.nil
    | apply writes_ifThen
    | exact writes_setProp _ _

theorem getSteps_writes (lib : AVLib) (codec : AVCodecContext) (encoding : Bool) :
    List.Forall₂ (Writes IsBag bagEntry)
      (getKeys encoding (decide (codec.codec_type = AVMEDIA_TYPE_VIDEO))
        (decide (codec.codec_type = AVMEDIA_TYPE_AUDIO))
        codec.intra_matrix.isSome codec.inter_matrix.isSome)
      (getSteps lib codec encoding) := by
  unfold getKeys getSteps
  repeat' first
    | apply List.Forall₂.cons
    | apply List.Forall₂.nil
    | exact writes_ifThen (writes_seq (getVideo_writes _ _ _))
    | exact writes_ifThen (writes_seq (getAudio_writes _ _ _))
    | apply writes_ifThen
    | apply writes_seq_cons1
    | apply writes_seq_nil
    | exact writes_setProp _ _
    | exact writes_rcOverrideProp _

end
/-! ## Flag statements -/

theorem hasOwn_false_getOwn {ps : List (String × JsValue)} {name : String}
    (h : hasOwn ps name = false) : getOwn ps name = .undefined := by
  induction ps with
  | nil => rfl
  | cons p ps ih =>
    obtain ⟨k, v⟩ := p
    unfold hasOwn at h
    unfold getOwn
    split at h
    · exact absurd h (by simp)
    · rename_i hk
      rw [if_neg hk]
      exact ih h

theorem flagStep_absent {ps : List (String × JsValue)} {name : String} {mask : Nat}
    {word : AVCodecContext → Nat} {put : AVCodecContext → Nat → AVCodecContext}
    (h : hasOwn ps name = false) (c : AVCodecContext) :
    flagStep (.object ps) name mask word put c = (napi_ok, c) := by
  simp [flagStep, beam_get_bool, napi_get_named_property, hasOwn_false_getOwn h,
    napi_get_value_bool, PASS_STATUS]

theorem frame_flagStep_absent {α : Type} {I : AVCodecContext → Prop} {P : AVCodecContext → α}
    {ps : List (String × JsValue)} {name : String} {mask : Nat}
    {word : AVCodecContext → Nat} {put : AVCodecContext → Nat → AVCodecContext}
    (h : hasOwn ps name = false) :
    Frame I P (flagStep (.object ps) name mask word put) := by
  intro c hc
  rw [flagStep_absent h]
  exact ⟨hc, rfl⟩

section
attribute [local irreducible] seq ifThen ifState store flagStep floatStep stringStep matrixStep
  sliceOffsetStep rcOverrideStep Frame beam_get_int32 beam_get_int64 beam_get_enum
  beam_get_rational beam_get_bool beam_get_double beam_get_string_utf8

theorem set_frame_flag_words (lib : AVLib) (ps : List (String × JsValue)) (encoding : Bool)
    (h : ∀ k ∈ allFlagKeys, hasOwn ps k = false) :
    Frame (fun _ => True) (fun c => (c.flags, c.flags2, c.slice_flags))
      (seq (setSteps lib (.object ps) encoding)) := by
  unfold setSteps
  repeat' first
    | apply frame_seq_cons
    | apply frame_seq_nil
    | apply frame_ifThen
    | apply frame_ifState
    | (unfold setVideoSteps)
    | (unfold setAudioSteps)
    | exact frame_flagStep_absent (h _ (by decide))
    | exact frame_store (fun _ _ hx => hx) (fun _ _ => rfl)
    | exact frame_floatStep (fun _ _ hx => hx) (fun _ _ => rfl)
    | exact frame_stringStep (fun _ _ hx => hx) (fun _ _ => rfl)
    | exact frame_matrixStep (fun _ _ hx => hx) (fun _ _ => rfl)
    | exact frame_sliceOffsetStep (fun _ _ _ hx => hx) (fun _ _ _ => rfl)
    | exact frame_rcOverrideStep (fun _ _ _ hx => hx) (fun _ _ _ => rfl)

end

theorem seq_append {σ : Type} (l1 l2 : List (Step σ)) (c : σ) :
    seq (l1 ++ l2) c = if PASS_STATUS (seq l1 c).1 then seq l1 c else seq l2 (seq l1 c).2 := by
  induction l1 generalizing c with
  | nil => simp [seq_nil_eq, PASS_STATUS]
  | cons s rest ih =>
    simp only [List.cons_append, seq_cons_eq]
    by_cases hp : PASS_STATUS (s c).1 = true
    · simp [hp]
    · simp only [hp]
      exact ih _

theorem not_pass_ok {σ : Type} (x : σ) : ¬ PASS_STATUS (napi_ok, x).1 = true := by
  simp [PASS_STATUS]

theorem beam_get_bool_object (ps : List (String × JsValue)) (name : String) (p v : Bool) :
    beam_get_bool (.object ps) name p v =
      match getOwn ps name with
      | .boolean b => (napi_ok, true, b)
      | _ => (napi_ok, false, v) := by
  simp only [beam_get_bool, napi_get_named_property]
  generalize getOwn ps name = x
  cases x <;> simp [napi_get_value_bool, PASS_STATUS]

theorem flagStep_object (ps : List (String × JsValue)) (name : String) (mask : Nat)
    (word : AVCodecContext → Nat) (put : AVCodecContext → Nat → AVCodecContext)
    (h3 : ∀ c, put c (word c) = c) (c : AVCodecContext) :
    flagStep (.object ps) name mask word put c =
      (napi_ok, put c (flagUpdate (getOwn ps name) mask (word c))) := by
  unfold flagStep
  rw [beam_get_bool_object]
  cases hv : getOwn ps name with
  | boolean b => cases b <;> simp [PASS_STATUS, flagUpdate]
  | _ => simp [PASS_STATUS, flagUpdate, h3]

theorem flag_segment (ps : List (String × JsValue)) (word : AVCodecContext → Nat)
    (put : AVCodecContext → Nat → AVCodecContext)
    (h1 : ∀ c w, word (put c w) = w) (h2 : ∀ c w w', put (put c w) w' = put c w')
    (h3 : ∀ c, put c (word c) = c) (tbl : List (String × Nat)) (c : AVCodecContext) :
    seq (tbl.map (fun e => flagStep (.object ps) e.1 (1 <<< e.2) word put)) c =
      (napi_ok, put c (applyFlags ps tbl (word c))) := by
  induction tbl generalizing c with
  | nil => simp [seq_nil_eq, applyFlags, h3]
  | cons e tbl ih =>
    simp only [List.map_cons, seq_cons_eq, flagStep_object ps e.1 _ word put h3]
    rw [if_neg (by decide), ih]
    simp [applyFlags, h1, h2]

theorem setSteps_split (lib : AVLib) (ps : List (String × JsValue)) (encoding : Bool) :
    setSteps lib (.object ps) encoding =
      (setSteps lib (.object ps) encoding).take 4 ++
      (flagBits.map (fun e => flagStep (.object ps) e.1 (1 <<< e.2) (fun c => c.flags)
          (fun c w => { c with flags := w })) ++
       (flags2Bits.map (fun e => flagStep (.object ps) e.1 (1 <<< e.2) (fun c => c.flags2)
          (fun c w => { c with flags2 := w })) ++
        (setSteps lib (.object ps) encoding).drop 32)) := rfl

theorem beam_get_int32_status (ps : List (String × JsValue)) (name : String) (old : Int) :
    (beam_get_int32 (.object ps) name old).1 = napi_ok := by
  simp only [beam_get_int32, napi_get_named_property]
  generalize getOwn ps name = x
  cases x with
  | number d => cases d <;> simp [napi_get_value_int32, PASS_STATUS, ACCEPT_STATUS]
  | _ => simp [napi_get_value_int32, PASS_STATUS, ACCEPT_STATUS]

theorem beam_get_int64_status (ps : List (String × JsValue)) (name : String) (old : Int) :
    (beam_get_int64 (.object ps) name old).1 = napi_ok := by
  simp only [beam_get_int64, napi_get_named_property]
  generalize getOwn ps name = x
  cases x with
  | number d => cases d <;> simp [napi_get_value_int64, PASS_STATUS, ACCEPT_STATUS]
  | _ => simp [napi_get_value_int64, PASS_STATUS, ACCEPT_STATUS]

theorem setSteps_head (lib : AVLib) (ps : List (String × JsValue)) (encoding : Bool)
    (c : AVCodecContext) :
    (seq ((setSteps lib (.object ps) encoding).take 4) c).1 = napi_ok ∧
    (seq ((setSteps lib (.object ps) encoding).take 4) c).2.flags = c.flags ∧
    (seq ((setSteps lib (.object ps) encoding).take 4) c).2.flags2 = c.flags2 := by
  cases encoding <;>
    simp [setSteps, List.take, seq_cons_eq, seq_nil_eq, ifThen, store, beam_get_int64_status,
      beam_get_int32_status, PASS_STATUS]

theorem Fld.get_flags {c c' : AVCodecContext} (h : Fld.get .flags c' = Fld.get .flags c) :
    c'.flags = c.flags := Val.word.inj h

theorem Fld.get_flags2 {c c' : AVCodecContext} (h : Fld.get .flags2 c' = Fld.get .flags2 c) :
    c'.flags2 = c.flags2 := Val.word.inj h

theorem setSteps_tail_frame (lib : AVLib) (props : JsValue) (encoding : Bool)
    (c : AVCodecContext) :
    (seq ((setSteps lib props encoding).drop 32) c).2.flags = c.flags ∧
    (seq ((setSteps lib props encoding).drop 32) c).2.flags2 = c.flags2 := by
  have hW := writes_seq (List.forall₂_drop 32 (setSteps_writes lib props encoding
    (decide (c.codec_type = AVMEDIA_TYPE_VIDEO)) (decide (c.codec_type = AVMEDIA_TYPE_AUDIO))))
  have hmem : ∀ e bv ba : Bool, Fld.flags ∉ ((setFoot e bv ba).drop 32).flatten ∧
      Fld.flags2 ∉ ((setFoot e bv ba).drop 32).flatten := by decide
  have h := hW c ⟨rfl, rfl⟩
  exact ⟨Fld.get_flags (h.2 _ (hmem _ _ _).1), Fld.get_flags2 (h.2 _ (hmem _ _ _).2)⟩

/-- What `setCodecFromProps` does to the two flag words, whatever status it
returns: each flag statement updates its word from the value under its key. -/
theorem setCodecFromProps_flag_words (lib : AVLib) (c : AVCodecContext)
    (ps : List (String × JsValue)) (encoding : Bool) :
    (setCodecFromProps lib c (.object ps) encoding).2.flags = applyFlags ps flagBits c.flags ∧
    (setCodecFromProps lib c (.object ps) encoding).2.flags2 =
      applyFlags ps flags2Bits c.flags2 := by
  obtain ⟨hA1, hA2, hA3⟩ := setSteps_head lib ps encoding c
  have hB := flag_segment ps (fun c => c.flags) (fun c w => { c with flags := w })
    (fun _ _ => rfl) (fun _ _ _ => rfl) (fun _ => rfl) flagBits
  have hC := flag_segment ps (fun c => c.flags2) (fun c w => { c with flags2 := w })
    (fun _ _ => rfl) (fun _ _ _ => rfl) (fun _ => rfl) flags2Bits
  unfold setCodecFromProps
  rw [setSteps_split, seq_append, hA1, if_neg (by decide), seq_append, hB,
    if_neg (not_pass_ok _), seq_append, hC, if_neg (not_pass_ok _)]
  have hD := setSteps_tail_frame lib (.object ps) encoding
  constructor
  · rw [(hD _).1]
    show applyFlags ps flagBits (seq _ c).2.flags = _
    rw [hA2]
  · rw [(hD _).2]
    show applyFlags ps flags2Bits (seq _ c).2.flags2 = _
    rw [hA3]

theorem bitOr32_testBit (w i j : Nat) :
    (bitOr32 w (1 <<< i)).testBit j = (decide (j < 32) && (w.testBit j || decide (i = j))) := by
  unfold bitOr32
  rw [Nat.testBit_mod_two_pow, Nat.testBit_lor, Nat.one_shiftLeft, Nat.testBit_two_pow]

theorem bitClear32_testBit (w i j : Nat) :
    (bitClear32 w (1 <<< i)).testBit j =
      (w.testBit j && (decide (j < 32) ^^ decide (i = j))) := by
  have h : (0xFFFFFFFF : Nat) = 2 ^ 32 - 1 := by norm_num
  unfold bitClear32
  rw [h, Nat.testBit_land, Nat.testBit_xor, Nat.testBit_two_pow_sub_one, Nat.one_shiftLeft,
    Nat.testBit_two_pow]

theorem flagUpdate_testBit_self (b : Bool) (w i : Nat) (hi : i < 32) :
    (flagUpdate (.boolean b) (1 <<< i) w).testBit i = b := by
  cases b <;> simp [flagUpdate, bitOr32_testBit, bitClear32_testBit, hi]

theorem flagUpdate_testBit_ne (v : JsValue) (w i j : Nat) (hj : j < 32) (h : i ≠ j) :
    (flagUpdate v (1 <<< i) w).testBit j = w.testBit j := by
  unfold flagUpdate
  split <;> simp [bitOr32_testBit, bitClear32_testBit, hj, h]

theorem flagUpdate_testBit_high (b : Bool) (w i j : Nat) (hw : w < 2 ^ 32) (hj : ¬ j < 32) :
    (flagUpdate (.boolean b) (1 <<< i) w).testBit j = w.testBit j := by
  have hwj : w.testBit j = false :=
    Nat.testBit_lt_two_pow (lt_of_lt_of_le hw (Nat.pow_le_pow_right (by decide) (by omega)))
  cases b <;> simp [flagUpdate, bitOr32_testBit, bitClear32_testBit, hj, hwj]

theorem bitTest_shift (w i : Nat) : bitTest w (1 <<< i) = w.testBit i := by
  unfold bitTest
  rw [Nat.one_shiftLeft, Nat.and_two_pow]
  cases w.testBit i <;> simp

theorem applyFlags_nil (ps : List (String × JsValue)) (w : Nat) : applyFlags ps [] w = w := rfl

theorem applyFlags_cons (ps : List (String × JsValue)) (e : String × Nat)
    (tbl : List (String × Nat)) (w : Nat) :
    applyFlags ps (e :: tbl) w = applyFlags ps tbl (flagUpdate (getOwn ps e.1) (1 <<< e.2) w) :=
  rfl

theorem applyFlags_absent (ps : List (String × JsValue)) (tbl : List (String × Nat)) (w : Nat)
    (h : ∀ e ∈ tbl, hasOwn ps e.1 = false) : applyFlags ps tbl w = w := by
  induction tbl generalizing w with
  | nil => rfl
  | cons e tbl ih =>
    rw [applyFlags_cons, hasOwn_false_getOwn (h e (by simp))]
    exact ih _ (fun e' he' => h e' (by simp [he']))

theorem applyFlags_single (ps : List (String × JsValue)) (K : String) (i : Nat) (b : Bool)
    (hb : getOwn ps K = .boolean b) (tbl : List (String × Nat)) (w : Nat)
    (hnd : (tbl.map Prod.fst).Nodup) (hK : (K, i) ∈ tbl)
    (h : ∀ e ∈ tbl, e.1 ≠ K → hasOwn ps e.1 = false) :
    applyFlags ps tbl w = flagUpdate (.boolean b) (1 <<< i) w := by
  induction tbl generalizing w with
  | nil => simp at hK
  | cons e tbl ih =>
    rw [applyFlags_cons]
    simp only [List.map_cons, List.nodup_cons] at hnd
    rcases List.mem_cons.1 hK with rfl | hK'
    · rw [hb]
      refine applyFlags_absent ps tbl _ (fun e' he' => h e' (by simp [he']) ?_)
      intro heq
      exact hnd.1 (List.mem_map.2 ⟨e', he', heq⟩)
    · have hne : e.1 ≠ K := by
        intro heq
        exact hnd.1 (List.mem_map.2 ⟨(K, i), hK', heq.symm⟩)
      rw [hasOwn_false_getOwn (h e (by simp) hne)]
      exact ih _ hnd.2 hK' (fun e' he' => h e' (by simp [he']))

theorem applyFlags_testBit_keep (ps : List (String × JsValue)) (tbl : List (String × Nat))
    (w j : Nat) (hj : j < 32) (h : ∀ e ∈ tbl, e.2 ≠ j) :
    (applyFlags ps tbl w).testBit j = w.testBit j := by
  induction tbl generalizing w with
  | nil => rfl
  | cons e tbl ih =>
    rw [applyFlags_cons, ih _ (fun e' he' => h e' (by simp [he'])),
      flagUpdate_testBit_ne _ _ _ _ hj (h e (by simp))]

theorem applyFlags_testBit (ps : List (String × JsValue)) (K : String) (i : Nat) (b : Bool)
    (hb : getOwn ps K = .boolean b) (tbl : List (String × Nat)) (w : Nat)
    (hnd : (tbl.map Prod.snd).Nodup) (hlt : ∀ e ∈ tbl, e.2 < 32) (hK : (K, i) ∈ tbl) :
    (applyFlags ps tbl w).testBit i = b := by
  induction tbl generalizing w with
  | nil => simp at hK
  | cons e tbl ih =>
    rw [applyFlags_cons]
    simp only [List.map_cons, List.nodup_cons] at hnd
    rcases List.mem_cons.1 hK with rfl | hK'
    · have hi : i < 32 := hlt (K, i) (by simp)
      show (applyFlags ps tbl (flagUpdate (getOwn ps K) (1 <<< i) w)).testBit i = b
      rw [applyFlags_testBit_keep ps tbl _ i hi, hb, flagUpdate_testBit_self b w i hi]
      intro e' he' heq
      exact hnd.1 (List.mem_map.2 ⟨e', he', heq⟩)
    · exact ih _ hnd.2 (fun e' he' => hlt e' (by simp [he'])) hK'

theorem flagUpdate_bits (b : Bool) (w i : Nat) (hi : i < 32) (hw : w < 2 ^ 32) (j : Nat) :
    (flagUpdate (.boolean b) (1 <<< i) w).testBit j = if j = i then b else w.testBit j := by
  by_cases hji : j = i
  · subst hji
    rw [if_pos rfl, flagUpdate_testBit_self b w j hi]
  · rw [if_neg hji]
    by_cases hj : j < 32
    · exact flagUpdate_testBit_ne _ _ _ _ hj (Ne.symm hji)
    · exact flagUpdate_testBit_high b w i j hw hj

/-! ### Statements that cannot fail -/

section sure
variable {σ : Type} {I : σ → Prop}

theorem sure_seq_nil : Sure I (seq []) := fun _ h => ⟨rfl, h⟩

theorem sure_seq_cons {s : Step σ} {rest : List (Step σ)} (hs : Sure I s)
    (hr : Sure I (seq rest)) : Sure I (seq (s :: rest)) := by
  intro c hc
  obtain ⟨h1, h2⟩ := hs c hc
  rw [seq_cons_eq, h1, if_neg (by decide)]
  exact hr _ h2

theorem sure_seq {steps : List (Step σ)} (h : ∀ s ∈ steps, Sure I s) : Sure I (seq steps) := by
  induction steps with
  | nil => exact sure_seq_nil
  | cons s rest ih =>
    exact sure_seq_cons (h s (by simp)) (ih (fun s' hs' => h s' (by simp [hs'])))

theorem sure_ifThen {b : Bool} {s : Step σ} (hs : Sure I s) : Sure I (ifThen b s) := by
  intro c hc
  cases b
  · exact ⟨rfl, hc⟩
  · exact hs c hc

end sure

theorem sure_setProp (n : String) (v : JsValue) :
    Sure IsBag (fun t => napi_set_named_property t n v) := by
  rintro t ⟨ps, rfl⟩
  exact ⟨rfl, ⟨_, rfl⟩⟩

theorem sure_sliceOffsetProp (codec : AVCodecContext) : Sure IsBag (sliceOffsetProp codec) :=
  sure_setProp _ _

theorem sure_matrixProp (name : String) (matrix : Option (List Int)) :
    Sure IsBag (matrixProp name matrix) := by
  intro t ht
  unfold matrixProp
  split
  · exact sure_setProp _ _ t ht
  · exact ⟨rfl, ht⟩

theorem rcOverrideElement_ok (r : RcOverride) : (rcOverrideElement r).1 = napi_ok := by
  have h : Sure IsBag (seq [
      (beam_set_string_utf8 · "type" (some "RcOverride")),
      (beam_set_int32 · "start_frame" r.start_frame),
      (beam_set_int32 · "end_frame" r.end_frame),
      (beam_set_int32 · "qscale" r.qscale),
      (beam_set_double · "quality_factor" r.quality_factor) ]) :=
    sure_seq_cons (sure_setProp _ _) (sure_seq_cons (sure_setProp _ _)
      (sure_seq_cons (sure_setProp _ _) (sure_seq_cons (sure_setProp _ _)
        (sure_seq_cons (sure_setProp _ _) sure_seq_nil))))
  exact (h (.object []) ⟨_, rfl⟩).1

theorem sure_rcOverrideProp (codec : AVCodecContext) : Sure IsBag (rcOverrideProp codec) := by
  intro t ht
  have hloop : Sure (fun _ : List JsValue => True)
      (seq ((List.range codec.rc_override_count.toNat).map
        (fun x (arr : List JsValue) =>
          let e := rcOverrideElement (codec.rc_override.getD x RcOverride.blank)
          if PASS_STATUS e.1 then (e.1, arr) else (napi_ok, arr ++ [e.2])))) := by
    apply sure_seq
    intro s hs
    obtain ⟨x, _, rfl⟩ := List.mem_map.1 hs
    intro arr _
    simp [rcOverrideElement_ok, PASS_STATUS]
  unfold rcOverrideProp
  simp only []
  rw [(hloop [] trivial).1, if_neg (by decide)]
  exact sure_setProp _ _ t ht

section
attribute [local irreducible] seq ifThen Sure napi_set_named_property sliceOffsetProp
  matrixProp rcOverrideProp

theorem getVideo_sure (lib : AVLib) (codec : AVCodecContext) (encoding : Bool) :
    Sure IsBag (seq (getVideoSteps lib codec encoding)) := by
  unfold getVideoSteps
  repeat' first
    | apply sure_seq_cons
    | apply sure_seq_nil
    | apply sure_ifThen
    | exact sure_setProp _ _
    | exact sure_sliceOffsetProp _
    | exact sure_matrixProp _ _

theorem getAudio_sure (lib : AVLib) (codec : AVCodecContext) (encoding : Bool) :
    Sure IsBag (seq (getAudioSteps lib codec encoding)) := by
  unfold getAudioSteps
  repeat' first
    | apply sure_seq_cons
    | apply sure_seq_nil
    | apply sure_ifThen
    | exact sure_setProp _ _

theorem getSteps_sure (lib : AVLib) (codec : AVCodecContext) (encoding : Bool) :
    Sure IsBag (seq (getSteps lib codec encoding)) := by
  unfold getSteps
  repeat' first
    | exact sure_ifThen (getVideo_sure _ _ _)
    | exact sure_ifThen (getAudio_sure _ _ _)
    | apply sure_seq_cons
    | apply sure_seq_nil
    | apply sure_ifThen
    | exact sure_setProp _ _
    | exact sure_rcOverrideProp _

end

/-- On a bag, `getPropsFromCodec` returns `napi_ok` and leaves a bag. -/
theorem getPropsFromCodec_ok (lib : AVLib) (target : JsValue) (codec : AVCodecContext)
    (encoding : Bool) (ht : IsBag target) :
    (getPropsFromCodec lib target codec encoding).1 = napi_ok ∧
    IsBag (getPropsFromCodec lib target codec encoding).2 :=
  getSteps_sure lib codec encoding target ht

/-! ### The one statement that touches a key or a field -/

theorem soleAt_before {ι : Type} [DecidableEq ι] {Fs : List (List ι)} {i : Nat} {k : ι}
    (h : soleAt Fs i k = true) : ∀ F ∈ Fs.take i, k ∉ F := by
  unfold soleAt at h
  simp only [Bool.and_eq_true, List.all_eq_true, Bool.not_eq_true', List.elem_eq_mem,
    decide_eq_false_iff_not] at h
  exact h.1

theorem soleAt_after {ι : Type} [DecidableEq ι] {Fs : List (List ι)} {i : Nat} {k : ι}
    (h : soleAt Fs i k = true) : ∀ F ∈ Fs.drop (i + 1), k ∉ F := by
  unfold soleAt at h
  simp only [Bool.and_eq_true, List.all_eq_true, Bool.not_eq_true', List.elem_eq_mem,
    decide_eq_false_iff_not] at h
  exact h.2

theorem rel_sole {σ α ι : Type} [DecidableEq ι] {β : ι → Type} {I : σ → Prop}
    {obs : (g : ι) → σ → β g} {Fs : List (List ι)} {steps : List (Step σ)}
    (hW : List.Forall₂ (Writes I obs) Fs steps) (f : ι) {P : σ → α}
    (hP : ∀ c c', obs f c' = obs f c → P c' = P c) {R : α → α → Prop}
    (i : Nat) {s : Step σ} (hs : steps[i]? = some s) (hR : Rel I P R s)
    (hsole : soleAt Fs i f = true) : Rel I P R (seq steps) :=
  rel_seq_at hW hP i hs hR (soleAt_before hsole) (soleAt_after hsole)

/-! ### Footprints of the read path, with every optional statement counted in -/

theorem onlyIf_sub {α : Type} (b : Bool) {F G : List α} (h : F ⊆ G) :
    onlyIf b F ⊆ onlyIf true G := by
  cases b
  · intro x hx
    cases hx
  · exact h

theorem onlyIf_sub_same {α : Type} (b : Bool) {F G : List α} (h : F ⊆ G) :
    onlyIf b F ⊆ onlyIf b G := by
  cases b
  · intro x hx
    cases hx
  · exact h

theorem flatten_sub {α : Type} {Fs Gs : List (List α)}
    (h : List.Forall₂ (fun F G => F ⊆ G) Fs Gs) : Fs.flatten ⊆ Gs.flatten := by
  induction h with
  | nil => exact List.Subset.refl _
  | cons h1 _ ih =>
    intro x hx
    simp only [List.flatten_cons, List.mem_append] at hx ⊢
    exact hx.imp (fun h => h1 h) (fun h => ih h)

theorem notin_of_sub {α : Type} {Fs Gs : List (List α)} {k : α}
    (h : List.Forall₂ (fun F G => F ⊆ G) Fs Gs) (hk : ∀ G ∈ Gs, k ∉ G) : ∀ F ∈ Fs, k ∉ F := by
  induction h with
  | nil => intro F hF; cases hF
  | cons h1 _ ih =>
    intro F hF hkF
    rcases List.mem_cons.1 hF with rfl | hF'
    · exact hk _ (by simp) (h1 hkF)
    · exact ih (fun G hG => hk G (by simp [hG])) F hF' hkF

theorem sole_of_sub {α : Type} [DecidableEq α] {Fs Gs : List (List α)} {k : α} {i : Nat}
    (h : List.Forall₂ (fun F G => F ⊆ G) Fs Gs) (hs : soleAt Gs i k = true) :
    (∀ F ∈ Fs.take i, k ∉ F) ∧ ∀ F ∈ Fs.drop (i + 1), k ∉ F :=
  ⟨notin_of_sub (List.forall₂_take i h) (soleAt_before hs),
   notin_of_sub (List.forall₂_drop (i + 1) h) (soleAt_after hs)⟩

section
attribute [local irreducible] onlyIf

theorem getVideoKeys_sub (e hi hj : Bool) :
    List.Forall₂ (fun F G => F ⊆ G) (getVideoKeys e hi hj) (getVideoKeys e true true) := by
  unfold getVideoKeys
  repeat' first
    | apply List.Forall₂.cons
    | apply List.Forall₂.nil
    | exact List.Subset.refl _
    | exact onlyIf_sub _ (List.Subset.refl _)

theorem getKeys_sub (e bv ba hi hj : Bool) :
    List.Forall₂ (fun F G => F ⊆ G) (getKeys e bv ba hi hj) (getKeys e true ba true true) := by
  unfold getKeys
  repeat' first
    | apply List.Forall₂.cons
    | apply List.Forall₂.nil
    | exact List.Subset.refl _
    | exact onlyIf_sub _ (flatten_sub (getVideoKeys_sub _ _ _))

theorem getKeys_sub_same (e bv ba hi hj : Bool) :
    List.Forall₂ (fun F G => F ⊆ G) (getKeys e bv ba hi hj) (getKeys e bv ba true true) := by
  unfold getKeys
  repeat' first
    | apply List.Forall₂.cons
    | apply List.Forall₂.nil
    | exact List.Subset.refl _
    | exact onlyIf_sub_same _ (flatten_sub (getVideoKeys_sub _ _ _))

end

/-! ### Read path: the entry left under a key -/

theorem get_at_top (lib : AVLib) (codec : AVCodecContext) (encoding : Bool) (i : Nat)
    (k : String) (v : JsValue) {s : Step JsValue}
    (hs : (getSteps lib codec encoding)[i]? = some s)
    (hR : Rel IsBag (bagEntry k) (becomes (some v)) s)
    (hsole : ∀ ba, soleAt (getKeys encoding true ba true true) i k = true)
    (target : JsValue) (ht : IsBag target) :
    bagEntry k (getPropsFromCodec lib target codec encoding).2 = some v :=
  rel_seq_at (getSteps_writes lib codec encoding) (fun _ _ h => h) i hs hR
    (sole_of_sub (getKeys_sub _ _ _ _ _) (hsole _)).1
    (sole_of_sub (getKeys_sub _ _ _ _ _) (hsole _)).2
    target ht (getSteps_sure lib codec encoding target ht).1

theorem get_at_video (lib : AVLib) (codec : AVCodecContext) (encoding : Bool)
    (hv : codec.codec_type = AVMEDIA_TYPE_VIDEO) (i : Nat)
    (k : String) (v : JsValue) {s : Step JsValue}
    (hs : (getVideoSteps lib codec encoding)[i]? = some s)
    (hR : Rel IsBag (bagEntry k) (becomes (some v)) s)
    (hsole : soleAt (getVideoKeys encoding true true) i k = true)
    (htop : ∀ ba, soleAt (getKeys encoding true ba true true) 39 k = true)
    (target : JsValue) (ht : IsBag target) :
    bagEntry k (getPropsFromCodec lib target codec encoding).2 = some v := by
  have hstep : (getSteps lib codec encoding)[39]? =
      some (ifThen (decide (codec.codec_type = AVMEDIA_TYPE_VIDEO))
        (seq (getVideoSteps lib codec encoding))) := rfl
  refine get_at_top lib codec encoding 39 k v hstep ?_ htop target ht
  rw [decide_eq_true hv]
  exact rel_ifThen (rel_seq_at (getVideo_writes lib codec encoding) (fun _ _ h => h) i hs hR
    (sole_of_sub (getVideoKeys_sub _ _ _) hsole).1
    (sole_of_sub (getVideoKeys_sub _ _ _) hsole).2)

/-- The keys set by a run of property statements, one list per statement. -/
theorem props_writes (kvs : List (String × JsValue)) :
    List.Forall₂ (Writes IsBag bagEntry) (kvs.map (fun e => [e.1]))
      (kvs.map (fun e t => napi_set_named_property t e.1 e.2)) := by
  induction kvs with
  | nil => exact List.Forall₂.nil
  | cons e kvs ih => exact List.Forall₂.cons (writes_setProp _ _) ih

/-- In a run of property statements with distinct keys, each key ends up with
the value of its statement. -/
theorem rel_props (kvs : List (String × JsValue)) (keys : List String)
    (hkeys : kvs.map Prod.fst = keys) (j : Nat) (k : String) (v : JsValue)
    (h : kvs[j]? = some (k, v)) (hsole : soleAt (keys.map (fun k => [k])) j k = true) :
    Rel IsBag (bagEntry k) (becomes (some v))
      (seq (kvs.map (fun e t => napi_set_named_property t e.1 e.2))) := by
  subst hkeys
  rw [List.map_map] at hsole
  exact rel_sole (props_writes kvs) k (fun _ _ h => h) j
    (by rw [List.getElem?_map, h]; rfl) (rel_setProp k v) hsole

/-- A key that no statement of the read path sets keeps the entry it had. -/
theorem get_untouched (lib : AVLib) (codec : AVCodecContext) (encoding : Bool) (k : String)
    (h : ∀ ba, k ∉ (getKeys encoding true ba true true).flatten)
    (target : JsValue) (ht : IsBag target) :
    bagEntry k (getPropsFromCodec lib target codec encoding).2 = bagEntry k target :=
  (writes_seq (getSteps_writes lib codec encoding) target ht).2 k
    (fun hk => h _ (flatten_sub (getKeys_sub _ _ _ _ _) hk))

/-! ### Write path: what happens to one field -/

theorem set_at_top (lib : AVLib) (props : JsValue) (encoding : Bool) (i : Nat) (f : Fld)
    {α : Type} (P : AVCodecContext → α)
    (hP : ∀ c c', Fld.get f c' = Fld.get f c → P c' = P c) (R : α → α → Prop)
    {s : Step AVCodecContext} (hs : (setSteps lib props encoding)[i]? = some s)
    (hR : ∀ bv ba, Rel (MediaIs bv ba) P R s)
    (hsole : ∀ bv ba, soleAt (setFoot encoding bv ba) i f = true)
    (c : AVCodecContext) (hok : (setCodecFromProps lib c props encoding).1 = napi_ok) :
    R (P c) (P (setCodecFromProps lib c props encoding).2) :=
  rel_sole (setSteps_writes lib props encoding _ _) f hP i hs (hR _ _) (hsole _ _) c
    ⟨rfl, rfl⟩ hok

theorem set_at_video (lib : AVLib) (props : JsValue) (encoding : Bool) (i : Nat) (f : Fld)
    {α : Type} (P : AVCodecContext → α)
    (hP : ∀ c c', Fld.get f c' = Fld.get f c → P c' = P c) (R : α → α → Prop)
    {s : Step AVCodecContext} (hs : (setVideoSteps lib props encoding)[i]? = some s)
    (hR : ∀ ba, Rel (MediaIs true ba) P R s)
    (hsole : soleAt (setVideoFoot encoding) i f = true)
    (htop : ∀ ba, soleAt (setFoot encoding true ba) 33 f = true)
    (c : AVCodecContext) (hv : c.codec_type = AVMEDIA_TYPE_VIDEO)
    (hok : (setCodecFromProps lib c props encoding).1 = napi_ok) :
    R (P c) (P (setCodecFromProps lib c props encoding).2) :=
  rel_sole (setSteps_writes lib props encoding true _) f hP 33 rfl
    (rel_ifState (fun _ hc => hc.1)
      (rel_sole (setVideo_writes lib props encoding true _) f hP i hs (hR _) hsole))
    (htop _) c ⟨decide_eq_true hv, rfl⟩ hok

/-- A field that no statement of the write path can change keeps its content,
whatever status is returned. -/
theorem set_untouched (lib : AVLib) (props : JsValue) (encoding : Bool) (f : Fld)
    (c : AVCodecContext)
    (h : f ∉ (setFoot encoding (decide (c.codec_type = AVMEDIA_TYPE_VIDEO))
      (decide (c.codec_type = AVMEDIA_TYPE_AUDIO))).flatten) :
    Fld.get f (setCodecFromProps lib c props encoding).2 = Fld.get f c :=
  (writes_seq (setSteps_writes lib props encoding _ _) c ⟨rfl, rfl⟩).2 f h

/-- The write path never changes the media type. -/
theorem setCodecFromProps_codec_type (lib : AVLib) (c : AVCodecContext) (props : JsValue)
    (encoding : Bool) :
    (setCodecFromProps lib c props encoding).2.codec_type = c.codec_type := by
  have hmem : ∀ e bv ba : Bool, Fld.codec_type ∉ (setFoot e bv ba).flatten := by decide
  exact Val.int.inj (set_untouched lib props encoding .codec_type c (hmem _ _ _))

/-! ## Claims C1 and C2: the flag words on the write path -/

/-- C1: for every record, mode and bag that has none of the boolean flag keys,
`setCodecFromProps` leaves the words `flags`, `flags2` and `slice_flags` of the
record exactly as they were (whatever status it returns). -/
theorem setCodecFromProps_no_flag_key (lib : AVLib) (c : AVCodecContext)
    (ps : List (String × JsValue)) (encoding : Bool)
    (h : ∀ k ∈ allFlagKeys, hasOwn ps k = false) :
    (setCodecFromProps lib c (.object ps) encoding).2.flags = c.flags ∧
    (setCodecFromProps lib c (.object ps) encoding).2.flags2 = c.flags2 ∧
    (setCodecFromProps lib c (.object ps) encoding).2.slice_flags = c.slice_flags := by
  have key := (set_frame_flag_words lib ps encoding h c trivial).2
  simp only [Prod.mk.injEq] at key
  exact key

/-- C1 at a sample input: a video record with some bits set and a bag that holds
only `width`. -/
theorem setCodecFromProps_no_flag_key_witness :
    (∀ k ∈ allFlagKeys, hasOwn [("width", JsValue.number (Dbl.ofInt 640))] k = false) ∧
    (setCodecFromProps sampleLib { sampleVideo with flags := 5, flags2 := 1, slice_flags := 2 }
      (.object [("width", .number (Dbl.ofInt 640))]) false).2.flags = 5 :=
  ⟨by decide, (setCodecFromProps_no_flag_key sampleLib
    { sampleVideo with flags := 5, flags2 := 1, slice_flags := 2 }
    [("width", .number (Dbl.ofInt 640))] false (by decide)).1⟩

/-- C2: for a bag whose only key among those of `flags` and `flags2` is `K`, with
the boolean `b` under it, `setCodecFromProps` leaves the word of `K` with the bit
of `K` equal to `b` and every other bit as it was, and leaves the other word as
it was (whatever status it returns). -/
theorem setCodecFromProps_single_flag (lib : AVLib) (c : AVCodecContext)
    (ps : List (String × JsValue)) (encoding : Bool) (K : String) (i : Nat) (b : Bool)
    (hb : getOwn ps K = .boolean b)
    (hothers : ∀ e ∈ flagBits ++ flags2Bits, e.1 ≠ K → hasOwn ps e.1 = false)
    (hw : c.flags < 2 ^ 32) (hw2 : c.flags2 < 2 ^ 32) :
    ((K, i) ∈ flagBits →
      (∀ j, (setCodecFromProps lib c (.object ps) encoding).2.flags.testBit j =
        if j = i then b else c.flags.testBit j) ∧
      (setCodecFromProps lib c (.object ps) encoding).2.flags2 = c.flags2) ∧
    ((K, i) ∈ flags2Bits →
      (∀ j, (setCodecFromProps lib c (.object ps) encoding).2.flags2.testBit j =
        if j = i then b else c.flags2.testBit j) ∧
      (setCodecFromProps lib c (.object ps) encoding).2.flags = c.flags) := by
  obtain ⟨h1, h2⟩ := setCodecFromProps_flag_words lib c ps encoding
  have hdisj : ∀ e ∈ flagBits, ∀ e' ∈ flags2Bits, e.1 ≠ e'.1 := by decide
  have hlt : ∀ e ∈ flagBits ++ flags2Bits, e.2 < 32 := by decide
  constructor
  · intro hK
    rw [h1, h2, applyFlags_single ps K i b hb flagBits c.flags (by decide) hK
      (fun e he => hothers e (List.mem_append_left _ he)),
      applyFlags_absent ps flags2Bits c.flags2
        (fun e he => hothers e (List.mem_append_right _ he) (fun heq =>
          hdisj (K, i) hK e he heq.symm))]
    exact ⟨flagUpdate_bits b c.flags i (hlt _ (List.mem_append_left _ hK)) hw, rfl⟩
  · intro hK
    rw [h1, h2, applyFlags_single ps K i b hb flags2Bits c.flags2 (by decide) hK
      (fun e he => hothers e (List.mem_append_right _ he)),
      applyFlags_absent ps flagBits c.flags
        (fun e he => hothers e (List.mem_append_left _ he) (fun heq =>
          hdisj e he (K, i) hK heq))]
    exact ⟨flagUpdate_bits b c.flags2 i (hlt _ (List.mem_append_right _ hK)) hw2, rfl⟩

/-- C2 at a sample input: `QSCALE` (bit 1 of `flags`) written as `true` on a
record whose `flags` word is 5. -/
theorem setCodecFromProps_single_flag_witness :
    getOwn [("QSCALE", JsValue.boolean true)] "QSCALE" = .boolean true ∧
    (∀ j, (setCodecFromProps sampleLib { sampleVideo with flags := 5 }
        (.object [("QSCALE", .boolean true)]) false).2.flags.testBit j =
      if j = 1 then true else (5 : Nat).testBit j) :=
  ⟨rfl, ((setCodecFromProps_single_flag sampleLib { sampleVideo with flags := 5 }
    [("QSCALE", .boolean true)] false "QSCALE" 1 true rfl (by decide) (by decide)
    (by decide)).1 (by decide)).1⟩

/-! ## Claim C3: flags written and read back -/

/-! ### The flag keys on the read path -/

theorem getSteps_flag (lib : AVLib) (codec : AVCodecContext) (encoding : Bool) (n : Nat)
    (K : String) (i : Nat) (h : flagBits[n]? = some (K, i)) :
    (getSteps lib codec encoding)[9 + n]? =
      some (fun t => napi_set_named_property t K (.boolean (bitTest codec.flags (1 <<< i)))) := by
  have hn : n < 18 := by
    obtain ⟨hlt, _⟩ := List.getElem?_eq_some_iff.1 h
    exact hlt
  interval_cases n <;> (cases h; rfl)

theorem getSteps_flag2 (lib : AVLib) (codec : AVCodecContext) (encoding : Bool) (n : Nat)
    (K : String) (i : Nat) (h : flags2Bits[n]? = some (K, i)) :
    (getSteps lib codec encoding)[27 + n]? =
      some (fun t => napi_set_named_property t K (.boolean (bitTest codec.flags2 (1 <<< i)))) := by
  have hn : n < 10 := by
    obtain ⟨hlt, _⟩ := List.getElem?_eq_some_iff.1 h
    exact hlt
  interval_cases n <;> (cases h; rfl)

theorem getKeys_flag_sole : ∀ n < 18, ∀ e ba : Bool,
    soleAt (getKeys e true ba true true) (9 + n) (flagBits.getD n ("", 0)).1 = true := by
  decide

theorem getKeys_flag2_sole : ∀ n < 10, ∀ e ba : Bool,
    soleAt (getKeys e true ba true true) (27 + n) (flags2Bits.getD n ("", 0)).1 = true := by
  decide

/-- The read path reports each bit of `flags` under its key. -/
theorem get_flag_entry (lib : AVLib) (codec : AVCodecContext) (encoding : Bool)
    (target : JsValue) (ht : IsBag target) (K : String) (i : Nat) (hK : (K, i) ∈ flagBits) :
    bagEntry K (getPropsFromCodec lib target codec encoding).2 =
      some (.boolean (codec.flags.testBit i)) := by
  obtain ⟨n, hn⟩ := List.mem_iff_getElem?.1 hK
  have hlt : n < 18 := (List.getElem?_eq_some_iff.1 hn).1
  have hsole := getKeys_flag_sole n hlt encoding
  rw [List.getD_eq_getElem?_getD, hn] at hsole
  have h := get_at_top lib codec encoding (9 + n) K _ (getSteps_flag lib codec encoding n K i hn)
    (rel_setProp K _) hsole target ht
  rwa [bitTest_shift] at h

/-- The read path reports each bit of `flags2` under its key. -/
theorem get_flag2_entry (lib : AVLib) (codec : AVCodecContext) (encoding : Bool)
    (target : JsValue) (ht : IsBag target) (K : String) (i : Nat) (hK : (K, i) ∈ flags2Bits) :
    bagEntry K (getPropsFromCodec lib target codec encoding).2 =
      some (.boolean (codec.flags2.testBit i)) := by
  obtain ⟨n, hn⟩ := List.mem_iff_getElem?.1 hK
  have hlt : n < 10 := (List.getElem?_eq_some_iff.1 hn).1
  have hsole := getKeys_flag2_sole n hlt encoding
  rw [List.getD_eq_getElem?_getD, hn] at hsole
  have h := get_at_top lib codec encoding (27 + n) K _
    (getSteps_flag2 lib codec encoding n K i hn) (rel_setProp K _) hsole target ht
  rwa [bitTest_shift] at h

/-- Under decoding the read path reports each bit of `slice_flags` of a video
record under its key. -/
theorem get_slice_flag_entry (lib : AVLib) (codec : AVCodecContext)
    (hv : codec.codec_type = AVMEDIA_TYPE_VIDEO)
    (target : JsValue) (ht : IsBag target) (K : String) (i : Nat)
    (hK : (K, i) ∈ sliceFlagBits) :
    bagEntry K (getPropsFromCodec lib target codec false).2 =
      some (.boolean (codec.slice_flags.testBit i)) := by
  obtain ⟨n, hn⟩ := List.mem_iff_getElem?.1 hK
  have hlt : n < 3 := (List.getElem?_eq_some_iff.1 hn).1
  have hsole : ∀ n < 3, soleAt ((sliceFlagBits.map Prod.fst).map (fun k => [k])) n
      (sliceFlagBits.getD n ("", 0)).1 = true := by decide
  have hsole2 : ∀ n < 3, soleAt (getVideoKeys false true true) 27
      (sliceFlagBits.getD n ("", 0)).1 = true ∧ ∀ ba, soleAt (getKeys false true ba true true) 39
      (sliceFlagBits.getD n ("", 0)).1 = true := by decide
  have h1 := hsole n hlt
  have h2 := hsole2 n hlt
  rw [List.getD_eq_getElem?_getD, hn] at h1 h2
  have hstep : (getVideoSteps lib codec false)[27]? =
      some (ifThen true (seq ((sliceFlagBits.map (fun e =>
        (e.1, JsValue.boolean (bitTest codec.slice_flags (1 <<< e.2))))).map
          (fun e t => napi_set_named_property t e.1 e.2)))) := rfl
  have h := get_at_video lib codec false hv 27 K _ hstep
    (rel_ifThen (rel_props _ (sliceFlagBits.map Prod.fst) (by rw [List.map_map]; rfl) n K _
      (by rw [List.getElem?_map, hn]; rfl) h1)) h2.1 h2.2 target ht
  rwa [bitTest_shift] at h

/-- Under decoding the write path, when it succeeds on a video record, updates
`slice_flags` from the values under the three slice-flag keys. -/
theorem set_slice_flags (lib : AVLib) (c : AVCodecContext) (ps : List (String × JsValue))
    (hv : c.codec_type = AVMEDIA_TYPE_VIDEO)
    (hok : (setCodecFromProps lib c (.object ps) false).1 = napi_ok) :
    (setCodecFromProps lib c (.object ps) false).2.slice_flags =
      applyFlags ps sliceFlagBits c.slice_flags := by
  refine set_at_video lib (.object ps) false 26 .slice_flags
    (fun c => c.slice_flags) (fun _ _ h => Val.word.inj h)
    (fun old new => new = applyFlags ps sliceFlagBits old) rfl ?_ (by decide) (by decide)
    c hv hok
  intro ba c _ _
  have h := flag_segment ps (fun c => c.slice_flags) (fun c w => { c with slice_flags := w })
    (fun _ _ => rfl) (fun _ _ _ => rfl) (fun _ => rfl) sliceFlagBits c
  exact congrArg (fun r => r.2.slice_flags) h

/-- C3: whenever `setCodecFromProps` succeeds on a bag, `getPropsFromCodec` on
the record it leaves succeeds and reports, under every flag key that held a
boolean in the bag, that boolean: for the keys of `flags` and `flags2` in either
mode, and for the three slice-flag keys on a video record under decoding. -/
theorem flag_round_trip (lib : AVLib) (c : AVCodecContext) (ps : List (String × JsValue))
    (encoding : Bool) (target : JsValue) (ht : IsBag target)
    (hok : (setCodecFromProps lib c (.object ps) encoding).1 = napi_ok)
    (K : String) (i : Nat) (b : Bool) (hb : getOwn ps K = .boolean b) :
    (getPropsFromCodec lib target
      (setCodecFromProps lib c (.object ps) encoding).2 encoding).1 = napi_ok ∧
    ((K, i) ∈ flagBits ++ flags2Bits →
      bagEntry K (getPropsFromCodec lib target
        (setCodecFromProps lib c (.object ps) encoding).2 encoding).2 = some (.boolean b)) ∧
    ((K, i) ∈ sliceFlagBits → encoding = false → c.codec_type = AVMEDIA_TYPE_VIDEO →
      bagEntry K (getPropsFromCodec lib target
        (setCodecFromProps lib c (.object ps) encoding).2 encoding).2 = some (.boolean b)) := by
  refine ⟨(getPropsFromCodec_ok lib target _ encoding ht).1, ?_, ?_⟩
  · intro hK
    obtain ⟨h1, h2⟩ := setCodecFromProps_flag_words lib c ps encoding
    rcases List.mem_append.1 hK with hK | hK
    · rw [get_flag_entry lib _ encoding target ht K i hK, h1,
        applyFlags_testBit ps K i b hb flagBits c.flags (by decide) (by decide) hK]
    · rw [get_flag2_entry lib _ encoding target ht K i hK, h2,
        applyFlags_testBit ps K i b hb flags2Bits c.flags2 (by decide) (by decide) hK]
  · intro hK he hv
    subst he
    have hv2 : (setCodecFromProps lib c (.object ps) false).2.codec_type = AVMEDIA_TYPE_VIDEO := by
      rw [setCodecFromProps_codec_type, hv]
    rw [get_slice_flag_entry lib _ hv2 target ht K i hK, set_slice_flags lib c ps hv hok,
      applyFlags_testBit ps K i b hb sliceFlagBits c.slice_flags (by decide) (by decide) hK]

/-- C3 at a sample input: `QSCALE` and `SLICE_FLAG_ALLOW_FIELD` written as `true`
on a video record under decoding, in a bag that names the pixel format, are both
read back as `true`. -/
theorem flag_round_trip_witness :
    bagEntry "QSCALE" (getPropsFromCodec sampleLib (.object [])
      (setCodecFromProps sampleLib sampleVideo (.object [("QSCALE", .boolean true),
        ("SLICE_FLAG_ALLOW_FIELD", .boolean true), ("pix_fmt", .string "yuv420p")])
        false).2 false).2 = some (.boolean true) ∧
    bagEntry "SLICE_FLAG_ALLOW_FIELD" (getPropsFromCodec sampleLib (.object [])
      (setCodecFromProps sampleLib sampleVideo (.object [("QSCALE", .boolean true),
        ("SLICE_FLAG_ALLOW_FIELD", .boolean true), ("pix_fmt", .string "yuv420p")])
        false).2 false).2 = some (.boolean true) :=
  ⟨(flag_round_trip sampleLib sampleVideo [("QSCALE", .boolean true),
      ("SLICE_FLAG_ALLOW_FIELD", .boolean true), ("pix_fmt", .string "yuv420p")] false
      (.object []) ⟨_, rfl⟩ (by decide) "QSCALE" 1 true rfl).2.1 (by decide),
   (flag_round_trip sampleLib sampleVideo [("QSCALE", .boolean true),
      ("SLICE_FLAG_ALLOW_FIELD", .boolean true), ("pix_fmt", .string "yuv420p")] false
      (.object []) ⟨_, rfl⟩ (by decide) "SLICE_FLAG_ALLOW_FIELD" 1 true rfl).2.2
      (by decide) rfl rfl⟩

/-! ## Claims C4 and C5: visibility -/

/-- C4: whatever the bag holds and whatever status is returned,
`setCodecFromProps` under decoding leaves every encode-only field of the record
as it was, under encoding it leaves every decode-only field as it was, on an
audio record it leaves every video field as it was, and on a video record it
leaves every audio field as it was. -/
theorem setCodecFromProps_visibility (lib : AVLib) (c : AVCodecContext) (props : JsValue)
    (encoding : Bool) :
    (∀ f ∈ encodeOnlyFields,
      Fld.get f (setCodecFromProps lib c props false).2 = Fld.get f c) ∧
    (∀ f ∈ decodeOnlyFields,
      Fld.get f (setCodecFromProps lib c props true).2 = Fld.get f c) ∧
    (c.codec_type = AVMEDIA_TYPE_AUDIO → ∀ f ∈ videoOnlyFields,
      Fld.get f (setCodecFromProps lib c props encoding).2 = Fld.get f c) ∧
    (c.codec_type = AVMEDIA_TYPE_VIDEO → ∀ f ∈ audioOnlyFields,
      Fld.get f (setCodecFromProps lib c props encoding).2 = Fld.get f c) := by
  have h1 : ∀ bv ba : Bool, ∀ f ∈ encodeOnlyFields, f ∉ (setFoot false bv ba).flatten := by
    decide
  have h2 : ∀ bv ba : Bool, ∀ f ∈ decodeOnlyFields, f ∉ (setFoot true bv ba).flatten := by
    decide
  have h3 : ∀ e : Bool, ∀ f ∈ videoOnlyFields, f ∉ (setFoot e false true).flatten := by decide
  have h4 : ∀ e : Bool, ∀ f ∈ audioOnlyFields, f ∉ (setFoot e true false).flatten := by decide
  refine ⟨fun f hf => set_untouched lib props false f c (h1 _ _ f hf),
    fun f hf => set_untouched lib props true f c (h2 _ _ f hf), ?_, ?_⟩
  · intro ha f hf
    refine set_untouched lib props encoding f c ?_
    rw [ha]
    exact h3 encoding f hf
  · intro hv f hf
    refine set_untouched lib props encoding f c ?_
    rw [hv]
    exact h4 encoding f hf

/-- C4 at a sample input: under decoding a bag that holds `qmin` leaves the
`qmin` field of the record as it was. -/
theorem setCodecFromProps_visibility_witness :
    Fld.qmin ∈ encodeOnlyFields ∧
    Fld.get .qmin (setCodecFromProps sampleLib sampleVideo
      (.object [("qmin", .number (Dbl.ofInt 5))]) false).2 = Fld.get .qmin sampleVideo :=
  ⟨by decide, (setCodecFromProps_visibility sampleLib sampleVideo
    (.object [("qmin", .number (Dbl.ofInt 5))]) false).1 Fld.qmin (by decide)⟩

/-- A key that no statement of the read path sets for this record keeps the
entry it had. -/
theorem get_untouched_for (lib : AVLib) (codec : AVCodecContext) (encoding : Bool) (k : String)
    (h : k ∉ (getKeys encoding (decide (codec.codec_type = AVMEDIA_TYPE_VIDEO))
      (decide (codec.codec_type = AVMEDIA_TYPE_AUDIO)) true true).flatten)
    (target : JsValue) (ht : IsBag target) :
    bagEntry k (getPropsFromCodec lib target codec encoding).2 = bagEntry k target :=
  (writes_seq (getSteps_writes lib codec encoding) target ht).2 k
    (fun hk => h (flatten_sub (getKeys_sub_same _ _ _ _ _) hk))

/-- C5: `getPropsFromCodec` on a bag returns `napi_ok` and leaves the entry of
the bag under a key as it was (absent, on a fresh bag) for every encode-only key
under decoding, every decode-only key under encoding, every key of the video
block when the record is not video and every key of the audio block when the
record is not audio. -/
theorem getPropsFromCodec_visibility (lib : AVLib) (codec : AVCodecContext) (encoding : Bool)
    (target : JsValue) (ht : IsBag target) :
    (getPropsFromCodec lib target codec encoding).1 = napi_ok ∧
    (∀ k ∈ encodeOnlyKeys,
      bagEntry k (getPropsFromCodec lib target codec false).2 = bagEntry k target) ∧
    (∀ k ∈ decodeOnlyKeys,
      bagEntry k (getPropsFromCodec lib target codec true).2 = bagEntry k target) ∧
    (codec.codec_type ≠ AVMEDIA_TYPE_VIDEO → ∀ k ∈ videoOnlyKeys,
      bagEntry k (getPropsFromCodec lib target codec encoding).2 = bagEntry k target) ∧
    (codec.codec_type ≠ AVMEDIA_TYPE_AUDIO → ∀ k ∈ audioOnlyKeys,
      bagEntry k (getPropsFromCodec lib target codec encoding).2 = bagEntry k target) := by
  have h1 : ∀ ba : Bool, ∀ k ∈ encodeOnlyKeys, k ∉ (getKeys false true ba true true).flatten := by
    decide
  have h2 : ∀ ba : Bool, ∀ k ∈ decodeOnlyKeys, k ∉ (getKeys true true ba true true).flatten := by
    decide
  have h3 : ∀ e ba : Bool, ∀ k ∈ videoOnlyKeys, k ∉ (getKeys e false ba true true).flatten := by
    decide
  have h4 : ∀ e bv : Bool, ∀ k ∈ audioOnlyKeys, k ∉ (getKeys e bv false true true).flatten := by
    decide
  refine ⟨(getPropsFromCodec_ok lib target codec encoding ht).1,
    fun k hk => get_untouched lib codec false k (fun ba => h1 ba k hk) target ht,
    fun k hk => get_untouched lib codec true k (fun ba => h2 ba k hk) target ht, ?_, ?_⟩
  · intro hv k hk
    refine get_untouched_for lib codec encoding k ?_ target ht
    rw [decide_eq_false hv]
    exact h3 _ _ k hk
  · intro ha k hk
    refine get_untouched_for lib codec encoding k ?_ target ht
    rw [decide_eq_false ha]
    exact h4 _ _ k hk

/-- C5 at a sample input: the bag built for an audio record under decoding has
no `width` entry. -/
theorem getPropsFromCodec_visibility_witness :
    bagEntry "width" (getPropsFromCodec sampleLib (.object []) sampleAudio false).2 = none :=
  (getPropsFromCodec_visibility sampleLib sampleAudio false (.object []) ⟨_, rfl⟩).2.2.2.1
    (by decide) "width" (by decide)

/-! ## Claim C6: keys of the two directions -/

/-- C6 at the failing input: under encoding, on a video record whose
`dark_masking` is 1, the bag that holds `dark_masking: 0` beside the six string
keys of a video encoder is accepted and its key is consumed (the field becomes
0), yet the bag that `getPropsFromCodec` builds from the resulting record has no
`dark_masking` entry: the value is emitted under `dask_masking`. -/
theorem dark_masking_not_read_back :
    StringsGiven (("dark_masking", .number (Dbl.ofInt 0)) :: sampleStrings) true
      AVMEDIA_TYPE_VIDEO ∧
    (setCodecFromProps sampleLib { sampleVideo with dark_masking := Dbl.ofInt 1 }
      (.object (("dark_masking", .number (Dbl.ofInt 0)) :: sampleStrings)) true).1 = napi_ok ∧
    (setCodecFromProps sampleLib { sampleVideo with dark_masking := Dbl.ofInt 1 }
      (.object (("dark_masking", .number (Dbl.ofInt 0)) :: sampleStrings)) true).2.dark_masking
      = Dbl.ofInt 0 ∧
    (getPropsFromCodec sampleLib (.object [])
      (setCodecFromProps sampleLib { sampleVideo with dark_masking := Dbl.ofInt 1 }
        (.object (("dark_masking", .number (Dbl.ofInt 0)) :: sampleStrings)) true).2 true).1
      = napi_ok ∧
    (bagEntry "dark_masking" (getPropsFromCodec sampleLib (.object [])
      (setCodecFromProps sampleLib { sampleVideo with dark_masking := Dbl.ofInt 1 }
        (.object (("dark_masking", .number (Dbl.ofInt 0)) :: sampleStrings)) true).2 true).2).isSome
      = false ∧
    (bagEntry "dask_masking" (getPropsFromCodec sampleLib (.object [])
      (setCodecFromProps sampleLib { sampleVideo with dark_masking := Dbl.ofInt 1 }
        (.object (("dark_masking", .number (Dbl.ofInt 0)) :: sampleStrings)) true).2 true).2).isSome
      = true := by
  decide

/-! ## Claim C7: integers written and read back -/

/-! ### Integers through the bag -/

theorem truncRat_intCast (v : Int) : truncRat (v : ℚ) = v := by
  simp [truncRat]

theorem toInt32_of_fits (v : Int) (h : -(2 ^ 31) ≤ v ∧ v < 2 ^ 31) : toInt32 v = v := by
  unfold toInt32
  omega

theorem beam_get_int32_number (ps : List (String × JsValue)) (k : String) (v old : Int)
    (hval : getOwn ps k = .number (Dbl.ofInt v)) (hfit : -(2 ^ 31) ≤ v ∧ v < 2 ^ 31) :
    beam_get_int32 (.object ps) k old = (napi_ok, v) := by
  simp [beam_get_int32, napi_get_named_property, hval, Dbl.ofInt, napi_get_value_int32,
    PASS_STATUS, ACCEPT_STATUS, truncRat_intCast, toInt32_of_fits v hfit]

section
variable {I : AVCodecContext → Prop} {ps : List (String × JsValue)} {k : String} {v : Int}
  {P : AVCodecContext → Int} {put : AVCodecContext → Int → AVCodecContext}

end

/-! ### Integer keys, one by one -/

/-- C8 at the failing input: under encoding, on a video record whose `ildct_cmp`
is 0 (`sad`), writing the bag that holds `ildct_cmp: "bit"` beside the six string
keys of a video encoder succeeds, and the bag read back from the resulting record
holds `"sad"` under `ildct_cmp`, not `"bit"`. -/
theorem ildct_cmp_not_read_back :
    StringsGiven (("ildct_cmp", .string "bit") :: sampleStrings) true AVMEDIA_TYPE_VIDEO ∧
    (setCodecFromProps sampleLib { sampleVideo with ildct_cmp := 0 }
      (.object (("ildct_cmp", .string "bit") :: sampleStrings)) true).1 = napi_ok ∧
    (bagEntry "ildct_cmp" (getPropsFromCodec sampleLib (.object [])
      (setCodecFromProps sampleLib { sampleVideo with ildct_cmp := 0 }
        (.object (("ildct_cmp", .string "bit") :: sampleStrings)) true).2 true).2).map
      napi_get_value_string_utf8 = some (napi_ok, "sad") := by
  decide

/-- C9 at the failing input: under encoding, on a video record whose `ildct_cmp`
is 0 and whose `dia_size` is 3, the bag that holds `ildct_cmp: "bit"` (5 in the
table) beside the six string keys of a video encoder, and no `dia_size` key,
leaves `ildct_cmp` at 0 and sets `dia_size` to 5. -/
theorem ildct_cmp_stored_in_dia_size :
    beam_lookup_enum beam_ff_cmp.inverse "bit" = 5 ∧
    StringsGiven (("ildct_cmp", .string "bit") :: sampleStrings) true AVMEDIA_TYPE_VIDEO ∧
    hasOwn (("ildct_cmp", JsValue.string "bit") :: sampleStrings) "dia_size" = false ∧
    (setCodecFromProps sampleLib { sampleVideo with ildct_cmp := 0, dia_size := 3 }
      (.object (("ildct_cmp", .string "bit") :: sampleStrings)) true).1 = napi_ok ∧
    (setCodecFromProps sampleLib { sampleVideo with ildct_cmp := 0, dia_size := 3 }
      (.object (("ildct_cmp", .string "bit") :: sampleStrings)) true).2.ildct_cmp = 0 ∧
    (setCodecFromProps sampleLib { sampleVideo with ildct_cmp := 0, dia_size := 3 }
      (.object (("ildct_cmp", .string "bit") :: sampleStrings)) true).2.dia_size = 5 := by
  decide

/-! ## Claim C10: names of enum values -/

/-! ### Enum names -/

theorem mapFind_of_mem {κ ν : Type} [DecidableEq κ] (m : List (κ × ν)) (k : κ) (x : ν)
    (hnd : (m.map Prod.fst).Nodup) (h : (k, x) ∈ m) : mapFind m k = some x := by
  induction m with
  | nil => cases h
  | cons e m ih =>
    obtain ⟨k', x'⟩ := e
    simp only [List.map_cons, List.nodup_cons] at hnd
    rcases List.mem_cons.1 h with heq | hmem
    · cases heq
      simp [mapFind]
    · have hne : k' ≠ k := by
        rintro rfl
        exact hnd.1 (List.mem_map.2 ⟨(k', x), hmem, rfl⟩)
      simp only [mapFind, if_neg hne]
      exact ih hnd.2 hmem

theorem mapFind_of_not_mem {κ ν : Type} [DecidableEq κ] (m : List (κ × ν)) (k : κ)
    (h : ∀ x, (k, x) ∉ m) : mapFind m k = none := by
  induction m with
  | nil => rfl
  | cons e m ih =>
    obtain ⟨k', x'⟩ := e
    have hne : k' ≠ k := by
      rintro rfl
      exact h x' (by simp)
    simp only [mapFind, if_neg hne]
    exact ih (fun x hx => h x (by simp [hx]))

theorem beam_set_enum_eq (target : JsValue) (name : String) (enumDesc : beamEnum) (value : Int) :
    beam_set_enum target name enumDesc value =
      napi_set_named_property target name
        (.string (beam_lookup_name enumDesc.forward value)) := by
  unfold beam_set_enum beam_lookup_name
  cases mapFind enumDesc.forward value <;> rfl

/-- C10: for a descriptor whose forward table has distinct keys and every integer
`v`, `beam_lookup_name` is the name paired with `v` when the table has such a
pair and `"unknown"` when it has none; `beam_set_enum` on a bag returns `napi_ok`
and leaves that same name, as a string, under the key. -/
theorem beam_lookup_name_spec (enumDesc : beamEnum) (v : Int)
    (hnd : (enumDesc.forward.map Prod.fst).Nodup) :
    (∀ name, (v, name) ∈ enumDesc.forward → beam_lookup_name enumDesc.forward v = name) ∧
    ((∀ name, (v, name) ∉ enumDesc.forward) → beam_lookup_name enumDesc.forward v = "unknown") ∧
    ∀ target key, IsBag target →
      (beam_set_enum target key enumDesc v).1 = napi_ok ∧
      bagEntry key (beam_set_enum target key enumDesc v).2 =
        some (.string (beam_lookup_name enumDesc.forward v)) := by
  refine ⟨fun name h => ?_, fun h => ?_, fun target key ht => ?_⟩
  · unfold beam_lookup_name
    rw [mapFind_of_mem _ _ _ hnd h]
  · unfold beam_lookup_name
    rw [mapFind_of_not_mem _ _ h]
  · rw [beam_set_enum_eq]
    exact ⟨(sure_setProp key _ target ht).1, rel_setProp key _ target ht
      (sure_setProp key _ target ht).1⟩

/-- C10 at sample inputs: in the table of comparison functions 5 is `bit` and 99,
which is not a key, is `unknown`; the four tables of the source have distinct
keys. -/
theorem beam_lookup_name_spec_witness :
    ((beam_field_order.forward.map Prod.fst).Nodup ∧
     (beam_ff_cmp.forward.map Prod.fst).Nodup ∧
     (beam_ff_mb_decision.forward.map Prod.fst).Nodup ∧
     (beam_av_audio_service_type.forward.map Prod.fst).Nodup) ∧
    beam_lookup_name beam_ff_cmp.forward 5 = "bit" ∧
    beam_lookup_name beam_ff_cmp.forward 99 = "unknown" :=
  ⟨by decide, (beam_lookup_name_spec beam_ff_cmp 5 (by decide)).1 "bit" (by decide),
    (beam_lookup_name_spec beam_ff_cmp 99 (by decide)).2.1 (fun name h =>
      absurd (List.mem_map.2 ⟨(99, name), h, rfl⟩ :
        (99 : Int) ∈ beam_ff_cmp.forward.map Prod.fst) (by decide))⟩

/-! ## Claims C11 to C14: enum names and rationals -/

/-! ### Enum values -/

theorem beam_get_enum_string (ps : List (String × JsValue)) (name : String)
    (enumDesc : beamEnum) (old : Int) (s : String) (h : getOwn ps name = .string s) :
    beam_get_enum (.object ps) name enumDesc old =
      (napi_ok, beam_lookup_enum enumDesc.inverse (cstr s)) := by
  unfold beam_get_enum beam_lookup_enum
  simp only [napi_get_named_property, h, napi_typeof, napi_get_value_string_utf8]
  cases mapFind enumDesc.inverse (cstr s) <;> simp [PASS_STATUS]

theorem takeWhile_eq_self_of_forall {α : Type} (p : α → Bool) :
    ∀ l : List α, (∀ x ∈ l, p x = true) → l.takeWhile p = l
  | [], _ => rfl
  | x :: l, h => by
    rw [List.takeWhile_cons, h x (List.mem_cons_self _ _),
      if_pos rfl, takeWhile_eq_self_of_forall p l (fun y hy => h y (List.mem_cons_of_mem _ hy))]

theorem cstr_of_no_nul (s : String) (h : Char.ofNat 0 ∉ s.data) : cstr s = s := by
  unfold cstr
  rw [takeWhile_eq_self_of_forall]
  intro x hx
  exact decide_eq_true (fun hx0 => h (hx0 ▸ hx))

/-- C11, the input on which the claim fails: `"sad"`, a NUL and `"x"` is not a
key of the table of comparison functions, so `beam_lookup_enum` gives it
`BEAM_ENUM_UNKNOWN`; read from a bag, `beam_get_enum` looks up the part before
the NUL and stores 0, the integer of `"sad"`. -/
theorem enum_string_cut_at_nul :
    (∀ v, (String.mk [Char.ofNat 115, Char.ofNat 97, Char.ofNat 100, Char.ofNat 0,
      Char.ofNat 120], v) ∉ beam_ff_cmp.inverse) ∧
    beam_lookup_enum beam_ff_cmp.inverse (String.mk [Char.ofNat 115, Char.ofNat 97,
      Char.ofNat 100, Char.ofNat 0, Char.ofNat 120]) = BEAM_ENUM_UNKNOWN ∧
    beam_get_enum (.object [("me_cmp", .string (String.mk [Char.ofNat 115, Char.ofNat 97,
      Char.ofNat 100, Char.ofNat 0, Char.ofNat 120]))]) "me_cmp" beam_ff_cmp 7 =
      (napi_ok, 0) ∧
    beam_lookup_enum beam_ff_cmp.inverse "sad" = 0 := by
  refine ⟨fun v h => ?_, by decide, by decide, by decide⟩
  exact absurd (List.mem_map.2 ⟨_, h, rfl⟩ :
    String.mk [Char.ofNat 115, Char.ofNat 97, Char.ofNat 100, Char.ofNat 0, Char.ofNat 120] ∈
      beam_ff_cmp.inverse.map Prod.fst) (by decide)

/-- C11: for a descriptor whose inverse table has distinct keys and every string
`s`, `beam_lookup_enum` is the integer paired with `s` when the table has such a
pair and `BEAM_ENUM_UNKNOWN` when it has none; `beam_get_enum` on a bag that
holds the string `s` under the key returns `napi_ok` and the integer that
`beam_lookup_enum` gives to the part of `s` before its first NUL, which is `s`
itself when `s` has no NUL. -/
theorem beam_lookup_enum_spec (enumDesc : beamEnum) (s : String)
    (hnd : (enumDesc.inverse.map Prod.fst).Nodup) :
    (∀ v, (s, v) ∈ enumDesc.inverse → beam_lookup_enum enumDesc.inverse s = v) ∧
    ((∀ v, (s, v) ∉ enumDesc.inverse) →
      beam_lookup_enum enumDesc.inverse s = BEAM_ENUM_UNKNOWN) ∧
    (∀ ps key old, getOwn ps key = .string s →
      beam_get_enum (.object ps) key enumDesc old =
        (napi_ok, beam_lookup_enum enumDesc.inverse (cstr s))) ∧
    (Char.ofNat 0 ∉ s.data → ∀ ps key old, getOwn ps key = .string s →
      beam_get_enum (.object ps) key enumDesc old =
        (napi_ok, beam_lookup_enum enumDesc.inverse s)) := by
  refine ⟨fun v h => ?_, fun h => ?_, fun ps key old h => beam_get_enum_string ps key _ old s h,
    fun h0 ps key old h => ?_⟩
  · unfold beam_lookup_enum
    rw [mapFind_of_mem _ _ _ hnd h]
  · unfold beam_lookup_enum
    rw [mapFind_of_not_mem _ _ h]
  · rw [beam_get_enum_string ps key _ old s h, cstr_of_no_nul s h0]

/-- C11 at sample inputs: in the table of macroblock decisions `"rd"` is 2 and
`"fast"`, which is not a key, is `BEAM_ENUM_UNKNOWN`; read from a bag, `"rd"`,
which has no NUL, gives `napi_ok` and 2. -/
theorem beam_lookup_enum_spec_witness :
    (beam_ff_mb_decision.inverse.map Prod.fst).Nodup ∧
    beam_lookup_enum beam_ff_mb_decision.inverse "rd" = 2 ∧
    beam_lookup_enum beam_ff_mb_decision.inverse "fast" = BEAM_ENUM_UNKNOWN ∧
    beam_get_enum (.object [("mb_decision", .string "rd")]) "mb_decision"
      beam_ff_mb_decision 0 = (napi_ok, 2) :=
  ⟨by decide, (beam_lookup_enum_spec beam_ff_mb_decision "rd" (by decide)).1 2 (by decide),
    (beam_lookup_enum_spec beam_ff_mb_decision "fast" (by decide)).2.1 (fun v h =>
      absurd (List.mem_map.2 ⟨("fast", v), h, rfl⟩ :
        "fast" ∈ beam_ff_mb_decision.inverse.map Prod.fst) (by decide)),
    (beam_lookup_enum_spec beam_ff_mb_decision "rd" (by decide)).2.2.2 (by decide) _ _ 0 rfl⟩

/-- C12: in each of the four descriptors of the source the names of the forward
table are pairwise distinct, and, with the inverse table derived from the forward
table, `beam_lookup_enum` undoes `beam_lookup_name` on every integer of the
forward table and `beam_lookup_name` undoes `beam_lookup_enum` on every name of
the inverse table. -/
theorem enum_tables_round_trip :
    ∀ d ∈ [beam_field_order, beam_ff_cmp, beam_ff_mb_decision, beam_av_audio_service_type],
      (d.forward.map Prod.snd).Nodup ∧
      (∀ p ∈ d.forward, beam_lookup_enum d.inverse (beam_lookup_name d.forward p.1) = p.1) ∧
      (∀ q ∈ d.inverse, beam_lookup_name d.forward (beam_lookup_enum d.inverse q.1) = q.1) := by
  decide

/-- C12 at a sample input: the comparison function 256 is named `chroma` and the
name leads back to 256. -/
theorem enum_tables_round_trip_witness :
    beam_lookup_enum beam_ff_cmp.inverse (beam_lookup_name beam_ff_cmp.forward 256) = 256 :=
  (enum_tables_round_trip beam_ff_cmp
    (List.mem_cons_of_mem _ (List.mem_cons_self _ _))).2.1 (256, "chroma") (by decide)

/-! ### Rationals -/

theorem beam_get_rational_array (ps : List (String × JsValue)) (name : String)
    (old : AVRational) (a b : JsValue) (rest : List JsValue)
    (h : getOwn ps name = .array (a :: b :: rest)) :
    beam_get_rational (.object ps) name old =
      (napi_ok, av_make_q (napi_get_value_int32 a 0).2 (napi_get_value_int32 b 1).2) := by
  have ha : ACCEPT_STATUS (napi_get_value_int32 a 0).1 napi_number_expected = false := by
    cases a with
    | number d => cases d <;> rfl
    | _ => rfl
  have hb : ACCEPT_STATUS (napi_get_value_int32 b 1).1 napi_number_expected = false := by
    cases b with
    | number d => cases d <;> rfl
    | _ => rfl
  simp [beam_get_rational, napi_get_named_property, h, napi_is_array, napi_get_element,
    PASS_STATUS, ha, hb]

/-- C13: for every pair of 32-bit integers, `beam_set_rational` on a bag returns
`napi_ok` and leaves the two-element sequence `[num, den]` under the key, and
`beam_get_rational` on the resulting bag and key returns `napi_ok` and exactly
`num/den`. -/
theorem rational_round_trip (ps : List (String × JsValue)) (key : String) (num den : Int)
    (old : AVRational) (hn : -(2 ^ 31) ≤ num ∧ num < 2 ^ 31)
    (hd : -(2 ^ 31) ≤ den ∧ den < 2 ^ 31) :
    (beam_set_rational (.object ps) key ⟨num, den⟩).1 = napi_ok ∧
    bagEntry key (beam_set_rational (.object ps) key ⟨num, den⟩).2 =
      some (.array [.number (Dbl.ofInt num), .number (Dbl.ofInt den)]) ∧
    beam_get_rational (beam_set_rational (.object ps) key ⟨num, den⟩).2 key old =
      (napi_ok, ⟨num, den⟩) := by
  refine ⟨rfl, rel_setProp key _ (.object ps) ⟨_, rfl⟩ rfl, ?_⟩
  show beam_get_rational (.object (setOwn ps key _)) key old = _
  rw [beam_get_rational_array _ key old _ _ [] (getOwn_setOwn_self ps key _)]
  simp [napi_create_int32, napi_get_value_int32, Dbl.ofInt, truncRat_intCast,
    toInt32_of_fits num hn, toInt32_of_fits den hd, av_make_q]

/-- C13 at a sample input: `-30000/1001` written to an empty bag and read back. -/
theorem rational_round_trip_witness :
    beam_get_rational (beam_set_rational (.object []) "time_base" ⟨-30000, 1001⟩).2
      "time_base" ⟨7, 7⟩ = (napi_ok, ⟨-30000, 1001⟩) :=
  (rational_round_trip [] "time_base" (-30000) 1001 ⟨7, 7⟩ (by decide) (by decide)).2.2

/-- C14: on a bag, `beam_get_rational` returns `napi_ok` and `0/1` when the key is
absent or holds a value that is not an array; for an array it returns `napi_ok`
with numerator 0 when element 0 is missing or not a number and denominator 1
when element 1 is missing or not a number. -/
theorem rational_default (ps : List (String × JsValue)) (key : String) (old : AVRational) :
    (hasOwn ps key = false → beam_get_rational (.object ps) key old = (napi_ok, ⟨0, 1⟩)) ∧
    (napi_is_array (getOwn ps key) = false →
      beam_get_rational (.object ps) key old = (napi_ok, ⟨0, 1⟩)) ∧
    (∀ xs, getOwn ps key = .array xs →
      (beam_get_rational (.object ps) key old).1 = napi_ok ∧
      (napi_typeof (xs.getD 0 .undefined) ≠ .napi_number →
        (beam_get_rational (.object ps) key old).2.num = 0) ∧
      (napi_typeof (xs.getD 1 .undefined) ≠ .napi_number →
        (beam_get_rational (.object ps) key old).2.den = 1)) := by
  have hnot : napi_is_array (getOwn ps key) = false →
      beam_get_rational (.object ps) key old = (napi_ok, ⟨0, 1⟩) := by
    intro h
    simp [beam_get_rational, napi_get_named_property, h, PASS_STATUS, av_make_q]
  have hval : ∀ (v : JsValue) (d : Int),
      ACCEPT_STATUS (napi_get_value_int32 v d).1 napi_number_expected = false ∧
      (napi_typeof v ≠ .napi_number → (napi_get_value_int32 v d).2 = d) := by
    intro v d
    cases v with
    | number x => cases x <;> exact ⟨rfl, fun h => absurd rfl h⟩
    | _ => exact ⟨rfl, fun _ => rfl⟩
  refine ⟨fun h => hnot ?_, hnot, fun xs h => ?_⟩
  · rw [hasOwn_false_getOwn h]
    rfl
  · have h0 := hval (xs.getD 0 .undefined) 0
    have h1 := hval (xs.getD 1 .undefined) 1
    have heq : beam_get_rational (.object ps) key old =
        (napi_ok, av_make_q (napi_get_value_int32 (xs.getD 0 .undefined) 0).2
          (napi_get_value_int32 (xs.getD 1 .undefined) 1).2) := by
      unfold beam_get_rational
      simp only [napi_get_named_property, h, napi_is_array, napi_get_element, h0.1, h1.1]
      simp [PASS_STATUS]
    rw [heq]
    exact ⟨rfl, h0.2, h1.2⟩

/-- C14 at sample inputs: an empty bag gives `0/1`, and so does a bag that holds a
string under the key; the array `[25]` gives `25/1`. -/
theorem rational_default_witness :
    beam_get_rational (.object []) "time_base" ⟨7, 7⟩ = (napi_ok, ⟨0, 1⟩) ∧
    beam_get_rational (.object [("time_base", .string "1/25")]) "time_base" ⟨7, 7⟩ =
      (napi_ok, ⟨0, 1⟩) ∧
    (beam_get_rational (.object [("time_base", .array [.number (Dbl.ofInt 25)])])
      "time_base" ⟨7, 7⟩).2.den = 1 :=
  ⟨(rational_default [] "time_base" ⟨7, 7⟩).1 rfl,
   (rational_default [("time_base", .string "1/25")] "time_base" ⟨7, 7⟩).2.1 rfl,
   ((rational_default [("time_base", .array [.number (Dbl.ofInt 25)])] "time_base"
      ⟨7, 7⟩).2.2 _ rfl).2.2 (by decide)⟩

/-! ## Statements that leave a field alone, and loops -/

/-! ### A field or key that its own statement leaves alone -/

section
variable {σ α ι : Type} {β : ι → Type} {I : σ → Prop} {obs : (g : ι) → σ → β g}

theorem frame_seq_at {Fs : List (List ι)} {steps : List (Step σ)}
    (hW : List.Forall₂ (Writes I obs) Fs steps) {f : ι} {P : σ → α}
    (hP : ∀ c c', obs f c' = obs f c → P c' = P c)
    (i : Nat) {s : Step σ} (hs : steps[i]? = some s) (hF : Frame I P s)
    (hbefore : ∀ F ∈ Fs.take i, f ∉ F) (hafter : ∀ F ∈ Fs.drop (i + 1), f ∉ F) :
    Frame I P (seq steps) := by
  induction hW generalizing i with
  | nil => simp at hs
  | @cons F s0 Fs' rest h0 hrest ih =>
    cases i with
    | zero =>
      simp only [List.getElem?_cons_zero, Option.some.injEq] at hs
      subst hs
      have hfl : f ∉ Fs'.flatten := by
        intro hm
        obtain ⟨F', hF', hfF'⟩ := List.mem_flatten.1 hm
        exact hafter F' (by simpa using hF') hfF'
      exact frame_seq_cons hF (frame_of_writes hP (writes_seq hrest) hfl)
    | succ j =>
      have hf0 : f ∉ F := hbefore F (by simp)
      refine frame_seq_cons (frame_of_writes hP h0 hf0)
        (ih j (by simpa using hs) (fun F' hF' => hbefore F' ?_) (fun F' hF' => hafter F' ?_))
      · simp only [List.take_succ_cons, List.mem_cons]
        exact Or.inr hF'
      · simpa using hF'

theorem frame_sole [DecidableEq ι] {Fs : List (List ι)} {steps : List (Step σ)}
    (hW : List.Forall₂ (Writes I obs) Fs steps) (f : ι) {P : σ → α}
    (hP : ∀ c c', obs f c' = obs f c → P c' = P c)
    (i : Nat) {s : Step σ} (hs : steps[i]? = some s) (hF : Frame I P s)
    (hsole : soleAt Fs i f = true) : Frame I P (seq steps) :=
  frame_seq_at hW hP i hs hF (soleAt_before hsole) (soleAt_after hsole)

end

theorem set_keep_top (lib : AVLib) (props : JsValue) (encoding : Bool) (i : Nat) (f : Fld)
    {s : Step AVCodecContext} (hs : (setSteps lib props encoding)[i]? = some s)
    (hF : ∀ bv ba, Frame (MediaIs bv ba) (Fld.get f) s)
    (hsole : ∀ e bv ba, soleAt (setFoot e bv ba) i f = true) (c : AVCodecContext) :
    Fld.get f (setCodecFromProps lib c props encoding).2 = Fld.get f c :=
  (frame_sole (setSteps_writes lib props encoding _ _) f (fun _ _ h => h) i hs (hF _ _)
    (hsole _ _ _) c ⟨rfl, rfl⟩).2

theorem set_keep_video (lib : AVLib) (props : JsValue) (encoding : Bool) (i : Nat) (f : Fld)
    {s : Step AVCodecContext} (hs : (setVideoSteps lib props encoding)[i]? = some s)
    (hF : ∀ bv ba, Frame (MediaIs bv ba) (Fld.get f) s)
    (hsole : ∀ e, soleAt (setVideoFoot e) i f = true)
    (htop : ∀ e bv ba, soleAt (setFoot e bv ba) 33 f = true) (c : AVCodecContext) :
    Fld.get f (setCodecFromProps lib c props encoding).2 = Fld.get f c :=
  (frame_sole (setSteps_writes lib props encoding _ _) f (fun _ _ h => h) 33 rfl
    (frame_ifState (frame_sole (setVideo_writes lib props encoding _ _) f (fun _ _ h => h) i hs
      (hF _ _) (hsole _)))
    (htop _ _ _) c ⟨rfl, rfl⟩).2

theorem set_keep_audio (lib : AVLib) (props : JsValue) (encoding : Bool) (i : Nat) (f : Fld)
    {s : Step AVCodecContext} (hs : (setAudioSteps lib props encoding)[i]? = some s)
    (hF : ∀ bv ba, Frame (MediaIs bv ba) (Fld.get f) s)
    (hsole : ∀ e, soleAt (setAudioFoot e) i f = true)
    (htop : ∀ e bv ba, soleAt (setFoot e bv ba) 34 f = true) (c : AVCodecContext) :
    Fld.get f (setCodecFromProps lib c props encoding).2 = Fld.get f c :=
  (frame_sole (setSteps_writes lib props encoding _ _) f (fun _ _ h => h) 34 rfl
    (frame_ifState (frame_sole (setAudio_writes lib props encoding _ _) f (fun _ _ h => h) i hs
      (hF _ _) (hsole _)))
    (htop _ _ _) c ⟨rfl, rfl⟩).2

/-! ### Helpers on a bag that lacks the key -/

theorem beam_get_int32_absent (ps : List (String × JsValue)) (k : String) (old : Int)
    (h : hasOwn ps k = false) : beam_get_int32 (.object ps) k old = (napi_ok, old) := by
  simp [beam_get_int32, napi_get_named_property, hasOwn_false_getOwn h, napi_get_value_int32,
    PASS_STATUS, ACCEPT_STATUS]

theorem beam_get_int64_absent (ps : List (String × JsValue)) (k : String) (old : Int)
    (h : hasOwn ps k = false) : beam_get_int64 (.object ps) k old = (napi_ok, old) := by
  simp [beam_get_int64, napi_get_named_property, hasOwn_false_getOwn h, napi_get_value_int64,
    PASS_STATUS, ACCEPT_STATUS]

theorem beam_get_double_absent (ps : List (String × JsValue)) (k : String) (old : Dbl)
    (h : hasOwn ps k = false) : beam_get_double (.object ps) k old = (napi_ok, old) := by
  simp [beam_get_double, napi_get_named_property, hasOwn_false_getOwn h, napi_get_value_double,
    PASS_STATUS, ACCEPT_STATUS]

theorem Dbl.cne_self_sentinelA : Dbl.cne sentinelA sentinelA = false := by decide

theorem Dbl.cne_self_sentinelB : Dbl.cne sentinelB sentinelB = false := by decide

section
variable {α : Type} {I : AVCodecContext → Prop} {P : AVCodecContext → α}
  {ps : List (String × JsValue)} {k : String}

theorem frame_int32_absent {put : AVCodecContext → Int → AVCodecContext}
    (h : hasOwn ps k = false) (g : AVCodecContext → Int) (hput : ∀ c, put c (g c) = c) :
    Frame I P (fun c => store (beam_get_int32 (.object ps) k (g c)) (put c)) := by
  intro c hc
  show I (put c (beam_get_int32 (.object ps) k (g c)).2) ∧
    P (put c (beam_get_int32 (.object ps) k (g c)).2) = P c
  rw [beam_get_int32_absent ps k _ h, hput]
  exact ⟨hc, rfl⟩

theorem frame_int64_absent {put : AVCodecContext → Int → AVCodecContext}
    (h : hasOwn ps k = false) (g : AVCodecContext → Int) (hput : ∀ c, put c (g c) = c) :
    Frame I P (fun c => store (beam_get_int64 (.object ps) k (g c)) (put c)) := by
  intro c hc
  show I (put c (beam_get_int64 (.object ps) k (g c)).2) ∧
    P (put c (beam_get_int64 (.object ps) k (g c)).2) = P c
  rw [beam_get_int64_absent ps k _ h, hput]
  exact ⟨hc, rfl⟩

theorem frame_float_absent {sentinel : Dbl} {put : AVCodecContext → Dbl → AVCodecContext}
    (h : hasOwn ps k = false) (hs : Dbl.cne sentinel sentinel = false) :
    Frame I P (floatStep (.object ps) k sentinel put) := by
  intro c hc
  unfold floatStep
  simp only [beam_get_double_absent ps k _ h, hs]
  exact ⟨hc, rfl⟩

end

/-! ### Loops over an array -/

theorem seq_range_set {α : Type} (n : Nat) (body : Nat → Step (List α)) (val : Nat → α)
    (hbody : ∀ x b, x < n → b.length = n → body x b = (napi_ok, b.set x (val x)))
    (b0 : List α) (h0 : b0.length = n) :
    seq ((List.range n).map body) b0 = (napi_ok, (List.range n).map val) := by
  have key : ∀ k, k ≤ n → seq ((List.range k).map body) b0 =
      (napi_ok, (List.range k).map val ++ b0.drop k) := by
    intro k
    induction k with
    | zero => intro _; simp [seq_nil_eq]
    | succ k ih =>
      intro hk
      have hlen : ((List.range k).map val ++ b0.drop k).length = n := by
        simp only [List.length_append, List.length_map, List.length_range, List.length_drop]
        omega
      rw [List.range_succ, List.map_append, seq_append, ih (by omega), if_neg (not_pass_ok _)]
      simp only [List.map_cons, List.map_nil, seq_cons_eq, seq_nil_eq]
      rw [hbody k _ (by omega) hlen, if_neg (not_pass_ok _)]
      congr 1
      have hk' : k < b0.length := by omega
      rw [List.set_append_right _ _ (by simp), List.drop_eq_getElem_cons hk']
      simp only [List.length_map, List.length_range, Nat.sub_self, List.set_cons_zero,
        List.map_append, List.map_cons, List.map_nil, List.append_assoc, List.singleton_append]
  have h := key n (le_refl n)
  rw [h, List.drop_of_length_le (by omega), List.append_nil]

theorem seq_range_push {α : Type} (n : Nat) (body : Nat → Step (List α)) (val : Nat → α)
    (hbody : ∀ x b, x < n → body x b = (napi_ok, b ++ [val x])) :
    seq ((List.range n).map body) [] = (napi_ok, (List.range n).map val) := by
  have key : ∀ k, k ≤ n → seq ((List.range k).map body) [] =
      (napi_ok, (List.range k).map val) := by
    intro k
    induction k with
    | zero => intro _; simp [seq_nil_eq]
    | succ k ih =>
      intro hk
      rw [List.range_succ, List.map_append, seq_append, ih (by omega), if_neg (not_pass_ok _)]
      simp only [List.map_cons, List.map_nil, seq_cons_eq, seq_nil_eq]
      rw [hbody k _ (by omega), if_neg (not_pass_ok _)]
      simp
  exact key n (le_refl n)

/-! ### Array lengths and elements -/

theorem toInt32_toUint32_length (n : Nat) (h : n < 2 ^ 31) :
    toInt32 (toUint32 (n : Int)) = n := by
  unfold toInt32 toUint32
  omega

theorem napi_get_value_int32_ofInt (v old : Int) (h : -(2 ^ 31) ≤ v ∧ v < 2 ^ 31) :
    napi_get_value_int32 (.number (Dbl.ofInt v)) old = (napi_ok, v) := by
  simp [napi_get_value_int32, Dbl.ofInt, truncRat_intCast, toInt32_of_fits v h]

theorem range_map_getD {α : Type} (xs : List α) (d : α) :
    (List.range xs.length).map (fun x => xs.getD x d) = xs := by
  apply List.ext_getElem
  · simp
  · intro i h1 h2
    simp [List.getD_eq_getElem?_getD, List.getElem?_eq_getElem h2]

/-! ### Where the write path can fail -/

theorem beam_get_rational_status (ps : List (String × JsValue)) (name : String)
    (old : AVRational) : (beam_get_rational (.object ps) name old).1 = napi_ok := by
  have hval : ∀ (v : JsValue) (d : Int),
      ACCEPT_STATUS (napi_get_value_int32 v d).1 napi_number_expected = false := by
    intro v d
    cases v with
    | number x => cases x <;> rfl
    | _ => rfl
  unfold beam_get_rational
  simp only [napi_get_named_property]
  generalize getOwn ps name = x
  cases x with
  | array xs => simp [napi_is_array, napi_get_element, PASS_STATUS, hval]
  | _ => simp [napi_is_array, PASS_STATUS]

theorem beam_get_enum_status (ps : List (String × JsValue)) (name : String)
    (enumDesc : beamEnum) (old : Int) :
    (beam_get_enum (.object ps) name enumDesc old).1 = napi_ok := by
  unfold beam_get_enum
  simp only [napi_get_named_property]
  generalize getOwn ps name = x
  cases x with
  | number d => cases d <;> simp [napi_typeof, napi_get_value_int32, PASS_STATUS]
  | string s =>
    simp only [napi_typeof, napi_get_value_string_utf8]
    cases mapFind enumDesc.inverse (cstr s) <;> simp [PASS_STATUS]
  | _ => simp [napi_typeof, PASS_STATUS]

theorem beam_get_double_status (ps : List (String × JsValue)) (name : String) (old : Dbl) :
    (beam_get_double (.object ps) name old).1 = napi_ok := by
  simp only [beam_get_double, napi_get_named_property]
  generalize getOwn ps name = x
  cases x <;> simp [napi_get_value_double, PASS_STATUS, ACCEPT_STATUS]

theorem beam_get_string_utf8_status (ps : List (String × JsValue)) (name : String)
    (old : Option String) : (beam_get_string_utf8 (.object ps) name old).1 = napi_ok := by
  simp only [beam_get_string_utf8, napi_get_named_property]
  generalize getOwn ps name = x
  cases x <;> simp [napi_get_value_string_utf8, PASS_STATUS, ACCEPT_STATUS]

section
variable {ps : List (String × JsValue)} {k : String}

theorem sure_ifThen_false {σ : Type} {I : σ → Prop} {s : Step σ} : Sure I (ifThen false s) :=
  fun _ hc => ⟨rfl, hc⟩

theorem sure_ifState {σ : Type} {I : σ → Prop} {p : σ → Bool} {s : Step σ} (hs : Sure I s) :
    Sure I (ifState p s) := by
  intro c hc
  unfold ifState
  split
  · exact hs c hc
  · exact ⟨rfl, hc⟩

theorem sure_int32 (g : AVCodecContext → Int) (put : AVCodecContext → Int → AVCodecContext) :
    Sure (fun _ => True) (fun c => store (beam_get_int32 (.object ps) k (g c)) (put c)) :=
  fun _ _ => ⟨beam_get_int32_status _ _ _, trivial⟩

theorem sure_int64 (g : AVCodecContext → Int) (put : AVCodecContext → Int → AVCodecContext) :
    Sure (fun _ => True) (fun c => store (beam_get_int64 (.object ps) k (g c)) (put c)) :=
  fun _ _ => ⟨beam_get_int64_status _ _ _, trivial⟩

theorem sure_rational (g : AVCodecContext → AVRational)
    (put : AVCodecContext → AVRational → AVCodecContext) :
    Sure (fun _ => True) (fun c => store (beam_get_rational (.object ps) k (g c)) (put c)) :=
  fun _ _ => ⟨beam_get_rational_status _ _ _, trivial⟩

theorem sure_enum (enumDesc : beamEnum) (g : AVCodecContext → Int)
    (put : AVCodecContext → Int → AVCodecContext) :
    Sure (fun _ => True)
      (fun c => store (beam_get_enum (.object ps) k enumDesc (g c)) (put c)) :=
  fun _ _ => ⟨beam_get_enum_status _ _ _ _, trivial⟩

theorem sure_flagStep (mask : Nat) (word : AVCodecContext → Nat)
    (put : AVCodecContext → Nat → AVCodecContext) :
    Sure (fun _ => True) (flagStep (.object ps) k mask word put) := by
  intro c _
  refine ⟨?_, trivial⟩
  unfold flagStep
  rw [beam_get_bool_object]
  cases getOwn ps k <;> simp [PASS_STATUS]

theorem sure_floatStep (sentinel : Dbl) (put : AVCodecContext → Dbl → AVCodecContext) :
    Sure (fun _ => True) (floatStep (.object ps) k sentinel put) := by
  intro c _
  unfold floatStep
  simp only [beam_get_double_status, PASS_STATUS]
  exact ⟨rfl, trivial⟩

theorem beam_get_string_utf8_string (h : napi_typeof (getOwn ps k) = .napi_string)
    (old : Option String) :
    ∃ s, beam_get_string_utf8 (.object ps) k old = (napi_ok, some s) := by
  simp only [beam_get_string_utf8, napi_get_named_property]
  generalize getOwn ps k = x at h
  cases x with
  | string s => exact ⟨cstr s, by simp [napi_get_value_string_utf8, PASS_STATUS]⟩
  | _ => simp [napi_typeof] at h

theorem sure_stringStep (h : napi_typeof (getOwn ps k) = .napi_string) (parse : String → Int)
    (put : AVCodecContext → Int → AVCodecContext) :
    Sure (fun _ => True) (stringStep (.object ps) k parse put) := by
  intro c _
  obtain ⟨s, hs⟩ := beam_get_string_utf8_string h none
  unfold stringStep
  simp only [hs, PASS_STATUS]
  exact ⟨rfl, trivial⟩

theorem matrixBody_ok (xs : List JsValue) (x : Nat) (buf : List Int) :
    (matrixBody (.array xs) x buf).1 = napi_ok := by
  unfold matrixBody
  simp only [napi_get_element]
  generalize xs.getD x .undefined = e
  cases e with
  | number d => cases d <;> simp [napi_typeof, napi_get_value_uint32, PASS_STATUS]
  | _ => simp [napi_typeof, PASS_STATUS]

theorem sure_matrixStep (encoding : Bool)
    (put : AVCodecContext → Option (List Int) → AVCodecContext) :
    Sure (fun _ => True) (matrixStep (.object ps) encoding k put) := by
  intro c _
  refine ⟨?_, trivial⟩
  unfold matrixStep
  cases encoding
  · simp [napi_has_named_property, PASS_STATUS]
  · simp only [napi_get_named_property]
    generalize getOwn ps k = v
    cases v with
    | array xs =>
      have hloop : Sure (fun _ : List Int => True)
          (seq ((List.range 64).map (matrixBody (.array xs)))) := by
        apply sure_seq
        intro s hs
        obtain ⟨x, _, rfl⟩ := List.mem_map.1 hs
        exact fun buf _ => ⟨matrixBody_ok xs x buf, trivial⟩
      simp [napi_is_array, PASS_STATUS, (hloop _ trivial).1]
    | _ => simp [napi_is_array, PASS_STATUS]

end

theorem runs_of_sure {σ : Type} {I : σ → Prop} {s : Step σ} (h : Sure (fun _ => True) s) :
    Runs I s := fun c _ => (h c trivial).1

theorem runs_ifState {σ : Type} {I : σ → Prop} {b : Bool} {p : σ → Bool} {s : Step σ}
    (hp : ∀ c, I c → p c = b) (hs : b = true → Sure (fun _ => True) s) :
    Runs I (ifState p s) := by
  intro c hc
  unfold ifState
  rw [hp c hc]
  cases b
  · rfl
  · exact (hs rfl c trivial).1

/-- A list of statements each of which keeps `I` and returns `napi_ok` from
every state in `I` runs to its end from every state in `I`. -/
theorem sure_seq_writes {σ ι : Type} {β : ι → Type} {I : σ → Prop}
    {obs : (g : ι) → σ → β g} {Fs : List (List ι)} {steps : List (Step σ)}
    (hw : List.Forall₂ (Writes I obs) Fs steps)
    (hs : List.Forall₂ (fun _ t => Runs I t) Fs steps) : Sure I (seq steps) := by
  induction hw with
  | nil => exact sure_seq_nil
  | cons h _ ih =>
    cases hs with
    | cons h1 h2 => exact sure_seq_cons (fun c hc => ⟨h1 c hc, (h c hc).1⟩) (ih h2)

section
attribute [local irreducible] seq ifThen ifState store flagStep floatStep stringStep matrixStep
  sliceOffsetStep rcOverrideStep Sure Runs beam_get_int32 beam_get_int64 beam_get_enum
  beam_get_rational beam_get_bool beam_get_double beam_get_string_utf8

theorem setVideo_sure (lib : AVLib) (ps : List (String × JsValue)) (encoding : Bool)
    (hs : ∀ k ∈ videoStringKeys encoding, napi_typeof (getOwn ps k) = .napi_string)
    (h1 : encoding = false → Sure (fun _ => True) (sliceOffsetStep (.object ps))) :
    Sure (fun _ => True) (seq (setVideoSteps lib (.object ps) encoding)) := by
  cases encoding <;>
  · unfold setVideoSteps
    repeat' first
      | apply sure_seq_cons
      | apply sure_seq_nil
      | exact sure_ifThen_false
      | exact sure_ifThen (h1 rfl)
      | exact sure_ifThen (sure_stringStep (hs _ (by decide)) _ _)
      | exact sure_stringStep (hs _ (by decide)) _ _
      | apply sure_ifThen
      | apply sure_int32
      | apply sure_int64
      | apply sure_rational
      | apply sure_enum
      | apply sure_flagStep
      | apply sure_floatStep
      | apply sure_matrixStep

theorem setAudio_sure (lib : AVLib) (ps : List (String × JsValue)) (encoding : Bool)
    (hs : ∀ k ∈ audioStringKeys encoding, napi_typeof (getOwn ps k) = .napi_string) :
    Sure (fun _ => True) (seq (setAudioSteps lib (.object ps) encoding)) := by
  cases encoding <;>
  · unfold setAudioSteps
    repeat' first
      | apply sure_seq_cons
      | apply sure_seq_nil
      | exact sure_ifThen_false
      | exact sure_ifThen (sure_stringStep (hs _ (by decide)) _ _)
      | exact sure_stringStep (hs _ (by decide)) _ _
      | apply sure_ifThen
      | apply sure_int32
      | apply sure_enum

theorem setSteps_runs (lib : AVLib) (ps : List (String × JsValue)) (encoding bv ba : Bool)
    (hv : bv = true → Sure (fun _ => True) (seq (setVideoSteps lib (.object ps) encoding)))
    (ha : ba = true → Sure (fun _ => True) (seq (setAudioSteps lib (.object ps) encoding)))
    (h2 : encoding = true → Sure (fun _ => True) (rcOverrideStep (.object ps))) :
    List.Forall₂ (fun _ t => Runs (MediaIs bv ba) t) (setFoot encoding bv ba)
      (setSteps lib (.object ps) encoding) := by
  have hV : Runs (MediaIs bv ba) (ifState (fun c => decide (c.codec_type = AVMEDIA_TYPE_VIDEO))
      (seq (setVideoSteps lib (.object ps) encoding))) := runs_ifState (fun _ hc => hc.1) hv
  have hA : Runs (MediaIs bv ba) (ifState (fun c => decide (c.codec_type = AVMEDIA_TYPE_AUDIO))
      (seq (setAudioSteps lib (.object ps) encoding))) := runs_ifState (fun _ hc => hc.2) ha
  cases encoding <;>
  · unfold setFoot setSteps
    repeat' first
      | apply List.Forall₂.cons
      | apply List.Forall₂.nil
      | exact hV
      | exact hA
      | apply runs_of_sure
      | exact sure_ifThen_false
      | exact sure_ifThen (h2 rfl)
      | apply sure_ifThen
      | apply sure_seq_cons
      | apply sure_seq_nil
      | apply sure_int32
      | apply sure_int64
      | apply sure_rational
      | apply sure_flagStep
      | apply sure_floatStep

end

theorem stringsGiven_video {ps : List (String × JsValue)} {encoding : Bool} {t : Int}
    (hs : StringsGiven ps encoding t) (hv : decide (t = AVMEDIA_TYPE_VIDEO) = true) :
    ∀ k ∈ videoStringKeys encoding, napi_typeof (getOwn ps k) = .napi_string := by
  intro k hk
  apply hs k
  unfold stringKeys
  rw [if_pos (of_decide_eq_true hv)]
  exact List.mem_append_left _ hk

theorem stringsGiven_audio {ps : List (String × JsValue)} {encoding : Bool} {t : Int}
    (hs : StringsGiven ps encoding t) (ha : decide (t = AVMEDIA_TYPE_AUDIO) = true) :
    ∀ k ∈ audioStringKeys encoding, napi_typeof (getOwn ps k) = .napi_string := by
  intro k hk
  apply hs k
  unfold stringKeys
  rw [if_pos (of_decide_eq_true ha)]
  exact List.mem_append_right _ hk

/-- A bag that gives the strings still gives them with one more entry in front
under a key that is not one of the string keys. -/
theorem stringsGiven_cons {ps : List (String × JsValue)} {encoding : Bool} {t : Int}
    (hs : StringsGiven ps encoding t) (k : String) (v : JsValue)
    (hk : k ∉ stringKeys encoding t) : StringsGiven ((k, v) :: ps) encoding t := by
  intro n hn
  have hne : ¬ k = n := fun h => hk (h ▸ hn)
  show napi_typeof (if k = n then v else getOwn ps n) = .napi_string
  rw [if_neg hne]
  exact hs n hn

/-- From a record of the media type for which the bag gives the strings, the
statements of `setCodecFromProps` run to the end unless the statement for
`slice_offset` (under decoding) or the one for `rc_override` (under encoding)
fails. -/
theorem setSteps_sure (lib : AVLib) (ps : List (String × JsValue)) (encoding : Bool) (t : Int)
    (hs : StringsGiven ps encoding t)
    (h1 : encoding = false → Sure (fun _ => True) (sliceOffsetStep (.object ps)))
    (h2 : encoding = true → Sure (fun _ => True) (rcOverrideStep (.object ps))) :
    Sure (MediaIs (decide (t = AVMEDIA_TYPE_VIDEO)) (decide (t = AVMEDIA_TYPE_AUDIO)))
      (seq (setSteps lib (.object ps) encoding)) :=
  sure_seq_writes (setSteps_writes lib (.object ps) encoding _ _)
    (setSteps_runs lib ps encoding _ _
      (fun hv => setVideo_sure lib ps encoding (stringsGiven_video hs hv) h1)
      (fun ha => setAudio_sure lib ps encoding (stringsGiven_audio hs ha)) h2)

/-- On a bag that gives a string under every key that the call parses for the
record, `setCodecFromProps` returns `napi_ok` unless the statement for
`slice_offset` (under decoding) or the one for `rc_override` (under encoding)
fails. -/
theorem setCodecFromProps_ok (lib : AVLib) (c : AVCodecContext) (ps : List (String × JsValue))
    (encoding : Bool) (hs : StringsGiven ps encoding c.codec_type)
    (h1 : encoding = false → ∀ c, (sliceOffsetStep (.object ps) c).1 = napi_ok)
    (h2 : encoding = true → ∀ c, (rcOverrideStep (.object ps) c).1 = napi_ok) :
    (setCodecFromProps lib c (.object ps) encoding).1 = napi_ok :=
  (setSteps_sure lib ps encoding c.codec_type hs (fun h c _ => ⟨h1 h c, trivial⟩)
    (fun h c _ => ⟨h2 h c, trivial⟩) c ⟨rfl, rfl⟩).1

/-! ## Claim C15: rate-control overrides -/

/-! ### `rc_override` -/

theorem forall₂_getD {α β : Type} {R : α → β → Prop} {l1 : List α} {l2 : List β}
    (h : List.Forall₂ R l1 l2) (x : Nat) (hx : x < l1.length) (d1 : α) (d2 : β) :
    R (l1.getD x d1) (l2.getD x d2) := by
  induction h generalizing x with
  | nil => simp at hx
  | cons h0 _ ih =>
    cases x with
    | zero => simpa using h0
    | succ j =>
      have := ih j (by simpa using hx)
      simpa using this

theorem av_realloc_length (old : List RcOverride) (n : Nat) : (av_realloc old n).length = n := by
  unfold av_realloc
  simp only [List.length_append, List.length_take, List.length_replicate]
  omega

theorem beam_get_double_number (ps : List (String × JsValue)) (k : String) (d old : Dbl)
    (h : getOwn ps k = .number d) : beam_get_double (.object ps) k old = (napi_ok, d) := by
  simp [beam_get_double, napi_get_named_property, h, napi_get_value_double, PASS_STATUS,
    ACCEPT_STATUS]

theorem rcOverrideBody_entry (xs : List (List (String × JsValue))) (x : Nat)
    (r : RcOverride) (hx : x < xs.length) (hh : holdsOverride (xs.getD x []) r)
    (hf : fitsOverride r) (b : List RcOverride) (hb : x < b.length) :
    rcOverrideBody (.array (xs.map JsValue.object)) x b = (napi_ok, b.set x (storedOverride r)) := by
  obtain ⟨h1, h2, h3, h4⟩ := hh
  obtain ⟨f1, f2, f3, f4⟩ := hf
  have hget : (xs.map JsValue.object).getD x .undefined = .object (xs.getD x []) := by
    simp [List.getD_eq_getElem?_getD, List.getElem?_map, List.getElem?_eq_getElem hx]
  have hset : ∀ (l : List RcOverride) (v : RcOverride), x < l.length →
      (l.set x v).getD x RcOverride.blank = v := by
    intro l v hl
    simp [List.getD_eq_getElem?_getD, List.getElem?_set_self hl]
  unfold rcOverrideBody
  simp only [napi_get_element]
  rw [hget]
  simp only [seq_cons_eq, seq_nil_eq, store, beam_get_int32_number _ _ _ _ h1 f1,
    beam_get_int32_number _ _ _ _ h2 f2, beam_get_int32_number _ _ _ _ h3 f3,
    beam_get_double_number _ _ _ _ h4, f4]
  simp [PASS_STATUS, hset, hb, List.set_set, storedOverride]

/-- The statement for `rc_override` on an array of bags that hold their values. -/
theorem rcOverrideStep_array (ps : List (String × JsValue))
    (xs : List (List (String × JsValue))) (vals : List RcOverride)
    (hlen : vals.length < 2 ^ 31) (hx : List.Forall₂ holdsOverride xs vals)
    (hfit : ∀ r ∈ vals, fitsOverride r)
    (hval : getOwn ps "rc_override" = .array (xs.map JsValue.object)) (c : AVCodecContext) :
    rcOverrideStep (.object ps) c =
      (napi_ok, { c with rc_override_count := vals.length,
                         rc_override := vals.map storedOverride }) := by
  have hl : xs.length = vals.length := hx.length_eq
  have hloop := seq_range_set vals.length
    (rcOverrideBody (.array (xs.map JsValue.object)))
    (fun x => storedOverride (vals.getD x RcOverride.blank))
    (fun x b hxn hbn => rcOverrideBody_entry xs x _ (by omega)
      (forall₂_getD hx x (by omega) [] RcOverride.blank)
      (hfit _ (by simp [List.getD_eq_getElem?_getD, List.getElem?_eq_getElem hxn]))
      b (by omega))
    (av_realloc c.rc_override vals.length) (av_realloc_length _ _)
  have hmap : (List.range vals.length).map
      (fun x => storedOverride (vals.getD x RcOverride.blank)) = vals.map storedOverride := by
    conv_rhs => rw [← range_map_getD vals RcOverride.blank, List.map_map]
    rfl
  rw [hmap] at hloop
  unfold rcOverrideStep
  simp only [napi_get_named_property, hval, napi_is_array, napi_get_array_length,
    List.length_map, hl, toInt32_toUint32_length _ hlen, Int.toNat_ofNat, hloop]
  simp [PASS_STATUS]

theorem rcOverrideElement_eq (r : RcOverride) : rcOverrideElement r = (napi_ok, overrideBag r) :=
  rfl

/-- The statement that emits `rc_override`, for a record with `n` entries. -/
theorem rcOverrideProp_eq (codec : AVCodecContext) (l : List RcOverride)
    (hc : codec.rc_override_count = l.length) (hl : codec.rc_override = l) (target : JsValue) :
    rcOverrideProp codec target =
      napi_set_named_property target "rc_override" (.array (l.map overrideBag)) := by
  have hloop := seq_range_push l.length
    (fun x (arr : List JsValue) =>
      let e := rcOverrideElement (l.getD x RcOverride.blank)
      if PASS_STATUS e.1 then (e.1, arr) else (napi_ok, arr ++ [e.2]))
    (fun x => overrideBag (l.getD x RcOverride.blank))
    (fun x b _ => by simp [rcOverrideElement_eq, PASS_STATUS])
  have hmap : (List.range l.length).map (fun x => overrideBag (l.getD x RcOverride.blank)) =
      l.map overrideBag := by
    conv_rhs => rw [← range_map_getD l RcOverride.blank, List.map_map]
    rfl
  rw [hmap] at hloop
  unfold rcOverrideProp
  simp only [hc, hl, Int.toNat_ofNat, hloop]
  simp [PASS_STATUS]

/-- The statement for `rc_override` on an array of 2^31 elements: the length,
written through an `int*`, reads back as -2^31, and the loop body never runs. -/
theorem rcOverrideStep_long (ps : List (String × JsValue)) (xs : List JsValue)
    (hl : xs.length = 2 ^ 31) (hval : getOwn ps "rc_override" = .array xs)
    (c : AVCodecContext) :
    rcOverrideStep (.object ps) c =
      (napi_ok, { c with rc_override_count := -2147483648,
                         rc_override := av_realloc c.rc_override 0 }) := by
  have h1 : toInt32 (toUint32 ((2 ^ 31 : Nat) : Int)) = -2147483648 := by decide
  have h2 : (-2147483648 : Int).toNat = 0 := by decide
  unfold rcOverrideStep
  simp only [napi_get_named_property, hval, napi_is_array, napi_get_array_length, hl, h1, h2,
    List.range_zero, List.map_nil, seq_nil_eq]
  simp [PASS_STATUS]

/-- Under encoding, on a video record and a bag that gives the six string keys,
an array of 2^31 elements under `rc_override` is accepted and sets
`rc_override_count` to -2^31. -/
theorem rc_override_long (xs : List JsValue) (hl : xs.length = 2 ^ 31) :
    (setCodecFromProps sampleLib sampleVideo
      (.object (("rc_override", .array xs) :: sampleStrings)) true).1 = napi_ok ∧
    (setCodecFromProps sampleLib sampleVideo
      (.object (("rc_override", .array xs) :: sampleStrings)) true).2.rc_override_count
      = -2147483648 := by
  have hstep := rcOverrideStep_long (("rc_override", .array xs) :: sampleStrings) xs hl rfl
  have hok := setCodecFromProps_ok sampleLib sampleVideo
    (("rc_override", .array xs) :: sampleStrings) true
    (stringsGiven_cons (by decide) _ _ (by decide))
    (fun h => absurd h (by decide)) (fun _ c => by rw [hstep c])
  have h40 : (setSteps sampleLib (.object (("rc_override", .array xs) :: sampleStrings))
      true)[40]? = some (ifThen true (rcOverrideStep
        (.object (("rc_override", .array xs) :: sampleStrings)))) := rfl
  have hrel : ∀ bv ba, Rel (MediaIs bv ba) (fun c => c.rc_override_count)
      (becomes (-2147483648 : Int))
      (rcOverrideStep (.object (("rc_override", .array xs) :: sampleStrings))) := by
    intro bv ba c _ _
    show (rcOverrideStep _ c).2.rc_override_count = -2147483648
    rw [hstep c]
  exact ⟨hok, set_at_top sampleLib _ true 40 Fld.rc_override_count
    (fun c => c.rc_override_count) (fun _ _ h => Val.int.inj h) (becomes (-2147483648 : Int))
    h40 (fun _ _ => rel_ifThen (hrel _ _)) (by decide) sampleVideo hok⟩

/-- C15, where the claim fails: under encoding, on a video record with one
override entry and a bag that gives the six string keys, an array whose bag
writes the reserved constant `8765432.1` as `quality_factor` leaves the quality
factor that the entry had before (1, respectively 2), and one whose bag writes
`2147483648` as `start_frame` stores `-2147483648`; an array of 2^31 bags is
accepted and sets `rc_override_count` to -2^31. -/
theorem rc_override_not_round_trip :
    (setCodecFromProps sampleLib
      { sampleVideo with rc_override_count := 1, rc_override := [⟨0, 0, 0, Dbl.ofInt 1⟩] }
      (.object (("rc_override", .array [.object [("start_frame", .number (Dbl.ofInt 1)),
        ("end_frame", .number (Dbl.ofInt 2)), ("qscale", .number (Dbl.ofInt 3)),
        ("quality_factor", .number sentinelB)]]) :: sampleStrings)) true).1 = napi_ok ∧
    (setCodecFromProps sampleLib
      { sampleVideo with rc_override_count := 1, rc_override := [⟨0, 0, 0, Dbl.ofInt 1⟩] }
      (.object (("rc_override", .array [.object [("start_frame", .number (Dbl.ofInt 1)),
        ("end_frame", .number (Dbl.ofInt 2)), ("qscale", .number (Dbl.ofInt 3)),
        ("quality_factor", .number sentinelB)]]) :: sampleStrings)) true).2.rc_override =
      [⟨1, 2, 3, Dbl.ofInt 1⟩] ∧
    (setCodecFromProps sampleLib
      { sampleVideo with rc_override_count := 1, rc_override := [⟨0, 0, 0, Dbl.ofInt 2⟩] }
      (.object (("rc_override", .array [.object [("start_frame", .number (Dbl.ofInt 1)),
        ("end_frame", .number (Dbl.ofInt 2)), ("qscale", .number (Dbl.ofInt 3)),
        ("quality_factor", .number sentinelB)]]) :: sampleStrings)) true).2.rc_override =
      [⟨1, 2, 3, Dbl.ofInt 2⟩] ∧
    (setCodecFromProps sampleLib sampleVideo
      (.object (("rc_override", .array [.object [("start_frame",
          .number (Dbl.ofInt 2147483648)),
        ("end_frame", .number (Dbl.ofInt 2)), ("qscale", .number (Dbl.ofInt 3)),
        ("quality_factor", .number (Dbl.ofInt 0))]]) :: sampleStrings)) true).2.rc_override =
      [⟨-2147483648, 2, 3, Dbl.ofInt 0⟩] ∧
    (setCodecFromProps sampleLib sampleVideo
      (.object (("rc_override", .array (List.replicate (2 ^ 31)
        (.object [("start_frame", .number (Dbl.ofInt 1)),
          ("end_frame", .number (Dbl.ofInt 2)), ("qscale", .number (Dbl.ofInt 3)),
          ("quality_factor", .number (Dbl.ofInt 0))]))) :: sampleStrings)) true).1 = napi_ok ∧
    (setCodecFromProps sampleLib sampleVideo
      (.object (("rc_override", .array (List.replicate (2 ^ 31)
        (.object [("start_frame", .number (Dbl.ofInt 1)),
          ("end_frame", .number (Dbl.ofInt 2)), ("qscale", .number (Dbl.ofInt 3)),
          ("quality_factor", .number (Dbl.ofInt 0))]))) :: sampleStrings)) true).2.rc_override_count
      = -2147483648 :=
  ⟨by decide, by decide, by decide, by decide,
    rc_override_long _ (List.length_replicate _ _)⟩

/-- C15, amended: under encoding, for every record, every bag that gives a string
under each string key that the call parses for the record, and every array of
`n` bags (`n` in the range of the native count) that hold 32-bit integers
`start_frame`, `end_frame`, `qscale` and a number `quality_factor` other than
the reserved constant, `setCodecFromProps` returns `napi_ok`, sets
`rc_override_count` to `n` and fills exactly `n` native entries with the values
(the quality factor cut to `float`), and `getPropsFromCodec` on the resulting
record returns `napi_ok` and leaves under `rc_override` an array of exactly `n`
nested bags, in the same order, that hold the values of those entries. -/
theorem rc_override_round_trip (lib : AVLib) (c : AVCodecContext)
    (ps : List (String × JsValue)) (target : JsValue)
    (xs : List (List (String × JsValue))) (vals : List RcOverride)
    (hs : StringsGiven ps true c.codec_type)
    (hlen : vals.length < 2 ^ 31) (hx : List.Forall₂ holdsOverride xs vals)
    (hfit : ∀ r ∈ vals, fitsOverride r)
    (hval : getOwn ps "rc_override" = .array (xs.map JsValue.object)) (ht : IsBag target) :
    (setCodecFromProps lib c (.object ps) true).1 = napi_ok ∧
    (setCodecFromProps lib c (.object ps) true).2.rc_override_count = vals.length ∧
    (setCodecFromProps lib c (.object ps) true).2.rc_override = vals.map storedOverride ∧
    (getPropsFromCodec lib target (setCodecFromProps lib c (.object ps) true).2 true).1 =
      napi_ok ∧
    bagEntry "rc_override"
      (getPropsFromCodec lib target (setCodecFromProps lib c (.object ps) true).2 true).2 =
      some (.array ((vals.map storedOverride).map overrideBag)) := by
  have hstep := rcOverrideStep_array ps xs vals hlen hx hfit hval
  have hok : (setCodecFromProps lib c (.object ps) true).1 = napi_ok :=
    setCodecFromProps_ok lib c ps true hs (fun h => absurd h (by decide))
      (fun _ c => by rw [hstep c])
  have h40 : (setSteps lib (.object ps) true)[40]? =
      some (ifThen true (rcOverrideStep (.object ps))) := rfl
  have hrel1 : ∀ bv ba, Rel (MediaIs bv ba) (fun c => c.rc_override_count)
      (becomes (vals.length : Int)) (rcOverrideStep (.object ps)) := by
    intro bv ba c _ _
    show (rcOverrideStep (.object ps) c).2.rc_override_count = vals.length
    rw [hstep c]
  have hrel2 : ∀ bv ba, Rel (MediaIs bv ba) (fun c => c.rc_override)
      (becomes (vals.map storedOverride)) (rcOverrideStep (.object ps)) := by
    intro bv ba c _ _
    show (rcOverrideStep (.object ps) c).2.rc_override = vals.map storedOverride
    rw [hstep c]
  have hcount : (setCodecFromProps lib c (.object ps) true).2.rc_override_count =
      vals.length :=
    set_at_top lib (.object ps) true 40 Fld.rc_override_count (fun c => c.rc_override_count)
      (fun _ _ h => Val.int.inj h) (becomes (vals.length : Int)) h40
      (fun _ _ => rel_ifThen (hrel1 _ _)) (by decide) c hok
  have hent : (setCodecFromProps lib c (.object ps) true).2.rc_override =
      vals.map storedOverride :=
    set_at_top lib (.object ps) true 40 Fld.rc_override (fun c => c.rc_override)
      (fun _ _ h => Val.overrides.inj h) (becomes (vals.map storedOverride)) h40
      (fun _ _ => rel_ifThen (hrel2 _ _)) (by decide) c hok
  have hprop : Rel IsBag (bagEntry "rc_override")
      (becomes (some (.array ((vals.map storedOverride).map overrideBag))))
      (rcOverrideProp (setCodecFromProps lib c (.object ps) true).2) := by
    intro t ht hok'
    rw [rcOverrideProp_eq _ (vals.map storedOverride) (by rw [hcount, List.length_map]) hent t]
      at hok' ⊢
    exact rel_setProp "rc_override" _ t ht hok'
  have hgs : ∀ codec, (getSteps lib codec true)[44]? =
      some (ifThen true (rcOverrideProp codec)) := fun _ => rfl
  have hget := get_at_top lib (setCodecFromProps lib c (.object ps) true).2 true 44
    "rc_override" _ (hgs _) (rel_ifThen hprop) (by decide) target ht
  exact ⟨hok, hcount, hent, (getPropsFromCodec_ok lib target _ true ht).1, hget⟩

/-- C15 at a sample input: one override written to a video record without
entries, in a bag that gives the six string keys, and read back. -/
theorem rc_override_round_trip_witness :
    bagEntry "rc_override" (getPropsFromCodec sampleLib (JsValue.object [])
      (setCodecFromProps sampleLib sampleVideo
        (JsValue.object (("rc_override", JsValue.array (List.map JsValue.object
          [[("start_frame", JsValue.number (Dbl.ofInt 10)),
            ("end_frame", JsValue.number (Dbl.ofInt 20)),
            ("qscale", JsValue.number (Dbl.ofInt 3)),
            ("quality_factor", JsValue.number (Dbl.ofInt 0))]])) :: sampleStrings))
        true).2 true).2 =
      some (JsValue.array (List.map overrideBag
        (List.map storedOverride [⟨10, 20, 3, Dbl.ofInt 0⟩]))) :=
  (rc_override_round_trip sampleLib sampleVideo
    (("rc_override", JsValue.array (List.map JsValue.object
      [[("start_frame", JsValue.number (Dbl.ofInt 10)),
        ("end_frame", JsValue.number (Dbl.ofInt 20)),
        ("qscale", JsValue.number (Dbl.ofInt 3)),
        ("quality_factor", JsValue.number (Dbl.ofInt 0))]])) :: sampleStrings)
    (JsValue.object [])
    [[("start_frame", JsValue.number (Dbl.ofInt 10)),
      ("end_frame", JsValue.number (Dbl.ofInt 20)),
      ("qscale", JsValue.number (Dbl.ofInt 3)),
      ("quality_factor", JsValue.number (Dbl.ofInt 0))]]
    [⟨10, 20, 3, Dbl.ofInt 0⟩] (by decide) (by decide)
    (List.Forall₂.cons ⟨rfl, rfl, rfl, rfl⟩ List.Forall₂.nil)
    (fun r hr => by
      rw [List.mem_singleton.1 hr]
      exact ⟨by decide, by decide, by decide, by decide⟩)
    rfl ⟨_, rfl⟩).2.2.2.2

/-! ## Claim C16: slice offsets -/

/-! ### `slice_offset` -/

theorem sliceOffsetBody_number (xs : List Int) (hfit : ∀ v ∈ xs, -(2 ^ 31) ≤ v ∧ v < 2 ^ 31)
    (x : Nat) (buf : List Int) (hx : x < xs.length) :
    sliceOffsetBody (.array (xs.map (fun v => .number (Dbl.ofInt v)))) x buf =
      (napi_ok, buf.set x (xs.getD x 0)) := by
  have hget : (xs.map (fun v => JsValue.number (Dbl.ofInt v))).getD x .undefined =
      .number (Dbl.ofInt (xs.getD x 0)) := by
    simp [List.getD_eq_getElem?_getD, List.getElem?_map, List.getElem?_eq_getElem hx]
  have hv : -(2 ^ 31) ≤ xs.getD x 0 ∧ xs.getD x 0 < 2 ^ 31 := by
    apply hfit
    simp [List.getD_eq_getElem?_getD, List.getElem?_eq_getElem hx]
  unfold sliceOffsetBody
  simp only [napi_get_element]
  rw [hget, napi_get_value_int32_ofInt _ _ hv]
  simp [PASS_STATUS]

/-- The statement for `slice_offset` on an array of 32-bit integers. -/
theorem sliceOffsetStep_array (ps : List (String × JsValue)) (xs : List Int)
    (hlen : xs.length < 2 ^ 31) (hfit : ∀ v ∈ xs, -(2 ^ 31) ≤ v ∧ v < 2 ^ 31)
    (hval : getOwn ps "slice_offset" = .array (xs.map (fun v => .number (Dbl.ofInt v))))
    (c : AVCodecContext) :
    sliceOffsetStep (.object ps) c =
      (napi_ok, { c with slice_count := xs.length, slice_offset := some xs }) := by
  have hloop := seq_range_set xs.length
    (sliceOffsetBody (.array (xs.map (fun v => .number (Dbl.ofInt v)))))
    (fun x => xs.getD x 0)
    (fun x b hx _ => sliceOffsetBody_number xs hfit x b hx) (List.replicate xs.length 0)
    (by simp)
  rw [range_map_getD] at hloop
  unfold sliceOffsetStep
  simp only [napi_get_named_property, hval, napi_is_array, napi_get_array_length,
    List.length_map, toInt32_toUint32_length _ hlen, Int.toNat_ofNat, hloop]
  simp [PASS_STATUS]

/-- The statement for `slice_offset` on an array of 2^31 elements: the length,
written through an `int*`, reads back as -2^31, and the loop body never runs. -/
theorem sliceOffsetStep_long (ps : List (String × JsValue)) (xs : List JsValue)
    (hl : xs.length = 2 ^ 31) (hval : getOwn ps "slice_offset" = .array xs)
    (c : AVCodecContext) :
    sliceOffsetStep (.object ps) c =
      (napi_ok, { c with slice_count := -2147483648, slice_offset := some [] }) := by
  have h1 : toInt32 (toUint32 ((2 ^ 31 : Nat) : Int)) = -2147483648 := by decide
  have h2 : (-2147483648 : Int).toNat = 0 := by decide
  unfold sliceOffsetStep
  simp only [napi_get_named_property, hval, napi_is_array, napi_get_array_length, hl, h1, h2,
    List.range_zero, List.map_nil, seq_nil_eq, List.replicate_zero]
  simp [PASS_STATUS]

/-- Under decoding, on a video record and a bag that names the pixel format, an
array of 2^31 elements under `slice_offset` is accepted and sets `slice_count`
to -2^31. -/
theorem slice_offset_long (xs : List JsValue) (hl : xs.length = 2 ^ 31) :
    (setCodecFromProps sampleLib sampleVideo
      (.object [("slice_offset", .array xs), ("pix_fmt", .string "yuv420p")]) false).1
      = napi_ok ∧
    (setCodecFromProps sampleLib sampleVideo
      (.object [("slice_offset", .array xs), ("pix_fmt", .string "yuv420p")]) false).2.slice_count
      = -2147483648 := by
  have hstep := sliceOffsetStep_long
    [("slice_offset", .array xs), ("pix_fmt", .string "yuv420p")] xs hl rfl
  have hok := setCodecFromProps_ok sampleLib sampleVideo
    [("slice_offset", .array xs), ("pix_fmt", .string "yuv420p")] false
    (stringsGiven_cons (by decide) _ _ (by decide))
    (fun _ c => by rw [hstep c]) (fun h => absurd h (by decide))
  have hrel : ∀ ba, Rel (MediaIs true ba) (fun c => c.slice_count)
      (becomes (-2147483648 : Int))
      (ifThen (!false) (sliceOffsetStep
        (.object [("slice_offset", .array xs), ("pix_fmt", .string "yuv420p")]))) := by
    intro ba
    apply rel_ifThen
    intro c _ _
    show (sliceOffsetStep _ c).2.slice_count = -2147483648
    rw [hstep c]
  have h14 : (setVideoSteps sampleLib
      (.object [("slice_offset", .array xs), ("pix_fmt", .string "yuv420p")]) false)[14]? =
      some (ifThen (!false) (sliceOffsetStep
        (.object [("slice_offset", .array xs), ("pix_fmt", .string "yuv420p")]))) := rfl
  exact ⟨hok, set_at_video sampleLib
    (.object [("slice_offset", .array xs), ("pix_fmt", .string "yuv420p")]) false 14
    Fld.slice_count (fun c => c.slice_count)
    (fun _ _ h => Val.int.inj h) (becomes (-2147483648 : Int)) h14 hrel
    (by decide) (by decide) sampleVideo rfl hok⟩

/-- C16, where the claim fails: under decoding, on a video record and a bag that
names the pixel format, an array of 2^31 integers under `slice_offset` is
accepted and sets `slice_count` to -2^31, not to the number of elements. -/
theorem slice_offset_not_round_trip :
    (List.replicate (2 ^ 31) (JsValue.number (Dbl.ofInt 0))).length = 2 ^ 31 ∧
    (setCodecFromProps sampleLib sampleVideo
      (.object [("slice_offset", .array (List.replicate (2 ^ 31) (.number (Dbl.ofInt 0)))),
        ("pix_fmt", .string "yuv420p")]) false).1 = napi_ok ∧
    (setCodecFromProps sampleLib sampleVideo
      (.object [("slice_offset", .array (List.replicate (2 ^ 31) (.number (Dbl.ofInt 0)))),
        ("pix_fmt", .string "yuv420p")]) false).2.slice_count = -2147483648 :=
  ⟨List.length_replicate _ _, slice_offset_long _ (List.length_replicate _ _)⟩

/-- C16, amended: for a video record under decoding, every bag that gives a
string under `pix_fmt` and, under `slice_offset`, an array of `n` 32-bit
integers with `n` below 2^31, `setCodecFromProps` returns `napi_ok`, sets
`slice_count` to `n` and stores the values in order, and `getPropsFromCodec` on
the resulting record returns `napi_ok` and leaves under `slice_offset` the array
of those integers in the same order. -/
theorem slice_offset_round_trip (lib : AVLib) (c : AVCodecContext)
    (ps : List (String × JsValue)) (target : JsValue) (xs : List Int)
    (hv : c.codec_type = AVMEDIA_TYPE_VIDEO)
    (hs : napi_typeof (getOwn ps "pix_fmt") = .napi_string) (hlen : xs.length < 2 ^ 31)
    (hfit : ∀ v ∈ xs, -(2 ^ 31) ≤ v ∧ v < 2 ^ 31)
    (hval : getOwn ps "slice_offset" = .array (xs.map (fun v => .number (Dbl.ofInt v))))
    (ht : IsBag target) :
    (setCodecFromProps lib c (.object ps) false).1 = napi_ok ∧
    (setCodecFromProps lib c (.object ps) false).2.slice_count = xs.length ∧
    (setCodecFromProps lib c (.object ps) false).2.slice_offset = some xs ∧
    (getPropsFromCodec lib target (setCodecFromProps lib c (.object ps) false).2 false).1 =
      napi_ok ∧
    bagEntry "slice_offset"
      (getPropsFromCodec lib target (setCodecFromProps lib c (.object ps) false).2 false).2 =
      some (.array (xs.map (fun v => .number (Dbl.ofInt v)))) := by
  have hsg : StringsGiven ps false c.codec_type := by
    intro k hk
    rw [hv] at hk
    have hk2 : k = "pix_fmt" := by simpa [stringKeys, videoStringKeys, AVMEDIA_TYPE_VIDEO,
      AVMEDIA_TYPE_AUDIO] using hk
    rw [hk2]
    exact hs
  have hstep := sliceOffsetStep_array ps xs hlen hfit hval
  have hok : (setCodecFromProps lib c (.object ps) false).1 = napi_ok :=
    setCodecFromProps_ok lib c ps false hsg (fun _ c => by rw [hstep c])
      (fun h => absurd h (by decide))
  have hcount : (setCodecFromProps lib c (.object ps) false).2.slice_count = xs.length :=
    set_at_video lib (.object ps) false 14 Fld.slice_count (fun c => c.slice_count)
      (fun _ _ h => Val.int.inj h) (becomes (xs.length : Int)) rfl
      (fun _ => rel_ifThen (fun c _ _ => by
        show (sliceOffsetStep (.object ps) c).2.slice_count = xs.length
        rw [hstep c]))
      (by decide) (by decide) c hv hok
  have hoff : (setCodecFromProps lib c (.object ps) false).2.slice_offset = some xs :=
    set_at_video lib (.object ps) false 14 Fld.slice_offset (fun c => c.slice_offset)
      (fun _ _ h => Val.cells.inj h) (becomes (some xs)) rfl
      (fun _ => rel_ifThen (fun c _ _ => by
        show (sliceOffsetStep (.object ps) c).2.slice_offset = some xs
        rw [hstep c]))
      (by decide) (by decide) c hv hok
  have hv2 := (setCodecFromProps_codec_type lib c (.object ps) false).trans hv
  have hget := get_at_video lib (setCodecFromProps lib c (.object ps) false).2 false hv2 15
    "slice_offset" _ rfl (rel_setProp _ _) (by decide) (by decide) target ht
  refine ⟨hok, hcount, hoff, (getPropsFromCodec_ok lib target _ false ht).1, ?_⟩
  rw [hget, hcount, hoff]
  simp only [Int.toNat_ofNat, cellAt, Option.getD_some, napi_create_int32]
  have hmap : xs.map (fun v => JsValue.number (Dbl.ofInt v)) =
      (List.range xs.length).map (fun x => JsValue.number (Dbl.ofInt (xs.getD x 0))) := by
    conv_lhs => rw [← range_map_getD xs 0, List.map_map]
    rfl
  rw [hmap]

/-- C16 at a sample input: the offsets `[0, 1500, 3000]` written to a video record
under decoding, in a bag that names the pixel format, and read back. -/
theorem slice_offset_round_trip_witness :
    bagEntry "slice_offset" (getPropsFromCodec sampleLib (.object [])
      (setCodecFromProps sampleLib sampleVideo
        (.object [("slice_offset", .array ([0, 1500, 3000].map
          (fun v => .number (Dbl.ofInt v)))), ("pix_fmt", .string "yuv420p")]) false).2
        false).2 =
      some (.array ([0, 1500, 3000].map (fun v => .number (Dbl.ofInt v)))) :=
  (slice_offset_round_trip sampleLib sampleVideo
    [("slice_offset", .array ([0, 1500, 3000].map (fun v => .number (Dbl.ofInt v)))),
      ("pix_fmt", .string "yuv420p")]
    (.object []) [0, 1500, 3000] rfl rfl (by decide) (by decide) rfl ⟨_, rfl⟩).2.2.2.2

/-! ## Claim C17: quantization matrices on the read path -/

/-! ### Quantization matrices on the read path -/

theorem onlyIf_mono {α : Type} {b b' : Bool} (h : b = true → b' = true) (F : List α) :
    onlyIf b F ⊆ onlyIf b' F := by
  cases b
  · intro x hx
    cases hx
  · rw [h rfl]
    exact List.Subset.refl _

section
attribute [local irreducible] onlyIf

theorem getVideoKeys_mono (e : Bool) {hi hj hi' hj' : Bool} (h1 : hi = true → hi' = true)
    (h2 : hj = true → hj' = true) :
    List.Forall₂ (fun F G => F ⊆ G) (getVideoKeys e hi hj) (getVideoKeys e hi' hj') := by
  unfold getVideoKeys
  repeat' first
    | apply List.Forall₂.cons
    | apply List.Forall₂.nil
    | exact List.Subset.refl _
    | exact onlyIf_mono h1 _
    | exact onlyIf_mono h2 _

theorem getKeys_mono (e ba : Bool) {bv hi hj hi' hj' : Bool} (h1 : hi = true → hi' = true)
    (h2 : hj = true → hj' = true) :
    List.Forall₂ (fun F G => F ⊆ G) (getKeys e bv ba hi hj) (getKeys e true ba hi' hj') := by
  unfold getKeys
  repeat' first
    | apply List.Forall₂.cons
    | apply List.Forall₂.nil
    | exact List.Subset.refl _
    | exact onlyIf_sub _ (flatten_sub (getVideoKeys_mono e h1 h2))

end

theorem rel_matrixProp (name : String) (m : List Int) :
    Rel IsBag (bagEntry name)
      (becomes (some (.array ((List.range 64).map
        (fun x => napi_create_uint32 (cellAt (some m) x))))))
      (matrixProp name (some m)) :=
  rel_setProp name _

theorem matrix_cells (m : List Int) (h : m.length = 64) :
    (List.range 64).map (fun x => napi_create_uint32 (cellAt (some m) x)) =
      m.map (fun v => .number (Dbl.ofInt v)) := by
  conv_rhs => rw [← range_map_getD m 0, h, List.map_map]
  rfl

/-- C17: for a video record, `getPropsFromCodec` on a bag returns `napi_ok`; it
leaves the entry under `intra_matrix` (respectively `inter_matrix`) as it was
(absent, on a fresh bag) when the pointer of the record is null, and when the
pointer holds 64 cells it leaves under the key the array of those 64 integers
in order. -/
theorem matrices_read (lib : AVLib) (codec : AVCodecContext) (encoding : Bool)
    (target : JsValue) (hv : codec.codec_type = AVMEDIA_TYPE_VIDEO) (ht : IsBag target) :
    (getPropsFromCodec lib target codec encoding).1 = napi_ok ∧
    (codec.intra_matrix = none →
      bagEntry "intra_matrix" (getPropsFromCodec lib target codec encoding).2 =
        bagEntry "intra_matrix" target) ∧
    (∀ m, codec.intra_matrix = some m → m.length = 64 →
      bagEntry "intra_matrix" (getPropsFromCodec lib target codec encoding).2 =
        some (.array (m.map (fun v => .number (Dbl.ofInt v))))) ∧
    (codec.inter_matrix = none →
      bagEntry "inter_matrix" (getPropsFromCodec lib target codec encoding).2 =
        bagEntry "inter_matrix" target) ∧
    (∀ m, codec.inter_matrix = some m → m.length = 64 →
      bagEntry "inter_matrix" (getPropsFromCodec lib target codec encoding).2 =
        some (.array (m.map (fun v => .number (Dbl.ofInt v))))) := by
  have hW := writes_seq (getSteps_writes lib codec encoding) target ht
  have hn1 : ∀ e ba : Bool, "intra_matrix" ∉ (getKeys e true ba false true).flatten := by
    decide
  have hn2 : ∀ e ba : Bool, "inter_matrix" ∉ (getKeys e true ba true false).flatten := by
    decide
  have hs1 : ∀ e : Bool, soleAt (getVideoKeys e true true) 29 "intra_matrix" = true ∧
      soleAt (getVideoKeys e true true) 30 "inter_matrix" = true := by decide
  have hs2 : ∀ e ba : Bool, soleAt (getKeys e true ba true true) 39 "intra_matrix" = true ∧
      soleAt (getKeys e true ba true true) 39 "inter_matrix" = true := by decide
  have hg1 : (getVideoSteps lib codec encoding)[29]? =
      some (matrixProp "intra_matrix" codec.intra_matrix) := rfl
  have hg2 : (getVideoSteps lib codec encoding)[30]? =
      some (matrixProp "inter_matrix" codec.inter_matrix) := rfl
  refine ⟨(getPropsFromCodec_ok lib target codec encoding ht).1, ?_, ?_, ?_, ?_⟩
  · intro h
    refine hW.2 _ (fun hk => hn1 encoding _ (flatten_sub (getKeys_mono encoding _ ?_ ?_) hk))
    · rw [h]
      exact fun h' => absurd h' (by decide)
    · exact fun _ => rfl
  · intro m h hlen
    rw [h] at hg1
    rw [← matrix_cells m hlen]
    exact get_at_video lib codec encoding hv 29 "intra_matrix" _ hg1 (rel_matrixProp _ m)
      (hs1 _).1 (fun _ => (hs2 _ _).1) target ht
  · intro h
    refine hW.2 _ (fun hk => hn2 encoding _ (flatten_sub (getKeys_mono encoding _ ?_ ?_) hk))
    · exact fun _ => rfl
    · rw [h]
      exact fun h' => absurd h' (by decide)
  · intro m h hlen
    rw [h] at hg2
    rw [← matrix_cells m hlen]
    exact get_at_video lib codec encoding hv 30 "inter_matrix" _ hg2 (rel_matrixProp _ m)
      (hs1 _).2 (fun _ => (hs2 _ _).2) target ht

/-- C17 at sample inputs: a video record with a null `intra_matrix` gives a bag
without the key; one with 64 cells gives the array of the 64 cells. -/
theorem matrices_read_witness :
    bagEntry "intra_matrix" (getPropsFromCodec sampleLib (.object []) sampleVideo false).2 =
      none ∧
    bagEntry "intra_matrix" (getPropsFromCodec sampleLib (.object [])
      { sampleVideo with intra_matrix := some (List.replicate 64 16) } false).2 =
      some (.array ((List.replicate 64 16).map (fun v => .number (Dbl.ofInt v)))) :=
  ⟨(matrices_read sampleLib sampleVideo false (.object []) rfl ⟨_, rfl⟩).2.1 rfl,
   (matrices_read sampleLib { sampleVideo with intra_matrix := some (List.replicate 64 16) }
      false (.object []) rfl ⟨_, rfl⟩).2.2.1 _ rfl rfl⟩

/-! ## Claim C18: array-valued fields on the write path -/

/-! ### Array-valued fields on the write path -/

section
variable {α : Type} {I : AVCodecContext → Prop} {P : AVCodecContext → α}

end

theorem keep_bit_rate (lib : AVLib) (c : AVCodecContext) (ps : List (String × JsValue))
    (encoding : Bool) (h : hasOwn ps "bit_rate" = false) :
    Fld.get Fld.bit_rate (setCodecFromProps lib c (.object ps) encoding).2 = Fld.get Fld.bit_rate c :=
  set_keep_top lib (.object ps) encoding 0 Fld.bit_rate
    (show (setSteps lib (.object ps) encoding)[0]? = some ((fun c => store (beam_get_int64 (.object ps) "bit_rate" c.bit_rate)
          (fun v => { c with bit_rate := v }))) from rfl)
    (fun _ _ => frame_int64_absent h (fun c => c.bit_rate) (fun _ => rfl))
    (by decide) c

theorem keep_bit_rate_tolerance (lib : AVLib) (c : AVCodecContext) (ps : List (String × JsValue))
    (encoding : Bool) (h : hasOwn ps "bit_rate_tolerance" = false) :
    Fld.get Fld.bit_rate_tolerance (setCodecFromProps lib c (.object ps) encoding).2 = Fld.get Fld.bit_rate_tolerance c :=
  set_keep_top lib (.object ps) encoding 1 Fld.bit_rate_tolerance
    (show (setSteps lib (.object ps) encoding)[1]? = some (ifThen encoding (fun c => store (beam_get_int32 (.object ps) "bit_rate_tolerance" c.bit_rate_tolerance)
          (fun v => { c with bit_rate_tolerance := v }))) from rfl)
    (fun _ _ => frame_ifThen (frame_int32_absent h (fun c => c.bit_rate_tolerance) (fun _ => rfl)))
    (by decide) c

theorem keep_global_quality (lib : AVLib) (c : AVCodecContext) (ps : List (String × JsValue))
    (encoding : Bool) (h : hasOwn ps "global_quality" = false) :
    Fld.get Fld.global_quality (setCodecFromProps lib c (.object ps) encoding).2 = Fld.get Fld.global_quality c :=
  set_keep_top lib (.object ps) encoding 2 Fld.global_quality
    (show (setSteps lib (.object ps) encoding)[2]? = some (ifThen encoding (fun c => store (beam_get_int32 (.object ps) "global_quality" c.global_quality)
          (fun v => { c with global_quality := v }))) from rfl)
    (fun _ _ => frame_ifThen (frame_int32_absent h (fun c => c.global_quality) (fun _ => rfl)))
    (by decide) c

theorem keep_compression_level (lib : AVLib) (c : AVCodecContext) (ps : List (String × JsValue))
    (encoding : Bool) (h : hasOwn ps "compression_level" = false) :
    Fld.get Fld.compression_level (setCodecFromProps lib c (.object ps) encoding).2 = Fld.get Fld.compression_level c :=
  set_keep_top lib (.object ps) encoding 3 Fld.compression_level
    (show (setSteps lib (.object ps) encoding)[3]? = some (ifThen encoding (fun c => store (beam_get_int32 (.object ps) "compression_level" c.compression_level)
          (fun v => { c with compression_level := v }))) from rfl)
    (fun _ _ => frame_ifThen (frame_int32_absent h (fun c => c.compression_level) (fun _ => rfl)))
    (by decide) c

theorem keep_ticks_per_frame (lib : AVLib) (c : AVCodecContext) (ps : List (String × JsValue))
    (encoding : Bool) (h : hasOwn ps "ticks_per_frame" = false) :
    Fld.get Fld.ticks_per_frame (setCodecFromProps lib c (.object ps) encoding).2 = Fld.get Fld.ticks_per_frame c :=
  set_keep_top lib (.object ps) encoding 32 Fld.ticks_per_frame
    (show (setSteps lib (.object ps) encoding)[32]? = some (ifThen encoding (seq [
        (fun c => store (beam_get_rational (.object ps) "time_base" c.time_base)
          (fun v => { c with time_base := v })),
        (fun c => store (beam_get_int32 (.object ps) "ticks_per_frame" c.ticks_per_frame)
          (fun v => { c with ticks_per_frame := v }))])) from rfl)
    (fun _ _ => frame_ifThen (frame_sole (by
          exact List.Forall₂.cons
            (writes_store Fld.time_base (fun _ _ => rfl) (fun _ _ => rfl))
            (List.Forall₂.cons
            (writes_store Fld.ticks_per_frame (fun _ _ => rfl) (fun _ _ => rfl))
            List.Forall₂.nil))
        Fld.ticks_per_frame (fun _ _ h => h) 1 rfl
        (frame_int32_absent h (fun c => c.ticks_per_frame) (fun _ => rfl)) (by decide)))
    (by decide) c

theorem keep_width (lib : AVLib) (c : AVCodecContext) (ps : List (String × JsValue))
    (encoding : Bool) (h : hasOwn ps "width" = false) :
    Fld.get Fld.width (setCodecFromProps lib c (.object ps) encoding).2 = Fld.get Fld.width c :=
  set_keep_video lib (.object ps) encoding 0 Fld.width
    (show (setVideoSteps lib (.object ps) encoding)[0]? = some ((fun c => store (beam_get_int32 (.object ps) "width" c.width)
          (fun v => { c with width := v }))) from rfl)
    (fun _ _ => frame_int32_absent h (fun c => c.width) (fun _ => rfl))
    (by decide) (by decide) c

theorem keep_height (lib : AVLib) (c : AVCodecContext) (ps : List (String × JsValue))
    (encoding : Bool) (h : hasOwn ps "height" = false) :
    Fld.get Fld.height (setCodecFromProps lib c (.object ps) encoding).2 = Fld.get Fld.height c :=
  set_keep_video lib (.object ps) encoding 1 Fld.height
    (show (setVideoSteps lib (.object ps) encoding)[1]? = some ((fun c => store (beam_get_int32 (.object ps) "height" c.height)
          (fun v => { c with height := v }))) from rfl)
    (fun _ _ => frame_int32_absent h (fun c => c.height) (fun _ => rfl))
    (by decide) (by decide) c

theorem keep_coded_width (lib : AVLib) (c : AVCodecContext) (ps : List (String × JsValue))
    (encoding : Bool) (h : hasOwn ps "coded_width" = false) :
    Fld.get Fld.coded_width (setCodecFromProps lib c (.object ps) encoding).2 = Fld.get Fld.coded_width c :=
  set_keep_video lib (.object ps) encoding 2 Fld.coded_width
    (show (setVideoSteps lib (.object ps) encoding)[2]? = some (ifThen (!encoding) (seq [
        (fun c => store (beam_get_int32 (.object ps) "coded_width" c.coded_width)
          (fun v => { c with coded_width := v })),
        (fun c => store (beam_get_int32 (.object ps) "coded_height" c.coded_height)
          (fun v => { c with coded_height := v }))])) from rfl)
    (fun _ _ => frame_ifThen (frame_sole (by
          exact List.Forall₂.cons
            (writes_store Fld.coded_width (fun _ _ => rfl) (fun _ _ => rfl))
            (List.Forall₂.cons
            (writes_store Fld.coded_height (fun _ _ => rfl) (fun _ _ => rfl))
            List.Forall₂.nil))
        Fld.coded_width (fun _ _ h => h) 0 rfl
        (frame_int32_absent h (fun c => c.coded_width) (fun _ => rfl)) (by decide)))
    (by decide) (by decide) c

theorem keep_coded_height (lib : AVLib) (c : AVCodecContext) (ps : List (String × JsValue))
    (encoding : Bool) (h : hasOwn ps "coded_height" = false) :
    Fld.get Fld.coded_height (setCodecFromProps lib c (.object ps) encoding).2 = Fld.get Fld.coded_height c :=
  set_keep_video lib (.object ps) encoding 2 Fld.coded_height
    (show (setVideoSteps lib (.object ps) encoding)[2]? = some (ifThen (!encoding) (seq [
        (fun c => store (beam_get_int32 (.object ps) "coded_width" c.coded_width)
          (fun v => { c with coded_width := v })),
        (fun c => store (beam_get_int32 (.object ps) "coded_height" c.coded_height)
          (fun v => { c with coded_height := v }))])) from rfl)
    (fun _ _ => frame_ifThen (frame_sole (by
          exact List.Forall₂.cons
            (writes_store Fld.coded_width (fun _ _ => rfl) (fun _ _ => rfl))
            (List.Forall₂.cons
            (writes_store Fld.coded_height (fun _ _ => rfl) (fun _ _ => rfl))
            List.Forall₂.nil))
        Fld.coded_height (fun _ _ h => h) 1 rfl
        (frame_int32_absent h (fun c => c.coded_height) (fun _ => rfl)) (by decide)))
    (by decide) (by decide) c

theorem keep_max_b_frames (lib : AVLib) (c : AVCodecContext) (ps : List (String × JsValue))
    (encoding : Bool) (h : hasOwn ps "max_b_frames" = false) :
    Fld.get Fld.max_b_frames (setCodecFromProps lib c (.object ps) encoding).2 = Fld.get Fld.max_b_frames c :=
  set_keep_video lib (.object ps) encoding 4 Fld.max_b_frames
    (show (setVideoSteps lib (.object ps) encoding)[4]? = some (ifThen encoding (fun c => store (beam_get_int32 (.object ps) "max_b_frames" c.max_b_frames)
          (fun v => { c with max_b_frames := v }))) from rfl)
    (fun _ _ => frame_ifThen (frame_int32_absent h (fun c => c.max_b_frames) (fun _ => rfl)))
    (by decide) (by decide) c

theorem keep_b_quant_factor (lib : AVLib) (c : AVCodecContext) (ps : List (String × JsValue))
    (encoding : Bool) (h : hasOwn ps "b_quant_factor" = false) :
    Fld.get Fld.b_quant_factor (setCodecFromProps lib c (.object ps) encoding).2 = Fld.get Fld.b_quant_factor c :=
  set_keep_video lib (.object ps) encoding 5 Fld.b_quant_factor
    (show (setVideoSteps lib (.object ps) encoding)[5]? = some (ifThen encoding (floatStep (.object ps) "b_quant_factor" sentinelA (fun c v => { c with b_quant_factor := v }))) from rfl)
    (fun _ _ => frame_ifThen (frame_float_absent h Dbl.cne_self_sentinelA))
    (by decide) (by decide) c

theorem keep_b_quant_offset (lib : AVLib) (c : AVCodecContext) (ps : List (String × JsValue))
    (encoding : Bool) (h : hasOwn ps "b_quant_offset" = false) :
    Fld.get Fld.b_quant_offset (setCodecFromProps lib c (.object ps) encoding).2 = Fld.get Fld.b_quant_offset c :=
  set_keep_video lib (.object ps) encoding 6 Fld.b_quant_offset
    (show (setVideoSteps lib (.object ps) encoding)[6]? = some (ifThen encoding (floatStep (.object ps) "b_quant_offset" sentinelA (fun c v => { c with b_quant_offset := v }))) from rfl)
    (fun _ _ => frame_ifThen (frame_float_absent h Dbl.cne_self_sentinelA))
    (by decide) (by decide) c

theorem keep_i_quant_factor (lib : AVLib) (c : AVCodecContext) (ps : List (String × JsValue))
    (encoding : Bool) (h : hasOwn ps "i_quant_factor" = false) :
    Fld.get Fld.i_quant_factor (setCodecFromProps lib c (.object ps) encoding).2 = Fld.get Fld.i_quant_factor c :=
  set_keep_video lib (.object ps) encoding 7 Fld.i_quant_factor
    (show (setVideoSteps lib (.object ps) encoding)[7]? = some (ifThen encoding (floatStep (.object ps) "i_quant_factor" sentinelA (fun c v => { c with i_quant_factor := v }))) from rfl)
    (fun _ _ => frame_ifThen (frame_float_absent h Dbl.cne_self_sentinelA))
    (by decide) (by decide) c

theorem keep_i_quant_offset (lib : AVLib) (c : AVCodecContext) (ps : List (String × JsValue))
    (encoding : Bool) (h : hasOwn ps "i_quant_offset" = false) :
    Fld.get Fld.i_quant_offset (setCodecFromProps lib c (.object ps) encoding).2 = Fld.get Fld.i_quant_offset c :=
  set_keep_video lib (.object ps) encoding 8 Fld.i_quant_offset
    (show (setVideoSteps lib (.object ps) encoding)[8]? = some (ifThen encoding (floatStep (.object ps) "i_quant_offset" sentinelA (fun c v => { c with i_quant_offset := v }))) from rfl)
    (fun _ _ => frame_ifThen (frame_float_absent h Dbl.cne_self_sentinelA))
    (by decide) (by decide) c

theorem keep_lumi_masking (lib : AVLib) (c : AVCodecContext) (ps : List (String × JsValue))
    (encoding : Bool) (h : hasOwn ps "lumi_masking" = false) :
    Fld.get Fld.lumi_masking (setCodecFromProps lib c (.object ps) encoding).2 = Fld.get Fld.lumi_masking c :=
  set_keep_video lib (.object ps) encoding 9 Fld.lumi_masking
    (show (setVideoSteps lib (.object ps) encoding)[9]? = some (ifThen encoding (floatStep (.object ps) "lumi_masking" sentinelA (fun c v => { c with lumi_masking := v }))) from rfl)
    (fun _ _ => frame_ifThen (frame_float_absent h Dbl.cne_self_sentinelA))
    (by decide) (by decide) c

theorem keep_temporal_cplx_masking (lib : AVLib) (c : AVCodecContext) (ps : List (String × JsValue))
    (encoding : Bool) (h : hasOwn ps "temporal_cplx_masking" = false) :
    Fld.get Fld.temporal_cplx_masking (setCodecFromProps lib c (.object ps) encoding).2 = Fld.get Fld.temporal_cplx_masking c :=
  set_keep_video lib (.object ps) encoding 10 Fld.temporal_cplx_masking
    (show (setVideoSteps lib (.object ps) encoding)[10]? = some (ifThen encoding (floatStep (.object ps) "temporal_cplx_masking" sentinelA (fun c v => { c with temporal_cplx_masking := v }))) from rfl)
    (fun _ _ => frame_ifThen (frame_float_absent h Dbl.cne_self_sentinelA))
    (by decide) (by decide) c

theorem keep_spatial_cplx_masking (lib : AVLib) (c : AVCodecContext) (ps : List (String × JsValue))
    (encoding : Bool) (h : hasOwn ps "spatial_cplx_masking" = false) :
    Fld.get Fld.spatial_cplx_masking (setCodecFromProps lib c (.object ps) encoding).2 = Fld.get Fld.spatial_cplx_masking c :=
  set_keep_video lib (.object ps) encoding 11 Fld.spatial_cplx_masking
    (show (setVideoSteps lib (.object ps) encoding)[11]? = some (ifThen encoding (floatStep (.object ps) "spatial_cplx_masking" sentinelA (fun c v => { c with spatial_cplx_masking := v }))) from rfl)
    (fun _ _ => frame_ifThen (frame_float_absent h Dbl.cne_self_sentinelA))
    (by decide) (by decide) c

theorem keep_p_masking (lib : AVLib) (c : AVCodecContext) (ps : List (String × JsValue))
    (encoding : Bool) (h : hasOwn ps "p_masking" = false) :
    Fld.get Fld.p_masking (setCodecFromProps lib c (.object ps) encoding).2 = Fld.get Fld.p_masking c :=
  set_keep_video lib (.object ps) encoding 12 Fld.p_masking
    (show (setVideoSteps lib (.object ps) encoding)[12]? = some (ifThen encoding (floatStep (.object ps) "p_masking" sentinelA (fun c v => { c with p_masking := v }))) from rfl)
    (fun _ _ => frame_ifThen (frame_float_absent h Dbl.cne_self_sentinelA))
    (by decide) (by decide) c

theorem keep_dark_masking (lib : AVLib) (c : AVCodecContext) (ps : List (String × JsValue))
    (encoding : Bool) (h : hasOwn ps "dark_masking" = false) :
    Fld.get Fld.dark_masking (setCodecFromProps lib c (.object ps) encoding).2 = Fld.get Fld.dark_masking c :=
  set_keep_video lib (.object ps) encoding 13 Fld.dark_masking
    (show (setVideoSteps lib (.object ps) encoding)[13]? = some (ifThen encoding (floatStep (.object ps) "dark_masking" sentinelA (fun c v => { c with dark_masking := v }))) from rfl)
    (fun _ _ => frame_ifThen (frame_float_absent h Dbl.cne_self_sentinelA))
    (by decide) (by decide) c

theorem keep_last_predictor_count (lib : AVLib) (c : AVCodecContext) (ps : List (String × JsValue))
    (encoding : Bool) (h : hasOwn ps "last_predictor_count" = false) :
    Fld.get Fld.last_predictor_count (setCodecFromProps lib c (.object ps) encoding).2 = Fld.get Fld.last_predictor_count c :=
  set_keep_video lib (.object ps) encoding 21 Fld.last_predictor_count
    (show (setVideoSteps lib (.object ps) encoding)[21]? = some (ifThen encoding (fun c => store (beam_get_int32 (.object ps) "last_predictor_count" c.last_predictor_count)
          (fun v => { c with last_predictor_count := v }))) from rfl)
    (fun _ _ => frame_ifThen (frame_int32_absent h (fun c => c.last_predictor_count) (fun _ => rfl)))
    (by decide) (by decide) c

theorem keep_pre_dia_size (lib : AVLib) (c : AVCodecContext) (ps : List (String × JsValue))
    (encoding : Bool) (h : hasOwn ps "pre_dia_size" = false) :
    Fld.get Fld.pre_dia_size (setCodecFromProps lib c (.object ps) encoding).2 = Fld.get Fld.pre_dia_size c :=
  set_keep_video lib (.object ps) encoding 23 Fld.pre_dia_size
    (show (setVideoSteps lib (.object ps) encoding)[23]? = some (ifThen encoding (fun c => store (beam_get_int32 (.object ps) "pre_dia_size" c.pre_dia_size)
          (fun v => { c with pre_dia_size := v }))) from rfl)
    (fun _ _ => frame_ifThen (frame_int32_absent h (fun c => c.pre_dia_size) (fun _ => rfl)))
    (by decide) (by decide) c

theorem keep_me_subpel_quality (lib : AVLib) (c : AVCodecContext) (ps : List (String × JsValue))
    (encoding : Bool) (h : hasOwn ps "me_subpel_quality" = false) :
    Fld.get Fld.me_subpel_quality (setCodecFromProps lib c (.object ps) encoding).2 = Fld.get Fld.me_subpel_quality c :=
  set_keep_video lib (.object ps) encoding 24 Fld.me_subpel_quality
    (show (setVideoSteps lib (.object ps) encoding)[24]? = some (ifThen encoding (fun c => store (beam_get_int32 (.object ps) "me_subpel_quality" c.me_subpel_quality)
          (fun v => { c with me_subpel_quality := v }))) from rfl)
    (fun _ _ => frame_ifThen (frame_int32_absent h (fun c => c.me_subpel_quality) (fun _ => rfl)))
    (by decide) (by decide) c

theorem keep_me_range (lib : AVLib) (c : AVCodecContext) (ps : List (String × JsValue))
    (encoding : Bool) (h : hasOwn ps "me_range" = false) :
    Fld.get Fld.me_range (setCodecFromProps lib c (.object ps) encoding).2 = Fld.get Fld.me_range c :=
  set_keep_video lib (.object ps) encoding 25 Fld.me_range
    (show (setVideoSteps lib (.object ps) encoding)[25]? = some (ifThen encoding (fun c => store (beam_get_int32 (.object ps) "me_range" c.me_range)
          (fun v => { c with me_range := v }))) from rfl)
    (fun _ _ => frame_ifThen (frame_int32_absent h (fun c => c.me_range) (fun _ => rfl)))
    (by decide) (by decide) c

theorem keep_intra_dc_precision (lib : AVLib) (c : AVCodecContext) (ps : List (String × JsValue))
    (encoding : Bool) (h : hasOwn ps "intra_dc_precision" = false) :
    Fld.get Fld.intra_dc_precision (setCodecFromProps lib c (.object ps) encoding).2 = Fld.get Fld.intra_dc_precision c :=
  set_keep_video lib (.object ps) encoding 30 Fld.intra_dc_precision
    (show (setVideoSteps lib (.object ps) encoding)[30]? = some (ifThen encoding (fun c => store (beam_get_int32 (.object ps) "intra_dc_precision" c.intra_dc_precision)
          (fun v => { c with intra_dc_precision := v }))) from rfl)
    (fun _ _ => frame_ifThen (frame_int32_absent h (fun c => c.intra_dc_precision) (fun _ => rfl)))
    (by decide) (by decide) c

theorem keep_skip_top (lib : AVLib) (c : AVCodecContext) (ps : List (String × JsValue))
    (encoding : Bool) (h : hasOwn ps "skip_top" = false) :
    Fld.get Fld.skip_top (setCodecFromProps lib c (.object ps) encoding).2 = Fld.get Fld.skip_top c :=
  set_keep_video lib (.object ps) encoding 31 Fld.skip_top
    (show (setVideoSteps lib (.object ps) encoding)[31]? = some (ifThen (!encoding) (seq [
        (fun c => store (beam_get_int32 (.object ps) "skip_top" c.skip_top)
          (fun v => { c with skip_top := v })),
        (fun c => store (beam_get_int32 (.object ps) "skip_bottom" c.skip_bottom)
          (fun v => { c with skip_bottom := v }))])) from rfl)
    (fun _ _ => frame_ifThen (frame_sole (by
          exact List.Forall₂.cons
            (writes_store Fld.skip_top (fun _ _ => rfl) (fun _ _ => rfl))
            (List.Forall₂.cons
            (writes_store Fld.skip_bottom (fun _ _ => rfl) (fun _ _ => rfl))
            List.Forall₂.nil))
        Fld.skip_top (fun _ _ h => h) 0 rfl
        (frame_int32_absent h (fun c => c.skip_top) (fun _ => rfl)) (by decide)))
    (by decide) (by decide) c

theorem keep_skip_bottom (lib : AVLib) (c : AVCodecContext) (ps : List (String × JsValue))
    (encoding : Bool) (h : hasOwn ps "skip_bottom" = false) :
    Fld.get Fld.skip_bottom (setCodecFromProps lib c (.object ps) encoding).2 = Fld.get Fld.skip_bottom c :=
  set_keep_video lib (.object ps) encoding 31 Fld.skip_bottom
    (show (setVideoSteps lib (.object ps) encoding)[31]? = some (ifThen (!encoding) (seq [
        (fun c => store (beam_get_int32 (.object ps) "skip_top" c.skip_top)
          (fun v => { c with skip_top := v })),
        (fun c => store (beam_get_int32 (.object ps) "skip_bottom" c.skip_bottom)
          (fun v => { c with skip_bottom := v }))])) from rfl)
    (fun _ _ => frame_ifThen (frame_sole (by
          exact List.Forall₂.cons
            (writes_store Fld.skip_top (fun _ _ => rfl) (fun _ _ => rfl))
            (List.Forall₂.cons
            (writes_store Fld.skip_bottom (fun _ _ => rfl) (fun _ _ => rfl))
            List.Forall₂.nil))
        Fld.skip_bottom (fun _ _ h => h) 1 rfl
        (frame_int32_absent h (fun c => c.skip_bottom) (fun _ => rfl)) (by decide)))
    (by decide) (by decide) c

theorem keep_mb_lmin (lib : AVLib) (c : AVCodecContext) (ps : List (String × JsValue))
    (encoding : Bool) (h : hasOwn ps "mb_lmin" = false) :
    Fld.get Fld.mb_lmin (setCodecFromProps lib c (.object ps) encoding).2 = Fld.get Fld.mb_lmin c :=
  set_keep_video lib (.object ps) encoding 32 Fld.mb_lmin
    (show (setVideoSteps lib (.object ps) encoding)[32]? = some (ifThen encoding (seq [
        (fun c => store (beam_get_int32 (.object ps) "mb_lmin" c.mb_lmin)
          (fun v => { c with mb_lmin := v })),
        (fun c => store (beam_get_int32 (.object ps) "mb_lmax" c.mb_lmax)
          (fun v => { c with mb_lmax := v }))])) from rfl)
    (fun _ _ => frame_ifThen (frame_sole (by
          exact List.Forall₂.cons
            (writes_store Fld.mb_lmin (fun _ _ => rfl) (fun _ _ => rfl))
            (List.Forall₂.cons
            (writes_store Fld.mb_lmax (fun _ _ => rfl) (fun _ _ => rfl))
            List.Forall₂.nil))
        Fld.mb_lmin (fun _ _ h => h) 0 rfl
        (frame_int32_absent h (fun c => c.mb_lmin) (fun _ => rfl)) (by decide)))
    (by decide) (by decide) c

theorem keep_mb_lmax (lib : AVLib) (c : AVCodecContext) (ps : List (String × JsValue))
    (encoding : Bool) (h : hasOwn ps "mb_lmax" = false) :
    Fld.get Fld.mb_lmax (setCodecFromProps lib c (.object ps) encoding).2 = Fld.get Fld.mb_lmax c :=
  set_keep_video lib (.object ps) encoding 32 Fld.mb_lmax
    (show (setVideoSteps lib (.object ps) encoding)[32]? = some (ifThen encoding (seq [
        (fun c => store (beam_get_int32 (.object ps) "mb_lmin" c.mb_lmin)
          (fun v => { c with mb_lmin := v })),
        (fun c => store (beam_get_int32 (.object ps) "mb_lmax" c.mb_lmax)
          (fun v => { c with mb_lmax := v }))])) from rfl)
    (fun _ _ => frame_ifThen (frame_sole (by
          exact List.Forall₂.cons
            (writes_store Fld.mb_lmin (fun _ _ => rfl) (fun _ _ => rfl))
            (List.Forall₂.cons
            (writes_store Fld.mb_lmax (fun _ _ => rfl) (fun _ _ => rfl))
            List.Forall₂.nil))
        Fld.mb_lmax (fun _ _ h => h) 1 rfl
        (frame_int32_absent h (fun c => c.mb_lmax) (fun _ => rfl)) (by decide)))
    (by decide) (by decide) c

theorem keep_bidir_refine (lib : AVLib) (c : AVCodecContext) (ps : List (String × JsValue))
    (encoding : Bool) (h : hasOwn ps "bidir_refine" = false) :
    Fld.get Fld.bidir_refine (setCodecFromProps lib c (.object ps) encoding).2 = Fld.get Fld.bidir_refine c :=
  set_keep_video lib (.object ps) encoding 33 Fld.bidir_refine
    (show (setVideoSteps lib (.object ps) encoding)[33]? = some (ifThen encoding (fun c => store (beam_get_int32 (.object ps) "bidir_refine" c.bidir_refine)
          (fun v => { c with bidir_refine := v }))) from rfl)
    (fun _ _ => frame_ifThen (frame_int32_absent h (fun c => c.bidir_refine) (fun _ => rfl)))
    (by decide) (by decide) c

theorem keep_keyint_min (lib : AVLib) (c : AVCodecContext) (ps : List (String × JsValue))
    (encoding : Bool) (h : hasOwn ps "keyint_min" = false) :
    Fld.get Fld.keyint_min (setCodecFromProps lib c (.object ps) encoding).2 = Fld.get Fld.keyint_min c :=
  set_keep_video lib (.object ps) encoding 34 Fld.keyint_min
    (show (setVideoSteps lib (.object ps) encoding)[34]? = some (ifThen encoding (fun c => store (beam_get_int32 (.object ps) "keyint_min" c.keyint_min)
          (fun v => { c with keyint_min := v }))) from rfl)
    (fun _ _ => frame_ifThen (frame_int32_absent h (fun c => c.keyint_min) (fun _ => rfl)))
    (by decide) (by decide) c

theorem keep_refs (lib : AVLib) (c : AVCodecContext) (ps : List (String × JsValue))
    (encoding : Bool) (h : hasOwn ps "refs" = false) :
    Fld.get Fld.refs (setCodecFromProps lib c (.object ps) encoding).2 = Fld.get Fld.refs c :=
  set_keep_video lib (.object ps) encoding 35 Fld.refs
    (show (setVideoSteps lib (.object ps) encoding)[35]? = some (ifThen encoding (fun c => store (beam_get_int32 (.object ps) "refs" c.refs)
          (fun v => { c with refs := v }))) from rfl)
    (fun _ _ => frame_ifThen (frame_int32_absent h (fun c => c.refs) (fun _ => rfl)))
    (by decide) (by decide) c

theorem keep_mv0_threshold (lib : AVLib) (c : AVCodecContext) (ps : List (String × JsValue))
    (encoding : Bool) (h : hasOwn ps "mv0_threshold" = false) :
    Fld.get Fld.mv0_threshold (setCodecFromProps lib c (.object ps) encoding).2 = Fld.get Fld.mv0_threshold c :=
  set_keep_video lib (.object ps) encoding 36 Fld.mv0_threshold
    (show (setVideoSteps lib (.object ps) encoding)[36]? = some (ifThen encoding (fun c => store (beam_get_int32 (.object ps) "mv0_threshold" c.mv0_threshold)
          (fun v => { c with mv0_threshold := v }))) from rfl)
    (fun _ _ => frame_ifThen (frame_int32_absent h (fun c => c.mv0_threshold) (fun _ => rfl)))
    (by decide) (by decide) c

theorem keep_slices (lib : AVLib) (c : AVCodecContext) (ps : List (String × JsValue))
    (encoding : Bool) (h : hasOwn ps "slices" = false) :
    Fld.get Fld.slices (setCodecFromProps lib c (.object ps) encoding).2 = Fld.get Fld.slices c :=
  set_keep_video lib (.object ps) encoding 42 Fld.slices
    (show (setVideoSteps lib (.object ps) encoding)[42]? = some (ifThen encoding (fun c => store (beam_get_int32 (.object ps) "slices" c.slices)
          (fun v => { c with slices := v }))) from rfl)
    (fun _ _ => frame_ifThen (frame_int32_absent h (fun c => c.slices) (fun _ => rfl)))
    (by decide) (by decide) c

theorem keep_sample_rate (lib : AVLib) (c : AVCodecContext) (ps : List (String × JsValue))
    (encoding : Bool) (h : hasOwn ps "sample_rate" = false) :
    Fld.get Fld.sample_rate (setCodecFromProps lib c (.object ps) encoding).2 = Fld.get Fld.sample_rate c :=
  set_keep_audio lib (.object ps) encoding 0 Fld.sample_rate
    (show (setAudioSteps lib (.object ps) encoding)[0]? = some ((fun c => store (beam_get_int32 (.object ps) "sample_rate" c.sample_rate)
          (fun v => { c with sample_rate := v }))) from rfl)
    (fun _ _ => frame_int32_absent h (fun c => c.sample_rate) (fun _ => rfl))
    (by decide) (by decide) c

theorem keep_channels (lib : AVLib) (c : AVCodecContext) (ps : List (String × JsValue))
    (encoding : Bool) (h : hasOwn ps "channels" = false) :
    Fld.get Fld.channels (setCodecFromProps lib c (.object ps) encoding).2 = Fld.get Fld.channels c :=
  set_keep_audio lib (.object ps) encoding 1 Fld.channels
    (show (setAudioSteps lib (.object ps) encoding)[1]? = some ((fun c => store (beam_get_int32 (.object ps) "channels" c.channels)
          (fun v => { c with channels := v }))) from rfl)
    (fun _ _ => frame_int32_absent h (fun c => c.channels) (fun _ => rfl))
    (by decide) (by decide) c

theorem keep_block_align (lib : AVLib) (c : AVCodecContext) (ps : List (String × JsValue))
    (encoding : Bool) (h : hasOwn ps "block_align" = false) :
    Fld.get Fld.block_align (setCodecFromProps lib c (.object ps) encoding).2 = Fld.get Fld.block_align c :=
  set_keep_audio lib (.object ps) encoding 3 Fld.block_align
    (show (setAudioSteps lib (.object ps) encoding)[3]? = some ((fun c => store (beam_get_int32 (.object ps) "block_align" c.block_align)
          (fun v => { c with block_align := v }))) from rfl)
    (fun _ _ => frame_int32_absent h (fun c => c.block_align) (fun _ => rfl))
    (by decide) (by decide) c

theorem keep_cutoff (lib : AVLib) (c : AVCodecContext) (ps : List (String × JsValue))
    (encoding : Bool) (h : hasOwn ps "cutoff" = false) :
    Fld.get Fld.cutoff (setCodecFromProps lib c (.object ps) encoding).2 = Fld.get Fld.cutoff c :=
  set_keep_audio lib (.object ps) encoding 4 Fld.cutoff
    (show (setAudioSteps lib (.object ps) encoding)[4]? = some (ifThen encoding (fun c => store (beam_get_int32 (.object ps) "cutoff" c.cutoff)
          (fun v => { c with cutoff := v }))) from rfl)
    (fun _ _ => frame_ifThen (frame_int32_absent h (fun c => c.cutoff) (fun _ => rfl)))
    (by decide) (by decide) c

theorem keep_qcompress (lib : AVLib) (c : AVCodecContext) (ps : List (String × JsValue))
    (encoding : Bool) (h : hasOwn ps "qcompress" = false) :
    Fld.get Fld.qcompress (setCodecFromProps lib c (.object ps) encoding).2 = Fld.get Fld.qcompress c :=
  set_keep_top lib (.object ps) encoding 35 Fld.qcompress
    (show (setSteps lib (.object ps) encoding)[35]? = some (ifThen encoding (seq [
        (floatStep (.object ps) "qcompress" sentinelB (fun c v => { c with qcompress := v })),
        (floatStep (.object ps) "qblur" sentinelB (fun c v => { c with qblur := v }))])) from rfl)
    (fun _ _ => frame_ifThen (frame_sole (by
          exact List.Forall₂.cons
            (writes_floatStep Fld.qcompress (fun _ _ => rfl) (fun _ _ => rfl))
            (List.Forall₂.cons
            (writes_floatStep Fld.qblur (fun _ _ => rfl) (fun _ _ => rfl))
            List.Forall₂.nil))
        Fld.qcompress (fun _ _ h => h) 0 rfl
        (show Frame _ _ (floatStep (.object ps) "qcompress" sentinelB (fun c v => { c with qcompress := v }))
          from frame_float_absent h Dbl.cne_self_sentinelB) (by decide)))
    (by decide) c

theorem keep_qblur (lib : AVLib) (c : AVCodecContext) (ps : List (String × JsValue))
    (encoding : Bool) (h : hasOwn ps "qblur" = false) :
    Fld.get Fld.qblur (setCodecFromProps lib c (.object ps) encoding).2 = Fld.get Fld.qblur c :=
  set_keep_top lib (.object ps) encoding 35 Fld.qblur
    (show (setSteps lib (.object ps) encoding)[35]? = some (ifThen encoding (seq [
        (floatStep (.object ps) "qcompress" sentinelB (fun c v => { c with qcompress := v })),
        (floatStep (.object ps) "qblur" sentinelB (fun c v => { c with qblur := v }))])) from rfl)
    (fun _ _ => frame_ifThen (frame_sole (by
          exact List.Forall₂.cons
            (writes_floatStep Fld.qcompress (fun _ _ => rfl) (fun _ _ => rfl))
            (List.Forall₂.cons
            (writes_floatStep Fld.qblur (fun _ _ => rfl) (fun _ _ => rfl))
            List.Forall₂.nil))
        Fld.qblur (fun _ _ h => h) 1 rfl
        (show Frame _ _ (floatStep (.object ps) "qblur" sentinelB (fun c v => { c with qblur := v }))
          from frame_float_absent h Dbl.cne_self_sentinelB) (by decide)))
    (by decide) c

theorem keep_qmin (lib : AVLib) (c : AVCodecContext) (ps : List (String × JsValue))
    (encoding : Bool) (h : hasOwn ps "qmin" = false) :
    Fld.get Fld.qmin (setCodecFromProps lib c (.object ps) encoding).2 = Fld.get Fld.qmin c :=
  set_keep_top lib (.object ps) encoding 36 Fld.qmin
    (show (setSteps lib (.object ps) encoding)[36]? = some (ifThen encoding (seq [
        (fun c => store (beam_get_int32 (.object ps) "qmin" c.qmin)
          (fun v => { c with qmin := v })),
        (fun c => store (beam_get_int32 (.object ps) "qmax" c.qmax)
          (fun v => { c with qmax := v })),
        (fun c => store (beam_get_int32 (.object ps) "max_qdiff" c.max_qdiff)
          (fun v => { c with max_qdiff := v }))])) from rfl)
    (fun _ _ => frame_ifThen (frame_sole (by
          exact List.Forall₂.cons
            (writes_store Fld.qmin (fun _ _ => rfl) (fun _ _ => rfl))
            (List.Forall₂.cons
            (writes_store Fld.qmax (fun _ _ => rfl) (fun _ _ => rfl))
            (List.Forall₂.cons
            (writes_store Fld.max_qdiff (fun _ _ => rfl) (fun _ _ => rfl))
            List.Forall₂.nil)))
        Fld.qmin (fun _ _ h => h) 0 rfl
        (frame_int32_absent h (fun c => c.qmin) (fun _ => rfl)) (by decide)))
    (by decide) c

theorem keep_qmax (lib : AVLib) (c : AVCodecContext) (ps : List (String × JsValue))
    (encoding : Bool) (h : hasOwn ps "qmax" = false) :
    Fld.get Fld.qmax (setCodecFromProps lib c (.object ps) encoding).2 = Fld.get Fld.qmax c :=
  set_keep_top lib (.object ps) encoding 36 Fld.qmax
    (show (setSteps lib (.object ps) encoding)[36]? = some (ifThen encoding (seq [
        (fun c => store (beam_get_int32 (.object ps) "qmin" c.qmin)
          (fun v => { c with qmin := v })),
        (fun c => store (beam_get_int32 (.object ps) "qmax" c.qmax)
          (fun v => { c with qmax := v })),
        (fun c => store (beam_get_int32 (.object ps) "max_qdiff" c.max_qdiff)
          (fun v => { c with max_qdiff := v }))])) from rfl)
    (fun _ _ => frame_ifThen (frame_sole (by
          exact List.Forall₂.cons
            (writes_store Fld.qmin (fun _ _ => rfl) (fun _ _ => rfl))
            (List.Forall₂.cons
            (writes_store Fld.qmax (fun _ _ => rfl) (fun _ _ => rfl))
            (List.Forall₂.cons
            (writes_store Fld.max_qdiff (fun _ _ => rfl) (fun _ _ => rfl))
            List.Forall₂.nil)))
        Fld.qmax (fun _ _ h => h) 1 rfl
        (frame_int32_absent h (fun c => c.qmax) (fun _ => rfl)) (by decide)))
    (by decide) c

theorem keep_max_qdiff (lib : AVLib) (c : AVCodecContext) (ps : List (String × JsValue))
    (encoding : Bool) (h : hasOwn ps "max_qdiff" = false) :
    Fld.get Fld.max_qdiff (setCodecFromProps lib c (.object ps) encoding).2 = Fld.get Fld.max_qdiff c :=
  set_keep_top lib (.object ps) encoding 36 Fld.max_qdiff
    (show (setSteps lib (.object ps) encoding)[36]? = some (ifThen encoding (seq [
        (fun c => store (beam_get_int32 (.object ps) "qmin" c.qmin)
          (fun v => { c with qmin := v })),
        (fun c => store (beam_get_int32 (.object ps) "qmax" c.qmax)
          (fun v => { c with qmax := v })),
        (fun c => store (beam_get_int32 (.object ps) "max_qdiff" c.max_qdiff)
          (fun v => { c with max_qdiff := v }))])) from rfl)
    (fun _ _ => frame_ifThen (frame_sole (by
          exact List.Forall₂.cons
            (writes_store Fld.qmin (fun _ _ => rfl) (fun _ _ => rfl))
            (List.Forall₂.cons
            (writes_store Fld.qmax (fun _ _ => rfl) (fun _ _ => rfl))
            (List.Forall₂.cons
            (writes_store Fld.max_qdiff (fun _ _ => rfl) (fun _ _ => rfl))
            List.Forall₂.nil)))
        Fld.max_qdiff (fun _ _ h => h) 2 rfl
        (frame_int32_absent h (fun c => c.max_qdiff) (fun _ => rfl)) (by decide)))
    (by decide) c

theorem keep_rc_buffer_size (lib : AVLib) (c : AVCodecContext) (ps : List (String × JsValue))
    (encoding : Bool) (h : hasOwn ps "rc_buffer_size" = false) :
    Fld.get Fld.rc_buffer_size (setCodecFromProps lib c (.object ps) encoding).2 = Fld.get Fld.rc_buffer_size c :=
  set_keep_top lib (.object ps) encoding 37 Fld.rc_buffer_size
    (show (setSteps lib (.object ps) encoding)[37]? = some (ifThen encoding (fun c => store (beam_get_int32 (.object ps) "rc_buffer_size" c.rc_buffer_size)
          (fun v => { c with rc_buffer_size := v }))) from rfl)
    (fun _ _ => frame_ifThen (frame_int32_absent h (fun c => c.rc_buffer_size) (fun _ => rfl)))
    (by decide) c

theorem keep_rc_max_rate (lib : AVLib) (c : AVCodecContext) (ps : List (String × JsValue))
    (encoding : Bool) (h : hasOwn ps "rc_max_rate" = false) :
    Fld.get Fld.rc_max_rate (setCodecFromProps lib c (.object ps) encoding).2 = Fld.get Fld.rc_max_rate c :=
  set_keep_top lib (.object ps) encoding 38 Fld.rc_max_rate
    (show (setSteps lib (.object ps) encoding)[38]? = some ((fun c => store (beam_get_int64 (.object ps) "rc_max_rate" c.rc_max_rate)
          (fun v => { c with rc_max_rate := v }))) from rfl)
    (fun _ _ => frame_int64_absent h (fun c => c.rc_max_rate) (fun _ => rfl))
    (by decide) c

theorem keep_rc_min_rate (lib : AVLib) (c : AVCodecContext) (ps : List (String × JsValue))
    (encoding : Bool) (h : hasOwn ps "rc_min_rate" = false) :
    Fld.get Fld.rc_min_rate (setCodecFromProps lib c (.object ps) encoding).2 = Fld.get Fld.rc_min_rate c :=
  set_keep_top lib (.object ps) encoding 39 Fld.rc_min_rate
    (show (setSteps lib (.object ps) encoding)[39]? = some (ifThen encoding (seq [
        (fun c => store (beam_get_int64 (.object ps) "rc_min_rate" c.rc_min_rate)
          (fun v => { c with rc_min_rate := v })),
        (floatStep (.object ps) "rc_max_available_vbv_use" sentinelB (fun c v => { c with rc_max_available_vbv_use := v })),
        (floatStep (.object ps) "rc_min_vbv_overflow_use" sentinelB (fun c v => { c with rc_min_vbv_overflow_use := v })),
        (fun c => store (beam_get_int32 (.object ps) "rc_initial_buffer_occupancy" c.rc_initial_buffer_occupancy)
          (fun v => { c with rc_initial_buffer_occupancy := v }))])) from rfl)
    (fun _ _ => frame_ifThen (frame_sole (by
          exact List.Forall₂.cons
            (writes_store Fld.rc_min_rate (fun _ _ => rfl) (fun _ _ => rfl))
            (List.Forall₂.cons
            (writes_floatStep Fld.rc_max_available_vbv_use (fun _ _ => rfl) (fun _ _ => rfl))
            (List.Forall₂.cons
            (writes_floatStep Fld.rc_min_vbv_overflow_use (fun _ _ => rfl) (fun _ _ => rfl))
            (List.Forall₂.cons
            (writes_store Fld.rc_initial_buffer_occupancy (fun _ _ => rfl) (fun _ _ => rfl))
            List.Forall₂.nil))))
        Fld.rc_min_rate (fun _ _ h => h) 0 rfl
        (frame_int64_absent h (fun c => c.rc_min_rate) (fun _ => rfl)) (by decide)))
    (by decide) c

theorem keep_rc_max_available_vbv_use (lib : AVLib) (c : AVCodecContext) (ps : List (String × JsValue))
    (encoding : Bool) (h : hasOwn ps "rc_max_available_vbv_use" = false) :
    Fld.get Fld.rc_max_available_vbv_use (setCodecFromProps lib c (.object ps) encoding).2 = Fld.get Fld.rc_max_available_vbv_use c :=
  set_keep_top lib (.object ps) encoding 39 Fld.rc_max_available_vbv_use
    (show (setSteps lib (.object ps) encoding)[39]? = some (ifThen encoding (seq [
        (fun c => store (beam_get_int64 (.object ps) "rc_min_rate" c.rc_min_rate)
          (fun v => { c with rc_min_rate := v })),
        (floatStep (.object ps) "rc_max_available_vbv_use" sentinelB (fun c v => { c with rc_max_available_vbv_use := v })),
        (floatStep (.object ps) "rc_min_vbv_overflow_use" sentinelB (fun c v => { c with rc_min_vbv_overflow_use := v })),
        (fun c => store (beam_get_int32 (.object ps) "rc_initial_buffer_occupancy" c.rc_initial_buffer_occupancy)
          (fun v => { c with rc_initial_buffer_occupancy := v }))])) from rfl)
    (fun _ _ => frame_ifThen (frame_sole (by
          exact List.Forall₂.cons
            (writes_store Fld.rc_min_rate (fun _ _ => rfl) (fun _ _ => rfl))
            (List.Forall₂.cons
            (writes_floatStep Fld.rc_max_available_vbv_use (fun _ _ => rfl) (fun _ _ => rfl))
            (List.Forall₂.cons
            (writes_floatStep Fld.rc_min_vbv_overflow_use (fun _ _ => rfl) (fun _ _ => rfl))
            (List.Forall₂.cons
            (writes_store Fld.rc_initial_buffer_occupancy (fun _ _ => rfl) (fun _ _ => rfl))
            List.Forall₂.nil))))
        Fld.rc_max_available_vbv_use (fun _ _ h => h) 1 rfl
        (show Frame _ _ (floatStep (.object ps) "rc_max_available_vbv_use" sentinelB (fun c v => { c with rc_max_available_vbv_use := v }))
          from frame_float_absent h Dbl.cne_self_sentinelB) (by decide)))
    (by decide) c

theorem keep_rc_min_vbv_overflow_use (lib : AVLib) (c : AVCodecContext) (ps : List (String × JsValue))
    (encoding : Bool) (h : hasOwn ps "rc_min_vbv_overflow_use" = false) :
    Fld.get Fld.rc_min_vbv_overflow_use (setCodecFromProps lib c (.object ps) encoding).2 = Fld.get Fld.rc_min_vbv_overflow_use c :=
  set_keep_top lib (.object ps) encoding 39 Fld.rc_min_vbv_overflow_use
    (show (setSteps lib (.object ps) encoding)[39]? = some (ifThen encoding (seq [
        (fun c => store (beam_get_int64 (.object ps) "rc_min_rate" c.rc_min_rate)
          (fun v => { c with rc_min_rate := v })),
        (floatStep (.object ps) "rc_max_available_vbv_use" sentinelB (fun c v => { c with rc_max_available_vbv_use := v })),
        (floatStep (.object ps) "rc_min_vbv_overflow_use" sentinelB (fun c v => { c with rc_min_vbv_overflow_use := v })),
        (fun c => store (beam_get_int32 (.object ps) "rc_initial_buffer_occupancy" c.rc_initial_buffer_occupancy)
          (fun v => { c with rc_initial_buffer_occupancy := v }))])) from rfl)
    (fun _ _ => frame_ifThen (frame_sole (by
          exact List.Forall₂.cons
            (writes_store Fld.rc_min_rate (fun _ _ => rfl) (fun _ _ => rfl))
            (List.Forall₂.cons
            (writes_floatStep Fld.rc_max_available_vbv_use (fun _ _ => rfl) (fun _ _ => rfl))
            (List.Forall₂.cons
            (writes_floatStep Fld.rc_min_vbv_overflow_use (fun _ _ => rfl) (fun _ _ => rfl))
            (List.Forall₂.cons
            (writes_store Fld.rc_initial_buffer_occupancy (fun _ _ => rfl) (fun _ _ => rfl))
            List.Forall₂.nil))))
        Fld.rc_min_vbv_overflow_use (fun _ _ h => h) 2 rfl
        (show Frame _ _ (floatStep (.object ps) "rc_min_vbv_overflow_use" sentinelB (fun c v => { c with rc_min_vbv_overflow_use := v }))
          from frame_float_absent h Dbl.cne_self_sentinelB) (by decide)))
    (by decide) c

theorem keep_rc_initial_buffer_occupancy (lib : AVLib) (c : AVCodecContext) (ps : List (String × JsValue))
    (encoding : Bool) (h : hasOwn ps "rc_initial_buffer_occupancy" = false) :
    Fld.get Fld.rc_initial_buffer_occupancy (setCodecFromProps lib c (.object ps) encoding).2 = Fld.get Fld.rc_initial_buffer_occupancy c :=
  set_keep_top lib (.object ps) encoding 39 Fld.rc_initial_buffer_occupancy
    (show (setSteps lib (.object ps) encoding)[39]? = some (ifThen encoding (seq [
        (fun c => store (beam_get_int64 (.object ps) "rc_min_rate" c.rc_min_rate)
          (fun v => { c with rc_min_rate := v })),
        (floatStep (.object ps) "rc_max_available_vbv_use" sentinelB (fun c v => { c with rc_max_available_vbv_use := v })),
        (floatStep (.object ps) "rc_min_vbv_overflow_use" sentinelB (fun c v => { c with rc_min_vbv_overflow_use := v })),
        (fun c => store (beam_get_int32 (.object ps) "rc_initial_buffer_occupancy" c.rc_initial_buffer_occupancy)
          (fun v => { c with rc_initial_buffer_occupancy := v }))])) from rfl)
    (fun _ _ => frame_ifThen (frame_sole (by
          exact List.Forall₂.cons
            (writes_store Fld.rc_min_rate (fun _ _ => rfl) (fun _ _ => rfl))
            (List.Forall₂.cons
            (writes_floatStep Fld.rc_max_available_vbv_use (fun _ _ => rfl) (fun _ _ => rfl))
            (List.Forall₂.cons
            (writes_floatStep Fld.rc_min_vbv_overflow_use (fun _ _ => rfl) (fun _ _ => rfl))
            (List.Forall₂.cons
            (writes_store Fld.rc_initial_buffer_occupancy (fun _ _ => rfl) (fun _ _ => rfl))
            List.Forall₂.nil))))
        Fld.rc_initial_buffer_occupancy (fun _ _ h => h) 3 rfl
        (frame_int32_absent h (fun c => c.rc_initial_buffer_occupancy) (fun _ => rfl)) (by decide)))
    (by decide) c

/-- For every numeric scalar key of the table (each int32, int64 and
floating-point field that `setCodecFromProps` reads under its own key), every
record, bag and mode:
when the bag does not hold the key, the field has after the call the value it had
before, and the helper that reads the key returns `napi_ok` together with the
value it was given (the old value of the field, or the reserved constant for a
floating-point field). -/
theorem omission_keeps_scalar (lib : AVLib) (c : AVCodecContext)
    (ps : List (String × JsValue)) (encoding : Bool) (e : String × Fld × ScalarKind)
    (he : e ∈ scalarKeys) (h : hasOwn ps e.1 = false) :
    Fld.get e.2.1 (setCodecFromProps lib c (.object ps) encoding).2 = Fld.get e.2.1 c ∧
    (match e.2.2 with
      | ScalarKind.int32 => ∀ old, beam_get_int32 (.object ps) e.1 old = (napi_ok, old)
      | ScalarKind.int64 => ∀ old, beam_get_int64 (.object ps) e.1 old = (napi_ok, old)
      | ScalarKind.float => ∀ old, beam_get_double (.object ps) e.1 old = (napi_ok, old)) := by
  simp only [scalarKeys, List.mem_cons, List.not_mem_nil, or_false] at he
  rcases he with rfl | rfl | rfl | rfl | rfl | rfl | rfl | rfl | rfl | rfl | rfl | rfl | rfl | rfl | rfl | rfl | rfl | rfl | rfl | rfl | rfl | rfl | rfl | rfl | rfl | rfl | rfl | rfl | rfl | rfl | rfl | rfl | rfl | rfl | rfl | rfl | rfl | rfl | rfl | rfl | rfl | rfl | rfl | rfl | rfl | rfl | rfl | rfl
  · exact ⟨keep_bit_rate lib c ps encoding h, fun old => beam_get_int64_absent ps _ old h⟩
  · exact ⟨keep_bit_rate_tolerance lib c ps encoding h, fun old => beam_get_int32_absent ps _ old h⟩
  · exact ⟨keep_global_quality lib c ps encoding h, fun old => beam_get_int32_absent ps _ old h⟩
  · exact ⟨keep_compression_level lib c ps encoding h, fun old => beam_get_int32_absent ps _ old h⟩
  · exact ⟨keep_ticks_per_frame lib c ps encoding h, fun old => beam_get_int32_absent ps _ old h⟩
  · exact ⟨keep_width lib c ps encoding h, fun old => beam_get_int32_absent ps _ old h⟩
  · exact ⟨keep_height lib c ps encoding h, fun old => beam_get_int32_absent ps _ old h⟩
  · exact ⟨keep_coded_width lib c ps encoding h, fun old => beam_get_int32_absent ps _ old h⟩
  · exact ⟨keep_coded_height lib c ps encoding h, fun old => beam_get_int32_absent ps _ old h⟩
  · exact ⟨keep_max_b_frames lib c ps encoding h, fun old => beam_get_int32_absent ps _ old h⟩
  · exact ⟨keep_b_quant_factor lib c ps encoding h, fun old => beam_get_double_absent ps _ old h⟩
  · exact ⟨keep_b_quant_offset lib c ps encoding h, fun old => beam_get_double_absent ps _ old h⟩
  · exact ⟨keep_i_quant_factor lib c ps encoding h, fun old => beam_get_double_absent ps _ old h⟩
  · exact ⟨keep_i_quant_offset lib c ps encoding h, fun old => beam_get_double_absent ps _ old h⟩
  · exact ⟨keep_lumi_masking lib c ps encoding h, fun old => beam_get_double_absent ps _ old h⟩
  · exact ⟨keep_temporal_cplx_masking lib c ps encoding h, fun old => beam_get_double_absent ps _ old h⟩
  · exact ⟨keep_spatial_cplx_masking lib c ps encoding h, fun old => beam_get_double_absent ps _ old h⟩
  · exact ⟨keep_p_masking lib c ps encoding h, fun old => beam_get_double_absent ps _ old h⟩
  · exact ⟨keep_dark_masking lib c ps encoding h, fun old => beam_get_double_absent ps _ old h⟩
  · exact ⟨keep_last_predictor_count lib c ps encoding h, fun old => beam_get_int32_absent ps _ old h⟩
  · exact ⟨keep_pre_dia_size lib c ps encoding h, fun old => beam_get_int32_absent ps _ old h⟩
  · exact ⟨keep_me_subpel_quality lib c ps encoding h, fun old => beam_get_int32_absent ps _ old h⟩
  · exact ⟨keep_me_range lib c ps encoding h, fun old => beam_get_int32_absent ps _ old h⟩
  · exact ⟨keep_intra_dc_precision lib c ps encoding h, fun old => beam_get_int32_absent ps _ old h⟩
  · exact ⟨keep_skip_top lib c ps encoding h, fun old => beam_get_int32_absent ps _ old h⟩
  · exact ⟨keep_skip_bottom lib c ps encoding h, fun old => beam_get_int32_absent ps _ old h⟩
  · exact ⟨keep_mb_lmin lib c ps encoding h, fun old => beam_get_int32_absent ps _ old h⟩
  · exact ⟨keep_mb_lmax lib c ps encoding h, fun old => beam_get_int32_absent ps _ old h⟩
  · exact ⟨keep_bidir_refine lib c ps encoding h, fun old => beam_get_int32_absent ps _ old h⟩
  · exact ⟨keep_keyint_min lib c ps encoding h, fun old => beam_get_int32_absent ps _ old h⟩
  · exact ⟨keep_refs lib c ps encoding h, fun old => beam_get_int32_absent ps _ old h⟩
  · exact ⟨keep_mv0_threshold lib c ps encoding h, fun old => beam_get_int32_absent ps _ old h⟩
  · exact ⟨keep_slices lib c ps encoding h, fun old => beam_get_int32_absent ps _ old h⟩
  · exact ⟨keep_sample_rate lib c ps encoding h, fun old => beam_get_int32_absent ps _ old h⟩
  · exact ⟨keep_channels lib c ps encoding h, fun old => beam_get_int32_absent ps _ old h⟩
  · exact ⟨keep_block_align lib c ps encoding h, fun old => beam_get_int32_absent ps _ old h⟩
  · exact ⟨keep_cutoff lib c ps encoding h, fun old => beam_get_int32_absent ps _ old h⟩
  · exact ⟨keep_qcompress lib c ps encoding h, fun old => beam_get_double_absent ps _ old h⟩
  · exact ⟨keep_qblur lib c ps encoding h, fun old => beam_get_double_absent ps _ old h⟩
  · exact ⟨keep_qmin lib c ps encoding h, fun old => beam_get_int32_absent ps _ old h⟩
  · exact ⟨keep_qmax lib c ps encoding h, fun old => beam_get_int32_absent ps _ old h⟩
  · exact ⟨keep_max_qdiff lib c ps encoding h, fun old => beam_get_int32_absent ps _ old h⟩
  · exact ⟨keep_rc_buffer_size lib c ps encoding h, fun old => beam_get_int32_absent ps _ old h⟩
  · exact ⟨keep_rc_max_rate lib c ps encoding h, fun old => beam_get_int64_absent ps _ old h⟩
  · exact ⟨keep_rc_min_rate lib c ps encoding h, fun old => beam_get_int64_absent ps _ old h⟩
  · exact ⟨keep_rc_max_available_vbv_use lib c ps encoding h, fun old => beam_get_double_absent ps _ old h⟩
  · exact ⟨keep_rc_min_vbv_overflow_use lib c ps encoding h, fun old => beam_get_double_absent ps _ old h⟩
  · exact ⟨keep_rc_initial_buffer_occupancy lib c ps encoding h, fun old => beam_get_int32_absent ps _ old h⟩

/-- The table at a sample input: a bag that gives the six string keys and no
`qcompress` leaves `qcompress` of the sample video record as it was. -/
theorem omission_keeps_scalar_sample :
    Fld.get Fld.qcompress (setCodecFromProps sampleLib sampleVideo (.object sampleStrings)
      true).2 = Fld.get Fld.qcompress sampleVideo :=
  (omission_keeps_scalar sampleLib sampleVideo sampleStrings true
    ("qcompress", Fld.qcompress, ScalarKind.float) (by decide) rfl).1

/-- C19 at the failing input: `dia_size` is an `int` field that
`setCodecFromProps` writes, and no entry of the table, because the call reads no
key `dia_size`.  Under encoding, on a video record whose `dia_size` is 3, the
bag that holds `ildct_cmp: "chroma"` (256 in the table) beside the six string
keys of a video encoder, and no `dia_size` key, is accepted and leaves
`dia_size` at 256, not at 3. -/
theorem omission_changes_dia_size :
    (∀ e ∈ scalarKeys, e.2.1 ≠ Fld.dia_size) ∧
    StringsGiven (("ildct_cmp", .string "chroma") :: sampleStrings) true AVMEDIA_TYPE_VIDEO ∧
    hasOwn (("ildct_cmp", JsValue.string "chroma") :: sampleStrings) "dia_size" = false ∧
    ({ sampleVideo with dia_size := 3 } : AVCodecContext).dia_size = 3 ∧
    (setCodecFromProps sampleLib { sampleVideo with dia_size := 3 }
      (.object (("ildct_cmp", .string "chroma") :: sampleStrings)) true).1 = napi_ok ∧
    (setCodecFromProps sampleLib { sampleVideo with dia_size := 3 }
      (.object (("ildct_cmp", .string "chroma") :: sampleStrings)) true).2.dia_size = 256 := by
  decide

/-! ## Claim C20: the first failing statement -/

/-! ### Fail-fast -/

theorem pass_of_ne_ok {st : napi_status} (h : st ≠ napi_ok) : PASS_STATUS st = true := by
  cases st <;> simp_all [PASS_STATUS]

theorem not_pass_of_ok {st : napi_status} (h : st = napi_ok) : ¬ PASS_STATUS st = true := by
  subst h
  simp [PASS_STATUS]

theorem seq_stop {σ : Type} (pre : List (Step σ)) (s : Step σ) (later : List (Step σ)) (c : σ)
    (hpre : (seq pre c).1 = napi_ok) (hs : (s (seq pre c).2).1 ≠ napi_ok) :
    seq (pre ++ s :: later) c = s (seq pre c).2 := by
  rw [seq_append, if_neg (not_pass_of_ok hpre), seq_cons_eq, if_pos (pass_of_ne_ok hs)]

theorem getElem?_split {α : Type} : ∀ (l : List α) (i : Nat) (s : α), l[i]? = some s →
    l = l.take i ++ s :: l.drop (i + 1)
  | [], i, s, h => by simp at h
  | x :: l, 0, s, h => by
    simp only [List.getElem?_cons_zero, Option.some.injEq] at h
    simp [h]
  | x :: l, i + 1, s, h => by
    simp only [List.getElem?_cons_succ] at h
    have := getElem?_split l i s h
    simp only [List.take_succ_cons, List.drop_succ_cons, List.cons_append]
    rw [← this]

theorem take_succ_split {α : Type} : ∀ (l : List α) (i : Nat) (s : α), l[i]? = some s →
    l.take (i + 1) = l.take i ++ [s]
  | [], i, s, h => by simp at h
  | x :: l, 0, s, h => by
    simp only [List.getElem?_cons_zero, Option.some.injEq] at h
    simp [h]
  | x :: l, i + 1, s, h => by
    simp only [List.getElem?_cons_succ] at h
    have := take_succ_split l i s h
    simp only [List.take_succ_cons, List.cons_append]
    rw [this]

/-- A list of statements whose statement `i` fails after the statements before
it returned ok returns what that statement returned, which is also what the
first `i + 1` statements alone return. -/
theorem seq_fail_at {σ : Type} (steps : List (Step σ)) (i : Nat) (s : Step σ) (c : σ)
    (hs : steps[i]? = some s) (hpre : (seq (steps.take i) c).1 = napi_ok)
    (hf : (s (seq (steps.take i) c).2).1 ≠ napi_ok) :
    seq steps c = s (seq (steps.take i) c).2 ∧
    seq (steps.take (i + 1)) c = s (seq (steps.take i) c).2 := by
  constructor
  · conv_lhs => rw [getElem?_split steps i s hs]
    exact seq_stop _ s _ c hpre hf
  · rw [take_succ_split steps i s hs]
    exact seq_stop _ s [] c hpre hf

/-- The same for a statement of a block `if (p(state)) { ... }` that is statement
`k` of the list. -/
theorem block_fail_at {σ : Type} (top : List (Step σ)) (p : σ → Bool) (block : List (Step σ))
    (k j : Nat) (s : Step σ) (c : σ) (hk : top[k]? = some (ifState p (seq block)))
    (hj : block[j]? = some s) (htop : (seq (top.take k) c).1 = napi_ok)
    (hp : p (seq (top.take k) c).2 = true)
    (hpre : (seq (block.take j) (seq (top.take k) c).2).1 = napi_ok)
    (hf : (s (seq (block.take j) (seq (top.take k) c).2).2).1 ≠ napi_ok) :
    seq top c = s (seq (block.take j) (seq (top.take k) c).2).2 ∧
    seq top c = seq (block.take (j + 1)) (seq (top.take k) c).2 := by
  obtain ⟨h1, h2⟩ := seq_fail_at block j s _ hj hpre hf
  have hb : ifState p (seq block) (seq (top.take k) c).2 =
      s (seq (block.take j) (seq (top.take k) c).2).2 := by
    unfold ifState
    rw [if_pos hp, h1]
  have h3 := (seq_fail_at top k _ c hk htop (by rw [hb]; exact hf)).1
  rw [h3, hb]
  exact ⟨rfl, h2.symm⟩

theorem writes_take {σ ι : Type} {β : ι → Type} {I : σ → Prop} {obs : (g : ι) → σ → β g}
    {Fs : List (List ι)} {steps : List (Step σ)} (h : List.Forall₂ (Writes I obs) Fs steps)
    (n : Nat) : Writes I obs (Fs.take n).flatten (seq (steps.take n)) :=
  writes_seq (List.forall₂_take n h)

/-- A loop in which every pass returns ok or the status `st`, and some pass
returns `st` from every state, returns `st`. -/
theorem seq_fail_some {σ : Type} (st : napi_status) (hst : st ≠ napi_ok) :
    ∀ (steps : List (Step σ)), (∀ s ∈ steps, ∀ b, (s b).1 = napi_ok ∨ (s b).1 = st) →
      (∃ s ∈ steps, ∀ b, (s b).1 = st) → ∀ b, (seq steps b).1 = st
  | [], _, h, _ => by
    obtain ⟨s, hs, _⟩ := h
    cases hs
  | s :: rest, hall, hex, b => by
    rw [seq_cons_eq]
    rcases hall s (List.mem_cons_self _ _) b with h | h
    · rw [if_neg (not_pass_of_ok h)]
      obtain ⟨t, ht, htb⟩ := hex
      rcases List.mem_cons.1 ht with rfl | ht
      · rw [htb b] at h
        exact absurd h hst
      · exact seq_fail_some st hst rest (fun s' hs' => hall s' (List.mem_cons_of_mem _ hs'))
          ⟨t, ht, htb⟩ _
    · rw [if_pos (pass_of_ne_ok (by rw [h]; exact hst))]
      exact h

theorem sliceOffsetBody_status (xs : List JsValue) (x : Nat) (buf : List Int) :
    (sliceOffsetBody (.array xs) x buf).1 =
      if napi_typeof (xs.getD x .undefined) = .napi_number then napi_ok
      else napi_number_expected := by
  unfold sliceOffsetBody
  simp only [napi_get_element]
  generalize xs.getD x .undefined = e
  cases e with
  | number d => cases d <;> simp [napi_typeof, napi_get_value_int32, PASS_STATUS]
  | _ => simp [napi_typeof, napi_get_value_int32, PASS_STATUS]

/-- The statement for `slice_offset` on an array with an element that is not a
number returns `napi_number_expected`. -/
theorem sliceOffsetStep_not_number (ps : List (String × JsValue)) (xs : List JsValue) (j : Nat)
    (hval : getOwn ps "slice_offset" = .array xs) (hlen : xs.length < 2 ^ 31)
    (hj : j < xs.length) (hn : napi_typeof (xs.getD j .undefined) ≠ .napi_number)
    (c : AVCodecContext) :
    (sliceOffsetStep (.object ps) c).1 = napi_number_expected := by
  have hloop := seq_fail_some napi_number_expected (by decide)
    ((List.range xs.length).map (sliceOffsetBody (.array xs)))
    (fun s hs b => by
      obtain ⟨x, _, rfl⟩ := List.mem_map.1 hs
      rw [sliceOffsetBody_status]
      split
      · exact Or.inl rfl
      · exact Or.inr rfl)
    ⟨_, List.mem_map.2 ⟨j, List.mem_range.2 hj, rfl⟩, fun b => by
      rw [sliceOffsetBody_status, if_neg hn]⟩
    (List.replicate xs.length 0)
  unfold sliceOffsetStep
  simp only [napi_get_named_property, hval, napi_is_array, napi_get_array_length,
    toInt32_toUint32_length _ hlen, Int.toNat_ofNat, hloop]
  simp [PASS_STATUS]

theorem setCodecFromProps_not_object (lib : AVLib) (c : AVCodecContext) (encoding : Bool)
    (props : JsValue) (h : props = .undefined ∨ props = .null) :
    setCodecFromProps lib c props encoding = (napi_object_expected, c) := by
  have h0 : (setSteps lib props encoding)[0]? =
      some (fun c => store (beam_get_int64 props "bit_rate" c.bit_rate)
        (fun v => { c with bit_rate := v })) := rfl
  have hget : beam_get_int64 props "bit_rate" c.bit_rate = (napi_object_expected, c.bit_rate) := by
    rcases h with rfl | rfl <;> rfl
  have hs : store (beam_get_int64 props "bit_rate" c.bit_rate)
      (fun v => { c with bit_rate := v }) = (napi_object_expected, c) := by
    rw [hget]
    rfl
  have := (seq_fail_at (setSteps lib props encoding) 0 _ c h0 rfl (by
    show (store (beam_get_int64 props "bit_rate" c.bit_rate)
      (fun v => { c with bit_rate := v })).1 ≠ napi_ok
    rw [hs]
    exact fun h => nomatch h)).1
  unfold setCodecFromProps
  rw [this]
  exact hs

theorem getPropsFromCodec_not_object (lib : AVLib) (codec : AVCodecContext) (encoding : Bool)
    (target : JsValue) (h : target = .undefined ∨ target = .null) :
    getPropsFromCodec lib target codec encoding = (napi_object_expected, target) := by
  have h0 : (getSteps lib codec encoding)[0]? =
      some (beam_set_int32 · "codec_id" codec.codec_id) := rfl
  have hs : beam_set_int32 target "codec_id" codec.codec_id = (napi_object_expected, target) := by
    rcases h with rfl | rfl <;> rfl
  have := (seq_fail_at (getSteps lib codec encoding) 0 _ target h0 rfl (by
    show (beam_set_int32 target "codec_id" codec.codec_id).1 ≠ napi_ok
    rw [hs]
    exact fun h => nomatch h)).1
  unfold getPropsFromCodec
  rw [this]
  exact hs

section
attribute [local irreducible] seq ifThen ifState store flagStep floatStep stringStep matrixStep
  sliceOffsetStep rcOverrideStep Sure beam_get_int32 beam_get_int64 beam_get_enum
  beam_get_rational beam_get_bool beam_get_double beam_get_string_utf8

/-- The statements of the function body before the video block cannot fail on a
bag. -/
theorem setSteps_before_video (lib : AVLib) (ps : List (String × JsValue)) (encoding : Bool) :
    Sure (fun _ => True) (seq ((setSteps lib (.object ps) encoding).take 33)) := by
  cases encoding <;>
  · unfold setSteps
    simp only [List.take_succ_cons, List.take_zero]
    repeat' first
      | apply sure_seq_cons
      | apply sure_seq_nil
      | exact sure_ifThen_false
      | apply sure_ifThen
      | apply sure_int32
      | apply sure_int64
      | apply sure_rational
      | apply sure_flagStep

/-- Under decoding, the statements of the video block before `slice_offset`
cannot fail on a bag that gives a string under `pix_fmt`. -/
theorem setVideoSteps_before_slice (lib : AVLib) (ps : List (String × JsValue))
    (hpix : napi_typeof (getOwn ps "pix_fmt") = .napi_string) :
    Sure (fun _ => True) (seq ((setVideoSteps lib (.object ps) false).take 14)) := by
  unfold setVideoSteps
  simp only [List.take_succ_cons, List.take_zero]
  repeat' first
    | apply sure_seq_cons
    | apply sure_seq_nil
    | exact sure_ifThen_false
    | exact sure_stringStep hpix _ _
    | apply sure_ifThen
    | apply sure_int32

end

/-- What a failing statement of a media block leaves: the call returns what the
statement returned, and no field outside the footprints of the statements up to
it has changed. -/
theorem media_fail_at (lib : AVLib) (props : JsValue) (encoding bv ba : Bool)
    (c : AVCodecContext) (hI : MediaIs bv ba c) (k j : Nat) (p : AVCodecContext → Bool)
    (block : List (Step AVCodecContext)) (foot : List (List Fld)) (s : Step AVCodecContext)
    (hW : List.Forall₂ (Writes (MediaIs bv ba) Fld.get) foot block)
    (hk : (setSteps lib props encoding)[k]? = some (ifState p (seq block)))
    (hp : ∀ c, MediaIs bv ba c → p c = true)
    (hj : block[j]? = some s)
    (htop : (seq ((setSteps lib props encoding).take k) c).1 = napi_ok)
    (hpre : (seq (block.take j) (seq ((setSteps lib props encoding).take k) c).2).1 = napi_ok)
    (hf : (s (seq (block.take j)
      (seq ((setSteps lib props encoding).take k) c).2).2).1 ≠ napi_ok) :
    setCodecFromProps lib c props encoding =
      s (seq (block.take j) (seq ((setSteps lib props encoding).take k) c).2).2 ∧
    ∀ f, f ∉ ((setFoot encoding bv ba).take k).flatten → f ∉ (foot.take (j + 1)).flatten →
      Fld.get f (setCodecFromProps lib c props encoding).2 = Fld.get f c := by
  have hT := writes_take (setSteps_writes lib props encoding bv ba) k c hI
  obtain ⟨h1, h2⟩ := block_fail_at (setSteps lib props encoding) p block k j s c hk hj htop
    (hp _ hT.1) hpre hf
  refine ⟨h1, fun f hf1 hf2 => ?_⟩
  unfold setCodecFromProps
  rw [h2, (writes_take hW (j + 1) _ hT.1).2 f hf2, hT.2 f hf1]

/-- C20: (1) in `setCodecFromProps`, when the statements before statement `i`
of the function body return ok and statement `i` returns a status that is not
ok, the call returns what that statement returned (its status, and the record as
that statement left it), which is what the first `i + 1` statements alone
return, and every field outside the footprints of those `i + 1` statements is as
it was before the call; (2), (3) the same for statement `j` of the video block
on a video record and of the audio block on an audio record, with the footprints
of the statements before the block and of the first `j + 1` statements of the
block; (4) a `props` that is `undefined` or `null` fails at the first statement
with `napi_object_expected` and leaves the record as it was; (5) under decoding,
on a video record and a bag that gives a string under `pix_fmt` and under
`slice_offset` an array (shorter than 2^31) with an element that is not a
number, the call returns `napi_number_expected`, and every field outside the
footprints of the statements up to `slice_offset` is as it was; (6) on a bag
that gives the strings that the call parses, the call returns ok unless the
statement of `slice_offset` or that of `rc_override` fails; (7) on a bag as
target no statement of `getPropsFromCodec` fails; (8) on a target that is
`undefined` or `null`, `getPropsFromCodec` fails at the first statement with
`napi_object_expected` and returns the target as it was. -/
theorem fail_fast (lib : AVLib) (encoding : Bool) :
    (∀ (props : JsValue) (c : AVCodecContext) (i : Nat) (s : Step AVCodecContext),
      (setSteps lib props encoding)[i]? = some s →
      (seq ((setSteps lib props encoding).take i) c).1 = napi_ok →
      (s (seq ((setSteps lib props encoding).take i) c).2).1 ≠ napi_ok →
      setCodecFromProps lib c props encoding =
        s (seq ((setSteps lib props encoding).take i) c).2 ∧
      setCodecFromProps lib c props encoding =
        seq ((setSteps lib props encoding).take (i + 1)) c ∧
      ∀ f, f ∉ ((setFoot encoding (decide (c.codec_type = AVMEDIA_TYPE_VIDEO))
          (decide (c.codec_type = AVMEDIA_TYPE_AUDIO))).take (i + 1)).flatten →
        Fld.get f (setCodecFromProps lib c props encoding).2 = Fld.get f c) ∧
    (∀ (props : JsValue) (c : AVCodecContext) (j : Nat) (s : Step AVCodecContext),
      c.codec_type = AVMEDIA_TYPE_VIDEO →
      (setVideoSteps lib props encoding)[j]? = some s →
      (seq ((setSteps lib props encoding).take 33) c).1 = napi_ok →
      (seq ((setVideoSteps lib props encoding).take j)
        (seq ((setSteps lib props encoding).take 33) c).2).1 = napi_ok →
      (s (seq ((setVideoSteps lib props encoding).take j)
        (seq ((setSteps lib props encoding).take 33) c).2).2).1 ≠ napi_ok →
      setCodecFromProps lib c props encoding =
        s (seq ((setVideoSteps lib props encoding).take j)
          (seq ((setSteps lib props encoding).take 33) c).2).2 ∧
      ∀ f, f ∉ ((setFoot encoding true false).take 33).flatten →
        f ∉ ((setVideoFoot encoding).take (j + 1)).flatten →
        Fld.get f (setCodecFromProps lib c props encoding).2 = Fld.get f c) ∧
    (∀ (props : JsValue) (c : AVCodecContext) (j : Nat) (s : Step AVCodecContext),
      c.codec_type = AVMEDIA_TYPE_AUDIO →
      (setAudioSteps lib props encoding)[j]? = some s →
      (seq ((setSteps lib props encoding).take 34) c).1 = napi_ok →
      (seq ((setAudioSteps lib props encoding).take j)
        (seq ((setSteps lib props encoding).take 34) c).2).1 = napi_ok →
      (s (seq ((setAudioSteps lib props encoding).take j)
        (seq ((setSteps lib props encoding).take 34) c).2).2).1 ≠ napi_ok →
      setCodecFromProps lib c props encoding =
        s (seq ((setAudioSteps lib props encoding).take j)
          (seq ((setSteps lib props encoding).take 34) c).2).2 ∧
      ∀ f, f ∉ ((setFoot encoding false true).take 34).flatten →
        f ∉ ((setAudioFoot encoding).take (j + 1)).flatten →
        Fld.get f (setCodecFromProps lib c props encoding).2 = Fld.get f c) ∧
    (∀ (c : AVCodecContext),
      setCodecFromProps lib c .undefined encoding = (napi_object_expected, c) ∧
      setCodecFromProps lib c .null encoding = (napi_object_expected, c)) ∧
    (∀ (ps : List (String × JsValue)) (c : AVCodecContext) (xs : List JsValue) (j : Nat),
      c.codec_type = AVMEDIA_TYPE_VIDEO →
      napi_typeof (getOwn ps "pix_fmt") = .napi_string →
      getOwn ps "slice_offset" = .array xs → xs.length < 2 ^ 31 → j < xs.length →
      napi_typeof (xs.getD j .undefined) ≠ .napi_number →
      (setCodecFromProps lib c (.object ps) false).1 = napi_number_expected ∧
      ∀ f, f ∉ ((setFoot false true false).take 33).flatten →
        f ∉ ((setVideoFoot false).take 15).flatten →
        Fld.get f (setCodecFromProps lib c (.object ps) false).2 = Fld.get f c) ∧
    (∀ (ps : List (String × JsValue)) (c : AVCodecContext),
      StringsGiven ps encoding c.codec_type →
      (encoding = false → ∀ c, (sliceOffsetStep (.object ps) c).1 = napi_ok) →
      (encoding = true → ∀ c, (rcOverrideStep (.object ps) c).1 = napi_ok) →
      (setCodecFromProps lib c (.object ps) encoding).1 = napi_ok) ∧
    (∀ (codec : AVCodecContext) (target : JsValue), IsBag target →
      (getPropsFromCodec lib target codec encoding).1 = napi_ok) ∧
    (∀ (codec : AVCodecContext),
      getPropsFromCodec lib .undefined codec encoding = (napi_object_expected, .undefined) ∧
      getPropsFromCodec lib .null codec encoding = (napi_object_expected, .null)) := by
  have hvid : ∀ c : AVCodecContext, c.codec_type = AVMEDIA_TYPE_VIDEO → MediaIs true false c :=
    fun c hv => ⟨decide_eq_true hv, by rw [hv]; rfl⟩
  have haud : ∀ c : AVCodecContext, c.codec_type = AVMEDIA_TYPE_AUDIO → MediaIs false true c :=
    fun c ha => ⟨by rw [ha]; rfl, decide_eq_true ha⟩
  refine ⟨?_, ?_, ?_, ?_, ?_, ?_, ?_, ?_⟩
  · intro props c i s hs hpre hf
    obtain ⟨h1, h2⟩ := seq_fail_at (setSteps lib props encoding) i s c hs hpre hf
    refine ⟨h1, h1.trans h2.symm, fun f hf1 => ?_⟩
    unfold setCodecFromProps
    rw [h1, ← h2]
    exact (writes_take (setSteps_writes lib props encoding _ _) (i + 1) c ⟨rfl, rfl⟩).2 f hf1
  · intro props c j s hv hj htop hpre hf
    exact media_fail_at lib props encoding true false c (hvid c hv) 33 j _ _ _ s
      (setVideo_writes lib props encoding true false) rfl (fun _ hc => hc.1) hj htop hpre hf
  · intro props c j s ha hj htop hpre hf
    exact media_fail_at lib props encoding false true c (haud c ha) 34 j _ _ _ s
      (setAudio_writes lib props encoding false true) rfl (fun _ hc => hc.2) hj htop hpre hf
  · intro c
    exact ⟨setCodecFromProps_not_object lib c encoding _ (Or.inl rfl),
      setCodecFromProps_not_object lib c encoding _ (Or.inr rfl)⟩
  · intro ps c xs j hv hpix hval hlen hj hn
    have h14 : (setVideoSteps lib (.object ps) false)[14]? =
        some (ifThen true (sliceOffsetStep (.object ps))) := rfl
    have hst : ∀ c, (ifThen true (sliceOffsetStep (.object ps)) c).1 = napi_number_expected :=
      fun c => sliceOffsetStep_not_number ps xs j hval hlen hj hn c
    have key := media_fail_at lib (.object ps) false true false c (hvid c hv) 33 14 _ _ _ _
      (setVideo_writes lib (.object ps) false true false) rfl (fun _ hc => hc.1) h14
      (setSteps_before_video lib ps false c trivial).1
      (setVideoSteps_before_slice lib ps hpix _ trivial).1
      (by rw [hst]; decide)
    refine ⟨?_, key.2⟩
    rw [key.1, hst]
  · intro ps c hs h1 h2
    exact setCodecFromProps_ok lib c ps encoding hs h1 h2
  · intro codec target ht
    exact (getPropsFromCodec_ok lib target codec encoding ht).1
  · intro codec
    exact ⟨getPropsFromCodec_not_object lib codec encoding _ (Or.inl rfl),
      getPropsFromCodec_not_object lib codec encoding _ (Or.inr rfl)⟩

/-- C20 at a sample input: under decoding, a bag that names the pixel format and
whose `slice_offset` array holds a string makes the call on the sample video
record return `napi_number_expected`, the status of the statement of
`slice_offset`, and leave `skip_top`, which a later statement reads, as it was,
even though the bag holds a value for it. -/
theorem fail_fast_witness :
    (setCodecFromProps sampleLib sampleVideo
      (.object [("pix_fmt", .string "yuv420p"), ("slice_offset", .array [.string "x"]),
        ("skip_top", .number (Dbl.ofInt 4))]) false).1 = napi_number_expected ∧
    Fld.get Fld.skip_top (setCodecFromProps sampleLib sampleVideo
      (.object [("pix_fmt", .string "yuv420p"), ("slice_offset", .array [.string "x"]),
        ("skip_top", .number (Dbl.ofInt 4))]) false).2 = Fld.get Fld.skip_top sampleVideo :=
  ⟨((fail_fast sampleLib false).2.2.2.2.1
      [("pix_fmt", .string "yuv420p"), ("slice_offset", .array [.string "x"]),
        ("skip_top", .number (Dbl.ofInt 4))] sampleVideo [.string "x"] 0 rfl rfl rfl
      (by decide) (by decide) (by decide)).1,
    ((fail_fast sampleLib false).2.2.2.2.1
      [("pix_fmt", .string "yuv420p"), ("slice_offset", .array [.string "x"]),
        ("skip_top", .number (Dbl.ofInt 4))] sampleVideo [.string "x"] 0 rfl rfl rfl
      (by decide) (by decide) (by decide)).2 Fld.skip_top (by decide) (by decide)⟩

/-! ## Calls that cannot fail -/

/-! ### Calls that cannot fail, and the statements before `rc_override` -/

theorem rcOverrideStep_not_array (ps : List (String × JsValue))
    (h : napi_is_array (getOwn ps "rc_override") = false) (c : AVCodecContext) :
    rcOverrideStep (.object ps) c = (napi_ok, c) := by
  unfold rcOverrideStep
  simp [napi_get_named_property, h, PASS_STATUS]

theorem sliceOffsetStep_ok_of_not_array (ps : List (String × JsValue))
    (h : napi_is_array (getOwn ps "slice_offset") = false) (c : AVCodecContext) :
    (sliceOffsetStep (.object ps) c).1 = napi_ok := by
  unfold sliceOffsetStep
  simp [napi_get_named_property, napi_has_named_property, h, PASS_STATUS]

/-- On a bag that gives the strings that the call parses for the record and
holds no array under `slice_offset` and none under `rc_override`,
`setCodecFromProps` returns `napi_ok`. -/
theorem setCodecFromProps_ok_plain (lib : AVLib) (c : AVCodecContext)
    (ps : List (String × JsValue)) (encoding : Bool)
    (hs : StringsGiven ps encoding c.codec_type)
    (h1 : napi_is_array (getOwn ps "slice_offset") = false)
    (h2 : napi_is_array (getOwn ps "rc_override") = false) :
    (setCodecFromProps lib c (.object ps) encoding).1 = napi_ok :=
  setCodecFromProps_ok lib c ps encoding hs
    (fun _ c => sliceOffsetStep_ok_of_not_array ps h1 c)
    (fun _ c => by rw [rcOverrideStep_not_array ps h2 c])

section
attribute [local irreducible] seq ifThen ifState store flagStep floatStep stringStep matrixStep
  sliceOffsetStep rcOverrideStep Sure Runs beam_get_int32 beam_get_int64 beam_get_enum
  beam_get_rational beam_get_bool beam_get_double beam_get_string_utf8

end

theorem beam_get_int32_other (ps : List (String × JsValue)) (k : String) (old : Int)
    (h : napi_typeof (getOwn ps k) ≠ .napi_number) :
    beam_get_int32 (.object ps) k old = (napi_ok, old) := by
  simp only [beam_get_int32, napi_get_named_property]
  generalize getOwn ps k = x at h
  cases x with
  | number d => exact absurd rfl h
  | _ => simp [napi_get_value_int32, PASS_STATUS, ACCEPT_STATUS]

theorem beam_get_int64_other (ps : List (String × JsValue)) (k : String) (old : Int)
    (h : napi_typeof (getOwn ps k) ≠ .napi_number) :
    beam_get_int64 (.object ps) k old = (napi_ok, old) := by
  simp only [beam_get_int64, napi_get_named_property]
  generalize getOwn ps k = x at h
  cases x with
  | number d => exact absurd rfl h
  | _ => simp [napi_get_value_int64, PASS_STATUS, ACCEPT_STATUS]

section
variable {α : Type} {I : AVCodecContext → Prop} {P : AVCodecContext → α}
  {ps : List (String × JsValue)} {k : String}

theorem frame_int32_other {put : AVCodecContext → Int → AVCodecContext}
    (h : napi_typeof (getOwn ps k) ≠ .napi_number) (g : AVCodecContext → Int)
    (hput : ∀ c, put c (g c) = c) :
    Frame I P (fun c => store (beam_get_int32 (.object ps) k (g c)) (put c)) := by
  intro c hc
  show I (put c (beam_get_int32 (.object ps) k (g c)).2) ∧
    P (put c (beam_get_int32 (.object ps) k (g c)).2) = P c
  rw [beam_get_int32_other ps k _ h, hput]
  exact ⟨hc, rfl⟩

theorem frame_int64_other {put : AVCodecContext → Int → AVCodecContext}
    (h : napi_typeof (getOwn ps k) ≠ .napi_number) (g : AVCodecContext → Int)
    (hput : ∀ c, put c (g c) = c) :
    Frame I P (fun c => store (beam_get_int64 (.object ps) k (g c)) (put c)) := by
  intro c hc
  show I (put c (beam_get_int64 (.object ps) k (g c)).2) ∧
    P (put c (beam_get_int64 (.object ps) k (g c)).2) = P c
  rw [beam_get_int64_other ps k _ h, hput]
  exact ⟨hc, rfl⟩

end

theorem other_bit_rate (lib : AVLib) (c : AVCodecContext) (ps : List (String × JsValue))
    (encoding : Bool) (h : napi_typeof (getOwn ps "bit_rate") ≠ .napi_number) :
    Fld.get Fld.bit_rate (setCodecFromProps lib c (.object ps) encoding).2 = Fld.get Fld.bit_rate c :=
  set_keep_top lib (.object ps) encoding 0 Fld.bit_rate
    (show (setSteps lib (.object ps) encoding)[0]? = some ((fun c => store (beam_get_int64 (.object ps) "bit_rate" c.bit_rate)
          (fun v => { c with bit_rate := v }))) from rfl)
    (fun _ _ => frame_int64_other h (fun c => c.bit_rate) (fun _ => rfl))
    (by decide) c

theorem other_bit_rate_tolerance (lib : AVLib) (c : AVCodecContext) (ps : List (String × JsValue))
    (encoding : Bool) (h : napi_typeof (getOwn ps "bit_rate_tolerance") ≠ .napi_number) :
    Fld.get Fld.bit_rate_tolerance (setCodecFromProps lib c (.object ps) encoding).2 = Fld.get Fld.bit_rate_tolerance c :=
  set_keep_top lib (.object ps) encoding 1 Fld.bit_rate_tolerance
    (show (setSteps lib (.object ps) encoding)[1]? = some (ifThen encoding (fun c => store (beam_get_int32 (.object ps) "bit_rate_tolerance" c.bit_rate_tolerance)
          (fun v => { c with bit_rate_tolerance := v }))) from rfl)
    (fun _ _ => frame_ifThen (frame_int32_other h (fun c => c.bit_rate_tolerance) (fun _ => rfl)))
    (by decide) c

theorem other_global_quality (lib : AVLib) (c : AVCodecContext) (ps : List (String × JsValue))
    (encoding : Bool) (h : napi_typeof (getOwn ps "global_quality") ≠ .napi_number) :
    Fld.get Fld.global_quality (setCodecFromProps lib c (.object ps) encoding).2 = Fld.get Fld.global_quality c :=
  set_keep_top lib (.object ps) encoding 2 Fld.global_quality
    (show (setSteps lib (.object ps) encoding)[2]? = some (ifThen encoding (fun c => store (beam_get_int32 (.object ps) "global_quality" c.global_quality)
          (fun v => { c with global_quality := v }))) from rfl)
    (fun _ _ => frame_ifThen (frame_int32_other h (fun c => c.global_quality) (fun _ => rfl)))
    (by decide) c

theorem other_compression_level (lib : AVLib) (c : AVCodecContext) (ps : List (String × JsValue))
    (encoding : Bool) (h : napi_typeof (getOwn ps "compression_level") ≠ .napi_number) :
    Fld.get Fld.compression_level (setCodecFromProps lib c (.object ps) encoding).2 = Fld.get Fld.compression_level c :=
  set_keep_top lib (.object ps) encoding 3 Fld.compression_level
    (show (setSteps lib (.object ps) encoding)[3]? = some (ifThen encoding (fun c => store (beam_get_int32 (.object ps) "compression_level" c.compression_level)
          (fun v => { c with compression_level := v }))) from rfl)
    (fun _ _ => frame_ifThen (frame_int32_other h (fun c => c.compression_level) (fun _ => rfl)))
    (by decide) c

theorem other_ticks_per_frame (lib : AVLib) (c : AVCodecContext) (ps : List (String × JsValue))
    (encoding : Bool) (h : napi_typeof (getOwn ps "ticks_per_frame") ≠ .napi_number) :
    Fld.get Fld.ticks_per_frame (setCodecFromProps lib c (.object ps) encoding).2 = Fld.get Fld.ticks_per_frame c :=
  set_keep_top lib (.object ps) encoding 32 Fld.ticks_per_frame
    (show (setSteps lib (.object ps) encoding)[32]? = some (ifThen encoding (seq [
        (fun c => store (beam_get_rational (.object ps) "time_base" c.time_base)
          (fun v => { c with time_base := v })),
        (fun c => store (beam_get_int32 (.object ps) "ticks_per_frame" c.ticks_per_frame)
          (fun v => { c with ticks_per_frame := v }))])) from rfl)
    (fun _ _ => frame_ifThen (frame_sole (by
          exact List.Forall₂.cons
            (writes_store Fld.time_base (fun _ _ => rfl) (fun _ _ => rfl))
            (List.Forall₂.cons
            (writes_store Fld.ticks_per_frame (fun _ _ => rfl) (fun _ _ => rfl))
            List.Forall₂.nil))
        Fld.ticks_per_frame (fun _ _ h => h) 1 rfl
        (frame_int32_other h (fun c => c.ticks_per_frame) (fun _ => rfl)) (by decide)))
    (by decide) c

theorem other_width (lib : AVLib) (c : AVCodecContext) (ps : List (String × JsValue))
    (encoding : Bool) (h : napi_typeof (getOwn ps "width") ≠ .napi_number) :
    Fld.get Fld.width (setCodecFromProps lib c (.object ps) encoding).2 = Fld.get Fld.width c :=
  set_keep_video lib (.object ps) encoding 0 Fld.width
    (show (setVideoSteps lib (.object ps) encoding)[0]? = some ((fun c => store (beam_get_int32 (.object ps) "width" c.width)
          (fun v => { c with width := v }))) from rfl)
    (fun _ _ => frame_int32_other h (fun c => c.width) (fun _ => rfl))
    (by decide) (by decide) c

theorem other_height (lib : AVLib) (c : AVCodecContext) (ps : List (String × JsValue))
    (encoding : Bool) (h : napi_typeof (getOwn ps "height") ≠ .napi_number) :
    Fld.get Fld.height (setCodecFromProps lib c (.object ps) encoding).2 = Fld.get Fld.height c :=
  set_keep_video lib (.object ps) encoding 1 Fld.height
    (show (setVideoSteps lib (.object ps) encoding)[1]? = some ((fun c => store (beam_get_int32 (.object ps) "height" c.height)
          (fun v => { c with height := v }))) from rfl)
    (fun _ _ => frame_int32_other h (fun c => c.height) (fun _ => rfl))
    (by decide) (by decide) c

theorem other_coded_width (lib : AVLib) (c : AVCodecContext) (ps : List (String × JsValue))
    (encoding : Bool) (h : napi_typeof (getOwn ps "coded_width") ≠ .napi_number) :
    Fld.get Fld.coded_width (setCodecFromProps lib c (.object ps) encoding).2 = Fld.get Fld.coded_width c :=
  set_keep_video lib (.object ps) encoding 2 Fld.coded_width
    (show (setVideoSteps lib (.object ps) encoding)[2]? = some (ifThen (!encoding) (seq [
        (fun c => store (beam_get_int32 (.object ps) "coded_width" c.coded_width)
          (fun v => { c with coded_width := v })),
        (fun c => store (beam_get_int32 (.object ps) "coded_height" c.coded_height)
          (fun v => { c with coded_height := v }))])) from rfl)
    (fun _ _ => frame_ifThen (frame_sole (by
          exact List.Forall₂.cons
            (writes_store Fld.coded_width (fun _ _ => rfl) (fun _ _ => rfl))
            (List.Forall₂.cons
            (writes_store Fld.coded_height (fun _ _ => rfl) (fun _ _ => rfl))
            List.Forall₂.nil))
        Fld.coded_width (fun _ _ h => h) 0 rfl
        (frame_int32_other h (fun c => c.coded_width) (fun _ => rfl)) (by decide)))
    (by decide) (by decide) c

theorem other_coded_height (lib : AVLib) (c : AVCodecContext) (ps : List (String × JsValue))
    (encoding : Bool) (h : napi_typeof (getOwn ps "coded_height") ≠ .napi_number) :
    Fld.get Fld.coded_height (setCodecFromProps lib c (.object ps) encoding).2 = Fld.get Fld.coded_height c :=
  set_keep_video lib (.object ps) encoding 2 Fld.coded_height
    (show (setVideoSteps lib (.object ps) encoding)[2]? = some (ifThen (!encoding) (seq [
        (fun c => store (beam_get_int32 (.object ps) "coded_width" c.coded_width)
          (fun v => { c with coded_width := v })),
        (fun c => store (beam_get_int32 (.object ps) "coded_height" c.coded_height)
          (fun v => { c with coded_height := v }))])) from rfl)
    (fun _ _ => frame_ifThen (frame_sole (by
          exact List.Forall₂.cons
            (writes_store Fld.coded_width (fun _ _ => rfl) (fun _ _ => rfl))
            (List.Forall₂.cons
            (writes_store Fld.coded_height (fun _ _ => rfl) (fun _ _ => rfl))
            List.Forall₂.nil))
        Fld.coded_height (fun _ _ h => h) 1 rfl
        (frame_int32_other h (fun c => c.coded_height) (fun _ => rfl)) (by decide)))
    (by decide) (by decide) c

theorem other_max_b_frames (lib : AVLib) (c : AVCodecContext) (ps : List (String × JsValue))
    (encoding : Bool) (h : napi_typeof (getOwn ps "max_b_frames") ≠ .napi_number) :
    Fld.get Fld.max_b_frames (setCodecFromProps lib c (.object ps) encoding).2 = Fld.get Fld.max_b_frames c :=
  set_keep_video lib (.object ps) encoding 4 Fld.max_b_frames
    (show (setVideoSteps lib (.object ps) encoding)[4]? = some (ifThen encoding (fun c => store (beam_get_int32 (.object ps) "max_b_frames" c.max_b_frames)
          (fun v => { c with max_b_frames := v }))) from rfl)
    (fun _ _ => frame_ifThen (frame_int32_other h (fun c => c.max_b_frames) (fun _ => rfl)))
    (by decide) (by decide) c

theorem other_last_predictor_count (lib : AVLib) (c : AVCodecContext) (ps : List (String × JsValue))
    (encoding : Bool) (h : napi_typeof (getOwn ps "last_predictor_count") ≠ .napi_number) :
    Fld.get Fld.last_predictor_count (setCodecFromProps lib c (.object ps) encoding).2 = Fld.get Fld.last_predictor_count c :=
  set_keep_video lib (.object ps) encoding 21 Fld.last_predictor_count
    (show (setVideoSteps lib (.object ps) encoding)[21]? = some (ifThen encoding (fun c => store (beam_get_int32 (.object ps) "last_predictor_count" c.last_predictor_count)
          (fun v => { c with last_predictor_count := v }))) from rfl)
    (fun _ _ => frame_ifThen (frame_int32_other h (fun c => c.last_predictor_count) (fun _ => rfl)))
    (by decide) (by decide) c

theorem other_pre_dia_size (lib : AVLib) (c : AVCodecContext) (ps : List (String × JsValue))
    (encoding : Bool) (h : napi_typeof (getOwn ps "pre_dia_size") ≠ .napi_number) :
    Fld.get Fld.pre_dia_size (setCodecFromProps lib c (.object ps) encoding).2 = Fld.get Fld.pre_dia_size c :=
  set_keep_video lib (.object ps) encoding 23 Fld.pre_dia_size
    (show (setVideoSteps lib (.object ps) encoding)[23]? = some (ifThen encoding (fun c => store (beam_get_int32 (.object ps) "pre_dia_size" c.pre_dia_size)
          (fun v => { c with pre_dia_size := v }))) from rfl)
    (fun _ _ => frame_ifThen (frame_int32_other h (fun c => c.pre_dia_size) (fun _ => rfl)))
    (by decide) (by decide) c

theorem other_me_subpel_quality (lib : AVLib) (c : AVCodecContext) (ps : List (String × JsValue))
    (encoding : Bool) (h : napi_typeof (getOwn ps "me_subpel_quality") ≠ .napi_number) :
    Fld.get Fld.me_subpel_quality (setCodecFromProps lib c (.object ps) encoding).2 = Fld.get Fld.me_subpel_quality c :=
  set_keep_video lib (.object ps) encoding 24 Fld.me_subpel_quality
    (show (setVideoSteps lib (.object ps) encoding)[24]? = some (ifThen encoding (fun c => store (beam_get_int32 (.object ps) "me_subpel_quality" c.me_subpel_quality)
          (fun v => { c with me_subpel_quality := v }))) from rfl)
    (fun _ _ => frame_ifThen (frame_int32_other h (fun c => c.me_subpel_quality) (fun _ => rfl)))
    (by decide) (by decide) c

theorem other_me_range (lib : AVLib) (c : AVCodecContext) (ps : List (String × JsValue))
    (encoding : Bool) (h : napi_typeof (getOwn ps "me_range") ≠ .napi_number) :
    Fld.get Fld.me_range (setCodecFromProps lib c (.object ps) encoding).2 = Fld.get Fld.me_range c :=
  set_keep_video lib (.object ps) encoding 25 Fld.me_range
    (show (setVideoSteps lib (.object ps) encoding)[25]? = some (ifThen encoding (fun c => store (beam_get_int32 (.object ps) "me_range" c.me_range)
          (fun v => { c with me_range := v }))) from rfl)
    (fun _ _ => frame_ifThen (frame_int32_other h (fun c => c.me_range) (fun _ => rfl)))
    (by decide) (by decide) c

theorem other_intra_dc_precision (lib : AVLib) (c : AVCodecContext) (ps : List (String × JsValue))
    (encoding : Bool) (h : napi_typeof (getOwn ps "intra_dc_precision") ≠ .napi_number) :
    Fld.get Fld.intra_dc_precision (setCodecFromProps lib c (.object ps) encoding).2 = Fld.get Fld.intra_dc_precision c :=
  set_keep_video lib (.object ps) encoding 30 Fld.intra_dc_precision
    (show (setVideoSteps lib (.object ps) encoding)[30]? = some (ifThen encoding (fun c => store (beam_get_int32 (.object ps) "intra_dc_precision" c.intra_dc_precision)
          (fun v => { c with intra_dc_precision := v }))) from rfl)
    (fun _ _ => frame_ifThen (frame_int32_other h (fun c => c.intra_dc_precision) (fun _ => rfl)))
    (by decide) (by decide) c

theorem other_skip_top (lib : AVLib) (c : AVCodecContext) (ps : List (String × JsValue))
    (encoding : Bool) (h : napi_typeof (getOwn ps "skip_top") ≠ .napi_number) :
    Fld.get Fld.skip_top (setCodecFromProps lib c (.object ps) encoding).2 = Fld.get Fld.skip_top c :=
  set_keep_video lib (.object ps) encoding 31 Fld.skip_top
    (show (setVideoSteps lib (.object ps) encoding)[31]? = some (ifThen (!encoding) (seq [
        (fun c => store (beam_get_int32 (.object ps) "skip_top" c.skip_top)
          (fun v => { c with skip_top := v })),
        (fun c => store (beam_get_int32 (.object ps) "skip_bottom" c.skip_bottom)
          (fun v => { c with skip_bottom := v }))])) from rfl)
    (fun _ _ => frame_ifThen (frame_sole (by
          exact List.Forall₂.cons
            (writes_store Fld.skip_top (fun _ _ => rfl) (fun _ _ => rfl))
            (List.Forall₂.cons
            (writes_store Fld.skip_bottom (fun _ _ => rfl) (fun _ _ => rfl))
            List.Forall₂.nil))
        Fld.skip_top (fun _ _ h => h) 0 rfl
        (frame_int32_other h (fun c => c.skip_top) (fun _ => rfl)) (by decide)))
    (by decide) (by decide) c

theorem other_skip_bottom (lib : AVLib) (c : AVCodecContext) (ps : List (String × JsValue))
    (encoding : Bool) (h : napi_typeof (getOwn ps "skip_bottom") ≠ .napi_number) :
    Fld.get Fld.skip_bottom (setCodecFromProps lib c (.object ps) encoding).2 = Fld.get Fld.skip_bottom c :=
  set_keep_video lib (.object ps) encoding 31 Fld.skip_bottom
    (show (setVideoSteps lib (.object ps) encoding)[31]? = some (ifThen (!encoding) (seq [
        (fun c => store (beam_get_int32 (.object ps) "skip_top" c.skip_top)
          (fun v => { c with skip_top := v })),
        (fun c => store (beam_get_int32 (.object ps) "skip_bottom" c.skip_bottom)
          (fun v => { c with skip_bottom := v }))])) from rfl)
    (fun _ _ => frame_ifThen (frame_sole (by
          exact List.Forall₂.cons
            (writes_store Fld.skip_top (fun _ _ => rfl) (fun _ _ => rfl))
            (List.Forall₂.cons
            (writes_store Fld.skip_bottom (fun _ _ => rfl) (fun _ _ => rfl))
            List.Forall₂.nil))
        Fld.skip_bottom (fun _ _ h => h) 1 rfl
        (frame_int32_other h (fun c => c.skip_bottom) (fun _ => rfl)) (by decide)))
    (by decide) (by decide) c

theorem other_mb_lmin (lib : AVLib) (c : AVCodecContext) (ps : List (String × JsValue))
    (encoding : Bool) (h : napi_typeof (getOwn ps "mb_lmin") ≠ .napi_number) :
    Fld.get Fld.mb_lmin (setCodecFromProps lib c (.object ps) encoding).2 = Fld.get Fld.mb_lmin c :=
  set_keep_video lib (.object ps) encoding 32 Fld.mb_lmin
    (show (setVideoSteps lib (.object ps) encoding)[32]? = some (ifThen encoding (seq [
        (fun c => store (beam_get_int32 (.object ps) "mb_lmin" c.mb_lmin)
          (fun v => { c with mb_lmin := v })),
        (fun c => store (beam_get_int32 (.object ps) "mb_lmax" c.mb_lmax)
          (fun v => { c with mb_lmax := v }))])) from rfl)
    (fun _ _ => frame_ifThen (frame_sole (by
          exact List.Forall₂.cons
            (writes_store Fld.mb_lmin (fun _ _ => rfl) (fun _ _ => rfl))
            (List.Forall₂.cons
            (writes_store Fld.mb_lmax (fun _ _ => rfl) (fun _ _ => rfl))
            List.Forall₂.nil))
        Fld.mb_lmin (fun _ _ h => h) 0 rfl
        (frame_int32_other h (fun c => c.mb_lmin) (fun _ => rfl)) (by decide)))
    (by decide) (by decide) c

theorem other_mb_lmax (lib : AVLib) (c : AVCodecContext) (ps : List (String × JsValue))
    (encoding : Bool) (h : napi_typeof (getOwn ps "mb_lmax") ≠ .napi_number) :
    Fld.get Fld.mb_lmax (setCodecFromProps lib c (.object ps) encoding).2 = Fld.get Fld.mb_lmax c :=
  set_keep_video lib (.object ps) encoding 32 Fld.mb_lmax
    (show (setVideoSteps lib (.object ps) encoding)[32]? = some (ifThen encoding (seq [
        (fun c => store (beam_get_int32 (.object ps) "mb_lmin" c.mb_lmin)
          (fun v => { c with mb_lmin := v })),
        (fun c => store (beam_get_int32 (.object ps) "mb_lmax" c.mb_lmax)
          (fun v => { c with mb_lmax := v }))])) from rfl)
    (fun _ _ => frame_ifThen (frame_sole (by
          exact List.Forall₂.cons
            (writes_store Fld.mb_lmin (fun _ _ => rfl) (fun _ _ => rfl))
            (List.Forall₂.cons
            (writes_store Fld.mb_lmax (fun _ _ => rfl) (fun _ _ => rfl))
            List.Forall₂.nil))
        Fld.mb_lmax (fun _ _ h => h) 1 rfl
        (frame_int32_other h (fun c => c.mb_lmax) (fun _ => rfl)) (by decide)))
    (by decide) (by decide) c

theorem other_bidir_refine (lib : AVLib) (c : AVCodecContext) (ps : List (String × JsValue))
    (encoding : Bool) (h : napi_typeof (getOwn ps "bidir_refine") ≠ .napi_number) :
    Fld.get Fld.bidir_refine (setCodecFromProps lib c (.object ps) encoding).2 = Fld.get Fld.bidir_refine c :=
  set_keep_video lib (.object ps) encoding 33 Fld.bidir_refine
    (show (setVideoSteps lib (.object ps) encoding)[33]? = some (ifThen encoding (fun c => store (beam_get_int32 (.object ps) "bidir_refine" c.bidir_refine)
          (fun v => { c with bidir_refine := v }))) from rfl)
    (fun _ _ => frame_ifThen (frame_int32_other h (fun c => c.bidir_refine) (fun _ => rfl)))
    (by decide) (by decide) c

theorem other_keyint_min (lib : AVLib) (c : AVCodecContext) (ps : List (String × JsValue))
    (encoding : Bool) (h : napi_typeof (getOwn ps "keyint_min") ≠ .napi_number) :
    Fld.get Fld.keyint_min (setCodecFromProps lib c (.object ps) encoding).2 = Fld.get Fld.keyint_min c :=
  set_keep_video lib (.object ps) encoding 34 Fld.keyint_min
    (show (setVideoSteps lib (.object ps) encoding)[34]? = some (ifThen encoding (fun c => store (beam_get_int32 (.object ps) "keyint_min" c.keyint_min)
          (fun v => { c with keyint_min := v }))) from rfl)
    (fun _ _ => frame_ifThen (frame_int32_other h (fun c => c.keyint_min) (fun _ => rfl)))
    (by decide) (by decide) c

theorem other_refs (lib : AVLib) (c : AVCodecContext) (ps : List (String × JsValue))
    (encoding : Bool) (h : napi_typeof (getOwn ps "refs") ≠ .napi_number) :
    Fld.get Fld.refs (setCodecFromProps lib c (.object ps) encoding).2 = Fld.get Fld.refs c :=
  set_keep_video lib (.object ps) encoding 35 Fld.refs
    (show (setVideoSteps lib (.object ps) encoding)[35]? = some (ifThen encoding (fun c => store (beam_get_int32 (.object ps) "refs" c.refs)
          (fun v => { c with refs := v }))) from rfl)
    (fun _ _ => frame_ifThen (frame_int32_other h (fun c => c.refs) (fun _ => rfl)))
    (by decide) (by decide) c

theorem other_mv0_threshold (lib : AVLib) (c : AVCodecContext) (ps : List (String × JsValue))
    (encoding : Bool) (h : napi_typeof (getOwn ps "mv0_threshold") ≠ .napi_number) :
    Fld.get Fld.mv0_threshold (setCodecFromProps lib c (.object ps) encoding).2 = Fld.get Fld.mv0_threshold c :=
  set_keep_video lib (.object ps) encoding 36 Fld.mv0_threshold
    (show (setVideoSteps lib (.object ps) encoding)[36]? = some (ifThen encoding (fun c => store (beam_get_int32 (.object ps) "mv0_threshold" c.mv0_threshold)
          (fun v => { c with mv0_threshold := v }))) from rfl)
    (fun _ _ => frame_ifThen (frame_int32_other h (fun c => c.mv0_threshold) (fun _ => rfl)))
    (by decide) (by decide) c

theorem other_slices (lib : AVLib) (c : AVCodecContext) (ps : List (String × JsValue))
    (encoding : Bool) (h : napi_typeof (getOwn ps "slices") ≠ .napi_number) :
    Fld.get Fld.slices (setCodecFromProps lib c (.object ps) encoding).2 = Fld.get Fld.slices c :=
  set_keep_video lib (.object ps) encoding 42 Fld.slices
    (show (setVideoSteps lib (.object ps) encoding)[42]? = some (ifThen encoding (fun c => store (beam_get_int32 (.object ps) "slices" c.slices)
          (fun v => { c with slices := v }))) from rfl)
    (fun _ _ => frame_ifThen (frame_int32_other h (fun c => c.slices) (fun _ => rfl)))
    (by decide) (by decide) c

theorem other_sample_rate (lib : AVLib) (c : AVCodecContext) (ps : List (String × JsValue))
    (encoding : Bool) (h : napi_typeof (getOwn ps "sample_rate") ≠ .napi_number) :
    Fld.get Fld.sample_rate (setCodecFromProps lib c (.object ps) encoding).2 = Fld.get Fld.sample_rate c :=
  set_keep_audio lib (.object ps) encoding 0 Fld.sample_rate
    (show (setAudioSteps lib (.object ps) encoding)[0]? = some ((fun c => store (beam_get_int32 (.object ps) "sample_rate" c.sample_rate)
          (fun v => { c with sample_rate := v }))) from rfl)
    (fun _ _ => frame_int32_other h (fun c => c.sample_rate) (fun _ => rfl))
    (by decide) (by decide) c

theorem other_channels (lib : AVLib) (c : AVCodecContext) (ps : List (String × JsValue))
    (encoding : Bool) (h : napi_typeof (getOwn ps "channels") ≠ .napi_number) :
    Fld.get Fld.channels (setCodecFromProps lib c (.object ps) encoding).2 = Fld.get Fld.channels c :=
  set_keep_audio lib (.object ps) encoding 1 Fld.channels
    (show (setAudioSteps lib (.object ps) encoding)[1]? = some ((fun c => store (beam_get_int32 (.object ps) "channels" c.channels)
          (fun v => { c with channels := v }))) from rfl)
    (fun _ _ => frame_int32_other h (fun c => c.channels) (fun _ => rfl))
    (by decide) (by decide) c

theorem other_block_align (lib : AVLib) (c : AVCodecContext) (ps : List (String × JsValue))
    (encoding : Bool) (h : napi_typeof (getOwn ps "block_align") ≠ .napi_number) :
    Fld.get Fld.block_align (setCodecFromProps lib c (.object ps) encoding).2 = Fld.get Fld.block_align c :=
  set_keep_audio lib (.object ps) encoding 3 Fld.block_align
    (show (setAudioSteps lib (.object ps) encoding)[3]? = some ((fun c => store (beam_get_int32 (.object ps) "block_align" c.block_align)
          (fun v => { c with block_align := v }))) from rfl)
    (fun _ _ => frame_int32_other h (fun c => c.block_align) (fun _ => rfl))
    (by decide) (by decide) c

theorem other_cutoff (lib : AVLib) (c : AVCodecContext) (ps : List (String × JsValue))
    (encoding : Bool) (h : napi_typeof (getOwn ps "cutoff") ≠ .napi_number) :
    Fld.get Fld.cutoff (setCodecFromProps lib c (.object ps) encoding).2 = Fld.get Fld.cutoff c :=
  set_keep_audio lib (.object ps) encoding 4 Fld.cutoff
    (show (setAudioSteps lib (.object ps) encoding)[4]? = some (ifThen encoding (fun c => store (beam_get_int32 (.object ps) "cutoff" c.cutoff)
          (fun v => { c with cutoff := v }))) from rfl)
    (fun _ _ => frame_ifThen (frame_int32_other h (fun c => c.cutoff) (fun _ => rfl)))
    (by decide) (by decide) c

theorem other_qmin (lib : AVLib) (c : AVCodecContext) (ps : List (String × JsValue))
    (encoding : Bool) (h : napi_typeof (getOwn ps "qmin") ≠ .napi_number) :
    Fld.get Fld.qmin (setCodecFromProps lib c (.object ps) encoding).2 = Fld.get Fld.qmin c :=
  set_keep_top lib (.object ps) encoding 36 Fld.qmin
    (show (setSteps lib (.object ps) encoding)[36]? = some (ifThen encoding (seq [
        (fun c => store (beam_get_int32 (.object ps) "qmin" c.qmin)
          (fun v => { c with qmin := v })),
        (fun c => store (beam_get_int32 (.object ps) "qmax" c.qmax)
          (fun v => { c with qmax := v })),
        (fun c => store (beam_get_int32 (.object ps) "max_qdiff" c.max_qdiff)
          (fun v => { c with max_qdiff := v }))])) from rfl)
    (fun _ _ => frame_ifThen (frame_sole (by
          exact List.Forall₂.cons
            (writes_store Fld.qmin (fun _ _ => rfl) (fun _ _ => rfl))
            (List.Forall₂.cons
            (writes_store Fld.qmax (fun _ _ => rfl) (fun _ _ => rfl))
            (List.Forall₂.cons
            (writes_store Fld.max_qdiff (fun _ _ => rfl) (fun _ _ => rfl))
            List.Forall₂.nil)))
        Fld.qmin (fun _ _ h => h) 0 rfl
        (frame_int32_other h (fun c => c.qmin) (fun _ => rfl)) (by decide)))
    (by decide) c

theorem other_qmax (lib : AVLib) (c : AVCodecContext) (ps : List (String × JsValue))
    (encoding : Bool) (h : napi_typeof (getOwn ps "qmax") ≠ .napi_number) :
    Fld.get Fld.qmax (setCodecFromProps lib c (.object ps) encoding).2 = Fld.get Fld.qmax c :=
  set_keep_top lib (.object ps) encoding 36 Fld.qmax
    (show (setSteps lib (.object ps) encoding)[36]? = some (ifThen encoding (seq [
        (fun c => store (beam_get_int32 (.object ps) "qmin" c.qmin)
          (fun v => { c with qmin := v })),
        (fun c => store (beam_get_int32 (.object ps) "qmax" c.qmax)
          (fun v => { c with qmax := v })),
        (fun c => store (beam_get_int32 (.object ps) "max_qdiff" c.max_qdiff)
          (fun v => { c with max_qdiff := v }))])) from rfl)
    (fun _ _ => frame_ifThen (frame_sole (by
          exact List.Forall₂.cons
            (writes_store Fld.qmin (fun _ _ => rfl) (fun _ _ => rfl))
            (List.Forall₂.cons
            (writes_store Fld.qmax (fun _ _ => rfl) (fun _ _ => rfl))
            (List.Forall₂.cons
            (writes_store Fld.max_qdiff (fun _ _ => rfl) (fun _ _ => rfl))
            List.Forall₂.nil)))
        Fld.qmax (fun _ _ h => h) 1 rfl
        (frame_int32_other h (fun c => c.qmax) (fun _ => rfl)) (by decide)))
    (by decide) c

theorem other_max_qdiff (lib : AVLib) (c : AVCodecContext) (ps : List (String × JsValue))
    (encoding : Bool) (h : napi_typeof (getOwn ps "max_qdiff") ≠ .napi_number) :
    Fld.get Fld.max_qdiff (setCodecFromProps lib c (.object ps) encoding).2 = Fld.get Fld.max_qdiff c :=
  set_keep_top lib (.object ps) encoding 36 Fld.max_qdiff
    (show (setSteps lib (.object ps) encoding)[36]? = some (ifThen encoding (seq [
        (fun c => store (beam_get_int32 (.object ps) "qmin" c.qmin)
          (fun v => { c with qmin := v })),
        (fun c => store (beam_get_int32 (.object ps) "qmax" c.qmax)
          (fun v => { c with qmax := v })),
        (fun c => store (beam_get_int32 (.object ps) "max_qdiff" c.max_qdiff)
          (fun v => { c with max_qdiff := v }))])) from rfl)
    (fun _ _ => frame_ifThen (frame_sole (by
          exact List.Forall₂.cons
            (writes_store Fld.qmin (fun _ _ => rfl) (fun _ _ => rfl))
            (List.Forall₂.cons
            (writes_store Fld.qmax (fun _ _ => rfl) (fun _ _ => rfl))
            (List.Forall₂.cons
            (writes_store Fld.max_qdiff (fun _ _ => rfl) (fun _ _ => rfl))
            List.Forall₂.nil)))
        Fld.max_qdiff (fun _ _ h => h) 2 rfl
        (frame_int32_other h (fun c => c.max_qdiff) (fun _ => rfl)) (by decide)))
    (by decide) c

theorem other_rc_buffer_size (lib : AVLib) (c : AVCodecContext) (ps : List (String × JsValue))
    (encoding : Bool) (h : napi_typeof (getOwn ps "rc_buffer_size") ≠ .napi_number) :
    Fld.get Fld.rc_buffer_size (setCodecFromProps lib c (.object ps) encoding).2 = Fld.get Fld.rc_buffer_size c :=
  set_keep_top lib (.object ps) encoding 37 Fld.rc_buffer_size
    (show (setSteps lib (.object ps) encoding)[37]? = some (ifThen encoding (fun c => store (beam_get_int32 (.object ps) "rc_buffer_size" c.rc_buffer_size)
          (fun v => { c with rc_buffer_size := v }))) from rfl)
    (fun _ _ => frame_ifThen (frame_int32_other h (fun c => c.rc_buffer_size) (fun _ => rfl)))
    (by decide) c

theorem other_rc_max_rate (lib : AVLib) (c : AVCodecContext) (ps : List (String × JsValue))
    (encoding : Bool) (h : napi_typeof (getOwn ps "rc_max_rate") ≠ .napi_number) :
    Fld.get Fld.rc_max_rate (setCodecFromProps lib c (.object ps) encoding).2 = Fld.get Fld.rc_max_rate c :=
  set_keep_top lib (.object ps) encoding 38 Fld.rc_max_rate
    (show (setSteps lib (.object ps) encoding)[38]? = some ((fun c => store (beam_get_int64 (.object ps) "rc_max_rate" c.rc_max_rate)
          (fun v => { c with rc_max_rate := v }))) from rfl)
    (fun _ _ => frame_int64_other h (fun c => c.rc_max_rate) (fun _ => rfl))
    (by decide) c

theorem other_rc_min_rate (lib : AVLib) (c : AVCodecContext) (ps : List (String × JsValue))
    (encoding : Bool) (h : napi_typeof (getOwn ps "rc_min_rate") ≠ .napi_number) :
    Fld.get Fld.rc_min_rate (setCodecFromProps lib c (.object ps) encoding).2 = Fld.get Fld.rc_min_rate c :=
  set_keep_top lib (.object ps) encoding 39 Fld.rc_min_rate
    (show (setSteps lib (.object ps) encoding)[39]? = some (ifThen encoding (seq [
        (fun c => store (beam_get_int64 (.object ps) "rc_min_rate" c.rc_min_rate)
          (fun v => { c with rc_min_rate := v })),
        (floatStep (.object ps) "rc_max_available_vbv_use" sentinelB (fun c v => { c with rc_max_available_vbv_use := v })),
        (floatStep (.object ps) "rc_min_vbv_overflow_use" sentinelB (fun c v => { c with rc_min_vbv_overflow_use := v })),
        (fun c => store (beam_get_int32 (.object ps) "rc_initial_buffer_occupancy" c.rc_initial_buffer_occupancy)
          (fun v => { c with rc_initial_buffer_occupancy := v }))])) from rfl)
    (fun _ _ => frame_ifThen (frame_sole (by
          exact List.Forall₂.cons
            (writes_store Fld.rc_min_rate (fun _ _ => rfl) (fun _ _ => rfl))
            (List.Forall₂.cons
            (writes_floatStep Fld.rc_max_available_vbv_use (fun _ _ => rfl) (fun _ _ => rfl))
            (List.Forall₂.cons
            (writes_floatStep Fld.rc_min_vbv_overflow_use (fun _ _ => rfl) (fun _ _ => rfl))
            (List.Forall₂.cons
            (writes_store Fld.rc_initial_buffer_occupancy (fun _ _ => rfl) (fun _ _ => rfl))
            List.Forall₂.nil))))
        Fld.rc_min_rate (fun _ _ h => h) 0 rfl
        (frame_int64_other h (fun c => c.rc_min_rate) (fun _ => rfl)) (by decide)))
    (by decide) c

theorem other_rc_initial_buffer_occupancy (lib : AVLib) (c : AVCodecContext) (ps : List (String × JsValue))
    (encoding : Bool) (h : napi_typeof (getOwn ps "rc_initial_buffer_occupancy") ≠ .napi_number) :
    Fld.get Fld.rc_initial_buffer_occupancy (setCodecFromProps lib c (.object ps) encoding).2 = Fld.get Fld.rc_initial_buffer_occupancy c :=
  set_keep_top lib (.object ps) encoding 39 Fld.rc_initial_buffer_occupancy
    (show (setSteps lib (.object ps) encoding)[39]? = some (ifThen encoding (seq [
        (fun c => store (beam_get_int64 (.object ps) "rc_min_rate" c.rc_min_rate)
          (fun v => { c with rc_min_rate := v })),
        (floatStep (.object ps) "rc_max_available_vbv_use" sentinelB (fun c v => { c with rc_max_available_vbv_use := v })),
        (floatStep (.object ps) "rc_min_vbv_overflow_use" sentinelB (fun c v => { c with rc_min_vbv_overflow_use := v })),
        (fun c => store (beam_get_int32 (.object ps) "rc_initial_buffer_occupancy" c.rc_initial_buffer_occupancy)
          (fun v => { c with rc_initial_buffer_occupancy := v }))])) from rfl)
    (fun _ _ => frame_ifThen (frame_sole (by
          exact List.Forall₂.cons
            (writes_store Fld.rc_min_rate (fun _ _ => rfl) (fun _ _ => rfl))
            (List.Forall₂.cons
            (writes_floatStep Fld.rc_max_available_vbv_use (fun _ _ => rfl) (fun _ _ => rfl))
            (List.Forall₂.cons
            (writes_floatStep Fld.rc_min_vbv_overflow_use (fun _ _ => rfl) (fun _ _ => rfl))
            (List.Forall₂.cons
            (writes_store Fld.rc_initial_buffer_occupancy (fun _ _ => rfl) (fun _ _ => rfl))
            List.Forall₂.nil))))
        Fld.rc_initial_buffer_occupancy (fun _ _ h => h) 3 rfl
        (frame_int32_other h (fun c => c.rc_initial_buffer_occupancy) (fun _ => rfl)) (by decide)))
    (by decide) c

theorem other_keeps_field (lib : AVLib) (c : AVCodecContext)
    (ps : List (String × JsValue)) (encoding : Bool) (e : String × Fld × ScalarKind)
    (he : e ∈ scalarKeys) (hk : e.2.2 ≠ ScalarKind.float)
    (h : napi_typeof (getOwn ps e.1) ≠ .napi_number) :
    Fld.get e.2.1 (setCodecFromProps lib c (.object ps) encoding).2 = Fld.get e.2.1 c := by
  simp only [scalarKeys, List.mem_cons, List.not_mem_nil, or_false] at he
  rcases he with rfl | rfl | rfl | rfl | rfl | rfl | rfl | rfl | rfl | rfl | rfl | rfl | rfl | rfl | rfl | rfl | rfl | rfl | rfl | rfl | rfl | rfl | rfl | rfl | rfl | rfl | rfl | rfl | rfl | rfl | rfl | rfl | rfl | rfl | rfl | rfl | rfl | rfl | rfl | rfl | rfl | rfl | rfl | rfl | rfl | rfl | rfl | rfl
  · exact other_bit_rate lib c ps encoding h
  · exact other_bit_rate_tolerance lib c ps encoding h
  · exact other_global_quality lib c ps encoding h
  · exact other_compression_level lib c ps encoding h
  · exact other_ticks_per_frame lib c ps encoding h
  · exact other_width lib c ps encoding h
  · exact other_height lib c ps encoding h
  · exact other_coded_width lib c ps encoding h
  · exact other_coded_height lib c ps encoding h
  · exact other_max_b_frames lib c ps encoding h
  · exact absurd rfl hk
  · exact absurd rfl hk
  · exact absurd rfl hk
  · exact absurd rfl hk
  · exact absurd rfl hk
  · exact absurd rfl hk
  · exact absurd rfl hk
  · exact absurd rfl hk
  · exact absurd rfl hk
  · exact other_last_predictor_count lib c ps encoding h
  · exact other_pre_dia_size lib c ps encoding h
  · exact other_me_subpel_quality lib c ps encoding h
  · exact other_me_range lib c ps encoding h
  · exact other_intra_dc_precision lib c ps encoding h
  · exact other_skip_top lib c ps encoding h
  · exact other_skip_bottom lib c ps encoding h
  · exact other_mb_lmin lib c ps encoding h
  · exact other_mb_lmax lib c ps encoding h
  · exact other_bidir_refine lib c ps encoding h
  · exact other_keyint_min lib c ps encoding h
  · exact other_refs lib c ps encoding h
  · exact other_mv0_threshold lib c ps encoding h
  · exact other_slices lib c ps encoding h
  · exact other_sample_rate lib c ps encoding h
  · exact other_channels lib c ps encoding h
  · exact other_block_align lib c ps encoding h
  · exact other_cutoff lib c ps encoding h
  · exact absurd rfl hk
  · exact absurd rfl hk
  · exact other_qmin lib c ps encoding h
  · exact other_qmax lib c ps encoding h
  · exact other_max_qdiff lib c ps encoding h
  · exact other_rc_buffer_size lib c ps encoding h
  · exact other_rc_max_rate lib c ps encoding h
  · exact other_rc_min_rate lib c ps encoding h
  · exact absurd rfl hk
  · exact absurd rfl hk
  · exact other_rc_initial_buffer_occupancy lib c ps encoding h

/-- C21, where the claim fails: under encoding, on the sample video record, a bag
that gives the six string keys and holds a string under `width` makes
`setCodecFromProps` return `napi_ok`, and the width is left as it was. -/
theorem string_width_accepted :
    StringsGiven (("width", .string "wide") :: sampleStrings) true AVMEDIA_TYPE_VIDEO ∧
    (setCodecFromProps sampleLib sampleVideo
      (.object (("width", .string "wide") :: sampleStrings)) true).1 = napi_ok ∧
    (setCodecFromProps sampleLib sampleVideo
      (.object (("width", .string "wide") :: sampleStrings)) true).2.width =
      sampleVideo.width := by
  decide

/-- C21, amended: a value of another kind under an integer key is treated like an
absent key.  For every int32 or int64 key of the table, every record, mode and
bag that holds under the key a value that is not a number: the helper that reads
the key returns `napi_ok` with the value it was given, `setCodecFromProps` leaves
the field as it was, and the call returns `napi_ok` when the bag gives the
strings that the call parses for the record and holds no array under
`slice_offset` and `rc_override`. -/
theorem int_mismatch_accepted (lib : AVLib) (c : AVCodecContext)
    (ps : List (String × JsValue)) (encoding : Bool) (e : String × Fld × ScalarKind)
    (he : e ∈ scalarKeys) (hk : e.2.2 ≠ ScalarKind.float)
    (h : napi_typeof (getOwn ps e.1) ≠ .napi_number) :
    (∀ old, beam_get_int32 (.object ps) e.1 old = (napi_ok, old)) ∧
    (∀ old, beam_get_int64 (.object ps) e.1 old = (napi_ok, old)) ∧
    Fld.get e.2.1 (setCodecFromProps lib c (.object ps) encoding).2 = Fld.get e.2.1 c ∧
    (StringsGiven ps encoding c.codec_type →
      napi_is_array (getOwn ps "slice_offset") = false →
      napi_is_array (getOwn ps "rc_override") = false →
      (setCodecFromProps lib c (.object ps) encoding).1 = napi_ok) :=
  ⟨fun old => beam_get_int32_other ps e.1 old h, fun old => beam_get_int64_other ps e.1 old h,
    other_keeps_field lib c ps encoding e he hk h,
    fun hs h1 h2 => setCodecFromProps_ok_plain lib c ps encoding hs h1 h2⟩

/-- C21 at a sample input: under decoding, in a bag that names the pixel format,
`null` under `bit_rate` leaves the bit rate of the sample video record as it
was, and the call succeeds. -/
theorem int_mismatch_accepted_witness :
    (setCodecFromProps sampleLib sampleVideo
      (.object [("bit_rate", .null), ("pix_fmt", .string "yuv420p")]) false).1 = napi_ok ∧
    Fld.get Fld.bit_rate
      (setCodecFromProps sampleLib sampleVideo
        (.object [("bit_rate", .null), ("pix_fmt", .string "yuv420p")]) false).2 =
      Fld.get Fld.bit_rate sampleVideo :=
  ⟨(int_mismatch_accepted sampleLib sampleVideo
      [("bit_rate", .null), ("pix_fmt", .string "yuv420p")] false
      ("bit_rate", Fld.bit_rate, ScalarKind.int64) (by decide) (by decide)
      (by decide)).2.2.2 (by decide) rfl rfl,
   (int_mismatch_accepted sampleLib sampleVideo
      [("bit_rate", .null), ("pix_fmt", .string "yuv420p")] false
      ("bit_rate", Fld.bit_rate, ScalarKind.int64) (by decide) (by decide)
      (by decide)).2.2.1⟩

/-! ## Claims C22 to C27: the encoder allocator -/

/-! ### The carrier helpers -/

theorem tidyCarrier_eq (w : World) :
    tidyCarrier w = ⟨w.c, w.trace ++ (releases w.c ++ [Event.delete])⟩ := by
  obtain ⟨c, t⟩ := w
  unfold tidyCarrier deleteCarrier releases World.emit
  cases hp : c.passthru <;> cases hr : c._request <;> cases he : c.encoder <;>
    simp [hp, hr, he]

theorem releases_plain (c : encoderCarrier) :
    ∀ e ∈ releases c, e.settles = false ∧ e ≠ Event.delete := by
  intro e he
  unfold releases encoderFinalizer at he
  rcases List.mem_append.1 he with h | h
  · rcases List.mem_append.1 h with h | h
    · split at h
      · rw [List.mem_singleton.1 h]
        exact ⟨rfl, by simp⟩
      · cases h
    · split at h
      · rw [List.mem_singleton.1 h]
        exact ⟨rfl, by simp⟩
      · cases h
  · split at h
    · rcases List.mem_cons.1 h with h | h
      · rw [h]
        exact ⟨rfl, by simp⟩
      · rw [List.mem_singleton.1 h]
        exact ⟨rfl, by simp⟩
    · cases h

/-- What `rejectStatus` does when the status is not the success code: the message
is replaced by the one of the runtime for a status below `BEAMCODER_ERROR_START`,
the future is rejected, the carrier is tidied, and the status is returned. -/
theorem rejectStatus_fail (k : BeamCodes) (host : Host) (file : String) (line : Nat)
    (w : World) (h : w.c.status ≠ BEAMCODER_SUCCESS) (msg : String)
    (hmsg : msg = if w.c.status < k.BEAMCODER_ERROR_START then
      host.napi_get_last_error_info.getD "(no message)" else w.c.errorMsg) :
    rejectStatus k host file line w =
      (w.c.status, ⟨{ w.c with errorMsg := msg },
        w.trace ++ Event.napi_reject_deferred w.c._deferred (toString w.c.status)
          ("In file " ++ file ++ " on line " ++ toString line ++ ", found error: " ++ msg) ::
          (releases { w.c with errorMsg := msg } ++ [Event.delete])⟩) := by
  subst hmsg
  unfold rejectStatus
  rw [if_pos h]
  simp only [tidyCarrier_eq, World.emit]
  by_cases h2 : w.c.status < k.BEAMCODER_ERROR_START
  · simp [h2]
  · simp [h2]

theorem rejectStatus_ok (k : BeamCodes) (host : Host) (file : String) (line : Nat)
    (w : World) (h : w.c.status = BEAMCODER_SUCCESS) :
    rejectStatus k host file line w = (BEAMCODER_SUCCESS, w) := by
  unfold rejectStatus
  rw [if_neg (not_not.2 h), h]

theorem REJECT_STATUS_ok (k : BeamCodes) (host : Host) (file : String) (line : Nat)
    (w : World) (h : w.c.status = BEAMCODER_SUCCESS) :
    REJECT_STATUS k host file line w = (false, w) := by
  unfold REJECT_STATUS
  rw [rejectStatus_ok k host file line w h]
  simp

theorem REJECT_STATUS_fail (k : BeamCodes) (host : Host) (file : String) (line : Nat)
    (w : World) (h : w.c.status ≠ BEAMCODER_SUCCESS) (msg : String)
    (hmsg : msg = if w.c.status < k.BEAMCODER_ERROR_START then
      host.napi_get_last_error_info.getD "(no message)" else w.c.errorMsg) :
    REJECT_STATUS k host file line w =
      (true, ⟨{ w.c with errorMsg := msg },
        w.trace ++ Event.napi_reject_deferred w.c._deferred (toString w.c.status)
          ("In file " ++ file ++ " on line " ++ toString line ++ ", found error: " ++ msg) ::
          (releases { w.c with errorMsg := msg } ++ [Event.delete])⟩) := by
  unfold REJECT_STATUS
  rw [rejectStatus_fail k host file line w h msg hmsg]
  simp [h]

/-- A `REJECT_...` macro as one equation. -/
theorem REJECT_STATUS_eq (k : BeamCodes) (host : Host) (file : String) (line : Nat)
    (w : World) :
    REJECT_STATUS k host file line w =
      if w.c.status = BEAMCODER_SUCCESS then (false, w) else
      (true, ⟨{ w.c with errorMsg := if w.c.status < k.BEAMCODER_ERROR_START then
            host.napi_get_last_error_info.getD "(no message)" else w.c.errorMsg },
        w.trace ++ Event.napi_reject_deferred w.c._deferred (toString w.c.status)
          ("In file " ++ file ++ " on line " ++ toString line ++ ", found error: " ++
            (if w.c.status < k.BEAMCODER_ERROR_START then
              host.napi_get_last_error_info.getD "(no message)" else w.c.errorMsg)) ::
          (releases { w.c with errorMsg := if w.c.status < k.BEAMCODER_ERROR_START then
            host.napi_get_last_error_info.getD "(no message)" else w.c.errorMsg } ++
            [Event.delete])⟩) := by
  by_cases h : w.c.status = BEAMCODER_SUCCESS
  · rw [if_pos h, REJECT_STATUS_ok k host file line w h]
  · rw [if_neg h, REJECT_STATUS_fail k host file line w h _ rfl]

theorem settledOnce_reject (t0 : List Event) (d : Nat) (code msg : String)
    (c : encoderCarrier) :
    SettledOnce t0 (t0 ++ Event.napi_reject_deferred d code msg ::
      (releases c ++ [Event.delete])) :=
  ⟨_, _, rfl, rfl, releases_plain c⟩

theorem settledOnce_resolve (w : World) (t0 : List Event) (ht : w.trace = t0) (d : Nat)
    (result : List (String × Slot)) :
    SettledOnce t0 (tidyCarrier (w.emit (Event.napi_resolve_deferred d result))).trace := by
  rw [tidyCarrier_eq]
  refine ⟨Event.napi_resolve_deferred d result, releases w.c, ?_, rfl, releases_plain _⟩
  simp [World.emit, ht]

theorem toInt_eq_zero {s : napi_status} : s.toInt = BEAMCODER_SUCCESS ↔ s = napi_ok := by
  cases s <;> simp [napi_status.toInt, BEAMCODER_SUCCESS]

/-- One `REJECT_STATUS` of `encoderComplete`: either it rejects, tidies and
returns, or the function goes on with the world as it was. -/
theorem settledOnce_step (k : BeamCodes) (host : Host) (file : String) (line : Nat)
    (w : World) (t0 : List Event) (ht : w.trace = t0) (next : World → World)
    (hnext : w.c.status = BEAMCODER_SUCCESS → SettledOnce t0 (next w).trace) :
    SettledOnce t0 (unlessRejected (REJECT_STATUS k host file line w) id next).trace := by
  unfold unlessRejected
  by_cases h : w.c.status = BEAMCODER_SUCCESS
  · rw [REJECT_STATUS_ok k host file line w h]
    exact hnext h
  · rw [REJECT_STATUS_fail k host file line w h _ rfl, ← ht]
    exact settledOnce_reject _ _ _ _ _

/-- C22: on every path through `encoderComplete`, whatever the carrier holds, the
status of the scheduling and the answers of the runtime, the calls it makes are
exactly one call that settles the future of the carrier (a rejection or a
resolution), then the release of what the carrier holds, then the one `delete`
of the carrier by `tidyCarrier`, and nothing after that. -/
theorem encoderComplete_settles_once (k : BeamCodes) (host : Host) (file : String)
    (asyncStatus : napi_status) (w : World) :
    SettledOnce w.trace (encoderComplete k host file asyncStatus w).trace := by
  unfold encoderComplete
  simp only []
  refine settledOnce_step k host file 56 _ _ (by split <;> rfl) _ (fun _ => ?_)
  refine settledOnce_step k host file 59 _ _ (by unfold World.setStatus; split <;> rfl) _
    (fun _ => ?_)
  refine settledOnce_step k host file 62 _ _ (by unfold World.setStatus; split <;> rfl) _
    (fun _ => ?_)
  refine settledOnce_step k host file 64 _ _ (by unfold World.setStatus; split <;> rfl) _
    (fun _ => ?_)
  refine settledOnce_step k host file 67 _ _ (by unfold World.setStatus; split <;> rfl) _
    (fun _ => ?_)
  refine settledOnce_step k host file 70 _ _ (by unfold World.setStatus; split <;> rfl) _
    (fun _ => ?_)
  exact settledOnce_resolve _ _ (by unfold World.setStatus; split <;> rfl) _ _

/-! ### The request -/

theorem encoder_neither (k : BeamCodes) (host : Host) (lib : CodecLib)
    (file : String) (ps : List (String × JsValue))
    (hp : host.napi_create_promise.1 = napi_ok) (hcb : host.napi_get_cb_info = napi_ok)
    (hn : hasOwn ps "name" = false) (hi : hasOwn ps "codecID" = false)
    (hk : k.BEAMCODER_INVALID_ARGS ≠ BEAMCODER_SUCCESS) :
    ∃ msg c, encoder k host lib file [.object ps] =
      (host.napi_create_promise.2.2, ⟨c, [Event.napi_create_promise,
        Event.napi_reject_deferred host.napi_create_promise.2.1
          (toString k.BEAMCODER_INVALID_ARGS) msg, Event.delete]⟩) := by
  have hk' : ¬ k.BEAMCODER_INVALID_ARGS = 0 := hk
  simp only [encoder]
  simp [unlessRejected, REJECT_RETURN, REJECT_ERROR_RETURN, REJECT_STATUS_eq,
    World.setStatus, hp, hcb, napi_status.toInt, napi_typeof, napi_is_array,
    napi_has_named_property, hn, hi, BEAMCODER_SUCCESS, releases, hk', encoderCarrier.new]

theorem encoder_named (k : BeamCodes) (host : Host) (lib : CodecLib)
    (file : String) (ps : List (String × JsValue)) (s : String)
    (hp : host.napi_create_promise.1 = napi_ok) (hcb : host.napi_get_cb_info = napi_ok)
    (hstr : host.napi_create_string_utf8 "Encoder" = napi_ok)
    (hw : host.napi_create_async_work.1 = napi_ok)
    (hq : host.napi_queue_async_work = napi_ok)
    (hn : hasOwn ps "name" = true) (hs : getOwn ps "name" = .string s)
    (hfit : (String.mk (utf8Take 63 s.data)).utf8ByteSize + 1 ≤
      host.malloc (encoderCarrier.new.codecNameLen + 1)) :
    encoder k host lib file [.object ps] =
      (host.napi_create_promise.2.2,
        ⟨{ encoderCarrier.new with
            _deferred := host.napi_create_promise.2.1,
            _request := some host.napi_create_async_work.2,
            codecName := cstr (String.mk (utf8Take 63 s.data)),
            codecNameLen := (String.mk (utf8Take 63 s.data)).utf8ByteSize },
          [Event.napi_create_promise, Event.napi_create_async_work,
            Event.napi_queue_async_work (some host.napi_create_async_work.2)]⟩) := by
  have hfit' : ¬ host.malloc 1 < String.utf8Len (utf8Take 63 s.data) + 1 := by
    have : (String.mk (utf8Take 63 s.data)).utf8ByteSize =
        String.utf8Len (utf8Take 63 s.data) := by simp
    rw [this] at hfit
    exact Nat.not_lt.2 hfit
  simp only [encoder]
  simp [unlessRejected, REJECT_RETURN, REJECT_ERROR_RETURN, REJECT_STATUS_eq,
    World.setStatus, World.emit, hp, hcb, hstr, hw, hq, napi_status.toInt, napi_typeof,
    napi_is_array, napi_has_named_property, napi_get_named_property,
    napi_get_value_string_utf8_buf, hn, hs, BEAMCODER_SUCCESS, encoderCarrier.new, hfit']

theorem encoder_name_overflow (k : BeamCodes) (host : Host) (lib : CodecLib)
    (file : String) (ps : List (String × JsValue)) (s : String)
    (hp : host.napi_create_promise.1 = napi_ok) (hcb : host.napi_get_cb_info = napi_ok)
    (hn : hasOwn ps "name" = true) (hs : getOwn ps "name" = .string s)
    (hbig : host.malloc (encoderCarrier.new.codecNameLen + 1) <
      (String.mk (utf8Take 63 s.data)).utf8ByteSize + 1) :
    (encoder k host lib file [.object ps]).2.trace =
      [Event.napi_create_promise,
        Event.write_past_block (host.malloc (encoderCarrier.new.codecNameLen + 1))
          ((String.mk (utf8Take 63 s.data)).utf8ByteSize + 1)] := by
  have hbig' : host.malloc 1 < String.utf8Len (utf8Take 63 s.data) + 1 := by
    have : (String.mk (utf8Take 63 s.data)).utf8ByteSize =
        String.utf8Len (utf8Take 63 s.data) := by simp
    rw [this] at hbig
    exact hbig
  simp only [encoder]
  simp [unlessRejected, REJECT_RETURN, REJECT_ERROR_RETURN, REJECT_STATUS_eq,
    World.setStatus, World.emit, hp, hcb, napi_status.toInt, napi_typeof,
    napi_is_array, napi_has_named_property, napi_get_named_property,
    napi_get_value_string_utf8_buf, hn, hs, BEAMCODER_SUCCESS, encoderCarrier.new, hbig']

theorem encoder_name_not_string (k : BeamCodes) (host : Host) (lib : CodecLib)
    (file : String) (ps : List (String × JsValue))
    (hp : host.napi_create_promise.1 = napi_ok) (hcb : host.napi_get_cb_info = napi_ok)
    (hn : hasOwn ps "name" = true)
    (hs : napi_typeof (getOwn ps "name") ≠ .napi_string) :
    ∃ msg c, encoder k host lib file [.object ps] =
      (host.napi_create_promise.2.2, ⟨c, [Event.napi_create_promise,
        Event.napi_reject_deferred host.napi_create_promise.2.1
          (toString napi_string_expected.toInt) msg, Event.delete]⟩) := by
  have hbuf : ∀ buf len, napi_get_value_string_utf8_buf (getOwn ps "name") 64 buf len =
      (napi_string_expected, buf, len) := by
    intro buf len
    generalize getOwn ps "name" = x at hs
    cases x with
    | string t => exact absurd rfl hs
    | _ => rfl
  simp only [encoder]
  simp [unlessRejected, REJECT_RETURN, REJECT_ERROR_RETURN, REJECT_STATUS_eq,
    World.setStatus, World.emit, hp, hcb, napi_status.toInt, napi_typeof,
    napi_is_array, napi_has_named_property, napi_get_named_property,
    hbuf, hn, BEAMCODER_SUCCESS, releases, encoderCarrier.new]

theorem encoder_numbered (k : BeamCodes) (host : Host) (lib : CodecLib)
    (file : String) (ps : List (String × JsValue)) (d : Dbl)
    (hp : host.napi_create_promise.1 = napi_ok) (hcb : host.napi_get_cb_info = napi_ok)
    (hstr : host.napi_create_string_utf8 "Encoder" = napi_ok)
    (hw : host.napi_create_async_work.1 = napi_ok)
    (hq : host.napi_queue_async_work = napi_ok)
    (hn : hasOwn ps "name" = false) (hi : hasOwn ps "codecID" = true)
    (hs : getOwn ps "codecID" = .number d) :
    encoder k host lib file [.object ps] =
      (host.napi_create_promise.2.2,
        ⟨{ encoderCarrier.new with
            _deferred := host.napi_create_promise.2.1,
            _request := some host.napi_create_async_work.2,
            codecName := lib.avcodec_get_name (napi_get_value_int32 (.number d) 0).2,
            codecNameLen :=
              (lib.avcodec_get_name (napi_get_value_int32 (.number d) 0).2).utf8ByteSize },
          [Event.napi_create_promise, Event.napi_create_async_work,
            Event.napi_queue_async_work (some host.napi_create_async_work.2)]⟩) := by
  have hd : (napi_get_value_int32 (.number d) 0).1 = napi_ok := by
    cases d <;> rfl
  simp only [encoder]
  simp [unlessRejected, REJECT_RETURN, REJECT_ERROR_RETURN, REJECT_STATUS_eq,
    World.setStatus, World.emit, hp, hcb, hstr, hw, hq, napi_status.toInt, napi_typeof,
    napi_is_array, napi_has_named_property, napi_get_named_property,
    hn, hi, hs, hd, BEAMCODER_SUCCESS, encoderCarrier.new]

/-- C23: for every request object that has neither a `name` nor a `codecID`
property (the promise being created and the arguments read), `encoder` returns the
promise, and the calls it makes are the creation of the promise, the rejection of
its future with the code `BEAMCODER_INVALID_ARGS`, and the `delete` of the
carrier: no background work is created or queued. -/
theorem encoder_rejects_unidentified (k : BeamCodes) (host : Host) (lib : CodecLib)
    (file : String) (ps : List (String × JsValue))
    (hp : host.napi_create_promise.1 = napi_ok) (hcb : host.napi_get_cb_info = napi_ok)
    (hn : hasOwn ps "name" = false) (hi : hasOwn ps "codecID" = false)
    (hk : k.BEAMCODER_INVALID_ARGS ≠ BEAMCODER_SUCCESS) :
    (encoder k host lib file [.object ps]).1 = host.napi_create_promise.2.2 ∧
    (∃ msg, (encoder k host lib file [.object ps]).2.trace =
      [Event.napi_create_promise,
       Event.napi_reject_deferred host.napi_create_promise.2.1
         (toString k.BEAMCODER_INVALID_ARGS) msg,
       Event.delete]) ∧
    ∀ e ∈ (encoder k host lib file [.object ps]).2.trace, e.schedules = false := by
  obtain ⟨msg, c, h⟩ := encoder_neither k host lib file ps hp hcb hn hi hk
  rw [h]
  exact ⟨rfl, ⟨msg, rfl⟩, by simp [Event.schedules]⟩

/-- C23 at a sample input: the empty request object; the promise of the sample
runtime is 2 and its future is 1. -/
theorem encoder_rejects_unidentified_witness :
    (encoder sampleCodes sampleHost sampleCodecLib "encode.cc" [.object []]).1 = 2 ∧
    ∃ msg, (encoder sampleCodes sampleHost sampleCodecLib "encode.cc" [.object []]).2.trace =
      [Event.napi_create_promise,
       Event.napi_reject_deferred 1 (toString sampleCodes.BEAMCODER_INVALID_ARGS) msg,
       Event.delete] :=
  ⟨(encoder_rejects_unidentified sampleCodes sampleHost sampleCodecLib "encode.cc" []
      rfl rfl rfl rfl (by decide)).1,
   (encoder_rejects_unidentified sampleCodes sampleHost sampleCodecLib "encode.cc" []
      rfl rfl rfl rfl (by decide)).2.1⟩

/-- C24, where the claim fails: a request object that supplies both `name` and
`codecID` is not rejected: `encoder` creates and queues the background work, and
no call rejects the future. -/
theorem encoder_accepts_both :
    hasOwn [("name", JsValue.string "h264"), ("codecID", .number (Dbl.ofInt 27))] "name" =
      true ∧
    hasOwn [("name", JsValue.string "h264"), ("codecID", .number (Dbl.ofInt 27))] "codecID" =
      true ∧
    (encoder sampleCodes sampleHost sampleCodecLib "encode.cc"
      [.object [("name", .string "h264"), ("codecID", .number (Dbl.ofInt 27))]]).2.trace =
      [Event.napi_create_promise, Event.napi_create_async_work,
        Event.napi_queue_async_work (some 3)] := by
  decide

/-- C24, amended: a request object that supplies neither `name` nor `codecID` is
rejected by `encoder` with `BEAMCODER_INVALID_ARGS` before any background work is
scheduled.  A request object that supplies a `name`, with or without a
`codecID`, is handled by the name alone, and a `codecID` is not looked at: when
the name is a string whose bytes (cut to the 63 that the call reads) and closing
NUL fit the block that `malloc` handed out, the request is accepted, the C
string of those bytes becomes the codec name, and the background work is created
and queued; when they do not fit, the write runs past the block (undefined
behaviour); when the name is not a string the request is rejected with
`napi_string_expected` before any background work is scheduled.  A request
object that supplies a number `codecID` and no `name` is accepted with the name
the library gives for the number.  (The runtime calls are taken to succeed.) -/
theorem encoder_identification (k : BeamCodes) (host : Host) (lib : CodecLib)
    (file : String) (ps : List (String × JsValue))
    (hp : host.napi_create_promise.1 = napi_ok) (hcb : host.napi_get_cb_info = napi_ok)
    (hstr : host.napi_create_string_utf8 "Encoder" = napi_ok)
    (hw : host.napi_create_async_work.1 = napi_ok)
    (hq : host.napi_queue_async_work = napi_ok)
    (hk : k.BEAMCODER_INVALID_ARGS ≠ BEAMCODER_SUCCESS) :
    (hasOwn ps "name" = false → hasOwn ps "codecID" = false →
      ∃ msg, (encoder k host lib file [.object ps]).2.trace =
        [Event.napi_create_promise,
         Event.napi_reject_deferred host.napi_create_promise.2.1
           (toString k.BEAMCODER_INVALID_ARGS) msg,
         Event.delete]) ∧
    (∀ s, hasOwn ps "name" = true → getOwn ps "name" = .string s →
      (String.mk (utf8Take 63 s.data)).utf8ByteSize + 1 ≤
        host.malloc (encoderCarrier.new.codecNameLen + 1) →
      (encoder k host lib file [.object ps]).2.trace =
        [Event.napi_create_promise, Event.napi_create_async_work,
          Event.napi_queue_async_work (some host.napi_create_async_work.2)] ∧
      (encoder k host lib file [.object ps]).2.c.codecName =
        cstr (String.mk (utf8Take 63 s.data))) ∧
    (∀ s, hasOwn ps "name" = true → getOwn ps "name" = .string s →
      host.malloc (encoderCarrier.new.codecNameLen + 1) <
        (String.mk (utf8Take 63 s.data)).utf8ByteSize + 1 →
      (encoder k host lib file [.object ps]).2.trace =
        [Event.napi_create_promise,
          Event.write_past_block (host.malloc (encoderCarrier.new.codecNameLen + 1))
            ((String.mk (utf8Take 63 s.data)).utf8ByteSize + 1)]) ∧
    (hasOwn ps "name" = true → napi_typeof (getOwn ps "name") ≠ .napi_string →
      ∃ msg, (encoder k host lib file [.object ps]).2.trace =
        [Event.napi_create_promise,
         Event.napi_reject_deferred host.napi_create_promise.2.1
           (toString napi_string_expected.toInt) msg,
         Event.delete]) ∧
    (∀ d, hasOwn ps "name" = false → hasOwn ps "codecID" = true →
      getOwn ps "codecID" = .number d →
      (encoder k host lib file [.object ps]).2.trace =
        [Event.napi_create_promise, Event.napi_create_async_work,
          Event.napi_queue_async_work (some host.napi_create_async_work.2)] ∧
      (encoder k host lib file [.object ps]).2.c.codecName =
        lib.avcodec_get_name (napi_get_value_int32 (.number d) 0).2) := by
  refine ⟨fun hn hi => ?_, fun s hn hs hfit => ?_, fun s hn hs hbig => ?_, fun hn hs => ?_,
    fun d hn hi hs => ?_⟩
  · obtain ⟨msg, c, h⟩ := encoder_neither k host lib file ps hp hcb hn hi hk
    rw [h]
    exact ⟨msg, rfl⟩
  · rw [encoder_named k host lib file ps s hp hcb hstr hw hq hn hs hfit]
    exact ⟨rfl, rfl⟩
  · exact encoder_name_overflow k host lib file ps s hp hcb hn hs hbig
  · obtain ⟨msg, c, h⟩ := encoder_name_not_string k host lib file ps hp hcb hn hs
    rw [h]
    exact ⟨msg, rfl⟩
  · rw [encoder_numbered k host lib file ps d hp hcb hstr hw hq hn hi hs]
    exact ⟨rfl, rfl⟩

/-- C24 at sample inputs: the request `{name: "h264", codecID: 27}` is accepted
with the codec name `h264`, and the request `{name: 42, codecID: 27}` is
rejected with the code 3 of `napi_string_expected`. -/
theorem encoder_identification_witness :
    (encoder sampleCodes sampleHost sampleCodecLib "encode.cc"
      [.object [("name", .string "h264"), ("codecID", .number (Dbl.ofInt 27))]]).2.c.codecName =
      "h264" ∧
    ∃ msg, (encoder sampleCodes sampleHost sampleCodecLib "encode.cc"
      [.object [("name", .number (Dbl.ofInt 42)), ("codecID", .number (Dbl.ofInt 27))]]).2.trace =
      [Event.napi_create_promise, Event.napi_reject_deferred 1 "3" msg, Event.delete] :=
  ⟨(((encoder_identification sampleCodes sampleHost sampleCodecLib "encode.cc"
      [("name", .string "h264"), ("codecID", .number (Dbl.ofInt 27))]
      rfl rfl rfl rfl rfl (by decide)).2.1 "h264" rfl rfl (by decide)).2).trans (by decide),
    (encoder_identification sampleCodes sampleHost sampleCodecLib "encode.cc"
      [("name", .number (Dbl.ofInt 42)), ("codecID", .number (Dbl.ofInt 27))]
      rfl rfl rfl rfl rfl (by decide)).2.2.2.1 rfl (by decide)⟩

/-! ### The background phase -/

theorem encoderExecute_opened (k : BeamCodes) (lib : CodecLib) (w : World) (codec ctx : Nat)
    (hfind : lib.avcodec_find_decoder_by_name w.c.codecName = some codec)
    (halloc : lib.avcodec_alloc_context3 codec = some ctx)
    (hopen : lib.avcodec_open2 ctx codec = 0) :
    encoderExecute k lib w =
      ⟨{ w.c with encoder := some ctx },
        w.trace ++ [Event.avcodec_find_decoder_by_name w.c.codecName,
          Event.avcodec_alloc_context3 codec, Event.avcodec_open2 ctx codec]⟩ := by
  simp [encoderExecute, World.emit, hfind, halloc, hopen]

theorem encoderExecute_not_opened (k : BeamCodes) (lib : CodecLib) (w : World)
    (codec ctx : Nat)
    (hfind : lib.avcodec_find_decoder_by_name w.c.codecName = some codec)
    (halloc : lib.avcodec_alloc_context3 codec = some ctx)
    (hopen : lib.avcodec_open2 ctx codec ≠ 0) :
    encoderExecute k lib w =
      ⟨{ w.c with encoder := some ctx, status := k.BEAMCODER_ERROR_ALLOC_ENCODER,
                  errorMsg := avErrorMsg lib "Problem allocating encoder: "
                    (lib.avcodec_open2 ctx codec) },
        w.trace ++ [Event.avcodec_find_decoder_by_name w.c.codecName,
          Event.avcodec_alloc_context3 codec, Event.avcodec_open2 ctx codec]⟩ := by
  simp [encoderExecute, World.emit, hfind, halloc, hopen]

/-- C25: in `encoderExecute`, (1) when the lookup finds no codec, the status
becomes `BEAMCODER_ERROR_ALLOC_ENCODER`, the message starts with `Failed to find`,
and the lookup is the only call made; (2) when the allocation returns nothing,
the same status is set and the calls made are the lookup and the allocation;
(3) when the open call returns a value other than 0, the same status is set;
(4) when the three calls succeed, the status and the message are left as they
were. -/
theorem encoderExecute_fails_fast (k : BeamCodes) (lib : CodecLib) (w : World) :
    (lib.avcodec_find_decoder_by_name w.c.codecName = none →
      (encoderExecute k lib w).c.status = k.BEAMCODER_ERROR_ALLOC_ENCODER ∧
      (encoderExecute k lib w).c.errorMsg =
        "Failed to find" ++ " an encoder from it's name." ∧
      (encoderExecute k lib w).trace =
        w.trace ++ [Event.avcodec_find_decoder_by_name w.c.codecName]) ∧
    (∀ codec, lib.avcodec_find_decoder_by_name w.c.codecName = some codec →
      lib.avcodec_alloc_context3 codec = none →
      (encoderExecute k lib w).c.status = k.BEAMCODER_ERROR_ALLOC_ENCODER ∧
      (encoderExecute k lib w).trace =
        w.trace ++ [Event.avcodec_find_decoder_by_name w.c.codecName,
          Event.avcodec_alloc_context3 codec]) ∧
    (∀ codec ctx, lib.avcodec_find_decoder_by_name w.c.codecName = some codec →
      lib.avcodec_alloc_context3 codec = some ctx → lib.avcodec_open2 ctx codec ≠ 0 →
      (encoderExecute k lib w).c.status = k.BEAMCODER_ERROR_ALLOC_ENCODER ∧
      (encoderExecute k lib w).trace =
        w.trace ++ [Event.avcodec_find_decoder_by_name w.c.codecName,
          Event.avcodec_alloc_context3 codec, Event.avcodec_open2 ctx codec]) ∧
    (∀ codec ctx, lib.avcodec_find_decoder_by_name w.c.codecName = some codec →
      lib.avcodec_alloc_context3 codec = some ctx → lib.avcodec_open2 ctx codec = 0 →
      (encoderExecute k lib w).c.status = w.c.status ∧
      (encoderExecute k lib w).c.errorMsg = w.c.errorMsg ∧
      (encoderExecute k lib w).c.encoder = some ctx ∧
      (encoderExecute k lib w).trace =
        w.trace ++ [Event.avcodec_find_decoder_by_name w.c.codecName,
          Event.avcodec_alloc_context3 codec, Event.avcodec_open2 ctx codec]) := by
  refine ⟨fun h => ?_, fun codec h1 h2 => ?_, fun codec ctx h1 h2 h3 => ?_,
    fun codec ctx h1 h2 h3 => ?_⟩
  · simp [encoderExecute, World.emit, h]
  · simp [encoderExecute, World.emit, h1, h2]
  · rw [encoderExecute_not_opened k lib w codec ctx h1 h2 h3]
    exact ⟨rfl, rfl⟩
  · rw [encoderExecute_opened k lib w codec ctx h1 h2 h3]
    exact ⟨rfl, rfl, rfl, rfl⟩

/-- C25 at a sample input: the library does not know `h265`. -/
theorem encoderExecute_fails_fast_witness :
    (encoderExecute sampleCodes sampleCodecLib
      ⟨{ encoderCarrier.new with codecName := "h265" }, []⟩).trace =
      [Event.avcodec_find_decoder_by_name "h265"] :=
  ((encoderExecute_fails_fast sampleCodes sampleCodecLib
    ⟨{ encoderCarrier.new with codecName := "h265" }, []⟩).1 (by decide)).2.2

/-! ### The completion phase after the background phase -/

theorem releases_no_context (c : encoderCarrier) (h : c.encoder = none) :
    ∀ e ∈ releases c, ∀ x, e ≠ Event.avcodec_close x ∧ e ≠ Event.avcodec_free_context x := by
  intro e he x
  unfold releases at he
  rw [h] at he
  simp only [List.append_nil] at he
  rcases List.mem_append.1 he with h | h
  · split at h
    · rw [List.mem_singleton.1 h]
      exact ⟨by simp, by simp⟩
    · cases h
  · split at h
    · rw [List.mem_singleton.1 h]
      exact ⟨by simp, by simp⟩
    · cases h

/-- C26: when the background phase found the codec, allocated the context `ctx`
and opened it on a carrier whose status was the success code, the scheduling
status is ok and no runtime call of `encoderComplete` fails: the future of the
carrier is resolved with the object `{type: "encoder", _encoder: e}` where `e` is
the external reference to `ctx` (with `encoderFinalizer`), the carrier no longer
refers to the context when `tidyCarrier` deletes it, and neither `tidyCarrier` nor
the deletion closes or frees a context. -/
theorem encoderComplete_result (k : BeamCodes) (host : Host) (lib : CodecLib) (file : String)
    (w : World) (codec ctx : Nat)
    (hfind : lib.avcodec_find_decoder_by_name w.c.codecName = some codec)
    (halloc : lib.avcodec_alloc_context3 codec = some ctx)
    (hopen : lib.avcodec_open2 ctx codec = 0)
    (hs : w.c.status = BEAMCODER_SUCCESS)
    (h1 : host.napi_create_object = napi_ok)
    (h2 : host.napi_create_string_utf8 "encoder" = napi_ok)
    (h3 : host.napi_set_named_property "type" = napi_ok)
    (h4 : host.napi_create_external = napi_ok)
    (h5 : host.napi_set_named_property "_encoder" = napi_ok) :
    (encoderComplete k host file napi_ok (encoderExecute k lib w)).trace =
      (encoderExecute k lib w).trace ++
        Event.napi_resolve_deferred w.c._deferred
          [("type", .string "encoder"), ("_encoder", .external (some ctx))] ::
        (releases { w.c with encoder := none } ++ [Event.delete]) ∧
    (encoderComplete k host file napi_ok (encoderExecute k lib w)).c.encoder = none ∧
    ∀ e ∈ releases { w.c with encoder := none }, ∀ x,
      e ≠ Event.avcodec_close x ∧ e ≠ Event.avcodec_free_context x := by
  have hs' : w.c.status = 0 := hs
  rw [encoderExecute_opened k lib w codec ctx hfind halloc hopen]
  refine ⟨?_, ?_, ?_⟩
  · simp [encoderComplete, unlessRejected, REJECT_STATUS_eq, World.setStatus, World.emit,
      tidyCarrier_eq, h1, h2, h3, h4, h5, hs', napi_status.toInt, BEAMCODER_SUCCESS, releases]
  · simp [encoderComplete, unlessRejected, REJECT_STATUS_eq, World.setStatus, World.emit,
      tidyCarrier_eq, h1, h2, h3, h4, h5, hs', napi_status.toInt, BEAMCODER_SUCCESS]
  · exact releases_no_context _ rfl

/-- C26 at a sample input: the carrier of the codec `h264`. -/
theorem encoderComplete_result_witness :
    (encoderComplete sampleCodes sampleHost "encode.cc" napi_ok
      (encoderExecute sampleCodes sampleCodecLib
        ⟨{ encoderCarrier.new with codecName := "h264", _request := some 3 }, []⟩)).trace =
      [Event.avcodec_find_decoder_by_name "h264", Event.avcodec_alloc_context3 27,
        Event.avcodec_open2 7 27,
        Event.napi_resolve_deferred 0
          [("type", .string "encoder"), ("_encoder", .external (some 7))],
        Event.napi_delete_async_work 3, Event.delete] :=
  ((encoderComplete_result sampleCodes sampleHost sampleCodecLib "encode.cc"
    ⟨{ encoderCarrier.new with codecName := "h264", _request := some 3 }, []⟩ 27 7
    rfl rfl rfl rfl rfl rfl rfl rfl rfl).1).trans (by decide)

/-- C27: when `encoderExecute` has allocated the context `ctx` and the open call
then fails, `encoderComplete` (whatever the scheduling status and the answers of
the runtime) rejects the future and, through `tidyCarrier` and the deletion of the
carrier (whose destructor is modelled from the spec), closes and frees `ctx`
exactly once, as the last calls before the `delete`; the calls before them
release the references of the carrier and touch no context. -/
theorem partial_allocation_released (k : BeamCodes) (host : Host) (lib : CodecLib)
    (file : String) (asyncStatus : napi_status) (w : World) (codec ctx : Nat)
    (hfind : lib.avcodec_find_decoder_by_name w.c.codecName = some codec)
    (halloc : lib.avcodec_alloc_context3 codec = some ctx)
    (hopen : lib.avcodec_open2 ctx codec ≠ 0)
    (hk : k.BEAMCODER_ERROR_ALLOC_ENCODER ≠ BEAMCODER_SUCCESS) :
    ∃ code msg, (encoderComplete k host file asyncStatus (encoderExecute k lib w)).trace =
      (encoderExecute k lib w).trace ++
        Event.napi_reject_deferred w.c._deferred code msg ::
        (releases { w.c with encoder := none } ++
          [Event.avcodec_close ctx, Event.avcodec_free_context ctx, Event.delete]) ∧
      ∀ e ∈ releases { w.c with encoder := none }, ∀ x,
        e ≠ Event.avcodec_close x ∧ e ≠ Event.avcodec_free_context x := by
  have hk' : ¬ k.BEAMCODER_ERROR_ALLOC_ENCODER = 0 := hk
  have hrel := releases_no_context { w.c with encoder := none } rfl
  have key : ∃ code msg,
      (encoderComplete k host file asyncStatus (encoderExecute k lib w)).trace =
      (encoderExecute k lib w).trace ++
        Event.napi_reject_deferred w.c._deferred code msg ::
        (releases { w.c with encoder := none } ++
          [Event.avcodec_close ctx, Event.avcodec_free_context ctx, Event.delete]) := by
    rw [encoderExecute_not_opened k lib w codec ctx hfind halloc hopen]
    by_cases ha : asyncStatus = napi_ok
    · subst ha
      simp only [encoderComplete]
      simp [unlessRejected, REJECT_STATUS_eq, hk', BEAMCODER_SUCCESS, releases,
        encoderFinalizer]
    · have hne : ¬ asyncStatus.toInt = 0 := fun h => ha (toInt_eq_zero.1 h)
      simp only [encoderComplete]
      simp [unlessRejected, REJECT_STATUS_eq, ha, hne, BEAMCODER_SUCCESS, releases,
        encoderFinalizer]
  obtain ⟨code, msg, h⟩ := key
  exact ⟨code, msg, h, hrel⟩

/-- C27 at a sample input: the open call fails on the context 7 of `h264`. -/
theorem partial_allocation_released_witness :
    ∃ code msg, (encoderComplete sampleCodes sampleHost "encode.cc" napi_ok
      (encoderExecute sampleCodes sampleFailingLib
        ⟨{ encoderCarrier.new with codecName := "h264" }, []⟩)).trace =
      (encoderExecute sampleCodes sampleFailingLib
        ⟨{ encoderCarrier.new with codecName := "h264" }, []⟩).trace ++
        Event.napi_reject_deferred 0 code msg ::
        (releases { encoderCarrier.new with codecName := "h264" } ++
          [Event.avcodec_close 7, Event.avcodec_free_context 7, Event.delete]) ∧
      ∀ e ∈ releases { encoderCarrier.new with codecName := "h264" }, ∀ x,
        e ≠ Event.avcodec_close x ∧ e ≠ Event.avcodec_free_context x :=
  partial_allocation_released sampleCodes sampleHost sampleFailingLib "encode.cc" napi_ok
    ⟨{ encoderCarrier.new with codecName := "h264" }, []⟩ 27 7 rfl rfl (by decide) (by decide)

/-! ## Claim C28: flag keys that hold another kind of value -/

/-! ### Flag keys that hold something other than a boolean -/

theorem flagUpdate_not_boolean (v : JsValue) (mask w : Nat) (h : ∀ b, v ≠ .boolean b) :
    flagUpdate v mask w = w := by
  cases v with
  | boolean b => exact absurd rfl (h b)
  | _ => rfl

theorem applyFlags_testBit_skip (ps : List (String × JsValue)) (K : String) (i : Nat)
    (hnb : ∀ b, getOwn ps K ≠ .boolean b) (tbl : List (String × Nat)) (w : Nat)
    (hnd : (tbl.map Prod.snd).Nodup) (hlt : ∀ e ∈ tbl, e.2 < 32) (hK : (K, i) ∈ tbl) :
    (applyFlags ps tbl w).testBit i = w.testBit i := by
  induction tbl generalizing w with
  | nil => simp at hK
  | cons e tbl ih =>
    rw [applyFlags_cons]
    simp only [List.map_cons, List.nodup_cons] at hnd
    rcases List.mem_cons.1 hK with rfl | hK'
    · have hi : i < 32 := hlt (K, i) (by simp)
      show (applyFlags ps tbl (flagUpdate (getOwn ps K) (1 <<< i) w)).testBit i = _
      rw [flagUpdate_not_boolean _ _ _ hnb]
      refine applyFlags_testBit_keep ps tbl _ i hi ?_
      intro e' he' heq
      exact hnd.1 (List.mem_map.2 ⟨e', he', heq⟩)
    · have hne : e.2 ≠ i := by
        intro heq
        exact hnd.1 (List.mem_map.2 ⟨(K, i), hK', heq.symm⟩)
      rw [ih _ hnd.2 (fun e' he' => hlt e' (by simp [he'])) hK',
        flagUpdate_testBit_ne _ _ _ _ (hlt (K, i) (by simp [hK'])) hne]

theorem flagStep_not_boolean (ps : List (String × JsValue)) (K : String)
    (hnb : ∀ b, getOwn ps K ≠ .boolean b) (mask : Nat) (word : AVCodecContext → Nat)
    (put : AVCodecContext → Nat → AVCodecContext) (c : AVCodecContext) :
    flagStep (.object ps) K mask word put c = (napi_ok, c) := by
  unfold flagStep
  rw [beam_get_bool_object]
  cases hv : getOwn ps K with
  | boolean b => exact absurd hv (hnb b)
  | _ => simp [PASS_STATUS]

/-- C28: when a bag holds under a flag key `K` a value that is not a boolean,
`beam_get_bool` returns `napi_ok` with `present = false` and the value it was
given, the flag statement of `K` returns `napi_ok` and leaves the record as it
was, and `setCodecFromProps` leaves the bit of `K` as it was: in `flags` and
`flags2` whatever status the call returns, in `slice_flags` (video, decoding)
when the call returns `napi_ok`.  The call returns `napi_ok` on every bag that
gives the strings that the call parses for the record and holds no array under
`slice_offset` and `rc_override`. -/
theorem flag_not_boolean (lib : AVLib) (c : AVCodecContext) (ps : List (String × JsValue))
    (encoding : Bool) (K : String) (i : Nat) (hnb : ∀ b, getOwn ps K ≠ .boolean b) :
    (∀ p v, beam_get_bool (.object ps) K p v = (napi_ok, false, v)) ∧
    (∀ mask word put c', flagStep (.object ps) K mask word put c' = (napi_ok, c')) ∧
    ((K, i) ∈ flagBits →
      (setCodecFromProps lib c (.object ps) encoding).2.flags.testBit i =
        c.flags.testBit i) ∧
    ((K, i) ∈ flags2Bits →
      (setCodecFromProps lib c (.object ps) encoding).2.flags2.testBit i =
        c.flags2.testBit i) ∧
    ((K, i) ∈ sliceFlagBits → c.codec_type = AVMEDIA_TYPE_VIDEO →
      (setCodecFromProps lib c (.object ps) false).1 = napi_ok →
      (setCodecFromProps lib c (.object ps) false).2.slice_flags.testBit i =
        c.slice_flags.testBit i) ∧
    (StringsGiven ps encoding c.codec_type →
      napi_is_array (getOwn ps "slice_offset") = false →
      napi_is_array (getOwn ps "rc_override") = false →
      (setCodecFromProps lib c (.object ps) encoding).1 = napi_ok) := by
  refine ⟨fun p v => ?_, fun mask word put c' => flagStep_not_boolean ps K hnb mask word put c',
    fun hK => ?_, fun hK => ?_, fun hK hv hok => ?_,
    fun hs h1 h2 => setCodecFromProps_ok_plain lib c ps encoding hs h1 h2⟩
  · rw [beam_get_bool_object]
    cases hv : getOwn ps K with
    | boolean b => exact absurd hv (hnb b)
    | _ => rfl
  · rw [(setCodecFromProps_flag_words lib c ps encoding).1]
    exact applyFlags_testBit_skip ps K i hnb flagBits _ (by decide) (by decide) hK
  · rw [(setCodecFromProps_flag_words lib c ps encoding).2]
    exact applyFlags_testBit_skip ps K i hnb flags2Bits _ (by decide) (by decide) hK
  · rw [set_slice_flags lib c ps hv hok]
    exact applyFlags_testBit_skip ps K i hnb sliceFlagBits _ (by decide) (by decide) hK

/-- C28 at a sample input: under encoding, in a bag that gives the six string
keys, the number 1 under `QSCALE` (bit 1 of `flags`) leaves the bit of a video
record that has it clear as it was, and the call succeeds. -/
theorem flag_not_boolean_witness :
    (setCodecFromProps sampleLib sampleVideo
      (.object (("QSCALE", .number (Dbl.ofInt 1)) :: sampleStrings)) true).1 = napi_ok ∧
    (setCodecFromProps sampleLib sampleVideo
      (.object (("QSCALE", .number (Dbl.ofInt 1)) :: sampleStrings)) true).2.flags.testBit 1 =
      sampleVideo.flags.testBit 1 :=
  ⟨(flag_not_boolean sampleLib sampleVideo (("QSCALE", .number (Dbl.ofInt 1)) :: sampleStrings)
      true "QSCALE" 1 (fun b h => by cases h)).2.2.2.2.2 (by decide) rfl rfl,
   (flag_not_boolean sampleLib sampleVideo (("QSCALE", .number (Dbl.ofInt 1)) :: sampleStrings)
      true "QSCALE" 1 (fun b h => by cases h)).2.2.1 (by decide)⟩

/-! ## Claim C29: the name of an unrecognised integer -/

/-! ### The name of an unrecognised integer, looked up again -/

theorem beam_lookup_name_unknown (m : List (Int × String)) (v : Int)
    (h : v ∉ m.map Prod.fst) : beam_lookup_name m v = "unknown" := by
  unfold beam_lookup_name
  rw [mapFind_of_not_mem m v (fun x hx => h (List.mem_map.2 ⟨(v, x), hx, rfl⟩))]

/-- C29, where the claim fails: 7 is not a key of the forward table of the field
orders, and its name looked up again is 0 (`AV_FIELD_UNKNOWN`, which the table
names `unknown`), not `BEAM_ENUM_UNKNOWN`; the literal `unknown` is a key of the
inverse table of the field orders. -/
theorem unknown_is_a_field_order :
    (7 : Int) ∉ beam_field_order.forward.map Prod.fst ∧
    beam_lookup_enum beam_field_order.inverse
      (beam_lookup_name beam_field_order.forward 7) = 0 ∧
    beam_lookup_enum beam_field_order.inverse
      (beam_lookup_name beam_field_order.forward 7) ≠ BEAM_ENUM_UNKNOWN ∧
    "unknown" ∈ beam_field_order.inverse.map Prod.fst := by
  decide

/-- C29, amended: for the descriptors of the comparison functions, the macroblock
decisions and the audio service types, the literal `unknown` is not a key of the
inverse table, and every integer `v` that is not a key of the forward table has
`beam_lookup_enum (beam_lookup_name v) = BEAM_ENUM_UNKNOWN`; for the descriptor
of the field orders the literal `unknown` is the name of 0
(`AV_FIELD_UNKNOWN`), and every such `v` is looked up again as 0. -/
theorem unknown_round_trip :
    (∀ d ∈ [beam_ff_cmp, beam_ff_mb_decision, beam_av_audio_service_type],
      "unknown" ∉ d.inverse.map Prod.fst ∧
      ∀ v : Int, v ∉ d.forward.map Prod.fst →
        beam_lookup_enum d.inverse (beam_lookup_name d.forward v) = BEAM_ENUM_UNKNOWN) ∧
    (("unknown", (0 : Int)) ∈ beam_field_order.inverse ∧
      ∀ v : Int, v ∉ beam_field_order.forward.map Prod.fst →
        beam_lookup_enum beam_field_order.inverse
          (beam_lookup_name beam_field_order.forward v) = 0) := by
  have h3 : ∀ d ∈ [beam_ff_cmp, beam_ff_mb_decision, beam_av_audio_service_type],
      "unknown" ∉ d.inverse.map Prod.fst ∧
      beam_lookup_enum d.inverse "unknown" = BEAM_ENUM_UNKNOWN := by decide
  refine ⟨fun d hd => ⟨(h3 d hd).1, fun v hv => ?_⟩, by decide, fun v hv => ?_⟩
  · rw [beam_lookup_name_unknown _ v hv]
    exact (h3 d hd).2
  · rw [beam_lookup_name_unknown _ v hv]
    decide

/-- C29 at a sample input: 99 is not a comparison function, and its name looked
up again is `BEAM_ENUM_UNKNOWN`. -/
theorem unknown_round_trip_witness :
    beam_lookup_enum beam_ff_cmp.inverse (beam_lookup_name beam_ff_cmp.forward 99) =
      BEAM_ENUM_UNKNOWN :=
  (unknown_round_trip.1 beam_ff_cmp (List.mem_cons_self _ _)).2 99 (by decide)

/-! ## Claim C30: quantization matrices on the write path -/

/-! ### Quantization matrices on the write path -/

end Beamcoder
